import Mathlib

/-!
# libbde: FVE metadata reader and key retrieval (libbde/libbde_metadata.c)

A shallow embedding of `libbde_metadata_read`,
`libbde_metadata_get_volume_master_key` and
`libbde_metadata_get_full_volume_encryption_key`, followed by theorems about
them.

Conventions of the embedding.

* A byte is a `Fin 256`; buffers are lists of bytes, read with a default of 0
  so that every decoder is total.
* Unsigned C integers are natural numbers; the only arithmetic in the file that
  can leave its type (`metadata_size -= read_count` on a `uint32_t`) is written
  with an explicit `% 2 ^ 32`.  64-bit fields that the code only assigns and
  compares for equality (`off64_t`, `size64_t`) are held as their 64-bit
  pattern.
* The C functions update `metadata`, `io_handle` and their output buffers in
  place; the embedding returns the state reached together with the return
  code, on the error paths as well.
* Functions and constants that `libbde_metadata.c` takes from files that are
  not among the sources are fields of `Collaborators`.
* In `libbde_metadata_read` and the key retrieval functions, memory and context
  management (`memory_allocate`, `memory_free`, `*_initialize`, `*_free`,
  `libbde_array_append_entry`) and `memory_set` / `memory_copy` on valid buffers
  are taken to succeed; the `HAVE_DEBUG_OUTPUT` blocks are left out.  The
  failures that `libbde_metadata_initialize` handles are arguments of its
  embedding.
* The entry loop of `libbde_metadata_read` takes a number of iterations it may
  run (`fuel`); the result `none` means that this number did not suffice.
* The key retrieval functions read the heap buffer `unencrypted_data` at fixed
  indices; a read at or beyond the allocated size has no defined result and is
  the result `none`.  What the functions do to that buffer (allocation,
  clearing, decryption, release) is recorded in the order of the program.
-/

namespace Libbde

/-- One octet. -/
abbrev Byte := Fin 256

/-! ## Byte stream primitives -/

/-- The value of `data[ i ]`; 0 past the end of the list. -/
def byte_at (data : List Byte) (i : Nat) : Nat :=
  (data.getD i 0).val

/-- Value stored by `byte_stream_copy_to_uint16_little_endian( &data[ i ], v )`. -/
def byte_stream_copy_to_uint16_little_endian (data : List Byte) (i : Nat) : Nat :=
  byte_at data i + 256 * byte_at data (i + 1)

/-- Value stored by `byte_stream_copy_to_uint32_little_endian( &data[ i ], v )`. -/
def byte_stream_copy_to_uint32_little_endian (data : List Byte) (i : Nat) : Nat :=
  byte_at data i + 256 * byte_at data (i + 1) + 65536 * byte_at data (i + 2)
    + 16777216 * byte_at data (i + 3)

/-- Value stored by `byte_stream_copy_to_uint64_little_endian( &data[ i ], v )`. -/
def byte_stream_copy_to_uint64_little_endian (data : List Byte) (i : Nat) : Nat :=
  byte_stream_copy_to_uint32_little_endian data i
    + 4294967296 * byte_stream_copy_to_uint32_little_endian data (i + 4)

/-- The bytes `data[ i ] .. data[ i + n - 1 ]`. -/
def bytes_at (data : List Byte) (i n : Nat) : List Byte :=
  (data.drop i).take n

/-- Effect of `memory_copy( destination, source, n )` on the destination buffer:
its first `n` bytes are replaced by `source`, the rest is kept. -/
def memory_copy (destination source : List Byte) (n : Nat) : List Byte :=
  source.take n ++ destination.drop n

/-! ## Data model -/

/-- The fields of `libbde_aes_ccm_encrypted_key_t` used by `libbde_metadata.c`. -/
structure libbde_aes_ccm_encrypted_key where
  nonce : List Byte
  data : List Byte
  data_size : Nat
deriving DecidableEq, Repr

/-- The field of `libbde_stretch_key_t` used by `libbde_metadata.c`. -/
structure libbde_stretch_key where
  salt : List Byte
deriving DecidableEq, Repr

/-- The fields of `libbde_volume_master_key_t` used by `libbde_metadata.c`;
the two pointers are `none` when `NULL`. -/
structure libbde_volume_master_key where
  type : Nat
  stretch_key : Option libbde_stretch_key
  aes_ccm_encrypted_key : Option libbde_aes_ccm_encrypted_key
deriving DecidableEq, Repr

/-- The fields of `libbde_metadata_entry_t` used by `libbde_metadata.c`. -/
structure libbde_metadata_entry where
  type : Nat
  value_type : Nat
  value_data : List Byte
  value_data_size : Nat
deriving DecidableEq, Repr

/-- The metadata set `libbde_metadata_t`, with the fields that
`libbde_metadata.c` reads or writes. -/
structure libbde_metadata where
  version : Nat
  mft_mirror_cluster_block_number : Nat
  volume_size : Nat
  volume_header_offset : Nat
  volume_header_size : Nat
  volume_identifier : List Byte
  encryption_method : Nat
  creation_time : Nat
  disk_password_volume_master_key : Option libbde_volume_master_key
  external_key_volume_master_key : Option libbde_volume_master_key
  full_volume_encryption_key : Option libbde_aes_ccm_encrypted_key
  entries_array : List libbde_metadata_entry
deriving DecidableEq, Repr

/-- The fields of `libbde_io_handle_t` used by `libbde_metadata.c`. -/
structure libbde_io_handle where
  version : Nat
  first_metadata_offset : Nat
  second_metadata_offset : Nat
  third_metadata_offset : Nat
  password_is_set : Nat
  password_hash : List Byte
  recovery_password_is_set : Nat
  recovery_password_hash : List Byte
deriving DecidableEq, Repr

/-- The backing reader (libbfio, an external library), as seen by
`libbde_metadata_read`. -/
structure libbfio_handle where
  /-- Return value of `libbfio_handle_seek_offset( handle, offset, SEEK_SET )`. -/
  seek_offset : Int → Int
  /-- After a seek to `offset`, `libbfio_handle_read( handle, buffer, size )`:
  its return value and the contents of `buffer` afterwards. -/
  read : Int → Nat → Int × List Byte

/-- What `libbde_metadata.c` takes from files of the library that are not
among the sources: constants of `libbde_definitions.h` whose value the
specification does not give, and the functions it calls. -/
structure Collaborators where
  LIBBDE_VERSION_WINDOWS_VISTA : Nat
  LIBBDE_VALUE_TYPE_OFFSET_AND_SIZE : Nat
  LIBBDE_VMK_TYPE_RECOVERY_KEY_PROTECTED : Nat
  LIBBDE_VMK_TYPE_EXTERNAL_KEY_PROTECTED : Nat
  /-- The call `libbde_metadata_entry_read( entry, fve_metadata, metadata_size )`:
  `none` when it returns -1, otherwise the entry it filled in and the
  count it returns. -/
  libbde_metadata_entry_read : List Byte → Nat → Option (libbde_metadata_entry × Nat)
  /-- The call `libbde_volume_master_key_read( key, entry )`: `none` unless it returns 1. -/
  libbde_volume_master_key_read : libbde_metadata_entry → Option libbde_volume_master_key
  /-- The call `libbde_aes_ccm_encrypted_key_read( key, entry )`: `none` unless it returns 1. -/
  libbde_aes_ccm_encrypted_key_read :
    libbde_metadata_entry → Option libbde_aes_ccm_encrypted_key
  /-- The call `libbde_password_calculate_key( password_hash, salt, key )`: its return
  value and the contents of `key` afterwards. -/
  libbde_password_calculate_key : List Byte → List Byte → Int × List Byte
  /-- The call `libbde_recovery_calculate_key( recovery_password_hash, salt, key )`: its
  return value and the contents of `key` afterwards. -/
  libbde_recovery_calculate_key : List Byte → List Byte → Int × List Byte
  /-- Return value of `libbde_aes_set_encryption_key( context, key, bit_size )`. -/
  libbde_aes_set_encryption_key : List Byte → Nat → Int
  /-- The call `libbde_aes_ccm_crypt( context, LIBBDE_AES_CRYPT_MODE_DECRYPT, nonce,
  nonce_size, input, input_size, output, output_size )` for a context holding
  `key` with `bit_size`: its return value and the contents of `output`
  afterwards. -/
  libbde_aes_ccm_crypt :
    List Byte → Nat → List Byte → Nat → List Byte → Nat → Nat → Int × List Byte

/-! ## On-disk constants -/

/-- Modelled from the spec: `bde_signature` is defined in a file that is not among
the sources; §6 gives its bytes, `2D 46 56 45 2D 46 53 2D` ("-FVE-FS-"). -/
def bde_signature : List Byte :=
  [0x2d, 0x46, 0x56, 0x45, 0x2d, 0x46, 0x53, 0x2d]

/-- Modelled from the spec: `sizeof( bde_metadata_block_header_v1_t )`; the struct
is declared in `bde_metadata.h`, not among the sources; §6: "Metadata block
header v1 = 64 bytes". -/
def sizeof_bde_metadata_block_header_v1_t : Nat := 64

/-- Modelled from the spec: `sizeof( bde_metadata_header_v1_t )`; the struct is
declared in `bde_metadata.h`, not among the sources; §6: "Metadata header (v1) =
48 bytes". -/
def sizeof_bde_metadata_header_v1_t : Nat := 48

/-- Modelled from the spec: entry type of §3, `VOLUME_MASTER_KEY = 0x0002`
(`libbde_definitions.h` is not among the sources). -/
def LIBBDE_ENTRY_TYPE_VOLUME_MASTER_KEY : Nat := 0x0002

/-- Modelled from the spec: entry type of §3, `FULL_VOLUME_ENCRYPTION_KEY = 0x0003`
(`libbde_definitions.h` is not among the sources). -/
def LIBBDE_ENTRY_TYPE_FULL_VOLUME_ENCRYPTION_KEY : Nat := 0x0003

/-- Modelled from the spec: entry type of §3, `DESCRIPTION = 0x0007`
(`libbde_definitions.h` is not among the sources). -/
def LIBBDE_ENTRY_TYPE_DESCRIPTION : Nat := 0x0007

/-- Modelled from the spec: entry type of §3, `VOLUME_HEADER_BLOCK = 0x000f`
(`libbde_definitions.h` is not among the sources). -/
def LIBBDE_ENTRY_TYPE_VOLUME_HEADER_BLOCK : Nat := 0x000f

/-- Modelled from the spec: field offsets of `bde_metadata_block_header_v1_t` and
`bde_metadata_block_header_v2_t` (`bde_metadata.h` is not among the sources).
The 64-byte header holds, in the order in which `libbde_metadata_read` prints
them and with the widths it decodes: signature[8], size[2], version[2],
unknown1[2], unknown2[2], then 16 bytes that are unknown3 in version 1 and
volume_size[8], unknown3[4], number_of_volume_header_sectors[4] in version 2,
first/second/third_metadata_offset[8 each], and a last 8-byte field that is
mft_mirror_cluster_block in version 1 and volume_header_offset in version 2. -/
structure bde_metadata_block_header where
  signature : Nat
  version : Nat
  volume_size : Nat
  first_metadata_offset : Nat
  second_metadata_offset : Nat
  third_metadata_offset : Nat
  mft_mirror_cluster_block : Nat
  volume_header_offset : Nat
deriving DecidableEq, Repr

/-- The field offsets described at `bde_metadata_block_header`. -/
def block_header : bde_metadata_block_header where
  signature := 0
  version := 10
  volume_size := 16
  first_metadata_offset := 32
  second_metadata_offset := 40
  third_metadata_offset := 48
  mft_mirror_cluster_block := 56
  volume_header_offset := 56

/-- Modelled from the spec: field offsets of `bde_metadata_header_v1_t`
(`bde_metadata.h` is not among the sources); §6: "{metadata_size u32, version
u32, header_size u32, metadata_size_copy u32, volume_identifier [16],
next_nonce_counter u32, encryption_method u32, creation_time FILETIME u64}". -/
structure bde_metadata_header where
  metadata_size : Nat
  version : Nat
  metadata_header_size : Nat
  metadata_size_copy : Nat
  volume_identifier : Nat
  next_nonce_counter : Nat
  encryption_method : Nat
  creation_time : Nat
deriving DecidableEq, Repr

/-- The field offsets described at `bde_metadata_header`. -/
def metadata_header : bde_metadata_header where
  metadata_size := 0
  version := 4
  metadata_header_size := 8
  metadata_size_copy := 12
  volume_identifier := 16
  next_nonce_counter := 32
  encryption_method := 36
  creation_time := 40

/-! ## libbde_metadata_read -/

/-- The `switch( metadata_entry->type )` of the entry loop (lines 892-1092):
`none` when a case leaves through `goto on_error`, otherwise the metadata set
after the case.  No case modifies the metadata set before it fails. -/
def libbde_metadata_read_entry_switch (C : Collaborators) (metadata : libbde_metadata)
    (metadata_entry : libbde_metadata_entry) : Option libbde_metadata :=
  if metadata_entry.type = LIBBDE_ENTRY_TYPE_VOLUME_MASTER_KEY then
    match C.libbde_volume_master_key_read metadata_entry with
    | none => none
    | some volume_master_key =>
      if volume_master_key.type = C.LIBBDE_VMK_TYPE_RECOVERY_KEY_PROTECTED then
        if metadata.disk_password_volume_master_key = none then
          some { metadata with disk_password_volume_master_key := some volume_master_key }
        else
          some metadata
      else if volume_master_key.type = C.LIBBDE_VMK_TYPE_EXTERNAL_KEY_PROTECTED then
        if metadata.external_key_volume_master_key = none then
          some { metadata with external_key_volume_master_key := some volume_master_key }
        else
          some metadata
      else
        some metadata
  else if metadata_entry.type = LIBBDE_ENTRY_TYPE_FULL_VOLUME_ENCRYPTION_KEY
      ∨ metadata_entry.type = 0x000b then
    match C.libbde_aes_ccm_encrypted_key_read metadata_entry with
    | none => none
    | some aes_ccm_encrypted_key =>
      if metadata_entry.type = LIBBDE_ENTRY_TYPE_FULL_VOLUME_ENCRYPTION_KEY
          ∧ metadata.full_volume_encryption_key = none then
        some { metadata with full_volume_encryption_key := some aes_ccm_encrypted_key }
      else
        some metadata
  else if metadata_entry.type = LIBBDE_ENTRY_TYPE_DESCRIPTION then
    some metadata
  else if metadata_entry.type = LIBBDE_ENTRY_TYPE_VOLUME_HEADER_BLOCK then
    if metadata_entry.value_type = C.LIBBDE_VALUE_TYPE_OFFSET_AND_SIZE then
      if metadata_entry.value_data_size < 16 then
        none
      else
        let volume_header_offset :=
          byte_stream_copy_to_uint64_little_endian metadata_entry.value_data 0
        let volume_header_size :=
          byte_stream_copy_to_uint64_little_endian metadata_entry.value_data 8
        if volume_header_offset ≠ metadata.volume_header_offset then
          none
        else
          some { metadata with volume_header_size := volume_header_size }
    else
      some metadata
  else
    some metadata

/-- The entry loop `while( metadata_size > sizeof( bde_metadata_header_v1_t ) )`
(lines 857-1109), run for at most `fuel` iterations.  `fve_metadata` is the
block from the current position on, `metadata_size` the `uint32_t` counter.
The result is `none` when the fuel runs out before the loop is left, and
otherwise the return code of `libbde_metadata_read` (1 when the loop ends, -1
when an iteration leaves through `on_error`) with the metadata set reached. -/
def libbde_metadata_read_entries (C : Collaborators) :
    Nat → List Byte → Nat → libbde_metadata → Option (Int × libbde_metadata)
  | 0, _, metadata_size, metadata =>
    if metadata_size > sizeof_bde_metadata_header_v1_t then none else some (1, metadata)
  | fuel + 1, fve_metadata, metadata_size, metadata =>
    if metadata_size > sizeof_bde_metadata_header_v1_t then
      match C.libbde_metadata_entry_read fve_metadata metadata_size with
      | none => some (-1, metadata)
      | some (metadata_entry, read_count) =>
        match libbde_metadata_read_entry_switch C metadata metadata_entry with
        | none => some (-1, metadata)
        | some metadata =>
          libbde_metadata_read_entries C fuel
            (fve_metadata.drop read_count)
            ((metadata_size + 2 ^ 32 - read_count % 2 ^ 32) % 2 ^ 32)
            { metadata with entries_array := metadata.entries_array ++ [metadata_entry] }
    else
      some (1, metadata)

/-- Return code and state left by `libbde_metadata_read`. -/
structure libbde_metadata_read_result where
  result : Int
  metadata : libbde_metadata
  io_handle : libbde_io_handle
deriving DecidableEq, Repr

/-- Lines 387-402 of `libbde_metadata_read`: the version-dependent fields of the
block header are stored in the metadata set. -/
def libbde_metadata_read_block_header (metadata : libbde_metadata)
    (fve_metadata : List Byte) : libbde_metadata :=
  if metadata.version = 1 then
    { metadata with
      mft_mirror_cluster_block_number :=
        byte_stream_copy_to_uint64_little_endian fve_metadata
          block_header.mft_mirror_cluster_block }
  else if metadata.version = 2 then
    { metadata with
      volume_size :=
        byte_stream_copy_to_uint64_little_endian fve_metadata block_header.volume_size
      volume_header_offset :=
        byte_stream_copy_to_uint64_little_endian fve_metadata
          block_header.volume_header_offset }
  else
    metadata

/-- Lines 555-575 of `libbde_metadata_read`: the volume identifier, the encryption
method and the creation time of the metadata header are stored in the metadata
set. -/
def libbde_metadata_read_metadata_header (metadata : libbde_metadata)
    (fve_metadata : List Byte) : libbde_metadata :=
  { metadata with
    volume_identifier :=
      memory_copy metadata.volume_identifier
        (bytes_at fve_metadata metadata_header.volume_identifier 16) 16
    encryption_method :=
      byte_stream_copy_to_uint32_little_endian fve_metadata metadata_header.encryption_method
    creation_time :=
      byte_stream_copy_to_uint64_little_endian fve_metadata metadata_header.creation_time }

/-- Lines 776-786 of `libbde_metadata_read`: on a Windows Vista volume the cached
second and third metadata offsets that are still 0 are taken from the block. -/
def libbde_metadata_read_back_fill (C : Collaborators) (io_handle : libbde_io_handle)
    (second_metadata_offset third_metadata_offset : Nat) : libbde_io_handle :=
  if io_handle.version = C.LIBBDE_VERSION_WINDOWS_VISTA then
    let io_handle :=
      if io_handle.second_metadata_offset = 0 then
        { io_handle with second_metadata_offset := second_metadata_offset }
      else
        io_handle
    if io_handle.third_metadata_offset = 0 then
      { io_handle with third_metadata_offset := third_metadata_offset }
    else
      io_handle
  else
    io_handle

/-- The function `libbde_metadata_read( metadata, io_handle, file_io_handle,
file_offset, error )` with non-NULL `metadata` and `io_handle`, its entry loop
run for at most `fuel` iterations (`none`: the fuel ran out). -/
def libbde_metadata_read (C : Collaborators) (fuel : Nat) (metadata : libbde_metadata)
    (io_handle : libbde_io_handle) (file_io_handle : libbfio_handle) (file_offset : Int) :
    Option libbde_metadata_read_result :=
  if file_io_handle.seek_offset file_offset = -1 then
    some ⟨-1, metadata, io_handle⟩
  else
    let read_size := 4096
    let read_count := (file_io_handle.read file_offset read_size).1
    let fve_metadata_block := (file_io_handle.read file_offset read_size).2
    if read_count ≠ (read_size : Int) then
      some ⟨-1, metadata, io_handle⟩
    else if bytes_at fve_metadata_block block_header.signature 8 ≠ bde_signature then
      some ⟨-1, metadata, io_handle⟩
    else
      let metadata := { metadata with
        version := byte_stream_copy_to_uint16_little_endian fve_metadata_block
          block_header.version }
      if metadata.version ≠ 1 ∧ metadata.version ≠ 2 then
        some ⟨-1, metadata, io_handle⟩
      else
        let metadata := libbde_metadata_read_block_header metadata fve_metadata_block
        let first_metadata_offset :=
          byte_stream_copy_to_uint64_little_endian fve_metadata_block
            block_header.first_metadata_offset
        let second_metadata_offset :=
          byte_stream_copy_to_uint64_little_endian fve_metadata_block
            block_header.second_metadata_offset
        let third_metadata_offset :=
          byte_stream_copy_to_uint64_little_endian fve_metadata_block
            block_header.third_metadata_offset
        let fve_metadata := fve_metadata_block.drop sizeof_bde_metadata_block_header_v1_t
        let read_size := read_size - sizeof_bde_metadata_block_header_v1_t
        let metadata_size :=
          byte_stream_copy_to_uint32_little_endian fve_metadata metadata_header.metadata_size
        let version :=
          byte_stream_copy_to_uint32_little_endian fve_metadata metadata_header.version
        let metadata_header_size :=
          byte_stream_copy_to_uint32_little_endian fve_metadata
            metadata_header.metadata_header_size
        let metadata_size_copy :=
          byte_stream_copy_to_uint32_little_endian fve_metadata
            metadata_header.metadata_size_copy
        let metadata := libbde_metadata_read_metadata_header metadata fve_metadata
        if version ≠ 1 then
          some ⟨-1, metadata, io_handle⟩
        else
          let io_handle :=
            libbde_metadata_read_back_fill C io_handle second_metadata_offset
              third_metadata_offset
          if io_handle.first_metadata_offset ≠ first_metadata_offset then
            some ⟨-1, metadata, io_handle⟩
          else if io_handle.second_metadata_offset ≠ second_metadata_offset then
            some ⟨-1, metadata, io_handle⟩
          else if io_handle.third_metadata_offset ≠ third_metadata_offset then
            some ⟨-1, metadata, io_handle⟩
          else if metadata_header_size ≠ sizeof_bde_metadata_header_v1_t then
            some ⟨-1, metadata, io_handle⟩
          else if metadata_size ≠ metadata_size_copy then
            some ⟨-1, metadata, io_handle⟩
          else if metadata_size < sizeof_bde_metadata_header_v1_t
              ∨ metadata_size > read_size then
            some ⟨-1, metadata, io_handle⟩
          else
            let fve_metadata := fve_metadata.drop sizeof_bde_metadata_header_v1_t
            let metadata_size := metadata_size - sizeof_bde_metadata_header_v1_t
            match libbde_metadata_read_entries C fuel fve_metadata metadata_size metadata with
            | none => none
            | some (result, metadata) => some ⟨result, metadata, io_handle⟩

/-! ## Key retrieval -/

/-- What happens to the heap buffer `unencrypted_data`, in program order. -/
inductive scratch_event where
  /-- The call `memory_allocate( size )`. -/
  | allocate (size : Nat)
  /-- The call `memory_set( unencrypted_data, 0, size )`. -/
  | clear (size : Nat)
  /-- The output of `libbde_aes_ccm_crypt` is stored in the buffer. -/
  | decrypt (data : List Byte)
  /-- The call `memory_free( unencrypted_data )`. -/
  | free
deriving DecidableEq, Repr

/-- The output buffer and the local variables of
`libbde_metadata_get_volume_master_key`. -/
structure volume_master_key_state where
  /-- The caller's buffer `volume_master_key[ 32 ]`. -/
  volume_master_key : List Byte
  /-- The local array `aes_ccm_key[ 32 ]`. -/
  aes_ccm_key : List Byte
  /-- Whether the pointer `unencrypted_data` is not `NULL`. -/
  unencrypted_data : Bool
  unencrypted_data_size : Nat
  result : Int
  /-- The events on `unencrypted_data` so far. -/
  scratch : List scratch_event
deriving DecidableEq, Repr

/-- How one of the two credential blocks of
`libbde_metadata_get_volume_master_key` is left. -/
inductive credential_exit where
  /-- The block ran to its end. -/
  | completed (state : volume_master_key_state)
  /-- A `return( -1 )` inside the block. -/
  | return_error (state : volume_master_key_state)
  /-- A `goto on_error`. -/
  | on_error (state : volume_master_key_state)
  /-- Undefined behaviour: a read past the end of `unencrypted_data`, or the
  label `on_error` reached with the pointer to a buffer already released. -/
  | undefined
deriving DecidableEq, Repr

/-- A `goto on_error` of `libbde_metadata_get_volume_master_key` that comes before
the allocation of its credential block (lines 1251, 1266, 1288 and 1487, 1502,
1524).  The pointer `unencrypted_data` is then `NULL`, or it still holds the
address of the buffer that the password block has released: `memory_free` at
lines 1436-1437 does not reset it.  In the second case the label `on_error`
(lines 1677-1686) writes to the released buffer and releases it again, which
has no defined result. -/
def libbde_metadata_get_volume_master_key_goto_on_error (state : volume_master_key_state) :
    credential_exit :=
  if state.unencrypted_data then .undefined else .on_error state

/-- The body shared by the two credential blocks of
`libbde_metadata_get_volume_master_key` (lines 1206-1437 for the password
with `external_key_volume_master_key`, lines 1442-1673 for the recovery
password with `disk_password_volume_master_key`): the two blocks differ only
in the protector, the key derivation function and the hash they use, which
are the first three arguments after `C`.  At the entry of a block the pointer
`unencrypted_data` is `NULL` or the address of the buffer that the block before
has released. -/
def libbde_metadata_get_volume_master_key_with (C : Collaborators)
    (protector : Option libbde_volume_master_key)
    (calculate_key : List Byte → List Byte → Int × List Byte)
    (hash : List Byte) (state : volume_master_key_state) : credential_exit :=
  match protector with
  | none => .return_error state
  | some protector =>
    match protector.stretch_key with
    | none => .return_error state
    | some stretch_key =>
      match protector.aes_ccm_encrypted_key with
      | none => .return_error state
      | some aes_ccm_encrypted_key =>
        let state := { state with aes_ccm_key := List.replicate 32 0 }
        let derived := calculate_key hash stretch_key.salt
        let state := { state with aes_ccm_key := derived.2 }
        if derived.1 ≠ 1 then
          libbde_metadata_get_volume_master_key_goto_on_error state
        else if aes_ccm_encrypted_key.data_size < 28 then
          libbde_metadata_get_volume_master_key_goto_on_error state
        else
          let state := { state with
            unencrypted_data_size := aes_ccm_encrypted_key.data_size
            unencrypted_data := true
            scratch := state.scratch ++
              [scratch_event.allocate aes_ccm_encrypted_key.data_size,
               scratch_event.clear aes_ccm_encrypted_key.data_size] }
          if C.libbde_aes_set_encryption_key state.aes_ccm_key 256 ≠ 1 then
            .on_error state
          else
            let decrypted :=
              C.libbde_aes_ccm_crypt state.aes_ccm_key 256 aes_ccm_encrypted_key.nonce 12
                aes_ccm_encrypted_key.data aes_ccm_encrypted_key.data_size
                state.unencrypted_data_size
            if decrypted.1 ≠ 1 then
              .on_error state
            else
              let unencrypted_data := decrypted.2
              let state := { state with
                scratch := state.scratch ++ [scratch_event.decrypt unencrypted_data] }
              if state.unencrypted_data_size < 22 then
                .undefined
              else
                let data_size := byte_stream_copy_to_uint16_little_endian unencrypted_data 16
                let version := byte_stream_copy_to_uint16_little_endian unencrypted_data 20
                if version = 1 ∧ data_size = 0x2c then
                  if state.unencrypted_data_size < 28 + 32 then
                    .undefined
                  else
                    .completed { state with
                      volume_master_key :=
                        memory_copy state.volume_master_key (bytes_at unencrypted_data 28 32) 32
                      result := 1
                      scratch := state.scratch ++
                        [scratch_event.clear state.unencrypted_data_size, scratch_event.free] }
                else
                  .completed { state with
                    scratch := state.scratch ++
                      [scratch_event.clear state.unencrypted_data_size, scratch_event.free] }

/-- Return code and buffers left by `libbde_metadata_get_volume_master_key`. -/
structure libbde_metadata_get_volume_master_key_result where
  result : Int
  /-- The caller's buffer `volume_master_key[ 32 ]` at the return. -/
  volume_master_key : List Byte
  /-- The local array `aes_ccm_key[ 32 ]` at the return. -/
  aes_ccm_key : List Byte
  /-- The events on the heap buffer `unencrypted_data` during the call. -/
  scratch : List scratch_event
deriving DecidableEq, Repr

/-- The label `on_error` of `libbde_metadata_get_volume_master_key` (lines
1677-1693), reached with the pointer `unencrypted_data` either `NULL` or the
address of the buffer that the current block has allocated.  The jumps that can
reach the label with the address of a released buffer go through
`libbde_metadata_get_volume_master_key_goto_on_error`. -/
def libbde_metadata_get_volume_master_key_on_error (state : volume_master_key_state) :
    libbde_metadata_get_volume_master_key_result :=
  { result := -1
    volume_master_key := state.volume_master_key
    aes_ccm_key := state.aes_ccm_key
    scratch :=
      if state.unencrypted_data then
        state.scratch ++ [scratch_event.clear state.unencrypted_data_size, scratch_event.free]
      else
        state.scratch }

/-- A plain `return( code )` of `libbde_metadata_get_volume_master_key`. -/
def libbde_metadata_get_volume_master_key_return (code : Int)
    (state : volume_master_key_state) : libbde_metadata_get_volume_master_key_result :=
  { result := code
    volume_master_key := state.volume_master_key
    aes_ccm_key := state.aes_ccm_key
    scratch := state.scratch }

/-- The function `libbde_metadata_get_volume_master_key( metadata, io_handle,
volume_master_key, error )` with non-NULL arguments.  `volume_master_key` is
the caller's buffer before the call and `stack` what the uninitialised local
`aes_ccm_key` holds then.  The result is `none` when the function reads past
the end of `unencrypted_data`, or reaches the label `on_error` with the pointer
to a buffer it has already released. -/
def libbde_metadata_get_volume_master_key (C : Collaborators) (metadata : libbde_metadata)
    (io_handle : libbde_io_handle) (volume_master_key : List Byte) (stack : List Byte) :
    Option libbde_metadata_get_volume_master_key_result :=
  let state : volume_master_key_state :=
    { volume_master_key := volume_master_key
      aes_ccm_key := stack
      unencrypted_data := false
      unencrypted_data_size := 0
      result := 0
      scratch := [] }
  let first : credential_exit :=
    if io_handle.password_is_set ≠ 0 then
      libbde_metadata_get_volume_master_key_with C metadata.external_key_volume_master_key
        C.libbde_password_calculate_key io_handle.password_hash state
    else
      .completed state
  match first with
  | .undefined => none
  | .return_error state => some (libbde_metadata_get_volume_master_key_return (-1) state)
  | .on_error state => some (libbde_metadata_get_volume_master_key_on_error state)
  | .completed state =>
    let second : credential_exit :=
      if state.result = 0 ∧ io_handle.recovery_password_is_set ≠ 0 then
        libbde_metadata_get_volume_master_key_with C metadata.disk_password_volume_master_key
          C.libbde_recovery_calculate_key io_handle.recovery_password_hash state
      else
        .completed state
    match second with
    | .undefined => none
    | .return_error state => some (libbde_metadata_get_volume_master_key_return (-1) state)
    | .on_error state => some (libbde_metadata_get_volume_master_key_on_error state)
    | .completed state =>
      some (libbde_metadata_get_volume_master_key_return state.result state)

/-- Return code and buffers left by
`libbde_metadata_get_full_volume_encryption_key`. -/
structure libbde_metadata_get_full_volume_encryption_key_result where
  result : Int
  /-- The caller's buffer `full_volume_encryption_key[ 32 ]` at the return. -/
  full_volume_encryption_key : List Byte
  /-- The caller's buffer `tweak_key[ 32 ]` at the return. -/
  tweak_key : List Byte
  /-- The events on the heap buffer `unencrypted_data` during the call. -/
  scratch : List scratch_event
deriving DecidableEq, Repr

/-- The function `libbde_metadata_get_full_volume_encryption_key( metadata,
volume_master_key, full_volume_encryption_key, tweak_key, error )` with non-NULL
arguments; the last two arguments are the caller's buffers before the call.
The result is `none` when the function reads past the end of
`unencrypted_data`. -/
def libbde_metadata_get_full_volume_encryption_key (C : Collaborators)
    (metadata : libbde_metadata) (volume_master_key : List Byte)
    (full_volume_encryption_key : List Byte) (tweak_key : List Byte) :
    Option libbde_metadata_get_full_volume_encryption_key_result :=
  match metadata.full_volume_encryption_key with
  | none => some ⟨-1, full_volume_encryption_key, tweak_key, []⟩
  | some aes_ccm_encrypted_key =>
    if aes_ccm_encrypted_key.data_size < 28 then
      some ⟨-1, full_volume_encryption_key, tweak_key, []⟩
    else
      let unencrypted_data_size := aes_ccm_encrypted_key.data_size
      let scratch : List scratch_event :=
        [scratch_event.allocate unencrypted_data_size, scratch_event.clear unencrypted_data_size]
      let on_error : List scratch_event :=
        [scratch_event.clear unencrypted_data_size, scratch_event.free]
      if C.libbde_aes_set_encryption_key volume_master_key 256 ≠ 1 then
        some ⟨-1, full_volume_encryption_key, tweak_key, scratch ++ on_error⟩
      else
        let decrypted :=
          C.libbde_aes_ccm_crypt volume_master_key 256 aes_ccm_encrypted_key.nonce 12
            aes_ccm_encrypted_key.data aes_ccm_encrypted_key.data_size unencrypted_data_size
        if decrypted.1 ≠ 1 then
          some ⟨-1, full_volume_encryption_key, tweak_key, scratch ++ on_error⟩
        else
          let unencrypted_data := decrypted.2
          let scratch := scratch ++ [scratch_event.decrypt unencrypted_data]
          if unencrypted_data_size < 22 then
            none
          else
            let data_size := byte_stream_copy_to_uint16_little_endian unencrypted_data 16
            let version := byte_stream_copy_to_uint16_little_endian unencrypted_data 20
            if version = 1 then
              if data_size = 0x1c then
                if unencrypted_data_size < 28 + 16 then
                  none
                else
                  some ⟨1,
                    memory_copy full_volume_encryption_key (bytes_at unencrypted_data 28 16) 16,
                    tweak_key,
                    scratch ++ [scratch_event.clear unencrypted_data_size, scratch_event.free]⟩
              else if data_size = 0x2c then
                if unencrypted_data_size < 28 + 32 then
                  none
                else
                  some ⟨1,
                    memory_copy full_volume_encryption_key (bytes_at unencrypted_data 28 32) 32,
                    tweak_key,
                    scratch ++ [scratch_event.clear unencrypted_data_size, scratch_event.free]⟩
              else if data_size = 0x4c then
                if unencrypted_data_size < 60 + 32 then
                  none
                else
                  some ⟨1,
                    memory_copy full_volume_encryption_key (bytes_at unencrypted_data 28 32) 32,
                    memory_copy tweak_key (bytes_at unencrypted_data 60 32) 32,
                    scratch ++ [scratch_event.clear unencrypted_data_size, scratch_event.free]⟩
              else
                some ⟨0, full_volume_encryption_key, tweak_key,
                  scratch ++ [scratch_event.clear unencrypted_data_size, scratch_event.free]⟩
            else
              some ⟨0, full_volume_encryption_key, tweak_key,
                scratch ++ [scratch_event.clear unencrypted_data_size, scratch_event.free]⟩

/-! ## libbde_metadata_initialize -/

/-- The structure `libbde_metadata_t` after `memory_set( *metadata, 0, sizeof(
libbde_metadata_t ) )` and `libbde_array_initialize( &entries_array, 0 )`. -/
def libbde_metadata_cleared : libbde_metadata where
  version := 0
  mft_mirror_cluster_block_number := 0
  volume_size := 0
  volume_header_offset := 0
  volume_header_size := 0
  volume_identifier := List.replicate 16 0
  encryption_method := 0
  creation_time := 0
  disk_password_volume_master_key := none
  external_key_volume_master_key := none
  full_volume_encryption_key := none
  entries_array := []

/-- The function `libbde_metadata_initialize( metadata, error )` (lines 52-130).
The slot is `none` for `metadata == NULL`, `some none` for `*metadata == NULL`
and `some (some m)` when it already holds a metadata set; `allocated` tells
whether `memory_allocate_structure` returns a structure, `cleared` whether
`memory_set` returns the structure and `array_initialized` whether
`libbde_array_initialize` returns 1.  The result is the return code and the slot
afterwards. -/
def libbde_metadata_initialize (allocated cleared array_initialized : Bool)
    (metadata : Option (Option libbde_metadata)) : Int × Option (Option libbde_metadata) :=
  match metadata with
  | none => (-1, none)
  | some (some m) => (1, some (some m))
  | some none =>
    if ¬ allocated then
      (-1, some none)
    else if ¬ cleared then
      (-1, some none)
    else if ¬ array_initialized then
      (-1, some none)
    else
      (1, some (some libbde_metadata_cleared))

/-! ## Sample inputs

Concrete collaborators and volumes on which the functions are evaluated. -/

/-- Modelled from the spec: `libbde_metadata_entry_read` (`libbde_metadata_entry.c`
is not among the sources).  §4.3: "Read `entry_size` LE; require `8 ≤ entry_size ≤
remaining`", then `entry_type`, `value_type`, `version`; §3: the payload is
`payload[entry_size-8]`.  The count returned is `entry_size`. -/
def spec_metadata_entry_read (fve_metadata : List Byte) (metadata_size : Nat) :
    Option (libbde_metadata_entry × Nat) :=
  let entry_size := byte_stream_copy_to_uint16_little_endian fve_metadata 0
  if entry_size < 8 ∨ metadata_size < entry_size then
    none
  else
    some ({ type := byte_stream_copy_to_uint16_little_endian fve_metadata 2
            value_type := byte_stream_copy_to_uint16_little_endian fve_metadata 4
            value_data := bytes_at fve_metadata 8 (entry_size - 8)
            value_data_size := entry_size - 8 }, entry_size)

/-- Modelled from the spec: `libbde_aes_ccm_encrypted_key_read`
(`libbde_aes_ccm_encrypted_key.c` is not among the sources).  §4.3:
"`AES_CCM_ENCRYPTED_KEY`: `{nonce[12], mac[16], ciphertext[remaining]}`"; the data
of the envelope is what follows the nonce. -/
def spec_aes_ccm_encrypted_key_read (metadata_entry : libbde_metadata_entry) :
    Option libbde_aes_ccm_encrypted_key :=
  if metadata_entry.value_data_size < 12 then
    none
  else
    some { nonce := bytes_at metadata_entry.value_data 0 12
           data := metadata_entry.value_data.drop 12
           data_size := metadata_entry.value_data_size - 12 }

/-- A stand-in for `libbde_volume_master_key_read` on sample volumes: the
protection type is the 16-bit value at byte 26 of the value data, the salt of
the stretch key the 16 bytes at 28 and the envelope what follows. -/
def sample_volume_master_key_read (metadata_entry : libbde_metadata_entry) :
    Option libbde_volume_master_key :=
  if metadata_entry.value_data_size < 28 then
    none
  else
    some { type := byte_stream_copy_to_uint16_little_endian metadata_entry.value_data 26
           stretch_key := some { salt := bytes_at metadata_entry.value_data 28 16 }
           aes_ccm_encrypted_key :=
             some { nonce := bytes_at metadata_entry.value_data 44 12
                    data := metadata_entry.value_data.drop 56
                    data_size := metadata_entry.value_data_size - 56 } }

/-- Sample collaborators: the entry and envelope readers modelled from the
spec, stand-ins for the key derivation (the derived key is the first 16 bytes
of the hash followed by the salt) and for the cipher (the output is the
input), and the constants RECOVERY_KEY = 0x0800 and PASSWORD = 0x2000 of §3 for
the two VMK types. -/
def sample_collaborators : Collaborators where
  LIBBDE_VERSION_WINDOWS_VISTA := 6
  LIBBDE_VALUE_TYPE_OFFSET_AND_SIZE := 0x000f
  LIBBDE_VMK_TYPE_RECOVERY_KEY_PROTECTED := 0x0800
  LIBBDE_VMK_TYPE_EXTERNAL_KEY_PROTECTED := 0x2000
  libbde_metadata_entry_read := spec_metadata_entry_read
  libbde_volume_master_key_read := sample_volume_master_key_read
  libbde_aes_ccm_encrypted_key_read := spec_aes_ccm_encrypted_key_read
  libbde_password_calculate_key := fun hash salt => (1, hash.take 16 ++ salt)
  libbde_recovery_calculate_key := fun hash salt => (1, hash.take 16 ++ salt)
  libbde_aes_set_encryption_key := fun _ _ => 1
  libbde_aes_ccm_crypt := fun _ _ _ _ input _ _ => (1, input)

/-- A key block of `16 + 12 + key.length` bytes: 16 bytes of MAC, the inner data
size and version at bytes 16 and 20, and the key material from byte 28 on. -/
def sample_key_block (data_size version : Byte) (key : List Byte) : List Byte :=
  List.replicate 16 0xaa ++ [data_size, 0, 0, 0, version, 0, 0, 0, 0, 0, 0, 0] ++ key

/-- An envelope around `block` for the sample cipher. -/
def sample_envelope (block : List Byte) (data_size : Nat) : libbde_aes_ccm_encrypted_key where
  nonce := List.replicate 12 1
  data := block
  data_size := data_size

/-- A protector of the given type with a stretch key and the envelope. -/
def sample_protector (type : Nat) (envelope : libbde_aes_ccm_encrypted_key) :
    libbde_volume_master_key where
  type := type
  stretch_key := some { salt := List.replicate 16 7 }
  aes_ccm_encrypted_key := some envelope

/-- An IO handle of a Windows 7 volume with the given credential flags. -/
def sample_io_handle (password_is_set recovery_password_is_set : Nat) : libbde_io_handle where
  version := 7
  first_metadata_offset := 0x2100000
  second_metadata_offset := 0x2200000
  third_metadata_offset := 0x2300000
  password_is_set := password_is_set
  password_hash := List.replicate 32 3
  recovery_password_is_set := recovery_password_is_set
  recovery_password_hash := List.replicate 32 4

/-- The 32 key bytes 0, 1, ..., 31. -/
def sample_key_32 : List Byte :=
  [0, 1, 2, 3, 4, 5, 6, 7, 8, 9, 10, 11, 12, 13, 14, 15,
   16, 17, 18, 19, 20, 21, 22, 23, 24, 25, 26, 27, 28, 29, 30, 31]

/-- The 32 key bytes 100, 101, ..., 131. -/
def sample_tweak_32 : List Byte :=
  [100, 101, 102, 103, 104, 105, 106, 107, 108, 109, 110, 111, 112, 113, 114, 115,
   116, 117, 118, 119, 120, 121, 122, 123, 124, 125, 126, 127, 128, 129, 130, 131]

/-- A metadata set whose only projection is a password protector around a
well-formed 60-byte key block holding `sample_key_32`. -/
def sample_metadata_password : libbde_metadata :=
  { libbde_metadata_cleared with
    external_key_volume_master_key :=
      some (sample_protector 0x2000 (sample_envelope (sample_key_block 0x2c 1 sample_key_32) 60)) }

/-- A metadata set whose FVEK envelope wraps a 92-byte key block with inner data
size 0x4c: `sample_key_32` followed by `sample_tweak_32`. -/
def sample_metadata_xts : libbde_metadata :=
  { libbde_metadata_cleared with
    full_volume_encryption_key :=
      some (sample_envelope (sample_key_block 0x4c 1 (sample_key_32 ++ sample_tweak_32)) 92) }

/-- The metadata set as `libbde_metadata_read` leaves it after decoding the block
header and the metadata header of `fve_metadata_block` (lines 371-575), i.e. the
metadata set with which the checks of lines 577-853 and the entry loop are
reached. -/
def libbde_metadata_read_headers (metadata : libbde_metadata)
    (fve_metadata_block : List Byte) : libbde_metadata :=
  libbde_metadata_read_metadata_header
    (libbde_metadata_read_block_header
      { metadata with
        version := byte_stream_copy_to_uint16_little_endian fve_metadata_block
          block_header.version }
      fve_metadata_block)
    (fve_metadata_block.drop sizeof_bde_metadata_block_header_v1_t)

/-- The checks of lines 787-853 of `libbde_metadata_read` all pass: the three
offsets of the block equal the cached ones, the metadata header size is 48,
the metadata size equals its copy and lies between 48 and 4096 - 64. -/
def libbde_metadata_read_checks (io_handle : libbde_io_handle)
    (fve_metadata_block : List Byte) : Prop :=
  io_handle.first_metadata_offset
      = byte_stream_copy_to_uint64_little_endian fve_metadata_block 32
  ∧ io_handle.second_metadata_offset
      = byte_stream_copy_to_uint64_little_endian fve_metadata_block 40
  ∧ io_handle.third_metadata_offset
      = byte_stream_copy_to_uint64_little_endian fve_metadata_block 48
  ∧ byte_stream_copy_to_uint32_little_endian (fve_metadata_block.drop 64) 8 = 48
  ∧ byte_stream_copy_to_uint32_little_endian (fve_metadata_block.drop 64) 0
      = byte_stream_copy_to_uint32_little_endian (fve_metadata_block.drop 64) 12
  ∧ 48 ≤ byte_stream_copy_to_uint32_little_endian (fve_metadata_block.drop 64) 0
  ∧ byte_stream_copy_to_uint32_little_endian (fve_metadata_block.drop 64) 0 ≤ 4032

instance (io_handle : libbde_io_handle) (fve_metadata_block : List Byte) :
    Decidable (libbde_metadata_read_checks io_handle fve_metadata_block) := by
  unfold libbde_metadata_read_checks
  infer_instance

/-- The `width` low-order bytes of `value`, least significant first. -/
def sample_little_endian : Nat → Nat → List Byte
  | 0, _ => []
  | width + 1, value =>
    ⟨value % 256, Nat.mod_lt value (by decide)⟩ :: sample_little_endian width (value / 256)

/-- The fields of a sample FVE metadata block. -/
structure sample_block_fields where
  signature : List Byte
  version : Nat
  volume_size : Nat
  first_metadata_offset : Nat
  second_metadata_offset : Nat
  third_metadata_offset : Nat
  /-- The last field of the block header: `mft_mirror_cluster_block` or
  `volume_header_offset`. -/
  last : Nat
  metadata_size : Nat
  metadata_version : Nat
  metadata_header_size : Nat
  metadata_size_copy : Nat
  encryption_method : Nat
  creation_time : Nat
  /-- The bytes that follow the metadata header. -/
  entries : List Byte

/-- The 4096-byte block with the given fields: the 64-byte block header, the
48-byte metadata header (volume identifier 16 times 0x11, nonce counter 5), the
entries, and zeros up to 4096 bytes. -/
def sample_block (s : sample_block_fields) : List Byte :=
  s.signature ++ sample_little_endian 2 0 ++ sample_little_endian 2 s.version
    ++ sample_little_endian 2 0 ++ sample_little_endian 2 0
    ++ sample_little_endian 8 s.volume_size ++ sample_little_endian 8 0
    ++ sample_little_endian 8 s.first_metadata_offset
    ++ sample_little_endian 8 s.second_metadata_offset
    ++ sample_little_endian 8 s.third_metadata_offset
    ++ sample_little_endian 8 s.last
    ++ sample_little_endian 4 s.metadata_size ++ sample_little_endian 4 s.metadata_version
    ++ sample_little_endian 4 s.metadata_header_size
    ++ sample_little_endian 4 s.metadata_size_copy
    ++ List.replicate 16 0x11 ++ sample_little_endian 4 5
    ++ sample_little_endian 4 s.encryption_method ++ sample_little_endian 8 s.creation_time
    ++ s.entries ++ List.replicate (4096 - 112 - s.entries.length) 0

/-- A well-formed version 2 block without entries, for the offsets cached in
`sample_io_handle`. -/
def sample_fields : sample_block_fields where
  signature := bde_signature
  version := 2
  volume_size := 0x40000000
  first_metadata_offset := 0x2100000
  second_metadata_offset := 0x2200000
  third_metadata_offset := 0x2300000
  last := 0x10000
  metadata_size := 48
  metadata_version := 1
  metadata_header_size := 48
  metadata_size_copy := 48
  encryption_method := 0x8001
  creation_time := 0x01cc0000deadbeef
  entries := []

/-- A backing reader whose every seek succeeds and whose every read delivers
the number of bytes asked for, the buffer then holding `block`. -/
def sample_file (block : List Byte) : libbfio_handle where
  seek_offset := fun offset => offset
  read := fun _ size => (size, block)

/-- The block of `sample_fields` with the last byte of the signature changed
("-FVE-FS." for "-FVE-FS-"). -/
def sample_fields_bad_signature : sample_block_fields :=
  { sample_fields with signature := [0x2d, 0x46, 0x56, 0x45, 0x2d, 0x46, 0x53, 0x2e] }

/-- A well-formed version 1 block without entries whose last header field (the
MFT mirror cluster block) is 0x123456789. -/
def sample_fields_vista : sample_block_fields :=
  { sample_fields with version := 1, last := 0x123456789 }

/-- An IO handle of a Windows Vista volume of which only the first metadata
offset is cached. -/
def sample_io_handle_vista : libbde_io_handle where
  version := 6
  first_metadata_offset := 0x2100000
  second_metadata_offset := 0
  third_metadata_offset := 0
  password_is_set := 0
  password_hash := List.replicate 32 0
  recovery_password_is_set := 0
  recovery_password_hash := List.replicate 32 0

/-- A version 2 block with `metadata_size` 4032, the largest value accepted: one
entry of 3936 bytes (entry type 0) follows the metadata header and 48 bytes of
the payload remain after it. -/
def sample_fields_largest : sample_block_fields :=
  { sample_fields with
    metadata_size := 4032
    metadata_size_copy := 4032
    entries := sample_little_endian 2 3936 ++ List.replicate 3934 0 }

/-- The metadata set read from the block of `sample_fields_vista`. -/
def sample_metadata_vista : libbde_metadata where
  version := 1
  mft_mirror_cluster_block_number := 0x123456789
  volume_size := 0
  volume_header_offset := 0
  volume_header_size := 0
  volume_identifier := List.replicate 16 0x11
  encryption_method := 0x8001
  creation_time := 0x01cc0000deadbeef
  disk_password_volume_master_key := none
  external_key_volume_master_key := none
  full_volume_encryption_key := none
  entries_array := []

/-- The block of `sample_fields` with the encryption method 0x1234, which is none
of the codes 0x8000 to 0x8005. -/
def sample_fields_unknown_method : sample_block_fields :=
  { sample_fields with encryption_method := 0x1234 }

/-- The metadata set read from the block of `sample_fields_unknown_method`. -/
def sample_metadata_unknown_method : libbde_metadata where
  version := 2
  mft_mirror_cluster_block_number := 0
  volume_size := 0x40000000
  volume_header_offset := 0x10000
  volume_header_size := 0
  volume_identifier := List.replicate 16 0x11
  encryption_method := 0x1234
  creation_time := 0x01cc0000deadbeef
  disk_password_volume_master_key := none
  external_key_volume_master_key := none
  full_volume_encryption_key := none
  entries_array := []

/-- The block of `sample_fields_vista` with a `metadata_size_copy` of 49 that
differs from its `metadata_size` of 48. -/
def sample_fields_size_mismatch : sample_block_fields :=
  { sample_fields_vista with metadata_size_copy := 49 }

/-- A version 2 block with `metadata_size` 92: the 44 bytes after the metadata
header are one entry of type FULL_VOLUME_ENCRYPTION_KEY (0x0003) with entry size
44, value type 5 and version 1, whose value data is a nonce of 12 bytes
followed by 24 bytes. -/
def sample_fields_short_payload : sample_block_fields :=
  { sample_fields with
    metadata_size := 92
    metadata_size_copy := 92
    entries := sample_little_endian 2 44 ++ sample_little_endian 2 3
      ++ sample_little_endian 2 5 ++ sample_little_endian 2 1
      ++ List.replicate 12 1 ++ List.replicate 24 0xee }

/-- Modelled from the spec: the values of `LIBBDE_VMK_TYPE_RECOVERY_KEY_PROTECTED`
and `LIBBDE_VMK_TYPE_EXTERNAL_KEY_PROTECTED`, declared in `libbde_definitions.h`,
which is not among the sources.  §3 describes the two projections as
"`disk_password_vmk` (recovery-protected), `external_key_vmk` (password/
external-key protected)" and gives the protection types `RECOVERY_KEY=0x0800`
and `PASSWORD=0x2000`; the collaborators agree with the spec when the constant
compared for the first projection is 0x0800 and the one compared for the
second is 0x2000. -/
def vmk_types_of_spec (C : Collaborators) : Prop :=
  C.LIBBDE_VMK_TYPE_RECOVERY_KEY_PROTECTED = 0x0800
  ∧ C.LIBBDE_VMK_TYPE_EXTERNAL_KEY_PROTECTED = 0x2000

instance (C : Collaborators) : Decidable (vmk_types_of_spec C) := by
  unfold vmk_types_of_spec
  infer_instance

/-- The value data of a sample VOLUME_MASTER_KEY entry: 26 bytes of identifier,
time and padding, the protection type at byte 26, the salt of the stretch
key (16 times 7), the nonce (12 times 1) and the envelope data, a key block
around `sample_key_32`. -/
def sample_volume_master_key_value (type : Nat) : List Byte :=
  List.replicate 26 0 ++ sample_little_endian 2 type ++ List.replicate 16 7
    ++ List.replicate 12 1 ++ sample_key_block 0x2c 1 sample_key_32

/-- The sample VOLUME_MASTER_KEY entry as the entry reader returns it. -/
def sample_volume_master_key_entry (type : Nat) : libbde_metadata_entry where
  type := 0x0002
  value_type := 0x0008
  value_data := sample_volume_master_key_value type
  value_data_size := 116

/-- A version 2 block whose payload is one VOLUME_MASTER_KEY entry of 124 bytes
with the protection type PASSWORD (0x2000). -/
def sample_fields_password : sample_block_fields :=
  { sample_fields with
    metadata_size := 172
    metadata_size_copy := 172
    entries := sample_little_endian 2 124 ++ sample_little_endian 2 0x0002
      ++ sample_little_endian 2 0x0008 ++ sample_little_endian 2 1
      ++ sample_volume_master_key_value 0x2000 }

/-- The metadata set read from the block of `sample_fields_password`. -/
def sample_metadata_read_password : libbde_metadata where
  version := 2
  mft_mirror_cluster_block_number := 0
  volume_size := 0x40000000
  volume_header_offset := 0x10000
  volume_header_size := 0
  volume_identifier := List.replicate 16 0x11
  encryption_method := 0x8001
  creation_time := 0x01cc0000deadbeef
  disk_password_volume_master_key := none
  external_key_volume_master_key :=
    some (sample_protector 0x2000 (sample_envelope (sample_key_block 0x2c 1 sample_key_32) 60))
  full_volume_encryption_key := none
  entries_array := [sample_volume_master_key_entry 0x2000]

/-- The checks of lines 297-587 of `libbde_metadata_read` all pass, so that the
Vista back-fill of lines 776-786 is reached: the seek and the read of 4096
bytes succeed, the signature is there, the block header version is 1 or 2 and
the metadata header version is 1. -/
def libbde_metadata_read_reaches_back_fill (file_io_handle : libbfio_handle)
    (file_offset : Int) : Prop :=
  file_io_handle.seek_offset file_offset ≠ -1
  ∧ (file_io_handle.read file_offset 4096).1 = 4096
  ∧ bytes_at (file_io_handle.read file_offset 4096).2 block_header.signature 8 = bde_signature
  ∧ (byte_stream_copy_to_uint16_little_endian (file_io_handle.read file_offset 4096).2
        block_header.version = 1
    ∨ byte_stream_copy_to_uint16_little_endian (file_io_handle.read file_offset 4096).2
        block_header.version = 2)
  ∧ byte_stream_copy_to_uint32_little_endian
      ((file_io_handle.read file_offset 4096).2.drop sizeof_bde_metadata_block_header_v1_t)
      metadata_header.version = 1

instance (file_io_handle : libbfio_handle) (file_offset : Int) :
    Decidable (libbde_metadata_read_reaches_back_fill file_io_handle file_offset) := by
  unfold libbde_metadata_read_reaches_back_fill
  infer_instance

/-- The output buffer and the local variables of
`libbde_metadata_get_volume_master_key` when its first credential block is
reached. -/
def libbde_metadata_get_volume_master_key_entry (volume_master_key stack : List Byte) :
    volume_master_key_state where
  volume_master_key := volume_master_key
  aes_ccm_key := stack
  unencrypted_data := false
  unencrypted_data_size := 0
  result := 0
  scratch := []

/-- The password block of `libbde_metadata_get_volume_master_key` (lines
1206-1437), entered when `password_is_set` is not 0. -/
def libbde_metadata_get_volume_master_key_password (C : Collaborators)
    (metadata : libbde_metadata) (io_handle : libbde_io_handle)
    (volume_master_key stack : List Byte) : credential_exit :=
  libbde_metadata_get_volume_master_key_with C metadata.external_key_volume_master_key
    C.libbde_password_calculate_key io_handle.password_hash
    (libbde_metadata_get_volume_master_key_entry volume_master_key stack)

/-- The return code and the output buffer with which
`libbde_metadata_get_volume_master_key` returns when its last credential block
is left in the given way; `none` for a read past the end of
`unencrypted_data`. -/
def credential_exit_outcome : credential_exit → Option (Int × List Byte)
  | .completed state => some (state.result, state.volume_master_key)
  | .return_error state => some (-1, state.volume_master_key)
  | .on_error state => some (-1, state.volume_master_key)
  | .undefined => none

/-- A metadata set with both protectors: the envelope of the external key
protector unwraps to a key block with the inner data size 0x2d, which the
header test refuses, the envelope of the disk password protector to a
well-formed key block around `sample_tweak_32`. -/
def sample_metadata_both : libbde_metadata :=
  { libbde_metadata_cleared with
    disk_password_volume_master_key :=
      some (sample_protector 0x0800
        (sample_envelope (sample_key_block 0x2c 1 sample_tweak_32) 60))
    external_key_volume_master_key :=
      some (sample_protector 0x2000
        (sample_envelope (sample_key_block 0x2d 1 sample_key_32) 60)) }

/-- A metadata set whose external key protector and FVEK envelope both wrap the
28-byte key block without key material, announced with the given `data_size`. -/
def sample_metadata_short (data_size : Nat) : libbde_metadata :=
  { libbde_metadata_cleared with
    external_key_volume_master_key :=
      some (sample_protector 0x2000 (sample_envelope (sample_key_block 0x2c 2 []) data_size))
    full_volume_encryption_key :=
      some (sample_envelope (sample_key_block 0x2c 2 []) data_size) }

/-- The entries that the calls of `libbde_metadata_entry_read` in the entry loop
(lines 857-1109) return, in the order of the calls, when the loop runs for at
most `fuel` iterations from the position `fve_metadata` with the counter
`metadata_size` and no iteration leaves through `on_error` after its decode:
the loop's guard, its decode and its advance, without the switch. -/
def libbde_metadata_read_entries_decoded (C : Collaborators) :
    Nat → List Byte → Nat → List libbde_metadata_entry
  | 0, _, _ => []
  | fuel + 1, fve_metadata, metadata_size =>
    if metadata_size > sizeof_bde_metadata_header_v1_t then
      match C.libbde_metadata_entry_read fve_metadata metadata_size with
      | none => []
      | some (metadata_entry, read_count) =>
        metadata_entry ::
          libbde_metadata_read_entries_decoded C fuel (fve_metadata.drop read_count)
            ((metadata_size + 2 ^ 32 - read_count % 2 ^ 32) % 2 ^ 32)
    else
      []

/-- The decoded entry stream of the block that `libbde_metadata_read` reads at
`file_offset`: `libbde_metadata_read_entries_decoded` from the position and with
the counter with which `libbde_metadata_read` enters its entry loop (lines
855-857). -/
def libbde_metadata_read_decoded (C : Collaborators) (fuel : Nat)
    (file_io_handle : libbfio_handle) (file_offset : Int) : List libbde_metadata_entry :=
  libbde_metadata_read_entries_decoded C fuel
    (((file_io_handle.read file_offset 4096).2.drop sizeof_bde_metadata_block_header_v1_t).drop
      sizeof_bde_metadata_header_v1_t)
    (byte_stream_copy_to_uint32_little_endian
      ((file_io_handle.read file_offset 4096).2.drop sizeof_bde_metadata_block_header_v1_t)
      metadata_header.metadata_size - sizeof_bde_metadata_header_v1_t)

/-- The bytes of a metadata entry of version 1 with the given entry type, value
type and value data. -/
def sample_entry (type value_type : Nat) (value_data : List Byte) : List Byte :=
  sample_little_endian 2 (8 + value_data.length) ++ sample_little_endian 2 type
    ++ sample_little_endian 2 value_type ++ sample_little_endian 2 1 ++ value_data

/-- The value data of a second recovery-protected VOLUME_MASTER_KEY entry: as
`sample_volume_master_key_value 0x0800`, but the key block is around
`sample_tweak_32`. -/
def sample_volume_master_key_value_second : List Byte :=
  List.replicate 26 0 ++ sample_little_endian 2 0x0800 ++ List.replicate 16 7
    ++ List.replicate 12 1 ++ sample_key_block 0x2c 1 sample_tweak_32

/-- The value data of seven entries: a 0x000b entry with an envelope, a
recovery-protected VOLUME_MASTER_KEY, an entry of the unknown entry type 0x0099
and value type 0x0077, a FULL_VOLUME_ENCRYPTION_KEY, a VOLUME_HEADER_BLOCK with
offset 0x10000 and size 0x2000, a second FULL_VOLUME_ENCRYPTION_KEY and a
second recovery-protected VOLUME_MASTER_KEY. -/
def sample_stream_values : List (Nat × Nat × List Byte) :=
  [(0x000b, 0x0005, List.replicate 12 2 ++ List.replicate 24 0xdd),
   (0x0002, 0x0008, sample_volume_master_key_value 0x0800),
   (0x0099, 0x0077, List.replicate 8 0x55),
   (0x0003, 0x0005, List.replicate 12 1 ++ sample_key_block 0x2c 1 sample_key_32),
   (0x000f, 0x000f, sample_little_endian 8 0x10000 ++ sample_little_endian 8 0x2000),
   (0x0003, 0x0005, List.replicate 12 9 ++ sample_key_block 0x2c 1 sample_tweak_32),
   (0x0002, 0x0008, sample_volume_master_key_value_second)]

/-- The entries of `sample_stream_values` as the entry reader returns them. -/
def sample_stream_entries : List libbde_metadata_entry :=
  sample_stream_values.map (fun v =>
    { type := v.1, value_type := v.2.1, value_data := v.2.2, value_data_size := v.2.2.length })

/-- A version 2 block with the volume header offset 0x10000 whose payload are
the seven entries of `sample_stream_values`, 492 bytes. -/
def sample_fields_stream : sample_block_fields :=
  { sample_fields with
    metadata_size := 540
    metadata_size_copy := 540
    entries := (sample_stream_values.map (fun v => sample_entry v.1 v.2.1 v.2.2)).flatten }

/-- The metadata set read from the block of `sample_fields_stream`. -/
def sample_metadata_read_stream : libbde_metadata where
  version := 2
  mft_mirror_cluster_block_number := 0
  volume_size := 0x40000000
  volume_header_offset := 0x10000
  volume_header_size := 0x2000
  volume_identifier := List.replicate 16 0x11
  encryption_method := 0x8001
  creation_time := 0x01cc0000deadbeef
  disk_password_volume_master_key :=
    some (sample_protector 0x0800 (sample_envelope (sample_key_block 0x2c 1 sample_key_32) 60))
  external_key_volume_master_key := none
  full_volume_encryption_key :=
    some (sample_envelope (sample_key_block 0x2c 1 sample_key_32) 60)
  entries_array := sample_stream_entries

/-- A version 2 block whose payload is a 0x000b entry with 4 bytes of value
data, too short for an envelope, followed by a DESCRIPTION entry of 60 bytes. -/
def sample_fields_reserved : sample_block_fields :=
  { sample_fields with
    metadata_size := 120
    metadata_size_copy := 120
    entries := sample_entry 0x000b 0x0005 (List.replicate 4 0xdd)
      ++ sample_entry 0x0007 0x0002 (List.replicate 52 0x41) }

/-- A version 2 block with the volume header offset 0x10000 whose payload is a
VOLUME_HEADER_BLOCK entry of value type OFFSET_AND_SIZE with the offset 0x20000
and the size 0x2000, followed by a DESCRIPTION entry of 60 bytes. -/
def sample_fields_header_mismatch : sample_block_fields :=
  { sample_fields with
    metadata_size := 132
    metadata_size_copy := 132
    entries := sample_entry 0x000f 0x000f
        (sample_little_endian 8 0x20000 ++ sample_little_endian 8 0x2000)
      ++ sample_entry 0x0007 0x0002 (List.replicate 52 0x41) }

/-- A metadata set whose only projection is a recovery protector around a
well-formed 60-byte key block holding `sample_key_32`. -/
def sample_metadata_recovery : libbde_metadata :=
  { libbde_metadata_cleared with
    disk_password_volume_master_key :=
      some (sample_protector 0x0800 (sample_envelope (sample_key_block 0x2c 1 sample_key_32) 60)) }

/-- A metadata set whose external key protector and FVEK envelope both wrap the
28-byte key block without key material that announces the inner version 1 and
the inner data size 0x2c, with the envelope size 28. -/
def sample_metadata_truncated : libbde_metadata :=
  { libbde_metadata_cleared with
    external_key_volume_master_key :=
      some (sample_protector 0x2000 (sample_envelope (sample_key_block 0x2c 1 []) 28))
    full_volume_encryption_key :=
      some (sample_envelope (sample_key_block 0x2c 1 []) 28) }

/-- A metadata set whose FVEK envelope wraps a 60-byte key block, 32 bytes of
key material and no tweak key, that announces the inner data size 0x4c. -/
def sample_metadata_truncated_xts : libbde_metadata :=
  { libbde_metadata_cleared with
    full_volume_encryption_key :=
      some (sample_envelope (sample_key_block 0x4c 1 sample_key_32) 60) }

/-- The first credential block of `libbde_metadata_get_volume_master_key` with
its guard (lines 1204-1438): the password block when `password_is_set` is not
0, and nothing otherwise. -/
def libbde_metadata_get_volume_master_key_first (C : Collaborators)
    (metadata : libbde_metadata) (io_handle : libbde_io_handle)
    (volume_master_key stack : List Byte) : credential_exit :=
  if io_handle.password_is_set ≠ 0 then
    libbde_metadata_get_volume_master_key_password C metadata io_handle volume_master_key stack
  else
    credential_exit.completed
      (libbde_metadata_get_volume_master_key_entry volume_master_key stack)

/-- The second credential block of `libbde_metadata_get_volume_master_key` with
its guard (lines 1439-1674), entered in `state`: the recovery block when the
result is still 0 and `recovery_password_is_set` is not 0, and nothing
otherwise. -/
def libbde_metadata_get_volume_master_key_second (C : Collaborators)
    (metadata : libbde_metadata) (io_handle : libbde_io_handle)
    (state : volume_master_key_state) : credential_exit :=
  if state.result = 0 ∧ io_handle.recovery_password_is_set ≠ 0 then
    libbde_metadata_get_volume_master_key_with C metadata.disk_password_volume_master_key
      C.libbde_recovery_calculate_key io_handle.recovery_password_hash state
  else
    credential_exit.completed state

/-- What `libbde_metadata_get_volume_master_key` returns when its last credential
block is left in the given way: `return( result )` at the end of the function,
`return( -1 )` inside a block, the label `on_error`, or nothing for a read past
the end of `unencrypted_data`. -/
def credential_exit_result :
    credential_exit → Option libbde_metadata_get_volume_master_key_result
  | .completed state => some (libbde_metadata_get_volume_master_key_return state.result state)
  | .return_error state => some (libbde_metadata_get_volume_master_key_return (-1) state)
  | .on_error state => some (libbde_metadata_get_volume_master_key_on_error state)
  | .undefined => none

/-- Whether a trace of the scratch buffer `unencrypted_data` shows that every
buffer is set to zero over its full length before it is released.  The trace
is replayed with the size of the latest allocation, whether that buffer is
still to be released, and whether the latest event was a `memory_set` to zero
of exactly that size: an allocation needs the previous buffer released, a
`memory_free` needs the buffer just cleared over its full size, the
decryption output makes the buffer not cleared, and at the end no buffer is
left to be released.  A clearing and release that follows a release is
accepted under the same rule; no trace of the function holds one, since the
label `on_error` reached with the pointer to a released buffer has no defined
result. -/
def scratch_zeroized : Option Nat → Bool → Bool → List scratch_event → Bool
  | _, live, _, [] => !live
  | _, live, _, scratch_event.allocate n :: rest =>
    !live && scratch_zeroized (some n) true false rest
  | size, live, _, scratch_event.clear n :: rest =>
    scratch_zeroized size live (decide (size = some n)) rest
  | size, live, _, scratch_event.decrypt _ :: rest =>
    scratch_zeroized size live false rest
  | size, _, cleared, scratch_event.free :: rest =>
    cleared && scratch_zeroized size false false rest

/-- The scratch buffer between the two credential blocks of
`libbde_metadata_get_volume_master_key`: either no block has run, the pointer
`unencrypted_data` is `NULL` and the trace is empty, or the password block has
run to its end, the pointer still holds the address of the released buffer and
the trace is that block's. -/
def volume_master_key_state_between (state : volume_master_key_state) : Prop :=
  (state.scratch = [] ∧ state.unencrypted_data = false)
  ∨ ∃ n d, state.scratch
      = [scratch_event.allocate n, scratch_event.clear n, scratch_event.decrypt d,
          scratch_event.clear n, scratch_event.free]
    ∧ state.unencrypted_data = true ∧ state.unencrypted_data_size = n

/-- Sample collaborators whose cipher reports an error. -/
def sample_collaborators_failing : Collaborators :=
  { sample_collaborators with
    libbde_aes_ccm_crypt := fun _ _ _ _ _ _ _ => (-1, []) }

/-- Sample collaborators whose recovery key derivation reports an error. -/
def sample_collaborators_no_recovery : Collaborators :=
  { sample_collaborators with
    libbde_recovery_calculate_key := fun _ _ => (-1, []) }

/-- Two states of `libbde_metadata_get_volume_master_key`, in two runs, that agree
on what the caller observes: the results are equal, with result 1 the output
buffers are equal, and otherwise both output buffers are still 32-byte
buffers; and the pointer `unencrypted_data` is `NULL` in both or in neither. -/
def volume_master_key_state_agree (s1 s2 : volume_master_key_state) : Prop :=
  s1.result = s2.result
  ∧ (s1.result = 1 → s1.volume_master_key = s2.volume_master_key)
  ∧ (s1.result ≠ 1 → s1.volume_master_key.length = 32 ∧ s2.volume_master_key.length = 32)
  ∧ s1.unencrypted_data = s2.unencrypted_data

/-- Two runs leave a credential block in the same way, with states that agree. -/
def credential_exit_agree : credential_exit → credential_exit → Prop
  | .completed s1, .completed s2 => volume_master_key_state_agree s1 s2
  | .return_error s1, .return_error s2 => volume_master_key_state_agree s1 s2
  | .on_error s1, .on_error s2 => volume_master_key_state_agree s1 s2
  | .undefined, .undefined => True
  | _, _ => False

/-- A metadata set with the sample password protector and the FVEK envelope of
`sample_metadata_xts`. -/
def sample_metadata_unlock : libbde_metadata :=
  { sample_metadata_xts with
    external_key_volume_master_key :=
      some (sample_protector 0x2000 (sample_envelope (sample_key_block 0x2c 1 sample_key_32) 60)) }

/-- The decode window at the start of an iteration of the entry loop: `position`
is the offset of the pointer `fve_metadata` in the block, `remaining` the
counter `metadata_size`, and `fve_metadata` the block from the pointer on. -/
structure entry_loop_window where
  position : Nat
  remaining : Nat
  fve_metadata : List Byte
deriving DecidableEq, Repr

/-- The decode windows of the iterations of the entry loop (lines 857-1109), in
order, when the loop runs for at most `fuel` iterations from the pointer
`fve_metadata`, which is at offset `position` of the block, with the counter
`metadata_size`, and no iteration leaves through `on_error` after its decode:
the loop's guard, its decode and its advance `fve_metadata += read_count;
metadata_size -= read_count`, without the switch. -/
def libbde_metadata_read_entries_windows (C : Collaborators) :
    Nat → List Byte → Nat → Nat → List entry_loop_window
  | 0, _, _, _ => []
  | fuel + 1, fve_metadata, position, metadata_size =>
    if metadata_size > sizeof_bde_metadata_header_v1_t then
      { position := position, remaining := metadata_size, fve_metadata := fve_metadata } ::
        match C.libbde_metadata_entry_read fve_metadata metadata_size with
        | none => []
        | some (_, read_count) =>
          libbde_metadata_read_entries_windows C fuel (fve_metadata.drop read_count)
            (position + read_count)
            ((metadata_size + 2 ^ 32 - read_count % 2 ^ 32) % 2 ^ 32)
    else
      []

/-- The decode windows of the block that `libbde_metadata_read` reads at
`file_offset`: the entry loop is entered with the pointer at offset 64 + 48 of
the block and the counter `metadata_size - 48` (lines 855-857). -/
def libbde_metadata_read_windows (C : Collaborators) (fuel : Nat)
    (file_io_handle : libbfio_handle) (file_offset : Int) : List entry_loop_window :=
  libbde_metadata_read_entries_windows C fuel
    (((file_io_handle.read file_offset 4096).2.drop sizeof_bde_metadata_block_header_v1_t).drop
      sizeof_bde_metadata_header_v1_t)
    (sizeof_bde_metadata_block_header_v1_t + sizeof_bde_metadata_header_v1_t)
    (byte_stream_copy_to_uint32_little_endian
      ((file_io_handle.read file_offset 4096).2.drop sizeof_bde_metadata_block_header_v1_t)
      metadata_header.metadata_size - sizeof_bde_metadata_header_v1_t)

/-- The entry reader consumes at least one byte and at most the bytes that
remain: every count `libbde_metadata_entry_read` returns lies between 1 and the
size it was given. -/
def entry_read_within (C : Collaborators) : Prop :=
  ∀ (fve_metadata : List Byte) (metadata_size : Nat) (metadata_entry : libbde_metadata_entry)
    (read_count : Nat),
    C.libbde_metadata_entry_read fve_metadata metadata_size = some (metadata_entry, read_count) →
    1 ≤ read_count ∧ read_count ≤ metadata_size

/-- The value of the counter `metadata_size` when the entry loop (lines 857-1109)
is left, run for at most `fuel` iterations and with no iteration leaving
through `on_error` after its decode: the loop's guard, its decode and its
subtraction `metadata_size -= read_count`, without the switch.  It is the
number of bytes of the payload that were not decoded. -/
def libbde_metadata_read_entries_left (C : Collaborators) : Nat → List Byte → Nat → Nat
  | 0, _, metadata_size => metadata_size
  | fuel + 1, fve_metadata, metadata_size =>
    if metadata_size > sizeof_bde_metadata_header_v1_t then
      match C.libbde_metadata_entry_read fve_metadata metadata_size with
      | none => metadata_size
      | some (_, read_count) =>
        libbde_metadata_read_entries_left C fuel (fve_metadata.drop read_count)
          ((metadata_size + 2 ^ 32 - read_count % 2 ^ 32) % 2 ^ 32)
    else
      metadata_size

/-- The counts `read_count` that the decodes of the entry loop return, in order,
under the same conditions. -/
def libbde_metadata_read_entries_counts (C : Collaborators) : Nat → List Byte → Nat → List Nat
  | 0, _, _ => []
  | fuel + 1, fve_metadata, metadata_size =>
    if metadata_size > sizeof_bde_metadata_header_v1_t then
      match C.libbde_metadata_entry_read fve_metadata metadata_size with
      | none => []
      | some (_, read_count) =>
        read_count ::
          libbde_metadata_read_entries_counts C fuel (fve_metadata.drop read_count)
            ((metadata_size + 2 ^ 32 - read_count % 2 ^ 32) % 2 ^ 32)
    else
      []

/-- The block of `sample_fields` with the given block header version and the
given version in its metadata header; everything else is well formed. -/
def sample_fields_metadata_version (version metadata_version : Nat) : sample_block_fields :=
  { sample_fields with version := version, metadata_version := metadata_version }

/-- A version 1 block (its last header field is the MFT mirror cluster block)
whose payload is a VOLUME_HEADER_BLOCK entry of value type OFFSET_AND_SIZE with
the given offset and the size 0x2000, followed by a DESCRIPTION entry of 60
bytes. -/
def sample_fields_vista_header (offset : Nat) : sample_block_fields :=
  { sample_fields_vista with
    metadata_size := 132
    metadata_size_copy := 132
    entries := sample_entry 0x000f 0x000f
        (sample_little_endian 8 offset ++ sample_little_endian 8 0x2000)
      ++ sample_entry 0x0007 0x0002 (List.replicate 52 0x41) }

/-- A backing reader whose every seek fails; a read would deliver `block`. -/
def sample_file_seek_failing (block : List Byte) : libbfio_handle where
  seek_offset := fun _ => -1
  read := fun _ size => (size, block)

/-- A backing reader whose every seek succeeds and whose every read returns
`count`, the buffer then holding `block`. -/
def sample_file_count (count : Int) (block : List Byte) : libbfio_handle where
  seek_offset := fun offset => offset
  read := fun _ _ => (count, block)

/-- The 16 key bytes 200, 201, ..., 215. -/
def sample_key_16 : List Byte :=
  [200, 201, 202, 203, 204, 205, 206, 207, 208, 209, 210, 211, 212, 213, 214, 215]

/-- A metadata set whose FVEK envelope wraps a 44-byte key block with inner data
size 0x1c around `sample_key_16`. -/
def sample_metadata_aes_128 : libbde_metadata :=
  { libbde_metadata_cleared with
    full_volume_encryption_key :=
      some (sample_envelope (sample_key_block 0x1c 1 sample_key_16) 44) }

/-- The metadata set behind the pointer `metadata` after a call of
`libbde_metadata_get_volume_master_key` that returns (`none` as for the
function).  Every access through `metadata` in lines 1152-1694 is a read: the
`NULL` tests of the protector, its stretch key and its envelope, the test of
`data_size`, and the arguments `salt`, `nonce`, `data` and `data_size` of the
key derivation and of `libbde_aes_ccm_crypt`, which take them as inputs; the
only buffers written are `aes_ccm_key`, `unencrypted_data` and
`volume_master_key`. -/
def libbde_metadata_get_volume_master_key_metadata (C : Collaborators)
    (metadata : libbde_metadata) (io_handle : libbde_io_handle)
    (volume_master_key stack : List Byte) : Option libbde_metadata :=
  (libbde_metadata_get_volume_master_key C metadata io_handle volume_master_key stack).map
    (fun _ => metadata)

/-- The metadata set behind the pointer `metadata` after a call of
`libbde_metadata_get_full_volume_encryption_key` that returns (`none` as for
the function).  Every access through `metadata` in lines 1699-1989 is a read:
the `NULL` test of the envelope, the test of `data_size`, and the arguments
`nonce`, `data` and `data_size` of `libbde_aes_ccm_crypt`, which takes them as
inputs; the only buffers written are `unencrypted_data`,
`full_volume_encryption_key` and `tweak_key`. -/
def libbde_metadata_get_full_volume_encryption_key_metadata (C : Collaborators)
    (metadata : libbde_metadata) (volume_master_key : List Byte)
    (full_volume_encryption_key : List Byte) (tweak_key : List Byte) :
    Option libbde_metadata :=
  (libbde_metadata_get_full_volume_encryption_key C metadata volume_master_key
    full_volume_encryption_key tweak_key).map (fun _ => metadata)

/-- A metadata set with both protectors: the envelope of the external key
protector unwraps to a key block with the inner data size 0x2d, which the
header test refuses, and the envelope of the disk password protector announces
a `data_size` of 27. -/
def sample_metadata_both_short : libbde_metadata :=
  { libbde_metadata_cleared with
    disk_password_volume_master_key :=
      some (sample_protector 0x0800
        (sample_envelope (sample_key_block 0x2c 1 sample_tweak_32) 27))
    external_key_volume_master_key :=
      some (sample_protector 0x2000
        (sample_envelope (sample_key_block 0x2d 1 sample_key_32) 60)) }

/-- A metadata set with the sample password protector and an FVEK envelope of 28
bytes around the key block without key material that announces the inner
version 1 and the inner data size 0x2c. -/
def sample_metadata_unlock_truncated : libbde_metadata :=
  { sample_metadata_password with
    full_volume_encryption_key := some (sample_envelope (sample_key_block 0x2c 1 []) 28) }

/-- A version 2 block with the volume header offset 0x10000 whose payload is the
given entry followed by 30 zero bytes: the entry loop decodes the entry and
stops behind it. -/
def sample_fields_single (entry : List Byte) : sample_block_fields :=
  { sample_fields with
    metadata_size := 48 + entry.length + 30
    metadata_size_copy := 48 + entry.length + 30
    entries := entry ++ List.replicate 30 0 }

/-- Sample collaborators whose VMK reader yields the VMK without its stretch
key. -/
def sample_collaborators_no_stretch_key : Collaborators :=
  { sample_collaborators with
    libbde_volume_master_key_read := fun metadata_entry =>
      (sample_volume_master_key_read metadata_entry).map
        (fun volume_master_key => { volume_master_key with stretch_key := none }) }

/-- Sample collaborators for which `LIBBDE_VMK_TYPE_EXTERNAL_KEY_PROTECTED` is 0x0200,
the protection type STARTUP_KEY of §3. -/
def sample_collaborators_startup_key : Collaborators :=
  { sample_collaborators with LIBBDE_VMK_TYPE_EXTERNAL_KEY_PROTECTED := 0x0200 }

/-- The block with its bytes [100..104), the field `encryption_method` of the
metadata header (byte 36 of the header that starts at byte 64), replaced by the
four little-endian bytes of `value`. -/
def metadata_block_with_encryption_method (block : List Byte) (value : Nat) : List Byte :=
  block.take 100 ++ sample_little_endian 4 value ++ block.drop 104

/-- The backing reader `file_io_handle` with the `encryption_method` field of
every block it delivers replaced by `value`. -/
def file_with_encryption_method (file_io_handle : libbfio_handle) (value : Nat) :
    libbfio_handle where
  seek_offset := file_io_handle.seek_offset
  read := fun offset size =>
    ((file_io_handle.read offset size).1,
      metadata_block_with_encryption_method (file_io_handle.read offset size).2 value)

/-! ## Theorems -/

/-- A credential block whose protector is complete, whose key derivation, key
set-up and decryption succeed and whose envelope has at least 28 bytes: the
block ends in the header test on the unwrapped data. -/
theorem libbde_metadata_get_volume_master_key_with_decrypted (C : Collaborators)
    (protector : libbde_volume_master_key) (stretch_key : libbde_stretch_key)
    (envelope : libbde_aes_ccm_encrypted_key)
    (calculate_key : List Byte → List Byte → Int × List Byte) (hash : List Byte)
    (state : volume_master_key_state) (unwrapped : List Byte)
    (hstretch : protector.stretch_key = some stretch_key)
    (henvelope : protector.aes_ccm_encrypted_key = some envelope)
    (hsize : 28 ≤ envelope.data_size)
    (hkdf : (calculate_key hash stretch_key.salt).1 = 1)
    (hset : C.libbde_aes_set_encryption_key (calculate_key hash stretch_key.salt).2 256 = 1)
    (hdecrypt : C.libbde_aes_ccm_crypt (calculate_key hash stretch_key.salt).2 256
      envelope.nonce 12 envelope.data envelope.data_size envelope.data_size = (1, unwrapped)) :
    libbde_metadata_get_volume_master_key_with C (some protector) calculate_key hash state =
      if byte_stream_copy_to_uint16_little_endian unwrapped 20 = 1
          ∧ byte_stream_copy_to_uint16_little_endian unwrapped 16 = 0x2c then
        if envelope.data_size < 60 then
          credential_exit.undefined
        else
          credential_exit.completed
            { volume_master_key :=
                memory_copy state.volume_master_key (bytes_at unwrapped 28 32) 32
              aes_ccm_key := (calculate_key hash stretch_key.salt).2
              unencrypted_data := true
              unencrypted_data_size := envelope.data_size
              result := 1
              scratch := state.scratch ++
                [scratch_event.allocate envelope.data_size,
                 scratch_event.clear envelope.data_size] ++
                [scratch_event.decrypt unwrapped] ++
                [scratch_event.clear envelope.data_size, scratch_event.free] }
      else
        credential_exit.completed
          { volume_master_key := state.volume_master_key
            aes_ccm_key := (calculate_key hash stretch_key.salt).2
            unencrypted_data := true
            unencrypted_data_size := envelope.data_size
            result := state.result
            scratch := state.scratch ++
              [scratch_event.allocate envelope.data_size,
               scratch_event.clear envelope.data_size] ++
              [scratch_event.decrypt unwrapped] ++
              [scratch_event.clear envelope.data_size, scratch_event.free] } := by
  have h22 : ¬ envelope.data_size < 22 := by omega
  have h28 : ¬ envelope.data_size < 28 := by omega
  simp only [libbde_metadata_get_volume_master_key_with, hstretch, henvelope, hkdf, hset,
    hdecrypt, h22, h28, ne_eq, not_true_eq_false, if_false]

/-- C1. `libbde_metadata_get_volume_master_key` with exactly one credential set
(the password, tried on `external_key_volume_master_key`, or the recovery
password, tried on `disk_password_volume_master_key`), a complete protector and
key derivation, key set-up and AES-CCM decryption succeeding.  If the unwrapped
block has inner version 1 at bytes [20..22) and inner data size 0x2c at bytes
[16..18) and holds the bytes [28..60), the function returns 1 and the 32-byte
output buffer is bytes [28..60) of the unwrapped block; if the header differs
it returns 0 and the output buffer is unchanged; and whenever it returns, it
returns 1 exactly when the header is as above. -/
theorem get_volume_master_key_single_credential (C : Collaborators)
    (metadata : libbde_metadata) (io_handle : libbde_io_handle)
    (volume_master_key stack : List Byte)
    (protector : libbde_volume_master_key) (stretch_key : libbde_stretch_key)
    (envelope : libbde_aes_ccm_encrypted_key)
    (calculate_key : List Byte → List Byte → Int × List Byte) (hash : List Byte)
    (unwrapped : List Byte)
    (hcredential :
      (io_handle.password_is_set ≠ 0 ∧ io_handle.recovery_password_is_set = 0 ∧
        metadata.external_key_volume_master_key = some protector ∧
        calculate_key = C.libbde_password_calculate_key ∧
        hash = io_handle.password_hash) ∨
      (io_handle.password_is_set = 0 ∧ io_handle.recovery_password_is_set ≠ 0 ∧
        metadata.disk_password_volume_master_key = some protector ∧
        calculate_key = C.libbde_recovery_calculate_key ∧
        hash = io_handle.recovery_password_hash))
    (hstretch : protector.stretch_key = some stretch_key)
    (henvelope : protector.aes_ccm_encrypted_key = some envelope)
    (hsize : 28 ≤ envelope.data_size)
    (hkdf : (calculate_key hash stretch_key.salt).1 = 1)
    (hset : C.libbde_aes_set_encryption_key (calculate_key hash stretch_key.salt).2 256 = 1)
    (hdecrypt : C.libbde_aes_ccm_crypt (calculate_key hash stretch_key.salt).2 256
      envelope.nonce 12 envelope.data envelope.data_size envelope.data_size = (1, unwrapped))
    (hbuffer : volume_master_key.length = 32) :
    ((byte_stream_copy_to_uint16_little_endian unwrapped 20 = 1
        ∧ byte_stream_copy_to_uint16_little_endian unwrapped 16 = 0x2c) →
      60 ≤ envelope.data_size →
      ∃ r, libbde_metadata_get_volume_master_key C metadata io_handle volume_master_key stack
          = some r
        ∧ r.result = 1 ∧ r.volume_master_key = bytes_at unwrapped 28 32) ∧
    (¬ (byte_stream_copy_to_uint16_little_endian unwrapped 20 = 1
        ∧ byte_stream_copy_to_uint16_little_endian unwrapped 16 = 0x2c) →
      ∃ r, libbde_metadata_get_volume_master_key C metadata io_handle volume_master_key stack
          = some r
        ∧ r.result = 0 ∧ r.volume_master_key = volume_master_key) ∧
    (∀ r, libbde_metadata_get_volume_master_key C metadata io_handle volume_master_key stack
          = some r →
      (r.result = 1 ↔
        (byte_stream_copy_to_uint16_little_endian unwrapped 20 = 1
          ∧ byte_stream_copy_to_uint16_little_endian unwrapped 16 = 0x2c))) := by
  have hcopy : memory_copy volume_master_key (bytes_at unwrapped 28 32) 32
      = bytes_at unwrapped 28 32 := by
    have h1 : (bytes_at unwrapped 28 32).length ≤ 32 := by
      simp only [bytes_at, List.length_take]; omega
    simp only [memory_copy, List.take_of_length_le h1,
      List.drop_of_length_le (Nat.le_of_eq hbuffer), List.append_nil]
  rcases hcredential with ⟨hp, hr, hprot, rfl, rfl⟩ | ⟨hp, hr, hprot, rfl, rfl⟩
  · by_cases hheader : byte_stream_copy_to_uint16_little_endian unwrapped 20 = 1
        ∧ byte_stream_copy_to_uint16_little_endian unwrapped 16 = 0x2c
    · by_cases hlen : envelope.data_size < 60
      · have hnot : ¬ 60 ≤ envelope.data_size := by omega
        simp [libbde_metadata_get_volume_master_key, hp, hr, hprot,
          libbde_metadata_get_volume_master_key_with_decrypted C protector stretch_key envelope
            _ _ _ unwrapped hstretch henvelope hsize hkdf hset hdecrypt,
          hheader, hlen, hnot]
      · simp [libbde_metadata_get_volume_master_key, hp, hr, hprot,
          libbde_metadata_get_volume_master_key_with_decrypted C protector stretch_key envelope
            _ _ _ unwrapped hstretch henvelope hsize hkdf hset hdecrypt,
          hheader, hlen, libbde_metadata_get_volume_master_key_return, hcopy]
    · simp [libbde_metadata_get_volume_master_key, hp, hr, hprot,
        libbde_metadata_get_volume_master_key_with_decrypted C protector stretch_key envelope
          _ _ _ unwrapped hstretch henvelope hsize hkdf hset hdecrypt,
        hheader, libbde_metadata_get_volume_master_key_return]
  · by_cases hheader : byte_stream_copy_to_uint16_little_endian unwrapped 20 = 1
        ∧ byte_stream_copy_to_uint16_little_endian unwrapped 16 = 0x2c
    · by_cases hlen : envelope.data_size < 60
      · have hnot : ¬ 60 ≤ envelope.data_size := by omega
        simp [libbde_metadata_get_volume_master_key, hp, hr, hprot,
          libbde_metadata_get_volume_master_key_with_decrypted C protector stretch_key envelope
            _ _ _ unwrapped hstretch henvelope hsize hkdf hset hdecrypt,
          hheader, hlen, hnot]
      · simp [libbde_metadata_get_volume_master_key, hp, hr, hprot,
          libbde_metadata_get_volume_master_key_with_decrypted C protector stretch_key envelope
            _ _ _ unwrapped hstretch henvelope hsize hkdf hset hdecrypt,
          hheader, hlen, libbde_metadata_get_volume_master_key_return, hcopy]
    · simp [libbde_metadata_get_volume_master_key, hp, hr, hprot,
        libbde_metadata_get_volume_master_key_with_decrypted C protector stretch_key envelope
          _ _ _ unwrapped hstretch henvelope hsize hkdf hset hdecrypt,
        hheader, libbde_metadata_get_volume_master_key_return]

/-- C1 on a sample: with only the password set and a well-formed key block the
function returns 1 and the output buffer holds the 32 key bytes of the block. -/
theorem get_volume_master_key_single_credential_witness :
    ∃ r, libbde_metadata_get_volume_master_key sample_collaborators sample_metadata_password
        (sample_io_handle 1 0) (List.replicate 32 0) (List.replicate 32 0xcc) = some r
      ∧ r.result = 1
      ∧ r.volume_master_key = bytes_at (sample_key_block 0x2c 1 sample_key_32) 28 32 :=
  (get_volume_master_key_single_credential sample_collaborators sample_metadata_password
    (sample_io_handle 1 0) (List.replicate 32 0) (List.replicate 32 0xcc)
    (sample_protector 0x2000 (sample_envelope (sample_key_block 0x2c 1 sample_key_32) 60))
    { salt := List.replicate 16 7 }
    (sample_envelope (sample_key_block 0x2c 1 sample_key_32) 60)
    sample_collaborators.libbde_password_calculate_key (List.replicate 32 3)
    (sample_key_block 0x2c 1 sample_key_32)
    (Or.inl ⟨by decide, by decide, rfl, rfl, rfl⟩) rfl rfl (by decide) rfl rfl rfl
    (by decide)).1 (by decide) (by decide)

/-- C2. `libbde_metadata_get_full_volume_encryption_key` when key set-up and
AES-CCM decryption of the FVEK envelope with the VMK succeed and the unwrapped
block has inner version 1 at byte 20.  For inner data size 0x1c it returns 1
and the first 16 bytes of the FVEK output are unwrapped[28..44); for 0x2c it
returns 1 and the 32-byte FVEK output is unwrapped[28..60); for 0x4c it
returns 1, the FVEK output is unwrapped[28..60) and the 32-byte tweak key
output is unwrapped[60..92) (each time for a block that holds the bytes
named). -/
theorem get_full_volume_encryption_key_accepted (C : Collaborators)
    (metadata : libbde_metadata) (volume_master_key : List Byte)
    (full_volume_encryption_key tweak_key : List Byte)
    (envelope : libbde_aes_ccm_encrypted_key) (unwrapped : List Byte)
    (henvelope : metadata.full_volume_encryption_key = some envelope)
    (hsize : 28 ≤ envelope.data_size)
    (hset : C.libbde_aes_set_encryption_key volume_master_key 256 = 1)
    (hdecrypt : C.libbde_aes_ccm_crypt volume_master_key 256 envelope.nonce 12
      envelope.data envelope.data_size envelope.data_size = (1, unwrapped))
    (hlength : unwrapped.length = envelope.data_size)
    (hversion : byte_stream_copy_to_uint16_little_endian unwrapped 20 = 1)
    (hkey : full_volume_encryption_key.length = 32)
    (htweak : tweak_key.length = 32) :
    (byte_stream_copy_to_uint16_little_endian unwrapped 16 = 0x1c →
      44 ≤ envelope.data_size →
      ∃ r, libbde_metadata_get_full_volume_encryption_key C metadata volume_master_key
          full_volume_encryption_key tweak_key = some r
        ∧ r.result = 1
        ∧ r.full_volume_encryption_key.take 16 = bytes_at unwrapped 28 16) ∧
    (byte_stream_copy_to_uint16_little_endian unwrapped 16 = 0x2c →
      60 ≤ envelope.data_size →
      ∃ r, libbde_metadata_get_full_volume_encryption_key C metadata volume_master_key
          full_volume_encryption_key tweak_key = some r
        ∧ r.result = 1
        ∧ r.full_volume_encryption_key = bytes_at unwrapped 28 32) ∧
    (byte_stream_copy_to_uint16_little_endian unwrapped 16 = 0x4c →
      92 ≤ envelope.data_size →
      ∃ r, libbde_metadata_get_full_volume_encryption_key C metadata volume_master_key
          full_volume_encryption_key tweak_key = some r
        ∧ r.result = 1
        ∧ r.full_volume_encryption_key = bytes_at unwrapped 28 32
        ∧ r.tweak_key = bytes_at unwrapped 60 32) := by
  have h22 : ¬ envelope.data_size < 22 := by omega
  have h28 : ¬ envelope.data_size < 28 := by omega
  have hcopy : ∀ (buffer : List Byte) (i : Nat), buffer.length = 32 →
      memory_copy buffer (bytes_at unwrapped i 32) 32 = bytes_at unwrapped i 32 := by
    intro buffer i hb
    have h1 : (bytes_at unwrapped i 32).length ≤ 32 := by
      simp only [bytes_at, List.length_take]; omega
    simp only [memory_copy, List.take_of_length_le h1,
      List.drop_of_length_le (Nat.le_of_eq hb), List.append_nil]
  refine ⟨?_, ?_, ?_⟩
  · intro hdata hlen
    have h44 : ¬ envelope.data_size < 28 + 16 := by omega
    have h16 : (bytes_at unwrapped 28 16).length = 16 := by
      simp only [bytes_at, List.length_take, List.length_drop]; omega
    simp [libbde_metadata_get_full_volume_encryption_key, henvelope, hset, hdecrypt, h22, h28,
      hversion, hdata, h44, memory_copy, List.take_of_length_le (Nat.le_of_eq h16),
      List.take_append_of_le_length (Nat.le_of_eq h16.symm)]
  · intro hdata hlen
    have h60 : ¬ envelope.data_size < 28 + 32 := by omega
    simp [libbde_metadata_get_full_volume_encryption_key, henvelope, hset, hdecrypt, h22, h28,
      hversion, hdata, h60, hcopy _ _ hkey]
  · intro hdata hlen
    have h92 : ¬ envelope.data_size < 60 + 32 := by omega
    simp [libbde_metadata_get_full_volume_encryption_key, henvelope, hset, hdecrypt, h22, h28,
      hversion, hdata, h92, hcopy _ _ hkey, hcopy _ _ htweak]

/-- C2 on a sample: a 92-byte key block with inner version 1 and data size 0x4c
yields result 1, the cipher key at [28..60) and the tweak key at [60..92). -/
theorem get_full_volume_encryption_key_accepted_witness :
    ∃ r, libbde_metadata_get_full_volume_encryption_key sample_collaborators
        sample_metadata_xts sample_key_32 (List.replicate 32 0) (List.replicate 32 0) = some r
      ∧ r.result = 1
      ∧ r.full_volume_encryption_key
          = bytes_at (sample_key_block 0x4c 1 (sample_key_32 ++ sample_tweak_32)) 28 32
      ∧ r.tweak_key
          = bytes_at (sample_key_block 0x4c 1 (sample_key_32 ++ sample_tweak_32)) 60 32 :=
  (get_full_volume_encryption_key_accepted sample_collaborators sample_metadata_xts
    sample_key_32 (List.replicate 32 0) (List.replicate 32 0)
    (sample_envelope (sample_key_block 0x4c 1 (sample_key_32 ++ sample_tweak_32)) 92)
    (sample_key_block 0x4c 1 (sample_key_32 ++ sample_tweak_32))
    rfl (by decide) rfl rfl (by decide) (by decide) (by decide) (by decide)).2.2
    (by decide) (by decide)

/-- The function `libbde_metadata_read` by stages: the reader and the signature,
the block header version, the metadata header version, the checks of lines
787-853 on the back-filled handle, and the entry loop. -/
theorem libbde_metadata_read_stages (C : Collaborators) (fuel : Nat)
    (metadata : libbde_metadata) (io_handle : libbde_io_handle)
    (file_io_handle : libbfio_handle) (file_offset : Int) :
    libbde_metadata_read C fuel metadata io_handle file_io_handle file_offset =
      if file_io_handle.seek_offset file_offset = -1
          ∨ (file_io_handle.read file_offset 4096).1 ≠ 4096
          ∨ bytes_at (file_io_handle.read file_offset 4096).2 0 8 ≠ bde_signature then
        some ⟨-1, metadata, io_handle⟩
      else if ¬ (byte_stream_copy_to_uint16_little_endian
            (file_io_handle.read file_offset 4096).2 10 = 1
          ∨ byte_stream_copy_to_uint16_little_endian
            (file_io_handle.read file_offset 4096).2 10 = 2) then
        some ⟨-1,
          { metadata with
            version := byte_stream_copy_to_uint16_little_endian
              (file_io_handle.read file_offset 4096).2 10 },
          io_handle⟩
      else if byte_stream_copy_to_uint32_little_endian
          ((file_io_handle.read file_offset 4096).2.drop 64) 4 ≠ 1 then
        some ⟨-1, libbde_metadata_read_headers metadata (file_io_handle.read file_offset 4096).2,
          io_handle⟩
      else if ¬ libbde_metadata_read_checks
          (libbde_metadata_read_back_fill C io_handle
            (byte_stream_copy_to_uint64_little_endian (file_io_handle.read file_offset 4096).2 40)
            (byte_stream_copy_to_uint64_little_endian (file_io_handle.read file_offset 4096).2 48))
          (file_io_handle.read file_offset 4096).2 then
        some ⟨-1, libbde_metadata_read_headers metadata (file_io_handle.read file_offset 4096).2,
          libbde_metadata_read_back_fill C io_handle
            (byte_stream_copy_to_uint64_little_endian (file_io_handle.read file_offset 4096).2 40)
            (byte_stream_copy_to_uint64_little_endian
              (file_io_handle.read file_offset 4096).2 48)⟩
      else
        match libbde_metadata_read_entries C fuel
            (((file_io_handle.read file_offset 4096).2.drop 64).drop 48)
            (byte_stream_copy_to_uint32_little_endian
              ((file_io_handle.read file_offset 4096).2.drop 64) 0 - 48)
            (libbde_metadata_read_headers metadata (file_io_handle.read file_offset 4096).2) with
        | none => none
        | some (result, metadata) =>
          some ⟨result, metadata,
            libbde_metadata_read_back_fill C io_handle
              (byte_stream_copy_to_uint64_little_endian
                (file_io_handle.read file_offset 4096).2 40)
              (byte_stream_copy_to_uint64_little_endian
                (file_io_handle.read file_offset 4096).2 48)⟩ := by
  by_cases c1 : file_io_handle.seek_offset file_offset = -1
  · simp [libbde_metadata_read, c1]
  by_cases c2 : (file_io_handle.read file_offset 4096).1 = 4096
  swap
  · simp [libbde_metadata_read, c1, c2]
  by_cases c3 : bytes_at (file_io_handle.read file_offset 4096).2 0 8 = bde_signature
  swap
  · simp [libbde_metadata_read, c1, c2, c3, block_header]
  by_cases c4 : byte_stream_copy_to_uint16_little_endian
        (file_io_handle.read file_offset 4096).2 10 = 1
      ∨ byte_stream_copy_to_uint16_little_endian (file_io_handle.read file_offset 4096).2 10 = 2
  swap
  · have c4' := c4
    rw [not_or] at c4'
    simp [libbde_metadata_read, c1, c2, c3, c4, c4', block_header]
  have c4' : ¬ (byte_stream_copy_to_uint16_little_endian
        (file_io_handle.read file_offset 4096).2 10 ≠ 1
      ∧ byte_stream_copy_to_uint16_little_endian
        (file_io_handle.read file_offset 4096).2 10 ≠ 2) := by
    rcases c4 with c4 | c4 <;> simp [c4]
  by_cases c5 : byte_stream_copy_to_uint32_little_endian
      ((file_io_handle.read file_offset 4096).2.drop 64) 4 = 1
  swap
  · simp [libbde_metadata_read, c1, c2, c3, c4, c4', c5, block_header, metadata_header,
      sizeof_bde_metadata_block_header_v1_t, libbde_metadata_read_headers]
  by_cases c6 : libbde_metadata_read_checks
      (libbde_metadata_read_back_fill C io_handle
        (byte_stream_copy_to_uint64_little_endian (file_io_handle.read file_offset 4096).2 40)
        (byte_stream_copy_to_uint64_little_endian (file_io_handle.read file_offset 4096).2 48))
      (file_io_handle.read file_offset 4096).2
  · rw [if_neg (by simp [c1, c2, c3]), if_neg (by simp [c4]), if_neg (by simp [c5]),
      if_neg (by simp [c6])]
    obtain ⟨k1, k2, k3, k4, k5, k6, k7⟩ := c6
    have k6' : ¬ byte_stream_copy_to_uint32_little_endian
        ((file_io_handle.read file_offset 4096).2.drop 64) 0 < 48 := by omega
    have k7' : ¬ 4032 < byte_stream_copy_to_uint32_little_endian
        ((file_io_handle.read file_offset 4096).2.drop 64) 0 := by omega
    simp [libbde_metadata_read, c1, c2, c3, c4, c4', c5, block_header, metadata_header,
      sizeof_bde_metadata_block_header_v1_t, sizeof_bde_metadata_header_v1_t,
      libbde_metadata_read_headers, k1, k2, k3, k4, k6', k7', ← k5]
  · rw [if_neg (by simp [c1, c2, c3]), if_neg (by simp [c4]), if_neg (by simp [c5]),
      if_pos (by simp [c6])]
    simp only [libbde_metadata_read_checks] at c6
    simp only [libbde_metadata_read, c1, c2, c4', c5, block_header, metadata_header,
      sizeof_bde_metadata_block_header_v1_t, sizeof_bde_metadata_header_v1_t,
      libbde_metadata_read_headers, if_false, ne_eq, not_true_eq_false, not_false_eq_true,
      Nat.cast_ofNat, c3]
    split_ifs <;> first
      | rfl
      | (exfalso; apply c6
         refine ⟨?_, ?_, ?_, ?_, ?_, ?_, ?_⟩ <;> first | assumption | omega)

/-- Loop invariants of the entry loop: a property of the metadata set that
every handled entry preserves holds of the metadata set with which the loop
is left, on the success and on the error exit. -/
theorem libbde_metadata_read_entries_invariant (C : Collaborators)
    (I : libbde_metadata → Prop)
    (hstep : ∀ (m : libbde_metadata) (e : libbde_metadata_entry) (m1 : libbde_metadata),
      I m → libbde_metadata_read_entry_switch C m e = some m1 →
      I { m1 with entries_array := m1.entries_array ++ [e] }) :
    ∀ (fuel : Nat) (fve_metadata : List Byte) (metadata_size : Nat)
      (m : libbde_metadata) (result : Int) (m' : libbde_metadata),
      I m →
      libbde_metadata_read_entries C fuel fve_metadata metadata_size m = some (result, m') →
      I m' := by
  intro fuel
  induction fuel with
  | zero =>
    intro fve_metadata metadata_size m result m' hI h
    simp only [libbde_metadata_read_entries] at h
    split_ifs at h
    simp only [Option.some.injEq, Prod.mk.injEq] at h
    rw [← h.2]; exact hI
  | succ fuel ih =>
    intro fve_metadata metadata_size m result m' hI h
    simp only [libbde_metadata_read_entries] at h
    split_ifs at h
    · split at h
      · simp only [Option.some.injEq, Prod.mk.injEq] at h
        rw [← h.2]; exact hI
      · split at h
        · simp only [Option.some.injEq, Prod.mk.injEq] at h
          rw [← h.2]; exact hI
        · rename_i hswitch
          exact ih _ _ _ _ _ (hstep _ _ _ hI hswitch) h
    · simp only [Option.some.injEq, Prod.mk.injEq] at h
      rw [← h.2]; exact hI

/-- The switch of the entry loop changes only the three projections and
`volume_header_size`. -/
theorem libbde_metadata_read_entry_switch_frame (C : Collaborators)
    (m : libbde_metadata) (e : libbde_metadata_entry) (m1 : libbde_metadata)
    (h : libbde_metadata_read_entry_switch C m e = some m1) :
    m1.version = m.version
    ∧ m1.mft_mirror_cluster_block_number = m.mft_mirror_cluster_block_number
    ∧ m1.volume_size = m.volume_size
    ∧ m1.volume_header_offset = m.volume_header_offset
    ∧ m1.volume_identifier = m.volume_identifier
    ∧ m1.encryption_method = m.encryption_method
    ∧ m1.creation_time = m.creation_time
    ∧ m1.entries_array = m.entries_array := by
  simp only [libbde_metadata_read_entry_switch] at h
  repeat' split at h
  all_goals first
    | (simp only [Option.some.injEq] at h; subst h
       exact ⟨rfl, rfl, rfl, rfl, rfl, rfl, rfl, rfl⟩)
    | (exact absurd h (by simp))

/-- The entry loop changes only the three projections, `volume_header_size` and
the entries array. -/
theorem libbde_metadata_read_entries_frame (C : Collaborators) (fuel : Nat)
    (fve_metadata : List Byte) (metadata_size : Nat) (m : libbde_metadata) (result : Int)
    (m' : libbde_metadata)
    (h : libbde_metadata_read_entries C fuel fve_metadata metadata_size m = some (result, m')) :
    m'.version = m.version
    ∧ m'.mft_mirror_cluster_block_number = m.mft_mirror_cluster_block_number
    ∧ m'.volume_size = m.volume_size
    ∧ m'.volume_header_offset = m.volume_header_offset
    ∧ m'.volume_identifier = m.volume_identifier
    ∧ m'.encryption_method = m.encryption_method
    ∧ m'.creation_time = m.creation_time := by
  refine libbde_metadata_read_entries_invariant C
    (fun x => x.version = m.version
      ∧ x.mft_mirror_cluster_block_number = m.mft_mirror_cluster_block_number
      ∧ x.volume_size = m.volume_size
      ∧ x.volume_header_offset = m.volume_header_offset
      ∧ x.volume_identifier = m.volume_identifier
      ∧ x.encryption_method = m.encryption_method
      ∧ x.creation_time = m.creation_time) ?_ fuel fve_metadata metadata_size m result m'
    ⟨rfl, rfl, rfl, rfl, rfl, rfl, rfl⟩ h
  intro x e x1 hx hs
  obtain ⟨f1, f2, f3, f4, f5, f6, f7, _⟩ := libbde_metadata_read_entry_switch_frame C x e x1 hs
  obtain ⟨g1, g2, g3, g4, g5, g6, g7⟩ := hx
  exact ⟨f1.trans g1, f2.trans g2, f3.trans g3, f4.trans g4, f5.trans g5, f6.trans g6,
    f7.trans g7⟩

/-- What a return value of 1 of `libbde_metadata_read` tells: the reader
delivered a block with the signature, both versions are supported, the checks
of lines 787-853 passed on the back-filled handle, which is the handle left,
and the entry loop ended with 1 on the metadata set left. -/
theorem libbde_metadata_read_returns_one {C : Collaborators} {fuel : Nat}
    {metadata : libbde_metadata} {io_handle : libbde_io_handle}
    {file_io_handle : libbfio_handle} {file_offset : Int}
    {r : libbde_metadata_read_result}
    (h : libbde_metadata_read C fuel metadata io_handle file_io_handle file_offset = some r)
    (h1 : r.result = 1) :
    (file_io_handle.seek_offset file_offset ≠ -1
      ∧ (file_io_handle.read file_offset 4096).1 = 4096
      ∧ bytes_at (file_io_handle.read file_offset 4096).2 0 8 = bde_signature)
    ∧ (byte_stream_copy_to_uint16_little_endian (file_io_handle.read file_offset 4096).2 10 = 1
      ∨ byte_stream_copy_to_uint16_little_endian (file_io_handle.read file_offset 4096).2 10 = 2)
    ∧ byte_stream_copy_to_uint32_little_endian
        ((file_io_handle.read file_offset 4096).2.drop 64) 4 = 1
    ∧ libbde_metadata_read_checks r.io_handle (file_io_handle.read file_offset 4096).2
    ∧ r.io_handle = libbde_metadata_read_back_fill C io_handle
        (byte_stream_copy_to_uint64_little_endian (file_io_handle.read file_offset 4096).2 40)
        (byte_stream_copy_to_uint64_little_endian (file_io_handle.read file_offset 4096).2 48)
    ∧ libbde_metadata_read_entries C fuel
        (((file_io_handle.read file_offset 4096).2.drop 64).drop 48)
        (byte_stream_copy_to_uint32_little_endian
          ((file_io_handle.read file_offset 4096).2.drop 64) 0 - 48)
        (libbde_metadata_read_headers metadata (file_io_handle.read file_offset 4096).2)
      = some (1, r.metadata) := by
  have hne : ∀ (m : libbde_metadata) (i : libbde_io_handle),
      some (libbde_metadata_read_result.mk (-1) m i) = some r → False := by
    intro m i e
    simp only [Option.some.injEq] at e
    rw [← e] at h1
    have h2 : (-1 : Int) = 1 := h1
    exact absurd h2 (by decide)
  rw [libbde_metadata_read_stages] at h
  by_cases c1 : file_io_handle.seek_offset file_offset = -1
      ∨ (file_io_handle.read file_offset 4096).1 ≠ 4096
      ∨ bytes_at (file_io_handle.read file_offset 4096).2 0 8 ≠ bde_signature
  · rw [if_pos c1] at h; exact (hne _ _ h).elim
  rw [if_neg c1] at h
  by_cases c2 : byte_stream_copy_to_uint16_little_endian
        (file_io_handle.read file_offset 4096).2 10 = 1
      ∨ byte_stream_copy_to_uint16_little_endian (file_io_handle.read file_offset 4096).2 10 = 2
  swap
  · rw [if_pos c2] at h; exact (hne _ _ h).elim
  rw [if_neg (not_not.mpr c2)] at h
  by_cases c3 : byte_stream_copy_to_uint32_little_endian
      ((file_io_handle.read file_offset 4096).2.drop 64) 4 = 1
  swap
  · rw [if_pos c3] at h; exact (hne _ _ h).elim
  rw [if_neg (not_not.mpr c3)] at h
  by_cases c4 : libbde_metadata_read_checks
      (libbde_metadata_read_back_fill C io_handle
        (byte_stream_copy_to_uint64_little_endian (file_io_handle.read file_offset 4096).2 40)
        (byte_stream_copy_to_uint64_little_endian (file_io_handle.read file_offset 4096).2 48))
      (file_io_handle.read file_offset 4096).2
  swap
  · rw [if_pos c4] at h; exact (hne _ _ h).elim
  rw [if_neg (not_not.mpr c4)] at h
  simp only [not_or, not_not] at c1
  split at h
  · exact absurd h (by simp)
  · rename_i result m' hloop
    simp only [Option.some.injEq] at h
    subst h
    simp only at h1
    subst h1
    exact ⟨c1, c2, c3, c4, rfl, hloop⟩

/-- C7. `libbde_metadata_read` returns -1 for every block whose first 8 bytes
differ from the signature bytes 2D 46 56 45 2D 46 53 2D ("-FVE-FS-"), whatever
the rest of the block, the metadata set, the handle and the reader are. -/
theorem read_rejects_bad_signature (C : Collaborators) (fuel : Nat)
    (metadata : libbde_metadata) (io_handle : libbde_io_handle)
    (file_io_handle : libbfio_handle) (file_offset : Int)
    (hsignature : bytes_at (file_io_handle.read file_offset 4096).2 0 8
      ≠ [0x2d, 0x46, 0x56, 0x45, 0x2d, 0x46, 0x53, 0x2d]) :
    ∃ r, libbde_metadata_read C fuel metadata io_handle file_io_handle file_offset = some r
      ∧ r.result = -1 := by
  have hsig : bytes_at (file_io_handle.read file_offset 4096).2 0 8 ≠ bde_signature :=
    hsignature
  rw [libbde_metadata_read_stages, if_pos (Or.inr (Or.inr hsig))]
  exact ⟨_, rfl, rfl⟩

/-- C7 on a sample: a block that is well formed except for the last byte of its
signature is rejected. -/
theorem read_rejects_bad_signature_witness :
    ∃ r, libbde_metadata_read sample_collaborators 0 libbde_metadata_cleared
        (sample_io_handle 0 0) (sample_file (sample_block sample_fields_bad_signature))
        0x2100000 = some r
      ∧ r.result = -1 :=
  read_rejects_bad_signature sample_collaborators 0 libbde_metadata_cleared
    (sample_io_handle 0 0) (sample_file (sample_block sample_fields_bad_signature)) 0x2100000
    (by decide)

/-- C8. `libbde_metadata_read` returns -1 whenever the 16-bit version of the block
header is neither 1 nor 2; when it returns 1 on a version 1 block, the metadata
set's `mft_mirror_cluster_block_number` is the 64-bit value of the block header's
`mft_mirror_cluster_block` field, and when it returns 1 on a version 2 block,
`volume_size` and `volume_header_offset` are the 64-bit values of the block
header fields of these names. -/
theorem read_block_header_version (C : Collaborators) (fuel : Nat)
    (metadata : libbde_metadata) (io_handle : libbde_io_handle)
    (file_io_handle : libbfio_handle) (file_offset : Int) :
    ((byte_stream_copy_to_uint16_little_endian (file_io_handle.read file_offset 4096).2
          block_header.version ≠ 1
        ∧ byte_stream_copy_to_uint16_little_endian (file_io_handle.read file_offset 4096).2
          block_header.version ≠ 2) →
      ∃ r, libbde_metadata_read C fuel metadata io_handle file_io_handle file_offset = some r
        ∧ r.result = -1) ∧
    (∀ r, libbde_metadata_read C fuel metadata io_handle file_io_handle file_offset = some r →
      r.result = 1 →
      (byte_stream_copy_to_uint16_little_endian (file_io_handle.read file_offset 4096).2
          block_header.version = 1 →
        r.metadata.version = 1
        ∧ r.metadata.mft_mirror_cluster_block_number
          = byte_stream_copy_to_uint64_little_endian (file_io_handle.read file_offset 4096).2
              block_header.mft_mirror_cluster_block) ∧
      (byte_stream_copy_to_uint16_little_endian (file_io_handle.read file_offset 4096).2
          block_header.version = 2 →
        r.metadata.version = 2
        ∧ r.metadata.volume_size
          = byte_stream_copy_to_uint64_little_endian (file_io_handle.read file_offset 4096).2
              block_header.volume_size
        ∧ r.metadata.volume_header_offset
          = byte_stream_copy_to_uint64_little_endian (file_io_handle.read file_offset 4096).2
              block_header.volume_header_offset)) := by
  simp only [block_header]
  constructor
  · intro hversion
    rw [libbde_metadata_read_stages]
    by_cases c1 : file_io_handle.seek_offset file_offset = -1
        ∨ (file_io_handle.read file_offset 4096).1 ≠ 4096
        ∨ bytes_at (file_io_handle.read file_offset 4096).2 0 8 ≠ bde_signature
    · rw [if_pos c1]; exact ⟨_, rfl, rfl⟩
    · rw [if_neg c1, if_pos (not_or.mpr hversion)]; exact ⟨_, rfl, rfl⟩
  · intro r h h1
    obtain ⟨-, -, -, -, -, hloop⟩ := libbde_metadata_read_returns_one h h1
    obtain ⟨f1, f2, f3, f4, -, -, -⟩ :=
      libbde_metadata_read_entries_frame C fuel _ _ _ _ _ hloop
    constructor
    · intro hv
      rw [f1, f2]
      simp [libbde_metadata_read_headers, libbde_metadata_read_metadata_header,
        libbde_metadata_read_block_header, block_header, hv]
    · intro hv
      rw [f1, f3, f4]
      simp [libbde_metadata_read_headers, libbde_metadata_read_metadata_header,
        libbde_metadata_read_block_header, block_header, hv]

/-- C8 on a sample: a well-formed version 1 block is read with result 1 and its
`mft_mirror_cluster_block` field, 0x123456789, is stored in the metadata set. -/
theorem read_block_header_version_witness :
    libbde_metadata_read sample_collaborators 0 libbde_metadata_cleared
        (sample_io_handle 0 0) (sample_file (sample_block sample_fields_vista)) 0x2100000
      = some ⟨1, sample_metadata_vista, sample_io_handle 0 0⟩
    ∧ sample_metadata_vista.version = 1
    ∧ sample_metadata_vista.mft_mirror_cluster_block_number
      = byte_stream_copy_to_uint64_little_endian
          ((sample_file (sample_block sample_fields_vista)).read 0x2100000 4096).2
          block_header.mft_mirror_cluster_block :=
  ⟨by decide,
    ((read_block_header_version sample_collaborators 0 libbde_metadata_cleared
      (sample_io_handle 0 0) (sample_file (sample_block sample_fields_vista)) 0x2100000).2
      ⟨1, sample_metadata_vista, sample_io_handle 0 0⟩ (by decide) (by decide)).1 (by decide)⟩

/-- C9. `libbde_metadata_read` returns -1 whenever, after the Vista back-fill, one of
the three 64-bit metadata offsets of the block header differs from the first,
second or third metadata offset cached in the handle; when it returns 1, the
handle left is the back-filled one and the three offsets of the block header
equal its cached triplet. -/
theorem read_metadata_offsets (C : Collaborators) (fuel : Nat)
    (metadata : libbde_metadata) (io_handle : libbde_io_handle)
    (file_io_handle : libbfio_handle) (file_offset : Int) :
    (((libbde_metadata_read_back_fill C io_handle
            (byte_stream_copy_to_uint64_little_endian (file_io_handle.read file_offset 4096).2
              block_header.second_metadata_offset)
            (byte_stream_copy_to_uint64_little_endian (file_io_handle.read file_offset 4096).2
              block_header.third_metadata_offset)).first_metadata_offset
          ≠ byte_stream_copy_to_uint64_little_endian (file_io_handle.read file_offset 4096).2
              block_header.first_metadata_offset
        ∨ (libbde_metadata_read_back_fill C io_handle
            (byte_stream_copy_to_uint64_little_endian (file_io_handle.read file_offset 4096).2
              block_header.second_metadata_offset)
            (byte_stream_copy_to_uint64_little_endian (file_io_handle.read file_offset 4096).2
              block_header.third_metadata_offset)).second_metadata_offset
          ≠ byte_stream_copy_to_uint64_little_endian (file_io_handle.read file_offset 4096).2
              block_header.second_metadata_offset
        ∨ (libbde_metadata_read_back_fill C io_handle
            (byte_stream_copy_to_uint64_little_endian (file_io_handle.read file_offset 4096).2
              block_header.second_metadata_offset)
            (byte_stream_copy_to_uint64_little_endian (file_io_handle.read file_offset 4096).2
              block_header.third_metadata_offset)).third_metadata_offset
          ≠ byte_stream_copy_to_uint64_little_endian (file_io_handle.read file_offset 4096).2
              block_header.third_metadata_offset) →
      ∃ r, libbde_metadata_read C fuel metadata io_handle file_io_handle file_offset = some r
        ∧ r.result = -1) ∧
    (∀ r, libbde_metadata_read C fuel metadata io_handle file_io_handle file_offset = some r →
      r.result = 1 →
      r.io_handle = libbde_metadata_read_back_fill C io_handle
          (byte_stream_copy_to_uint64_little_endian (file_io_handle.read file_offset 4096).2
            block_header.second_metadata_offset)
          (byte_stream_copy_to_uint64_little_endian (file_io_handle.read file_offset 4096).2
            block_header.third_metadata_offset)
      ∧ byte_stream_copy_to_uint64_little_endian (file_io_handle.read file_offset 4096).2
          block_header.first_metadata_offset = r.io_handle.first_metadata_offset
      ∧ byte_stream_copy_to_uint64_little_endian (file_io_handle.read file_offset 4096).2
          block_header.second_metadata_offset = r.io_handle.second_metadata_offset
      ∧ byte_stream_copy_to_uint64_little_endian (file_io_handle.read file_offset 4096).2
          block_header.third_metadata_offset = r.io_handle.third_metadata_offset) := by
  simp only [block_header]
  constructor
  · intro hmismatch
    have hchecks : ¬ libbde_metadata_read_checks
        (libbde_metadata_read_back_fill C io_handle
          (byte_stream_copy_to_uint64_little_endian (file_io_handle.read file_offset 4096).2 40)
          (byte_stream_copy_to_uint64_little_endian (file_io_handle.read file_offset 4096).2 48))
        (file_io_handle.read file_offset 4096).2 := by
      intro hc
      obtain ⟨k1, k2, k3, -⟩ := hc
      rcases hmismatch with h | h | h
      · exact h k1
      · exact h k2
      · exact h k3
    rw [libbde_metadata_read_stages]
    by_cases c1 : file_io_handle.seek_offset file_offset = -1
        ∨ (file_io_handle.read file_offset 4096).1 ≠ 4096
        ∨ bytes_at (file_io_handle.read file_offset 4096).2 0 8 ≠ bde_signature
    · rw [if_pos c1]; exact ⟨_, rfl, rfl⟩
    rw [if_neg c1]
    by_cases c2 : ¬ (byte_stream_copy_to_uint16_little_endian
          (file_io_handle.read file_offset 4096).2 10 = 1
        ∨ byte_stream_copy_to_uint16_little_endian
          (file_io_handle.read file_offset 4096).2 10 = 2)
    · rw [if_pos c2]; exact ⟨_, rfl, rfl⟩
    rw [if_neg c2]
    by_cases c3 : byte_stream_copy_to_uint32_little_endian
        ((file_io_handle.read file_offset 4096).2.drop 64) 4 ≠ 1
    · rw [if_pos c3]; exact ⟨_, rfl, rfl⟩
    rw [if_neg c3, if_pos hchecks]; exact ⟨_, rfl, rfl⟩
  · intro r h h1
    obtain ⟨-, -, -, hchecks, hio, -⟩ := libbde_metadata_read_returns_one h h1
    obtain ⟨k1, k2, k3, -⟩ := hchecks
    exact ⟨hio, k1.symm, k2.symm, k3.symm⟩

/-- C9 on a sample: a Windows Vista handle that caches only the first metadata
offset reads a well-formed block with result 1, and afterwards its three cached
offsets are those of the block header. -/
theorem read_metadata_offsets_witness :
    libbde_metadata_read sample_collaborators 0 libbde_metadata_cleared
        sample_io_handle_vista (sample_file (sample_block sample_fields_vista)) 0x2100000
      = some ⟨1, sample_metadata_vista,
          { sample_io_handle_vista with
            second_metadata_offset := 0x2200000
            third_metadata_offset := 0x2300000 }⟩
    ∧ byte_stream_copy_to_uint64_little_endian
        ((sample_file (sample_block sample_fields_vista)).read 0x2100000 4096).2
        block_header.second_metadata_offset = 0x2200000
    ∧ byte_stream_copy_to_uint64_little_endian
        ((sample_file (sample_block sample_fields_vista)).read 0x2100000 4096).2
        block_header.third_metadata_offset = 0x2300000 :=
  ⟨by decide,
    ((read_metadata_offsets sample_collaborators 0 libbde_metadata_cleared
      sample_io_handle_vista (sample_file (sample_block sample_fields_vista)) 0x2100000).2
      ⟨1, sample_metadata_vista,
        { sample_io_handle_vista with
          second_metadata_offset := 0x2200000
          third_metadata_offset := 0x2300000 }⟩ (by decide) (by decide)).2.2⟩

/-- C10. `libbde_metadata_read` accepts the `metadata_size` field exactly in the
closed range from 48 to 4032 (4096 - 64): a value below 48 or above 4032 makes it
return -1; and when all the other checks pass, every value from 48 to 4032,
the two bounds included, passes the size check, so that the result is the one
of the entry loop, which for the value 48 is 1. -/
theorem read_metadata_size_range (C : Collaborators) (fuel : Nat)
    (metadata : libbde_metadata) (io_handle : libbde_io_handle)
    (file_io_handle : libbfio_handle) (file_offset : Int) :
    ((byte_stream_copy_to_uint32_little_endian
          ((file_io_handle.read file_offset 4096).2.drop 64) metadata_header.metadata_size < 48
        ∨ 4032 < byte_stream_copy_to_uint32_little_endian
          ((file_io_handle.read file_offset 4096).2.drop 64) metadata_header.metadata_size) →
      ∃ r, libbde_metadata_read C fuel metadata io_handle file_io_handle file_offset = some r
        ∧ r.result = -1) ∧
    (file_io_handle.seek_offset file_offset ≠ -1 →
      (file_io_handle.read file_offset 4096).1 = 4096 →
      bytes_at (file_io_handle.read file_offset 4096).2 0 8 = bde_signature →
      (byte_stream_copy_to_uint16_little_endian (file_io_handle.read file_offset 4096).2
          block_header.version = 1
        ∨ byte_stream_copy_to_uint16_little_endian (file_io_handle.read file_offset 4096).2
          block_header.version = 2) →
      byte_stream_copy_to_uint32_little_endian
        ((file_io_handle.read file_offset 4096).2.drop 64) metadata_header.version = 1 →
      (libbde_metadata_read_back_fill C io_handle
          (byte_stream_copy_to_uint64_little_endian (file_io_handle.read file_offset 4096).2
            block_header.second_metadata_offset)
          (byte_stream_copy_to_uint64_little_endian (file_io_handle.read file_offset 4096).2
            block_header.third_metadata_offset)).first_metadata_offset
        = byte_stream_copy_to_uint64_little_endian (file_io_handle.read file_offset 4096).2
            block_header.first_metadata_offset →
      (libbde_metadata_read_back_fill C io_handle
          (byte_stream_copy_to_uint64_little_endian (file_io_handle.read file_offset 4096).2
            block_header.second_metadata_offset)
          (byte_stream_copy_to_uint64_little_endian (file_io_handle.read file_offset 4096).2
            block_header.third_metadata_offset)).second_metadata_offset
        = byte_stream_copy_to_uint64_little_endian (file_io_handle.read file_offset 4096).2
            block_header.second_metadata_offset →
      (libbde_metadata_read_back_fill C io_handle
          (byte_stream_copy_to_uint64_little_endian (file_io_handle.read file_offset 4096).2
            block_header.second_metadata_offset)
          (byte_stream_copy_to_uint64_little_endian (file_io_handle.read file_offset 4096).2
            block_header.third_metadata_offset)).third_metadata_offset
        = byte_stream_copy_to_uint64_little_endian (file_io_handle.read file_offset 4096).2
            block_header.third_metadata_offset →
      byte_stream_copy_to_uint32_little_endian
        ((file_io_handle.read file_offset 4096).2.drop 64)
        metadata_header.metadata_header_size = 48 →
      byte_stream_copy_to_uint32_little_endian
          ((file_io_handle.read file_offset 4096).2.drop 64) metadata_header.metadata_size
        = byte_stream_copy_to_uint32_little_endian
          ((file_io_handle.read file_offset 4096).2.drop 64)
          metadata_header.metadata_size_copy →
      48 ≤ byte_stream_copy_to_uint32_little_endian
        ((file_io_handle.read file_offset 4096).2.drop 64) metadata_header.metadata_size →
      byte_stream_copy_to_uint32_little_endian
        ((file_io_handle.read file_offset 4096).2.drop 64) metadata_header.metadata_size
        ≤ 4032 →
      libbde_metadata_read C fuel metadata io_handle file_io_handle file_offset
        = (libbde_metadata_read_entries C fuel
            (((file_io_handle.read file_offset 4096).2.drop 64).drop 48)
            (byte_stream_copy_to_uint32_little_endian
              ((file_io_handle.read file_offset 4096).2.drop 64)
              metadata_header.metadata_size - 48)
            (libbde_metadata_read_headers metadata (file_io_handle.read file_offset 4096).2)).map
          (fun p => ⟨p.1, p.2,
            libbde_metadata_read_back_fill C io_handle
              (byte_stream_copy_to_uint64_little_endian
                (file_io_handle.read file_offset 4096).2 block_header.second_metadata_offset)
              (byte_stream_copy_to_uint64_little_endian
                (file_io_handle.read file_offset 4096).2 block_header.third_metadata_offset)⟩)
      ∧ (byte_stream_copy_to_uint32_little_endian
            ((file_io_handle.read file_offset 4096).2.drop 64) metadata_header.metadata_size
          = 48 →
        ∃ r, libbde_metadata_read C fuel metadata io_handle file_io_handle file_offset = some r
          ∧ r.result = 1)) := by
  simp only [block_header, metadata_header]
  constructor
  · intro hsize
    have hchecks : ¬ libbde_metadata_read_checks
        (libbde_metadata_read_back_fill C io_handle
          (byte_stream_copy_to_uint64_little_endian (file_io_handle.read file_offset 4096).2 40)
          (byte_stream_copy_to_uint64_little_endian (file_io_handle.read file_offset 4096).2 48))
        (file_io_handle.read file_offset 4096).2 := by
      intro hc
      obtain ⟨-, -, -, -, -, k6, k7⟩ := hc
      omega
    rw [libbde_metadata_read_stages]
    by_cases c1 : file_io_handle.seek_offset file_offset = -1
        ∨ (file_io_handle.read file_offset 4096).1 ≠ 4096
        ∨ bytes_at (file_io_handle.read file_offset 4096).2 0 8 ≠ bde_signature
    · rw [if_pos c1]; exact ⟨_, rfl, rfl⟩
    rw [if_neg c1]
    by_cases c2 : ¬ (byte_stream_copy_to_uint16_little_endian
          (file_io_handle.read file_offset 4096).2 10 = 1
        ∨ byte_stream_copy_to_uint16_little_endian
          (file_io_handle.read file_offset 4096).2 10 = 2)
    · rw [if_pos c2]; exact ⟨_, rfl, rfl⟩
    rw [if_neg c2]
    by_cases c3 : byte_stream_copy_to_uint32_little_endian
        ((file_io_handle.read file_offset 4096).2.drop 64) 4 ≠ 1
    · rw [if_pos c3]; exact ⟨_, rfl, rfl⟩
    rw [if_neg c3, if_pos hchecks]; exact ⟨_, rfl, rfl⟩
  · intro hseek hcount hsig hv16 hv32 k1 k2 k3 k4 k5 k6 k7
    have heq : libbde_metadata_read C fuel metadata io_handle file_io_handle file_offset
        = (libbde_metadata_read_entries C fuel
            (((file_io_handle.read file_offset 4096).2.drop 64).drop 48)
            (byte_stream_copy_to_uint32_little_endian
              ((file_io_handle.read file_offset 4096).2.drop 64) 0 - 48)
            (libbde_metadata_read_headers metadata (file_io_handle.read file_offset 4096).2)).map
          (fun p => ⟨p.1, p.2,
            libbde_metadata_read_back_fill C io_handle
              (byte_stream_copy_to_uint64_little_endian
                (file_io_handle.read file_offset 4096).2 40)
              (byte_stream_copy_to_uint64_little_endian
                (file_io_handle.read file_offset 4096).2 48)⟩) := by
      rw [libbde_metadata_read_stages, if_neg (by simp [hseek, hcount, hsig]),
        if_neg (not_not.mpr hv16), if_neg (not_not.mpr hv32),
        if_neg (not_not.mpr ⟨k1, k2, k3, k4, k5, k6, k7⟩)]
      cases libbde_metadata_read_entries C fuel
          (((file_io_handle.read file_offset 4096).2.drop 64).drop 48)
          (byte_stream_copy_to_uint32_little_endian
            ((file_io_handle.read file_offset 4096).2.drop 64) 0 - 48)
          (libbde_metadata_read_headers metadata (file_io_handle.read file_offset 4096).2)
        <;> rfl
    refine ⟨heq, ?_⟩
    intro h48
    rw [heq, h48]
    cases fuel <;>
      simp [libbde_metadata_read_entries, sizeof_bde_metadata_header_v1_t]

/-- C10 on a sample: a block whose `metadata_size` is 4032 passes the size check,
its result is the one of the entry loop, and with one entry of 3936 bytes in
the payload that result is 1. -/
theorem read_metadata_size_range_witness :
    byte_stream_copy_to_uint32_little_endian
        (((sample_file (sample_block sample_fields_largest)).read 0x2100000 4096).2.drop 64)
        metadata_header.metadata_size = 4032
    ∧ libbde_metadata_read sample_collaborators 1 libbde_metadata_cleared
        (sample_io_handle 0 0) (sample_file (sample_block sample_fields_largest)) 0x2100000
      = (libbde_metadata_read_entries sample_collaborators 1
          ((((sample_file (sample_block sample_fields_largest)).read
            0x2100000 4096).2.drop 64).drop 48)
          (byte_stream_copy_to_uint32_little_endian
            (((sample_file (sample_block sample_fields_largest)).read
              0x2100000 4096).2.drop 64)
            metadata_header.metadata_size - 48)
          (libbde_metadata_read_headers libbde_metadata_cleared
            ((sample_file (sample_block sample_fields_largest)).read 0x2100000 4096).2)).map
        (fun p => ⟨p.1, p.2,
          libbde_metadata_read_back_fill sample_collaborators (sample_io_handle 0 0)
            (byte_stream_copy_to_uint64_little_endian
              ((sample_file (sample_block sample_fields_largest)).read 0x2100000 4096).2
              block_header.second_metadata_offset)
            (byte_stream_copy_to_uint64_little_endian
              ((sample_file (sample_block sample_fields_largest)).read 0x2100000 4096).2
              block_header.third_metadata_offset)⟩)
    ∧ (libbde_metadata_read sample_collaborators 1 libbde_metadata_cleared
        (sample_io_handle 0 0) (sample_file (sample_block sample_fields_largest))
        0x2100000).map (fun r => r.result) = some 1 :=
  ⟨by decide,
    ((read_metadata_size_range sample_collaborators 1 libbde_metadata_cleared
      (sample_io_handle 0 0) (sample_file (sample_block sample_fields_largest)) 0x2100000).2
      (by decide) (by decide) (by decide) (by decide) (by decide) (by decide) (by decide)
      (by decide) (by decide) (by decide) (by decide) (by decide)).1,
    by decide⟩

/-- C5, counterexample. A block that is well formed in everything else and whose
metadata header carries the encryption method 0x1234 is read with result 1,
and 0x1234, which is none of 0x8000 to 0x8005, is stored in the metadata set. -/
theorem read_accepts_unknown_encryption_method :
    libbde_metadata_read sample_collaborators 0 libbde_metadata_cleared
        (sample_io_handle 0 0) (sample_file (sample_block sample_fields_unknown_method))
        0x2100000
      = some ⟨1, sample_metadata_unknown_method, sample_io_handle 0 0⟩
    ∧ sample_metadata_unknown_method.encryption_method = 0x1234
    ∧ sample_metadata_unknown_method.encryption_method
        ∉ [0x8000, 0x8001, 0x8002, 0x8003, 0x8004, 0x8005] := by
  decide

/-- C6, counterexample. On a Windows Vista handle that caches only the first
offset, a block whose `metadata_size_copy` differs from its `metadata_size`
makes `libbde_metadata_read` return -1, yet the metadata set, cleared before
the call, holds the header fields of the block afterwards and the second and
third cached offsets of the handle have been filled in. -/
theorem read_commits_before_failing :
    libbde_metadata_read sample_collaborators 0 libbde_metadata_cleared
        sample_io_handle_vista (sample_file (sample_block sample_fields_size_mismatch))
        0x2100000
      = some ⟨-1, sample_metadata_vista,
          { sample_io_handle_vista with
            second_metadata_offset := 0x2200000
            third_metadata_offset := 0x2300000 }⟩
    ∧ sample_metadata_vista ≠ libbde_metadata_cleared
    ∧ ({ sample_io_handle_vista with
          second_metadata_offset := 0x2200000
          third_metadata_offset := 0x2300000 } : libbde_io_handle).second_metadata_offset
        ≠ sample_io_handle_vista.second_metadata_offset := by
  decide

/-- The Vista back-fill leaves the cached first metadata offset as it is. -/
theorem libbde_metadata_read_back_fill_first (C : Collaborators)
    (io_handle : libbde_io_handle) (second third : Nat) :
    (libbde_metadata_read_back_fill C io_handle second third).first_metadata_offset
      = io_handle.first_metadata_offset := by
  simp only [libbde_metadata_read_back_fill]
  split_ifs <;> rfl

/-- C6, amended. `libbde_metadata_read` returns -1 and leaves the metadata set and
the handle as they were when the seek fails, when the reader does not deliver
4096 bytes or when the signature differs.  Whatever it returns, the handle
left is the one given or its Vista back-fill, and its first cached offset is
unchanged. -/
theorem read_unchanged_on_early_failure (C : Collaborators) (fuel : Nat)
    (metadata : libbde_metadata) (io_handle : libbde_io_handle)
    (file_io_handle : libbfio_handle) (file_offset : Int) :
    ((file_io_handle.seek_offset file_offset = -1
        ∨ (file_io_handle.read file_offset 4096).1 ≠ 4096
        ∨ bytes_at (file_io_handle.read file_offset 4096).2 block_header.signature 8
          ≠ bde_signature) →
      libbde_metadata_read C fuel metadata io_handle file_io_handle file_offset
        = some ⟨-1, metadata, io_handle⟩) ∧
    (∀ r, libbde_metadata_read C fuel metadata io_handle file_io_handle file_offset = some r →
      (r.io_handle = io_handle
        ∨ r.io_handle = libbde_metadata_read_back_fill C io_handle
          (byte_stream_copy_to_uint64_little_endian (file_io_handle.read file_offset 4096).2
            block_header.second_metadata_offset)
          (byte_stream_copy_to_uint64_little_endian (file_io_handle.read file_offset 4096).2
            block_header.third_metadata_offset))
      ∧ r.io_handle.first_metadata_offset = io_handle.first_metadata_offset) := by
  simp only [block_header]
  constructor
  · intro hearly
    rw [libbde_metadata_read_stages, if_pos hearly]
  · intro r h
    have key : r.io_handle = io_handle
        ∨ r.io_handle = libbde_metadata_read_back_fill C io_handle
          (byte_stream_copy_to_uint64_little_endian (file_io_handle.read file_offset 4096).2 40)
          (byte_stream_copy_to_uint64_little_endian
            (file_io_handle.read file_offset 4096).2 48) := by
      rw [libbde_metadata_read_stages] at h
      split_ifs at h <;> first
        | (cases h; exact Or.inl rfl)
        | (cases h; exact Or.inr rfl)
        | (split at h <;> first
            | (cases h; exact Or.inr rfl)
            | (cases h))
    refine ⟨key, ?_⟩
    rcases key with k | k
    · rw [k]
    · rw [k, libbde_metadata_read_back_fill_first]

/-- C6, amended, on a sample: with a wrong signature the cleared metadata set and
the handle come back unchanged. -/
theorem read_unchanged_on_early_failure_witness :
    libbde_metadata_read sample_collaborators 0 libbde_metadata_cleared
        sample_io_handle_vista (sample_file (sample_block sample_fields_bad_signature))
        0x2100000
      = some ⟨-1, libbde_metadata_cleared, sample_io_handle_vista⟩ :=
  (read_unchanged_on_early_failure sample_collaborators 0 libbde_metadata_cleared
    sample_io_handle_vista (sample_file (sample_block sample_fields_bad_signature))
    0x2100000).1 (Or.inr (Or.inr (by decide)))

/-- C4, the code on a failing input. The payload of the block, `metadata_size - 48`
= 44 bytes, is exactly one well-formed entry of 44 bytes (the FVEK entry), which
the entry reader would consume whole; `libbde_metadata_read` returns 1 without
decoding it: the loop is not entered because no more than 48 bytes remain, the
entries array stays empty and no FVEK envelope is set. -/
theorem read_skips_short_payload :
    byte_stream_copy_to_uint32_little_endian
        ((sample_block sample_fields_short_payload).drop 64) metadata_header.metadata_size
      = 48 + 44
    ∧ (spec_metadata_entry_read (((sample_block sample_fields_short_payload).drop 64).drop 48)
        44).map (fun p => (p.1.type, p.2)) = some (LIBBDE_ENTRY_TYPE_FULL_VOLUME_ENCRYPTION_KEY, 44)
    ∧ (libbde_metadata_read sample_collaborators 1 libbde_metadata_cleared
        (sample_io_handle 0 0) (sample_file (sample_block sample_fields_short_payload))
        0x2100000).map
          (fun r => (r.result, r.metadata.entries_array, r.metadata.full_volume_encryption_key))
      = some (1, [], none) := by
  decide

/-- Decoding the two headers changes neither the three projections nor the
entries array nor `volume_header_size`. -/
theorem libbde_metadata_read_headers_frame (m : libbde_metadata)
    (fve_metadata_block : List Byte) :
    (libbde_metadata_read_headers m fve_metadata_block).disk_password_volume_master_key
      = m.disk_password_volume_master_key
    ∧ (libbde_metadata_read_headers m fve_metadata_block).external_key_volume_master_key
      = m.external_key_volume_master_key
    ∧ (libbde_metadata_read_headers m fve_metadata_block).full_volume_encryption_key
      = m.full_volume_encryption_key
    ∧ (libbde_metadata_read_headers m fve_metadata_block).entries_array = m.entries_array
    ∧ (libbde_metadata_read_headers m fve_metadata_block).volume_header_size
      = m.volume_header_size := by
  simp only [libbde_metadata_read_headers, libbde_metadata_read_metadata_header,
    libbde_metadata_read_block_header]
  split_ifs <;> exact ⟨rfl, rfl, rfl, rfl, rfl⟩

/-- How the switch of the entry loop treats `external_key_volume_master_key`:
it keeps it, or sets it, when it was `NULL`, to the VMK read from the entry,
whose type is then `LIBBDE_VMK_TYPE_EXTERNAL_KEY_PROTECTED`; and it leaves it
set after a VOLUME_MASTER_KEY entry of that type. -/
theorem libbde_metadata_read_entry_switch_external_key (C : Collaborators)
    (m : libbde_metadata) (e : libbde_metadata_entry) (m1 : libbde_metadata)
    (h : libbde_metadata_read_entry_switch C m e = some m1) :
    (m1.external_key_volume_master_key = m.external_key_volume_master_key
      ∨ (m.external_key_volume_master_key = none
        ∧ ∃ v, C.libbde_volume_master_key_read e = some v
          ∧ v.type = C.LIBBDE_VMK_TYPE_EXTERNAL_KEY_PROTECTED
          ∧ m1.external_key_volume_master_key = some v))
    ∧ (e.type = LIBBDE_ENTRY_TYPE_VOLUME_MASTER_KEY →
      ∀ v, C.libbde_volume_master_key_read e = some v →
        v.type = C.LIBBDE_VMK_TYPE_EXTERNAL_KEY_PROTECTED →
        v.type ≠ C.LIBBDE_VMK_TYPE_RECOVERY_KEY_PROTECTED →
        m1.external_key_volume_master_key ≠ none) := by
  simp only [libbde_metadata_read_entry_switch] at h
  repeat' split at h
  all_goals first
    | (simp only [Option.some.injEq] at h; subst h; simp_all)
    | (exact absurd h (by simp))

/-- C11. `libbde_metadata_read` returns -1 whenever the `metadata_header_size` field of
the metadata header is not 48 or its `metadata_size` field differs from its
`metadata_size_copy` field; whenever it returns 1, the header size field is 48
and the metadata size equals its copy. -/
theorem read_metadata_header_sizes (C : Collaborators) (fuel : Nat)
    (metadata : libbde_metadata) (io_handle : libbde_io_handle)
    (file_io_handle : libbfio_handle) (file_offset : Int) :
    ((byte_stream_copy_to_uint32_little_endian
          ((file_io_handle.read file_offset 4096).2.drop sizeof_bde_metadata_block_header_v1_t)
          metadata_header.metadata_header_size ≠ 48
        ∨ byte_stream_copy_to_uint32_little_endian
            ((file_io_handle.read file_offset 4096).2.drop
              sizeof_bde_metadata_block_header_v1_t)
            metadata_header.metadata_size
          ≠ byte_stream_copy_to_uint32_little_endian
            ((file_io_handle.read file_offset 4096).2.drop
              sizeof_bde_metadata_block_header_v1_t)
            metadata_header.metadata_size_copy) →
      ∃ r, libbde_metadata_read C fuel metadata io_handle file_io_handle file_offset = some r
        ∧ r.result = -1) ∧
    (∀ r, libbde_metadata_read C fuel metadata io_handle file_io_handle file_offset = some r →
      r.result = 1 →
      byte_stream_copy_to_uint32_little_endian
          ((file_io_handle.read file_offset 4096).2.drop sizeof_bde_metadata_block_header_v1_t)
          metadata_header.metadata_header_size = 48
      ∧ byte_stream_copy_to_uint32_little_endian
          ((file_io_handle.read file_offset 4096).2.drop sizeof_bde_metadata_block_header_v1_t)
          metadata_header.metadata_size
        = byte_stream_copy_to_uint32_little_endian
          ((file_io_handle.read file_offset 4096).2.drop sizeof_bde_metadata_block_header_v1_t)
          metadata_header.metadata_size_copy) := by
  simp only [metadata_header, sizeof_bde_metadata_block_header_v1_t]
  constructor
  · intro hmismatch
    have hchecks : ¬ libbde_metadata_read_checks
        (libbde_metadata_read_back_fill C io_handle
          (byte_stream_copy_to_uint64_little_endian (file_io_handle.read file_offset 4096).2 40)
          (byte_stream_copy_to_uint64_little_endian (file_io_handle.read file_offset 4096).2 48))
        (file_io_handle.read file_offset 4096).2 := by
      intro hc
      obtain ⟨-, -, -, k4, k5, -, -⟩ := hc
      rcases hmismatch with h | h
      · exact h k4
      · exact h k5
    rw [libbde_metadata_read_stages]
    by_cases c1 : file_io_handle.seek_offset file_offset = -1
        ∨ (file_io_handle.read file_offset 4096).1 ≠ 4096
        ∨ bytes_at (file_io_handle.read file_offset 4096).2 0 8 ≠ bde_signature
    · rw [if_pos c1]; exact ⟨_, rfl, rfl⟩
    rw [if_neg c1]
    by_cases c2 : ¬ (byte_stream_copy_to_uint16_little_endian
          (file_io_handle.read file_offset 4096).2 10 = 1
        ∨ byte_stream_copy_to_uint16_little_endian
          (file_io_handle.read file_offset 4096).2 10 = 2)
    · rw [if_pos c2]; exact ⟨_, rfl, rfl⟩
    rw [if_neg c2]
    by_cases c3 : byte_stream_copy_to_uint32_little_endian
        ((file_io_handle.read file_offset 4096).2.drop 64) 4 ≠ 1
    · rw [if_pos c3]; exact ⟨_, rfl, rfl⟩
    rw [if_neg c3, if_pos hchecks]; exact ⟨_, rfl, rfl⟩
  · intro r h h1
    obtain ⟨-, -, -, hchecks, -, -⟩ := libbde_metadata_read_returns_one h h1
    obtain ⟨-, -, -, k4, k5, -, -⟩ := hchecks
    exact ⟨k4, k5⟩

/-- C11 on a sample: a block whose `metadata_size_copy` is 49 for a `metadata_size`
of 48 is rejected. -/
theorem read_metadata_header_sizes_witness :
    ∃ r, libbde_metadata_read sample_collaborators 0 libbde_metadata_cleared
        sample_io_handle_vista (sample_file (sample_block sample_fields_size_mismatch))
        0x2100000 = some r
      ∧ r.result = -1 :=
  (read_metadata_header_sizes sample_collaborators 0 libbde_metadata_cleared
    sample_io_handle_vista (sample_file (sample_block sample_fields_size_mismatch))
    0x2100000).1 (Or.inr (by decide))

/-- A credential block that runs to its end either leaves the result and the
output buffer as they were or sets the result to 1. -/
theorem libbde_metadata_get_volume_master_key_with_completed (C : Collaborators)
    (protector : Option libbde_volume_master_key)
    (calculate_key : List Byte → List Byte → Int × List Byte)
    (hash : List Byte) (state st : volume_master_key_state)
    (h : libbde_metadata_get_volume_master_key_with C protector calculate_key hash state
      = credential_exit.completed st) :
    (st.result = state.result ∧ st.volume_master_key = state.volume_master_key)
    ∨ st.result = 1 := by
  simp only [libbde_metadata_get_volume_master_key_with,
    libbde_metadata_get_volume_master_key_goto_on_error] at h
  repeat' split at h
  all_goals first
    | (simp only [credential_exit.completed.injEq] at h; subst h; simp)
    | (exact absurd h (by simp))

/-- The output buffer is unchanged whenever a credential block is left with an
error. -/
theorem libbde_metadata_get_volume_master_key_with_error (C : Collaborators)
    (protector : Option libbde_volume_master_key)
    (calculate_key : List Byte → List Byte → Int × List Byte)
    (hash : List Byte) (state st : volume_master_key_state)
    (h : libbde_metadata_get_volume_master_key_with C protector calculate_key hash state
        = credential_exit.return_error st
      ∨ libbde_metadata_get_volume_master_key_with C protector calculate_key hash state
        = credential_exit.on_error st) :
    st.volume_master_key = state.volume_master_key := by
  simp only [libbde_metadata_get_volume_master_key_with,
    libbde_metadata_get_volume_master_key_goto_on_error] at h
  repeat' split at h
  all_goals first
    | (rcases h with h | h <;>
        first
          | (simp only [credential_exit.return_error.injEq] at h; subst h; rfl)
          | (simp only [credential_exit.on_error.injEq] at h; subst h; rfl)
          | (exact absurd h (by simp)))

/-- The return code and the output buffer with which a credential block is
left depend on the state at its entry only through the result and the output
buffer of that state, unless the block is entered with the pointer to a
released buffer and left through `on_error` before its allocation, which has
no defined result. -/
theorem libbde_metadata_get_volume_master_key_with_outcome (C : Collaborators)
    (protector : Option libbde_volume_master_key)
    (calculate_key : List Byte → List Byte → Int × List Byte)
    (hash : List Byte) (s1 s2 : volume_master_key_state)
    (hresult : s1.result = s2.result)
    (hbuffer : s1.volume_master_key = s2.volume_master_key)
    (hpointer : s2.unencrypted_data = false) :
    credential_exit_outcome
        (libbde_metadata_get_volume_master_key_with C protector calculate_key hash s1) = none
    ∨ credential_exit_outcome
        (libbde_metadata_get_volume_master_key_with C protector calculate_key hash s1)
      = credential_exit_outcome
        (libbde_metadata_get_volume_master_key_with C protector calculate_key hash s2) := by
  rcases protector with _ | p
  · right
    simp [libbde_metadata_get_volume_master_key_with, credential_exit_outcome, hbuffer]
  cases hs : p.stretch_key with
  | none =>
    right
    simp [libbde_metadata_get_volume_master_key_with, hs, credential_exit_outcome, hbuffer]
  | some stretch =>
    cases he : p.aes_ccm_encrypted_key with
    | none =>
      right
      simp [libbde_metadata_get_volume_master_key_with, hs, he, credential_exit_outcome,
        hbuffer]
    | some envelope =>
      by_cases hk : (calculate_key hash stretch.salt).1 = 1
      swap
      · cases h1 : s1.unencrypted_data
        · right
          simp [libbde_metadata_get_volume_master_key_with,
            libbde_metadata_get_volume_master_key_goto_on_error, hs, he, hk, h1, hpointer,
            credential_exit_outcome, hbuffer]
        · left
          simp [libbde_metadata_get_volume_master_key_with,
            libbde_metadata_get_volume_master_key_goto_on_error, hs, he, hk, h1,
            credential_exit_outcome]
      by_cases hsize : envelope.data_size < 28
      · cases h1 : s1.unencrypted_data
        · right
          simp [libbde_metadata_get_volume_master_key_with,
            libbde_metadata_get_volume_master_key_goto_on_error, hs, he, hk, hsize, h1,
            hpointer, credential_exit_outcome, hbuffer]
        · left
          simp [libbde_metadata_get_volume_master_key_with,
            libbde_metadata_get_volume_master_key_goto_on_error, hs, he, hk, hsize, h1,
            credential_exit_outcome]
      · right
        simp only [libbde_metadata_get_volume_master_key_with, hs, he, hk, hsize, ne_eq,
          not_true_eq_false, if_false]
        split_ifs <;> simp [credential_exit_outcome, hresult, hbuffer]

/-- The return code and the output buffer of
`libbde_metadata_get_volume_master_key` in terms of its two credential
blocks. -/
theorem libbde_metadata_get_volume_master_key_outcome (C : Collaborators)
    (metadata : libbde_metadata) (io_handle : libbde_io_handle)
    (volume_master_key stack : List Byte) :
    (libbde_metadata_get_volume_master_key C metadata io_handle volume_master_key stack).map
        (fun r => (r.result, r.volume_master_key))
      = match (if io_handle.password_is_set ≠ 0 then
            libbde_metadata_get_volume_master_key_password C metadata io_handle
              volume_master_key stack
          else
            credential_exit.completed
              (libbde_metadata_get_volume_master_key_entry volume_master_key stack)) with
        | .completed state =>
          if state.result = 0 ∧ io_handle.recovery_password_is_set ≠ 0 then
            credential_exit_outcome
              (libbde_metadata_get_volume_master_key_with C
                metadata.disk_password_volume_master_key C.libbde_recovery_calculate_key
                io_handle.recovery_password_hash state)
          else
            some (state.result, state.volume_master_key)
        | .return_error state => some (-1, state.volume_master_key)
        | .on_error state => some (-1, state.volume_master_key)
        | .undefined => none := by
  simp only [libbde_metadata_get_volume_master_key,
    libbde_metadata_get_volume_master_key_password,
    libbde_metadata_get_volume_master_key_entry]
  generalize (if io_handle.password_is_set ≠ 0 then
      libbde_metadata_get_volume_master_key_with C metadata.external_key_volume_master_key
        C.libbde_password_calculate_key io_handle.password_hash
        { volume_master_key := volume_master_key, aes_ccm_key := stack,
          unencrypted_data := false, unencrypted_data_size := 0, result := 0, scratch := [] }
    else
      credential_exit.completed
        { volume_master_key := volume_master_key, aes_ccm_key := stack,
          unencrypted_data := false, unencrypted_data_size := 0, result := 0,
          scratch := [] }) = first
  cases first with
  | undefined => rfl
  | return_error state => rfl
  | on_error state => rfl
  | completed state =>
    simp only
    split_ifs with hc
    · cases hsecond : libbde_metadata_get_volume_master_key_with C
          metadata.disk_password_volume_master_key C.libbde_recovery_calculate_key
          io_handle.recovery_password_hash state <;> rfl
    · rfl

/-- The two credential blocks of `libbde_metadata_get_volume_master_key` when both
the password and the recovery password are set.  The password block (on
`external_key_volume_master_key`) is run first.  Unless it runs to its end
with result 0 the recovery block is not attempted: the function does what it
does with the recovery password not set; in particular, when the password
block ends with result 1, the function returns 1 with the output buffer of that
block, which for an accepted key block of at least 60 bytes is bytes [28..60)
of the block unwrapped with the password-derived key.  When the password block
ends with result 0, the recovery block (on `disk_password_volume_master_key`) is
run, and either the call has no defined result or its return code and output
buffer are those of the call with only the recovery password set. -/
theorem get_volume_master_key_credential_blocks (C : Collaborators)
    (metadata : libbde_metadata) (io_handle : libbde_io_handle)
    (volume_master_key stack : List Byte)
    (hpassword : io_handle.password_is_set ≠ 0)
    (hrecovery : io_handle.recovery_password_is_set ≠ 0) :
    ((¬ ∃ state, libbde_metadata_get_volume_master_key_password C metadata io_handle
          volume_master_key stack = credential_exit.completed state ∧ state.result = 0) →
      libbde_metadata_get_volume_master_key C metadata io_handle volume_master_key stack
        = libbde_metadata_get_volume_master_key C metadata
            { io_handle with recovery_password_is_set := 0 } volume_master_key stack)
    ∧ (∀ state, libbde_metadata_get_volume_master_key_password C metadata io_handle
          volume_master_key stack = credential_exit.completed state → state.result = 1 →
      libbde_metadata_get_volume_master_key C metadata io_handle volume_master_key stack
        = some (libbde_metadata_get_volume_master_key_return 1 state))
    ∧ (∀ state, libbde_metadata_get_volume_master_key_password C metadata io_handle
          volume_master_key stack = credential_exit.completed state → state.result = 0 →
      (libbde_metadata_get_volume_master_key C metadata io_handle volume_master_key
          stack).map (fun r => (r.result, r.volume_master_key)) = none
      ∨ (libbde_metadata_get_volume_master_key C metadata io_handle volume_master_key
          stack).map (fun r => (r.result, r.volume_master_key))
        = (libbde_metadata_get_volume_master_key C metadata
            { io_handle with password_is_set := 0 } volume_master_key stack).map
          (fun r => (r.result, r.volume_master_key)))
    ∧ (∀ (protector : libbde_volume_master_key) (stretch_key : libbde_stretch_key)
        (envelope : libbde_aes_ccm_encrypted_key) (unwrapped : List Byte),
      metadata.external_key_volume_master_key = some protector →
      protector.stretch_key = some stretch_key →
      protector.aes_ccm_encrypted_key = some envelope →
      60 ≤ envelope.data_size →
      (C.libbde_password_calculate_key io_handle.password_hash stretch_key.salt).1 = 1 →
      C.libbde_aes_set_encryption_key
        (C.libbde_password_calculate_key io_handle.password_hash stretch_key.salt).2 256 = 1 →
      C.libbde_aes_ccm_crypt
          (C.libbde_password_calculate_key io_handle.password_hash stretch_key.salt).2 256
          envelope.nonce 12 envelope.data envelope.data_size envelope.data_size
        = (1, unwrapped) →
      byte_stream_copy_to_uint16_little_endian unwrapped 20 = 1 →
      byte_stream_copy_to_uint16_little_endian unwrapped 16 = 0x2c →
      volume_master_key.length = 32 →
      ∃ r, libbde_metadata_get_volume_master_key C metadata io_handle volume_master_key stack
          = some r
        ∧ r.result = 1 ∧ r.volume_master_key = bytes_at unwrapped 28 32) := by
  refine ⟨?_, ?_, ?_, ?_⟩
  · intro hnot
    simp only [libbde_metadata_get_volume_master_key_password,
      libbde_metadata_get_volume_master_key_entry] at hnot
    simp only [libbde_metadata_get_volume_master_key, if_pos hpassword]
    generalize libbde_metadata_get_volume_master_key_with C
      metadata.external_key_volume_master_key C.libbde_password_calculate_key
      io_handle.password_hash
      { volume_master_key := volume_master_key, aes_ccm_key := stack,
        unencrypted_data := false, unencrypted_data_size := 0, result := 0,
        scratch := [] } = first at hnot ⊢
    cases first with
    | undefined => rfl
    | return_error state => rfl
    | on_error state => rfl
    | completed state =>
      have h0 : ¬ state.result = 0 := fun h0 => hnot ⟨state, rfl, h0⟩
      simp [h0]
  · intro state hfirst h1
    simp only [libbde_metadata_get_volume_master_key_password,
      libbde_metadata_get_volume_master_key_entry] at hfirst
    have h0 : ¬ state.result = 0 := by rw [h1]; decide
    simp [libbde_metadata_get_volume_master_key, hpassword, hfirst, h0, h1]
  · intro state hfirst h0
    have hbuffer : state.volume_master_key = volume_master_key := by
      rcases libbde_metadata_get_volume_master_key_with_completed C _ _ _ _ _ hfirst with
        ⟨-, hb⟩ | h1
      · exact hb
      · rw [h0] at h1; exact absurd h1 (by decide)
    rw [libbde_metadata_get_volume_master_key_outcome,
      libbde_metadata_get_volume_master_key_outcome]
    simp only [if_pos hpassword, hfirst, ne_eq, not_true_eq_false, if_false]
    rw [if_pos ⟨h0, hrecovery⟩, if_pos ⟨rfl, hrecovery⟩]
    exact libbde_metadata_get_volume_master_key_with_outcome C _ _ _ _ _
      (by rw [h0]; rfl) (by rw [hbuffer]; rfl) rfl
  · intro protector stretch_key envelope unwrapped hprot hstretch henvelope hsize hkdf hset
      hdecrypt hversion hdata hbuffer
    have hcopy : memory_copy volume_master_key (bytes_at unwrapped 28 32) 32
        = bytes_at unwrapped 28 32 := by
      have h1 : (bytes_at unwrapped 28 32).length ≤ 32 := by
        simp only [bytes_at, List.length_take]; omega
      simp only [memory_copy, List.take_of_length_le h1,
        List.drop_of_length_le (Nat.le_of_eq hbuffer), List.append_nil]
    have hlen : ¬ envelope.data_size < 60 := by omega
    simp [libbde_metadata_get_volume_master_key, hpassword, hprot,
      libbde_metadata_get_volume_master_key_with_decrypted C protector stretch_key envelope
        _ _ _ unwrapped hstretch henvelope (by omega) hkdf hset hdecrypt,
      hversion, hdata, hlen, libbde_metadata_get_volume_master_key_return, hcopy]

/-- C13, the code on a failing input.  Both credentials are set, the key block
behind the external key protector is refused (inner data size 0x2d), so the
password block runs to its end with result 0 after releasing its scratch
buffer, and the recovery key derivation fails.  The recovery block then leaves
through `on_error` with the pointer to the released buffer, and the call has no
defined result; the recovery path on its own returns -1 with the output buffer
untouched, and the password path on its own returns 0.  With a recovery key
derivation that succeeds the call returns what the recovery path returns, 1
with the key of the disk password protector. -/
theorem get_volume_master_key_credential_order_undefined :
    libbde_metadata_get_volume_master_key sample_collaborators_no_recovery
        sample_metadata_both (sample_io_handle 1 1) (List.replicate 32 0)
        (List.replicate 32 0xcc) = none
    ∧ (libbde_metadata_get_volume_master_key sample_collaborators_no_recovery
        sample_metadata_both (sample_io_handle 0 1) (List.replicate 32 0)
        (List.replicate 32 0xcc)).map (fun r => (r.result, r.volume_master_key))
      = some (-1, List.replicate 32 0)
    ∧ (libbde_metadata_get_volume_master_key sample_collaborators_no_recovery
        sample_metadata_both (sample_io_handle 1 0) (List.replicate 32 0)
        (List.replicate 32 0xcc)).map
          (fun r => (r.result, r.volume_master_key, r.scratch.getLast?))
      = some (0, List.replicate 32 0, some scratch_event.free)
    ∧ (libbde_metadata_get_volume_master_key sample_collaborators sample_metadata_both
        (sample_io_handle 1 1) (List.replicate 32 0) (List.replicate 32 0xcc)).map
        (fun r => (r.result, r.volume_master_key)) = some (1, sample_tweak_32)
    ∧ (libbde_metadata_get_volume_master_key sample_collaborators sample_metadata_both
        (sample_io_handle 0 1) (List.replicate 32 0) (List.replicate 32 0xcc)).map
        (fun r => (r.result, r.volume_master_key)) = some (1, sample_tweak_32) := by
  decide

/-- A credential block whose protector is absent or lacks its stretch key or
its AES-CCM encrypted key is left by `return( -1 )` with the state
untouched. -/
theorem libbde_metadata_get_volume_master_key_with_missing (C : Collaborators)
    (protector : Option libbde_volume_master_key)
    (calculate_key : List Byte → List Byte → Int × List Byte)
    (hash : List Byte) (state : volume_master_key_state)
    (hmissing : protector = none
      ∨ ∃ p, protector = some p ∧ (p.stretch_key = none ∨ p.aes_ccm_encrypted_key = none)) :
    libbde_metadata_get_volume_master_key_with C protector calculate_key hash state
      = credential_exit.return_error state := by
  rcases hmissing with h | ⟨p, h, hs | ha⟩
  · subst h; rfl
  · subst h; simp [libbde_metadata_get_volume_master_key_with, hs]
  · subst h
    cases hs : p.stretch_key <;>
      simp [libbde_metadata_get_volume_master_key_with, hs, ha]

/-- C14. `libbde_metadata_get_volume_master_key` returns -1 and leaves the output
buffer unchanged when the credential being tried has no matching protector:
with a password set, when `external_key_volume_master_key` is absent or lacks
its stretch key or its AES-CCM encrypted key; and when the recovery block is
tried (the recovery password is set and the password is not set or its block
ended with result 0), when `disk_password_volume_master_key` is absent or lacks
its stretch key or its AES-CCM encrypted key. -/
theorem get_volume_master_key_missing_protector (C : Collaborators)
    (metadata : libbde_metadata) (io_handle : libbde_io_handle)
    (volume_master_key stack : List Byte) :
    (io_handle.password_is_set ≠ 0 →
      (metadata.external_key_volume_master_key = none
        ∨ ∃ p, metadata.external_key_volume_master_key = some p
          ∧ (p.stretch_key = none ∨ p.aes_ccm_encrypted_key = none)) →
      ∃ r, libbde_metadata_get_volume_master_key C metadata io_handle volume_master_key stack
          = some r
        ∧ r.result = -1 ∧ r.volume_master_key = volume_master_key)
    ∧ (io_handle.recovery_password_is_set ≠ 0 →
      (io_handle.password_is_set = 0
        ∨ ∃ state, libbde_metadata_get_volume_master_key_password C metadata io_handle
            volume_master_key stack = credential_exit.completed state ∧ state.result = 0) →
      (metadata.disk_password_volume_master_key = none
        ∨ ∃ p, metadata.disk_password_volume_master_key = some p
          ∧ (p.stretch_key = none ∨ p.aes_ccm_encrypted_key = none)) →
      ∃ r, libbde_metadata_get_volume_master_key C metadata io_handle volume_master_key stack
          = some r
        ∧ r.result = -1 ∧ r.volume_master_key = volume_master_key) := by
  constructor
  · intro hpassword hmissing
    have hwith := libbde_metadata_get_volume_master_key_with_missing C
      metadata.external_key_volume_master_key C.libbde_password_calculate_key
      io_handle.password_hash
      (libbde_metadata_get_volume_master_key_entry volume_master_key stack) hmissing
    simp only [libbde_metadata_get_volume_master_key_entry] at hwith
    simp [libbde_metadata_get_volume_master_key, hpassword, hwith,
      libbde_metadata_get_volume_master_key_return]
  · intro hrecovery htried hmissing
    have hmap : (libbde_metadata_get_volume_master_key C metadata io_handle
        volume_master_key stack).map (fun r => (r.result, r.volume_master_key))
        = some (-1, volume_master_key) := by
      rw [libbde_metadata_get_volume_master_key_outcome]
      rcases htried with hp | ⟨state, hfirst, h0⟩
      · rw [if_neg (not_not.mpr hp)]
        simp only
        rw [if_pos ⟨rfl, hrecovery⟩,
          libbde_metadata_get_volume_master_key_with_missing C _ _ _ _ hmissing]
        rfl
      · have hbuffer : state.volume_master_key = volume_master_key := by
          rcases libbde_metadata_get_volume_master_key_with_completed C _ _ _ _ _ hfirst with
            ⟨-, hb⟩ | h1
          · exact hb
          · rw [h0] at h1; exact absurd h1 (by decide)
        by_cases hp : io_handle.password_is_set = 0
        · rw [if_neg (not_not.mpr hp)]
          simp only
          rw [if_pos ⟨rfl, hrecovery⟩,
            libbde_metadata_get_volume_master_key_with_missing C _ _ _ _ hmissing]
          rfl
        · rw [if_pos hp, hfirst]
          simp only
          rw [if_pos ⟨h0, hrecovery⟩,
            libbde_metadata_get_volume_master_key_with_missing C _ _ _ _ hmissing]
          simp only [credential_exit_outcome, hbuffer]
    obtain ⟨r, hr, hpair⟩ := Option.map_eq_some'.mp hmap
    simp only [Prod.mk.injEq] at hpair
    exact ⟨r, hr, hpair.1, hpair.2⟩

/-- C14 on a sample: with only the password set, and with only the recovery
password set, a metadata set without protectors makes the function return -1
and leave the output buffer unchanged. -/
theorem get_volume_master_key_missing_protector_witness :
    (∃ r, libbde_metadata_get_volume_master_key sample_collaborators libbde_metadata_cleared
        (sample_io_handle 1 0) (List.replicate 32 0) (List.replicate 32 0xcc) = some r
      ∧ r.result = -1 ∧ r.volume_master_key = List.replicate 32 0)
    ∧ (∃ r, libbde_metadata_get_volume_master_key sample_collaborators libbde_metadata_cleared
        (sample_io_handle 0 1) (List.replicate 32 0) (List.replicate 32 0xcc) = some r
      ∧ r.result = -1 ∧ r.volume_master_key = List.replicate 32 0) :=
  ⟨(get_volume_master_key_missing_protector sample_collaborators libbde_metadata_cleared
      (sample_io_handle 1 0) (List.replicate 32 0) (List.replicate 32 0xcc)).1
      (by decide) (Or.inl rfl),
    (get_volume_master_key_missing_protector sample_collaborators libbde_metadata_cleared
      (sample_io_handle 0 1) (List.replicate 32 0) (List.replicate 32 0xcc)).2
      (by decide) (Or.inl rfl) (Or.inl rfl)⟩

/-- C15. `libbde_metadata_get_full_volume_encryption_key` accepts only the listed
key blocks: when the envelope is unwrapped (it is present, holds at least 28
bytes, key set-up and AES-CCM decryption succeed) and the unwrapped block's
inner version at byte 20 is not 1 or its inner data size at byte 16 is none of
0x1c, 0x2c, 0x4c, the function returns 0 and leaves both the FVEK output buffer
and the tweak key output buffer as they were. -/
theorem get_full_volume_encryption_key_strict (C : Collaborators)
    (metadata : libbde_metadata) (volume_master_key : List Byte)
    (full_volume_encryption_key tweak_key : List Byte)
    (envelope : libbde_aes_ccm_encrypted_key) (unwrapped : List Byte)
    (henvelope : metadata.full_volume_encryption_key = some envelope)
    (hsize : 28 ≤ envelope.data_size)
    (hset : C.libbde_aes_set_encryption_key volume_master_key 256 = 1)
    (hdecrypt : C.libbde_aes_ccm_crypt volume_master_key 256 envelope.nonce 12
      envelope.data envelope.data_size envelope.data_size = (1, unwrapped))
    (hother : byte_stream_copy_to_uint16_little_endian unwrapped 20 ≠ 1
      ∨ (byte_stream_copy_to_uint16_little_endian unwrapped 16 ≠ 0x1c
        ∧ byte_stream_copy_to_uint16_little_endian unwrapped 16 ≠ 0x2c
        ∧ byte_stream_copy_to_uint16_little_endian unwrapped 16 ≠ 0x4c)) :
    ∃ r, libbde_metadata_get_full_volume_encryption_key C metadata volume_master_key
        full_volume_encryption_key tweak_key = some r
      ∧ r.result = 0
      ∧ r.full_volume_encryption_key = full_volume_encryption_key
      ∧ r.tweak_key = tweak_key := by
  have h22 : ¬ envelope.data_size < 22 := by omega
  have h28 : ¬ envelope.data_size < 28 := by omega
  rcases hother with hversion | ⟨h1c, h2c, h4c⟩
  · simp [libbde_metadata_get_full_volume_encryption_key, henvelope, hset, hdecrypt, h22, h28,
      hversion]
  · by_cases hversion : byte_stream_copy_to_uint16_little_endian unwrapped 20 = 1
    · simp [libbde_metadata_get_full_volume_encryption_key, henvelope, hset, hdecrypt, h22,
        h28, hversion, h1c, h2c, h4c]
    · simp [libbde_metadata_get_full_volume_encryption_key, henvelope, hset, hdecrypt, h22,
        h28, hversion]

/-- C15 on a sample: a 92-byte key block with inner version 1 and the unlisted
inner data size 0x3c yields result 0 and both output buffers stay as the caller
filled them. -/
theorem get_full_volume_encryption_key_strict_witness :
    ∃ r, libbde_metadata_get_full_volume_encryption_key sample_collaborators
        { libbde_metadata_cleared with
          full_volume_encryption_key :=
            some (sample_envelope (sample_key_block 0x3c 1 (sample_key_32 ++ sample_tweak_32)) 92) }
        sample_key_32 (List.replicate 32 0xaa) (List.replicate 32 0xbb) = some r
      ∧ r.result = 0
      ∧ r.full_volume_encryption_key = List.replicate 32 0xaa
      ∧ r.tweak_key = List.replicate 32 0xbb :=
  get_full_volume_encryption_key_strict sample_collaborators
    { libbde_metadata_cleared with
      full_volume_encryption_key :=
        some (sample_envelope (sample_key_block 0x3c 1 (sample_key_32 ++ sample_tweak_32)) 92) }
    sample_key_32 (List.replicate 32 0xaa) (List.replicate 32 0xbb)
    (sample_envelope (sample_key_block 0x3c 1 (sample_key_32 ++ sample_tweak_32)) 92)
    (sample_key_block 0x3c 1 (sample_key_32 ++ sample_tweak_32))
    rfl (by decide) rfl rfl (Or.inr (by decide))

/-- The test `data_size < 28` of the key retrieval functions comes before the
scratch buffer is allocated and before anything is decrypted.  For
`libbde_metadata_get_volume_master_key`: (1) with a password set and a complete
external key protector whose envelope has `data_size < 28` the function returns
-1, the output buffer is unchanged and no scratch event took place; (2) so it is
with only the recovery password set and the disk password protector.  For
`libbde_metadata_get_full_volume_encryption_key`: (3) an envelope with
`data_size < 28` gives -1, both buffers unchanged and no scratch event.  A
`data_size` of exactly 28 passes the check: (4) for the password block and (5)
for the FVEK envelope the scratch buffer of 28 bytes is allocated and, the inner
header not being an accepted one, the function returns 0, not -1. -/
theorem envelope_size_check (C : Collaborators) (metadata : libbde_metadata)
    (io_handle : libbde_io_handle) (volume_master_key stack : List Byte)
    (full_volume_encryption_key tweak_key : List Byte) :
    (∀ p s envelope, io_handle.password_is_set ≠ 0 →
      metadata.external_key_volume_master_key = some p →
      p.stretch_key = some s → p.aes_ccm_encrypted_key = some envelope →
      envelope.data_size < 28 →
      ∃ r, libbde_metadata_get_volume_master_key C metadata io_handle volume_master_key stack
          = some r
        ∧ r.result = -1 ∧ r.volume_master_key = volume_master_key ∧ r.scratch = [])
    ∧ (∀ p s envelope, io_handle.password_is_set = 0 →
      io_handle.recovery_password_is_set ≠ 0 →
      metadata.disk_password_volume_master_key = some p →
      p.stretch_key = some s → p.aes_ccm_encrypted_key = some envelope →
      envelope.data_size < 28 →
      ∃ r, libbde_metadata_get_volume_master_key C metadata io_handle volume_master_key stack
          = some r
        ∧ r.result = -1 ∧ r.volume_master_key = volume_master_key ∧ r.scratch = [])
    ∧ (∀ envelope, metadata.full_volume_encryption_key = some envelope →
      envelope.data_size < 28 →
      libbde_metadata_get_full_volume_encryption_key C metadata volume_master_key
          full_volume_encryption_key tweak_key
        = some ⟨-1, full_volume_encryption_key, tweak_key, []⟩)
    ∧ (∀ p s envelope key unwrapped, io_handle.password_is_set ≠ 0 →
      io_handle.recovery_password_is_set = 0 →
      metadata.external_key_volume_master_key = some p →
      p.stretch_key = some s → p.aes_ccm_encrypted_key = some envelope →
      envelope.data_size = 28 →
      C.libbde_password_calculate_key io_handle.password_hash s.salt = (1, key) →
      C.libbde_aes_set_encryption_key key 256 = 1 →
      C.libbde_aes_ccm_crypt key 256 envelope.nonce 12 envelope.data 28 28 = (1, unwrapped) →
      ¬ (byte_stream_copy_to_uint16_little_endian unwrapped 20 = 1
        ∧ byte_stream_copy_to_uint16_little_endian unwrapped 16 = 0x2c) →
      ∃ r, libbde_metadata_get_volume_master_key C metadata io_handle volume_master_key stack
          = some r
        ∧ r.result = 0 ∧ r.scratch.head? = some (scratch_event.allocate 28))
    ∧ (∀ envelope unwrapped, metadata.full_volume_encryption_key = some envelope →
      envelope.data_size = 28 →
      C.libbde_aes_set_encryption_key volume_master_key 256 = 1 →
      C.libbde_aes_ccm_crypt volume_master_key 256 envelope.nonce 12 envelope.data 28 28
        = (1, unwrapped) →
      byte_stream_copy_to_uint16_little_endian unwrapped 20 ≠ 1 →
      ∃ r, libbde_metadata_get_full_volume_encryption_key C metadata volume_master_key
          full_volume_encryption_key tweak_key = some r
        ∧ r.result = 0 ∧ r.scratch.head? = some (scratch_event.allocate 28)) := by
  have hblock : ∀ (protector : Option libbde_volume_master_key)
      (calculate_key : List Byte → List Byte → Int × List Byte) (hash : List Byte)
      (state : volume_master_key_state) p s envelope,
      state.unencrypted_data = false →
      protector = some p → p.stretch_key = some s → p.aes_ccm_encrypted_key = some envelope →
      envelope.data_size < 28 →
      libbde_metadata_get_volume_master_key_with C protector calculate_key hash state
        = credential_exit.on_error
          { state with aes_ccm_key := (calculate_key hash s.salt).2 } := by
    intro protector calculate_key hash state p s envelope hpointer hp hs he hsize
    subst hp
    by_cases hk : (calculate_key hash s.salt).1 = 1
    · simp [libbde_metadata_get_volume_master_key_with,
        libbde_metadata_get_volume_master_key_goto_on_error, hs, he, hsize, hk, hpointer]
    · simp [libbde_metadata_get_volume_master_key_with,
        libbde_metadata_get_volume_master_key_goto_on_error, hs, he, hk, hpointer]
  refine ⟨?_, ?_, ?_, ?_, ?_⟩
  · intro p s envelope hpassword hp hs he hsize
    simp [libbde_metadata_get_volume_master_key, hpassword,
      hblock _ _ _
        { volume_master_key := volume_master_key, aes_ccm_key := stack,
          unencrypted_data := false, unencrypted_data_size := 0, result := 0, scratch := [] }
        p s envelope rfl hp hs he hsize,
      libbde_metadata_get_volume_master_key_on_error]
  · intro p s envelope hpassword hrecovery hp hs he hsize
    simp [libbde_metadata_get_volume_master_key, hpassword, hrecovery,
      hblock _ _ _
        { volume_master_key := volume_master_key, aes_ccm_key := stack,
          unencrypted_data := false, unencrypted_data_size := 0, result := 0, scratch := [] }
        p s envelope rfl hp hs he hsize,
      libbde_metadata_get_volume_master_key_on_error]
  · intro envelope he hsize
    simp [libbde_metadata_get_full_volume_encryption_key, he, hsize]
  · intro p s envelope key unwrapped hpassword hrecovery hp hs he hsize hk hset hdecrypt hheader
    simp [libbde_metadata_get_volume_master_key, hpassword, hrecovery,
      libbde_metadata_get_volume_master_key_with, hp, hs, he, hsize, hk, hset, hdecrypt, hheader,
      libbde_metadata_get_volume_master_key_return]
  · intro envelope unwrapped he hsize hset hdecrypt hversion
    simp [libbde_metadata_get_full_volume_encryption_key, he, hsize, hset, hdecrypt, hversion]

/-- C16, the code on a failing input.  Both credentials are set, the key block
behind the external key protector is refused, so the password block runs to
its end with result 0 after releasing its scratch buffer, and the envelope of
the disk password protector announces 27 bytes.  The test `data_size < 28` of
the recovery block then leaves through `on_error` with the pointer to the
released buffer, and the call has no defined result.  The same envelope gives
-1 without a scratch event when only the recovery password is set, and so do an
envelope of 27 bytes in the password block and in
`libbde_metadata_get_full_volume_encryption_key`; an envelope of 28 bytes passes
the check. -/
theorem envelope_below_28_after_password_undefined :
    libbde_metadata_get_volume_master_key sample_collaborators sample_metadata_both_short
        (sample_io_handle 1 1) (List.replicate 32 0xaa) (List.replicate 32 0xcc) = none
    ∧ (libbde_metadata_get_volume_master_key sample_collaborators sample_metadata_both_short
        (sample_io_handle 0 1) (List.replicate 32 0xaa) (List.replicate 32 0xcc)).map
          (fun r => (r.result, r.volume_master_key, r.scratch))
      = some (-1, List.replicate 32 0xaa, [])
    ∧ (libbde_metadata_get_volume_master_key sample_collaborators (sample_metadata_short 27)
        (sample_io_handle 1 0) (List.replicate 32 0xaa) (List.replicate 32 0xcc)).map
          (fun r => (r.result, r.volume_master_key, r.scratch))
      = some (-1, List.replicate 32 0xaa, [])
    ∧ libbde_metadata_get_full_volume_encryption_key sample_collaborators
          (sample_metadata_short 27) sample_key_32 (List.replicate 32 0xaa)
          (List.replicate 32 0xbb)
        = some ⟨-1, List.replicate 32 0xaa, List.replicate 32 0xbb, []⟩
    ∧ (libbde_metadata_get_volume_master_key sample_collaborators (sample_metadata_short 28)
        (sample_io_handle 1 0) (List.replicate 32 0xaa) (List.replicate 32 0xcc)).map
          (fun r => (r.result, r.scratch.head?))
      = some (0, some (scratch_event.allocate 28))
    ∧ (libbde_metadata_get_full_volume_encryption_key sample_collaborators
        (sample_metadata_short 28) sample_key_32 (List.replicate 32 0xaa)
        (List.replicate 32 0xbb)).map (fun r => (r.result, r.scratch.head?))
      = some (0, some (scratch_event.allocate 28)) := by
  decide

/-- How the switch of the entry loop treats the projections
`disk_password_volume_master_key` and `full_volume_encryption_key`: a projection
that is set is kept, and one that is `NULL` receives what the case of the
entry yields. -/
theorem libbde_metadata_read_entry_switch_first (C : Collaborators)
    (m : libbde_metadata) (e : libbde_metadata_entry) (m1 : libbde_metadata)
    (h : libbde_metadata_read_entry_switch C m e = some m1) :
    m1.disk_password_volume_master_key
        = m.disk_password_volume_master_key.or
          (if e.type = LIBBDE_ENTRY_TYPE_VOLUME_MASTER_KEY then
            (C.libbde_volume_master_key_read e).filter
              (fun v => decide (v.type = C.LIBBDE_VMK_TYPE_RECOVERY_KEY_PROTECTED))
          else none)
    ∧ m1.full_volume_encryption_key
        = m.full_volume_encryption_key.or
          (if e.type = LIBBDE_ENTRY_TYPE_FULL_VOLUME_ENCRYPTION_KEY then
            C.libbde_aes_ccm_encrypted_key_read e
          else none) := by
  have h23 : LIBBDE_ENTRY_TYPE_VOLUME_MASTER_KEY
      ≠ LIBBDE_ENTRY_TYPE_FULL_VOLUME_ENCRYPTION_KEY := by
    decide
  simp only [libbde_metadata_read_entry_switch] at h
  repeat' split at h
  all_goals first
    | (simp only [Option.some.injEq] at h; subst h
       cases hd : m.disk_password_volume_master_key <;>
         cases hf : m.full_volume_encryption_key <;>
           simp_all [Option.filter])
    | (cases h)

/-- When the entry loop ends with 1 it has appended the decoded entries, each
once and in the order of the decodes, to the entries array. -/
theorem libbde_metadata_read_entries_appended (C : Collaborators) :
    ∀ (fuel : Nat) (fve_metadata : List Byte) (metadata_size : Nat)
      (m m' : libbde_metadata),
      libbde_metadata_read_entries C fuel fve_metadata metadata_size m = some (1, m') →
      m'.entries_array
        = m.entries_array ++ libbde_metadata_read_entries_decoded C fuel fve_metadata
            metadata_size := by
  intro fuel
  induction fuel with
  | zero =>
    intro fve_metadata metadata_size m m' h
    simp only [libbde_metadata_read_entries] at h
    split_ifs at h
    simp only [Option.some.injEq, Prod.mk.injEq, true_and] at h
    subst h
    simp [libbde_metadata_read_entries_decoded]
  | succ fuel ih =>
    intro fve_metadata metadata_size m m' h
    simp only [libbde_metadata_read_entries] at h
    split_ifs at h with hsize
    · split at h
      · exact absurd h (by simp)
      · rename_i metadata_entry read_count hread
        split at h
        · exact absurd h (by simp)
        · rename_i m1 hswitch
          obtain ⟨-, -, -, -, -, -, -, harr⟩ :=
            libbde_metadata_read_entry_switch_frame C m metadata_entry m1 hswitch
          rw [ih _ _ _ _ h]
          simp [libbde_metadata_read_entries_decoded, hsize, hread, harr]
    · simp only [Option.some.injEq, Prod.mk.injEq, true_and] at h
      subst h
      simp [libbde_metadata_read_entries_decoded, hsize]

/-- After a successful `libbde_metadata_read` the entries array is the one given
followed by the decoded entry stream of the block. -/
theorem libbde_metadata_read_appended {C : Collaborators} {fuel : Nat}
    {metadata : libbde_metadata} {io_handle : libbde_io_handle}
    {file_io_handle : libbfio_handle} {file_offset : Int}
    {r : libbde_metadata_read_result}
    (h : libbde_metadata_read C fuel metadata io_handle file_io_handle file_offset = some r)
    (h1 : r.result = 1) :
    r.metadata.entries_array
      = metadata.entries_array ++ libbde_metadata_read_decoded C fuel file_io_handle
          file_offset := by
  obtain ⟨-, -, -, -, -, hloop⟩ := libbde_metadata_read_returns_one h h1
  obtain ⟨-, -, -, k4, -⟩ := libbde_metadata_read_headers_frame metadata
    (file_io_handle.read file_offset 4096).2
  rw [libbde_metadata_read_entries_appended C _ _ _ _ _ hloop, k4]
  rfl

/-- The entry loop keeps the two projections `disk_password_volume_master_key`
and `full_volume_encryption_key` equal to what the first entry of the entries
array that yields one yields. -/
theorem libbde_metadata_read_entries_first (C : Collaborators) (fuel : Nat)
    (fve_metadata : List Byte) (metadata_size : Nat) (m : libbde_metadata) (result : Int)
    (m' : libbde_metadata)
    (h : libbde_metadata_read_entries C fuel fve_metadata metadata_size m = some (result, m'))
    (hdisk : m.disk_password_volume_master_key = none)
    (hfvek : m.full_volume_encryption_key = none)
    (harray : m.entries_array = []) :
    m'.disk_password_volume_master_key
        = m'.entries_array.findSome? (fun e =>
          if e.type = LIBBDE_ENTRY_TYPE_VOLUME_MASTER_KEY then
            (C.libbde_volume_master_key_read e).filter
              (fun v => decide (v.type = C.LIBBDE_VMK_TYPE_RECOVERY_KEY_PROTECTED))
          else none)
    ∧ m'.full_volume_encryption_key
        = m'.entries_array.findSome? (fun e =>
          if e.type = LIBBDE_ENTRY_TYPE_FULL_VOLUME_ENCRYPTION_KEY then
            C.libbde_aes_ccm_encrypted_key_read e
          else none) := by
  refine libbde_metadata_read_entries_invariant C
    (fun x =>
      x.disk_password_volume_master_key
          = x.entries_array.findSome? (fun e =>
            if e.type = LIBBDE_ENTRY_TYPE_VOLUME_MASTER_KEY then
              (C.libbde_volume_master_key_read e).filter
                (fun v => decide (v.type = C.LIBBDE_VMK_TYPE_RECOVERY_KEY_PROTECTED))
            else none)
      ∧ x.full_volume_encryption_key
          = x.entries_array.findSome? (fun e =>
            if e.type = LIBBDE_ENTRY_TYPE_FULL_VOLUME_ENCRYPTION_KEY then
              C.libbde_aes_ccm_encrypted_key_read e
            else none))
    ?_ fuel fve_metadata metadata_size m result m' ?_ h
  · intro x e x1 hx hs
    obtain ⟨hx1, hx2⟩ := hx
    obtain ⟨hd, hf⟩ := libbde_metadata_read_entry_switch_first C x e x1 hs
    obtain ⟨-, -, -, -, -, -, -, harr⟩ := libbde_metadata_read_entry_switch_frame C x e x1 hs
    simp only [List.findSome?_append, List.findSome?_cons, List.findSome?_nil, harr]
    rw [hd, hf, hx1, hx2]
    constructor
    · cases (if e.type = LIBBDE_ENTRY_TYPE_VOLUME_MASTER_KEY then
          (C.libbde_volume_master_key_read e).filter
            (fun v => decide (v.type = C.LIBBDE_VMK_TYPE_RECOVERY_KEY_PROTECTED))
        else none) <;> rfl
    · cases (if e.type = LIBBDE_ENTRY_TYPE_FULL_VOLUME_ENCRYPTION_KEY then
          C.libbde_aes_ccm_encrypted_key_read e
        else none) <;> rfl
  · simp only [hdisk, hfvek, harray, List.findSome?_nil, and_self]

/-- C17. After `libbde_metadata_read` has returned 1 on a freshly initialized
metadata set, with RECOVERY_KEY = 0x0800 the value of
`LIBBDE_VMK_TYPE_RECOVERY_KEY_PROTECTED`: `disk_password_volume_master_key` is the
VMK parsed from the first VOLUME_MASTER_KEY entry (type 0x0002) of the decoded
entry stream whose VMK has protection type 0x0800; it is present if and only
if the stream contains such an entry; and whatever follows that first entry,
further recovery-protected VMK entries included, does not replace it. -/
theorem read_projects_recovery_protector (C : Collaborators) (fuel : Nat)
    (metadata : libbde_metadata) (io_handle : libbde_io_handle)
    (file_io_handle : libbfio_handle) (file_offset : Int)
    (r : libbde_metadata_read_result)
    (hrecovery : C.LIBBDE_VMK_TYPE_RECOVERY_KEY_PROTECTED = 0x0800)
    (hfresh : libbde_metadata_initialize true true true (some none) = (1, some (some metadata)))
    (h : libbde_metadata_read C fuel metadata io_handle file_io_handle file_offset = some r)
    (h1 : r.result = 1) :
    r.metadata.disk_password_volume_master_key
        = (libbde_metadata_read_decoded C fuel file_io_handle file_offset).findSome? (fun e =>
          if e.type = LIBBDE_ENTRY_TYPE_VOLUME_MASTER_KEY then
            (C.libbde_volume_master_key_read e).filter (fun v => decide (v.type = 0x0800))
          else none)
    ∧ (r.metadata.disk_password_volume_master_key ≠ none
      ↔ ∃ e ∈ libbde_metadata_read_decoded C fuel file_io_handle file_offset,
        e.type = LIBBDE_ENTRY_TYPE_VOLUME_MASTER_KEY
          ∧ ∃ v, C.libbde_volume_master_key_read e = some v ∧ v.type = 0x0800)
    ∧ (∀ before e after v,
      libbde_metadata_read_decoded C fuel file_io_handle file_offset = before ++ e :: after →
      (∀ e' ∈ before, ¬ (e'.type = LIBBDE_ENTRY_TYPE_VOLUME_MASTER_KEY
        ∧ ∃ v', C.libbde_volume_master_key_read e' = some v' ∧ v'.type = 0x0800)) →
      e.type = LIBBDE_ENTRY_TYPE_VOLUME_MASTER_KEY →
      C.libbde_volume_master_key_read e = some v → v.type = 0x0800 →
      r.metadata.disk_password_volume_master_key = some v) := by
  have hm : metadata = libbde_metadata_cleared := by
    simp [ libbde_metadata_initialize] at hfresh
    exact hfresh.symm
  subst hm
  obtain ⟨-, -, -, -, -, hloop⟩ := libbde_metadata_read_returns_one h h1
  obtain ⟨k1, -, k3, k4, -⟩ := libbde_metadata_read_headers_frame libbde_metadata_cleared
    (file_io_handle.read file_offset 4096).2
  obtain ⟨hfirst, -⟩ := libbde_metadata_read_entries_first C _ _ _ _ _ _ hloop
    (by rw [k1]; rfl) (by rw [k3]; rfl) (by rw [k4]; rfl)
  have harray := libbde_metadata_read_appended h h1
  simp only [libbde_metadata_cleared, List.nil_append] at harray
  rw [harray, hrecovery] at hfirst
  have hpick : ∀ (e : libbde_metadata_entry) (v : libbde_volume_master_key),
      (if e.type = LIBBDE_ENTRY_TYPE_VOLUME_MASTER_KEY then
          (C.libbde_volume_master_key_read e).filter (fun v => decide (v.type = 0x0800))
        else none) = some v
      ↔ (e.type = LIBBDE_ENTRY_TYPE_VOLUME_MASTER_KEY
        ∧ C.libbde_volume_master_key_read e = some v ∧ v.type = 0x0800) := by
    intro e v
    by_cases ht : e.type = LIBBDE_ENTRY_TYPE_VOLUME_MASTER_KEY
    · cases hv : C.libbde_volume_master_key_read e with
      | none => simp [ht, Option.filter]
      | some w =>
        by_cases hw : w.type = 0x0800
        · simp only [ht, Option.filter, hw, if_true, decide_True, Option.some.injEq, true_and]
          constructor
          · intro hwv; subst hwv; exact ⟨rfl, hw⟩
          · intro hwv; exact hwv.1
        · simp only [ht, Option.filter, hw, if_true, decide_False, Option.some.injEq, true_and]
          constructor
          · intro hwv; cases hwv
          · intro hwv; exact absurd (hwv.1 ▸ hwv.2) hw
    · simp [ht]
  refine ⟨hfirst, ?_, ?_⟩
  · rw [hfirst, Ne, List.findSome?_eq_none_iff]
    constructor
    · intro hne
      by_contra hall
      apply hne
      intro e he
      cases hp : (if e.type = LIBBDE_ENTRY_TYPE_VOLUME_MASTER_KEY then
          (C.libbde_volume_master_key_read e).filter (fun v => decide (v.type = 0x0800))
        else none) with
      | none => rfl
      | some v =>
        obtain ⟨ht, hv, hw⟩ := (hpick e v).mp hp
        exact absurd ⟨e, he, ht, v, hv, hw⟩ hall
    · rintro ⟨e, he, ht, v, hv, hw⟩ hall
      have := hall e he
      rw [(hpick e v).mpr ⟨ht, hv, hw⟩] at this
      cases this
  · intro before e after v hsplit hbefore ht hv hw
    rw [hfirst, hsplit, List.findSome?_append, List.findSome?_cons,
      (hpick e v).mpr ⟨ht, hv, hw⟩]
    have hnone : before.findSome? (fun e =>
        if e.type = LIBBDE_ENTRY_TYPE_VOLUME_MASTER_KEY then
          (C.libbde_volume_master_key_read e).filter (fun v => decide (v.type = 0x0800))
        else none) = none := by
      rw [List.findSome?_eq_none_iff]
      intro e' he'
      cases hp : (if e'.type = LIBBDE_ENTRY_TYPE_VOLUME_MASTER_KEY then
          (C.libbde_volume_master_key_read e').filter (fun v => decide (v.type = 0x0800))
        else none) with
      | none => rfl
      | some v' =>
        obtain ⟨ht', hv', hw'⟩ := (hpick e' v').mp hp
        exact absurd ⟨ht', v', hv', hw'⟩ (hbefore e' he')
    rw [hnone]
    rfl

/-- An entry of the decoded stream that the switch refuses, whatever the
projections are, makes the entry loop return -1: the loop leaves through
`on_error` at that entry or at an earlier one. -/
theorem libbde_metadata_read_entries_refused (C : Collaborators) (offset : Nat)
    (e : libbde_metadata_entry)
    (hrefused : ∀ m : libbde_metadata, m.volume_header_offset = offset →
      libbde_metadata_read_entry_switch C m e = none) :
    ∀ (fuel : Nat) (fve_metadata : List Byte) (metadata_size : Nat) (m : libbde_metadata),
      m.volume_header_offset = offset →
      e ∈ libbde_metadata_read_entries_decoded C fuel fve_metadata metadata_size →
      ∃ m', libbde_metadata_read_entries C fuel fve_metadata metadata_size m = some (-1, m') := by
  intro fuel
  induction fuel with
  | zero =>
    intro fve_metadata metadata_size m _ he
    simp [libbde_metadata_read_entries_decoded] at he
  | succ fuel ih =>
    intro fve_metadata metadata_size m hm he
    simp only [libbde_metadata_read_entries_decoded] at he
    split_ifs at he with hsize
    · cases hread : C.libbde_metadata_entry_read fve_metadata metadata_size with
      | none =>
        exact ⟨m, by simp only [libbde_metadata_read_entries, if_pos hsize, hread]⟩
      | some decoded =>
        obtain ⟨metadata_entry, read_count⟩ := decoded
        rw [hread] at he
        simp only [List.mem_cons] at he
        cases hswitch : libbde_metadata_read_entry_switch C m metadata_entry with
        | none =>
          exact ⟨m, by simp only [libbde_metadata_read_entries, if_pos hsize, hread, hswitch]⟩
        | some m1 =>
          rcases he with he | he
          · subst he
            rw [hrefused m hm] at hswitch
            cases hswitch
          · obtain ⟨-, -, -, hoffset, -⟩ :=
              libbde_metadata_read_entry_switch_frame C m metadata_entry m1 hswitch
            obtain ⟨m', hloop⟩ := ih (fve_metadata.drop read_count)
              ((metadata_size + 2 ^ 32 - read_count % 2 ^ 32) % 2 ^ 32)
              { m1 with entries_array := m1.entries_array ++ [metadata_entry] }
              (hoffset.trans hm) he
            exact ⟨m', by
              simp only [libbde_metadata_read_entries, if_pos hsize, hread, hswitch]
              exact hloop⟩
    · simp at he

/-- An entry of the decoded stream of the block that the switch refuses makes
`libbde_metadata_read` return -1. -/
theorem libbde_metadata_read_refused (C : Collaborators) (fuel : Nat)
    (metadata : libbde_metadata) (io_handle : libbde_io_handle)
    (file_io_handle : libbfio_handle) (file_offset : Int) (e : libbde_metadata_entry)
    (he : e ∈ libbde_metadata_read_decoded C fuel file_io_handle file_offset)
    (hrefused : ∀ m : libbde_metadata,
      m.volume_header_offset
        = (libbde_metadata_read_headers metadata
            (file_io_handle.read file_offset 4096).2).volume_header_offset →
      libbde_metadata_read_entry_switch C m e = none) :
    ∃ r, libbde_metadata_read C fuel metadata io_handle file_io_handle file_offset = some r
      ∧ r.result = -1 := by
  obtain ⟨m', hloop⟩ := libbde_metadata_read_entries_refused C _ e hrefused fuel
    (((file_io_handle.read file_offset 4096).2.drop 64).drop 48)
    (byte_stream_copy_to_uint32_little_endian
      ((file_io_handle.read file_offset 4096).2.drop 64) 0 - 48)
    (libbde_metadata_read_headers metadata (file_io_handle.read file_offset 4096).2) rfl he
  rw [libbde_metadata_read_stages, hloop]
  split_ifs <;> exact ⟨_, rfl, rfl⟩

/-- How the switch of the entry loop treats `volume_header_size`: a
VOLUME_HEADER_BLOCK entry of value type OFFSET_AND_SIZE that the switch accepts
sets it to the 64-bit value at byte 8 of the value data, every other entry
leaves it as it was. -/
theorem libbde_metadata_read_entry_switch_volume_header_size (C : Collaborators)
    (m : libbde_metadata) (e : libbde_metadata_entry) (m1 : libbde_metadata)
    (h : libbde_metadata_read_entry_switch C m e = some m1) :
    m1.volume_header_size
      = if e.type = LIBBDE_ENTRY_TYPE_VOLUME_HEADER_BLOCK
          ∧ e.value_type = C.LIBBDE_VALUE_TYPE_OFFSET_AND_SIZE then
        byte_stream_copy_to_uint64_little_endian e.value_data 8
      else m.volume_header_size := by
  by_cases ht : e.type = LIBBDE_ENTRY_TYPE_VOLUME_HEADER_BLOCK
  · by_cases hv : e.value_type = C.LIBBDE_VALUE_TYPE_OFFSET_AND_SIZE
    · rw [if_pos ⟨ht, hv⟩]
      simp only [libbde_metadata_read_entry_switch, ht, hv, LIBBDE_ENTRY_TYPE_VOLUME_MASTER_KEY,
        LIBBDE_ENTRY_TYPE_FULL_VOLUME_ENCRYPTION_KEY, LIBBDE_ENTRY_TYPE_DESCRIPTION,
        LIBBDE_ENTRY_TYPE_VOLUME_HEADER_BLOCK] at h
      simp only [Nat.reduceEqDiff, or_self, if_false, if_true] at h
      split_ifs at h
      simp only [Option.some.injEq] at h
      rw [← h]
    · rw [if_neg (fun hc => hv hc.2)]
      simp only [libbde_metadata_read_entry_switch, ht, hv, LIBBDE_ENTRY_TYPE_VOLUME_MASTER_KEY,
        LIBBDE_ENTRY_TYPE_FULL_VOLUME_ENCRYPTION_KEY, LIBBDE_ENTRY_TYPE_DESCRIPTION,
        LIBBDE_ENTRY_TYPE_VOLUME_HEADER_BLOCK] at h
      simp only [Nat.reduceEqDiff, or_self, if_false, if_true, Option.some.injEq] at h
      rw [← h]
  · rw [if_neg (fun hc => ht hc.1)]
    simp only [libbde_metadata_read_entry_switch] at h
    repeat' split at h
    all_goals first
      | contradiction
      | (simp only [Option.some.injEq] at h; subst h; rfl)

/-- When the entry loop ends with 1, `volume_header_size` is the 64-bit value at
byte 8 of the value data of the last VOLUME_HEADER_BLOCK entry of value type
OFFSET_AND_SIZE in the decoded stream, and the value it had when there is
none. -/
theorem libbde_metadata_read_entries_volume_header_size (C : Collaborators) :
    ∀ (fuel : Nat) (fve_metadata : List Byte) (metadata_size : Nat)
      (m m' : libbde_metadata),
      libbde_metadata_read_entries C fuel fve_metadata metadata_size m = some (1, m') →
      m'.volume_header_size
        = ((libbde_metadata_read_entries_decoded C fuel fve_metadata
            metadata_size).reverse.findSome? (fun e =>
          if e.type = LIBBDE_ENTRY_TYPE_VOLUME_HEADER_BLOCK
              ∧ e.value_type = C.LIBBDE_VALUE_TYPE_OFFSET_AND_SIZE then
            some (byte_stream_copy_to_uint64_little_endian e.value_data 8)
          else none)).getD m.volume_header_size := by
  intro fuel
  induction fuel with
  | zero =>
    intro fve_metadata metadata_size m m' h
    simp only [libbde_metadata_read_entries] at h
    split_ifs at h
    simp only [Option.some.injEq, Prod.mk.injEq, true_and] at h
    subst h
    simp [libbde_metadata_read_entries_decoded]
  | succ fuel ih =>
    intro fve_metadata metadata_size m m' h
    simp only [libbde_metadata_read_entries] at h
    split_ifs at h with hsize
    · split at h
      · exact absurd h (by simp)
      · rename_i metadata_entry read_count hread
        split at h
        · exact absurd h (by simp)
        · rename_i m1 hswitch
          have hsize1 :=
            libbde_metadata_read_entry_switch_volume_header_size C m metadata_entry m1 hswitch
          rw [ih _ _ _ _ h]
          simp only [libbde_metadata_read_entries_decoded, if_pos hsize, hread,
            List.reverse_cons, List.findSome?_append, List.findSome?_cons, List.findSome?_nil]
          rw [hsize1]
          cases ((libbde_metadata_read_entries_decoded C fuel
              (List.drop read_count fve_metadata)
              ((metadata_size + 2 ^ 32 - read_count % 2 ^ 32) % 2 ^ 32)).reverse.findSome?
              (fun e =>
                if e.type = LIBBDE_ENTRY_TYPE_VOLUME_HEADER_BLOCK
                    ∧ e.value_type = C.LIBBDE_VALUE_TYPE_OFFSET_AND_SIZE then
                  some (byte_stream_copy_to_uint64_little_endian e.value_data 8)
                else none)) with
          | some x => rfl
          | none =>
            by_cases hp : metadata_entry.type = LIBBDE_ENTRY_TYPE_VOLUME_HEADER_BLOCK
                ∧ metadata_entry.value_type = C.LIBBDE_VALUE_TYPE_OFFSET_AND_SIZE
            · simp [hp]
            · simp [hp]
    · simp only [Option.some.injEq, Prod.mk.injEq, true_and] at h
      subst h
      simp [libbde_metadata_read_entries_decoded, hsize]

set_option maxRecDepth 8000

/-- The read of the block of `sample_fields_stream` into a fresh metadata set
succeeds and leaves `sample_metadata_read_stream`. -/
theorem sample_stream_read :
    libbde_metadata_read sample_collaborators 7 libbde_metadata_cleared
        (sample_io_handle 0 1) (sample_file (sample_block sample_fields_stream)) 0x2100000
      = some ⟨1, sample_metadata_read_stream, sample_io_handle 0 1⟩ := by
  decide

/-- The decoded entry stream of the block of `sample_fields_stream`. -/
theorem sample_stream_decoded :
    libbde_metadata_read_decoded sample_collaborators 7
        (sample_file (sample_block sample_fields_stream)) 0x2100000
      = sample_stream_entries := by
  decide

/-- C17 on a sample: the block holds two recovery-protected VOLUME_MASTER_KEY
entries, the second and the seventh of its stream; after the read
`disk_password_volume_master_key` is what the first entry of the stream that
yields a recovery-protected VMK yields, the VMK of the second entry (its key
block is around `sample_key_32`, that of the seventh around
`sample_tweak_32`). -/
theorem read_projects_recovery_protector_witness :
    libbde_metadata_read sample_collaborators 7 libbde_metadata_cleared
        (sample_io_handle 0 1) (sample_file (sample_block sample_fields_stream)) 0x2100000
      = some ⟨1, sample_metadata_read_stream, sample_io_handle 0 1⟩
    ∧ sample_metadata_read_stream.disk_password_volume_master_key
      = (libbde_metadata_read_decoded sample_collaborators 7
          (sample_file (sample_block sample_fields_stream)) 0x2100000).findSome? (fun e =>
        if e.type = LIBBDE_ENTRY_TYPE_VOLUME_MASTER_KEY then
          (sample_collaborators.libbde_volume_master_key_read e).filter
            (fun v => decide (v.type = 0x0800))
        else none)
    ∧ sample_metadata_read_stream.disk_password_volume_master_key
      = some (sample_protector 0x0800
          (sample_envelope (sample_key_block 0x2c 1 sample_key_32) 60)) :=
  ⟨sample_stream_read,
    (read_projects_recovery_protector sample_collaborators 7 libbde_metadata_cleared
      (sample_io_handle 0 1) (sample_file (sample_block sample_fields_stream)) 0x2100000
      ⟨1, sample_metadata_read_stream, sample_io_handle 0 1⟩
      rfl (by decide) sample_stream_read rfl).1,
    rfl⟩

/-- C19. After `libbde_metadata_read` has returned 1 the entries array is the
array given followed by the decoded entry stream of the block: every decoded
entry is there once and in stream order, whatever its entry type and value
type, and the number of entries appended is the number of decodes.  An entry
of an entry type without a case (none of 0x0002, 0x0003, 0x000b, 0x0007,
0x000f), a DESCRIPTION entry and a VOLUME_HEADER_BLOCK entry of a value type
other than OFFSET_AND_SIZE leave the metadata set, so the three projections and
`volume_header_size`, as it was.  The switch changes the metadata set only
for a VOLUME_MASTER_KEY entry that `libbde_volume_master_key_read` parsed, a
FULL_VOLUME_ENCRYPTION_KEY entry that `libbde_aes_ccm_encrypted_key_read`
parsed, or a VOLUME_HEADER_BLOCK entry of value type OFFSET_AND_SIZE; so an
entry of a value type that neither of the two parsers accepts and that is not
OFFSET_AND_SIZE changes nothing. -/
theorem read_appends_every_entry (C : Collaborators) (fuel : Nat)
    (metadata : libbde_metadata) (io_handle : libbde_io_handle)
    (file_io_handle : libbfio_handle) (file_offset : Int)
    (r : libbde_metadata_read_result)
    (h : libbde_metadata_read C fuel metadata io_handle file_io_handle file_offset = some r)
    (h1 : r.result = 1) :
    r.metadata.entries_array
        = metadata.entries_array
          ++ libbde_metadata_read_decoded C fuel file_io_handle file_offset
    ∧ r.metadata.entries_array.length
        = metadata.entries_array.length
          + (libbde_metadata_read_decoded C fuel file_io_handle file_offset).length
    ∧ (∀ (m : libbde_metadata) (e : libbde_metadata_entry),
      (e.type ≠ LIBBDE_ENTRY_TYPE_VOLUME_MASTER_KEY
        ∧ e.type ≠ LIBBDE_ENTRY_TYPE_FULL_VOLUME_ENCRYPTION_KEY ∧ e.type ≠ 0x000b
        ∧ e.type ≠ LIBBDE_ENTRY_TYPE_DESCRIPTION
        ∧ e.type ≠ LIBBDE_ENTRY_TYPE_VOLUME_HEADER_BLOCK)
      ∨ e.type = LIBBDE_ENTRY_TYPE_DESCRIPTION
      ∨ (e.type = LIBBDE_ENTRY_TYPE_VOLUME_HEADER_BLOCK
        ∧ e.value_type ≠ C.LIBBDE_VALUE_TYPE_OFFSET_AND_SIZE) →
      libbde_metadata_read_entry_switch C m e = some m)
    ∧ (∀ (m : libbde_metadata) (e : libbde_metadata_entry) (m1 : libbde_metadata),
      libbde_metadata_read_entry_switch C m e = some m1 → m1 ≠ m →
      (e.type = LIBBDE_ENTRY_TYPE_VOLUME_MASTER_KEY
        ∧ ∃ v, C.libbde_volume_master_key_read e = some v)
      ∨ (e.type = LIBBDE_ENTRY_TYPE_FULL_VOLUME_ENCRYPTION_KEY
        ∧ ∃ envelope, C.libbde_aes_ccm_encrypted_key_read e = some envelope)
      ∨ (e.type = LIBBDE_ENTRY_TYPE_VOLUME_HEADER_BLOCK
        ∧ e.value_type = C.LIBBDE_VALUE_TYPE_OFFSET_AND_SIZE))
    ∧ (∀ (m : libbde_metadata) (e : libbde_metadata_entry) (m1 : libbde_metadata),
      C.libbde_volume_master_key_read e = none →
      C.libbde_aes_ccm_encrypted_key_read e = none →
      e.value_type ≠ C.LIBBDE_VALUE_TYPE_OFFSET_AND_SIZE →
      libbde_metadata_read_entry_switch C m e = some m1 → m1 = m) := by
  have happended := libbde_metadata_read_appended h h1
  have hchange : ∀ (m : libbde_metadata) (e : libbde_metadata_entry) (m1 : libbde_metadata),
      libbde_metadata_read_entry_switch C m e = some m1 → m1 ≠ m →
      (e.type = LIBBDE_ENTRY_TYPE_VOLUME_MASTER_KEY
        ∧ ∃ v, C.libbde_volume_master_key_read e = some v)
      ∨ (e.type = LIBBDE_ENTRY_TYPE_FULL_VOLUME_ENCRYPTION_KEY
        ∧ ∃ envelope, C.libbde_aes_ccm_encrypted_key_read e = some envelope)
      ∨ (e.type = LIBBDE_ENTRY_TYPE_VOLUME_HEADER_BLOCK
        ∧ e.value_type = C.LIBBDE_VALUE_TYPE_OFFSET_AND_SIZE) := by
    intro m e m1 hs hne
    simp only [libbde_metadata_read_entry_switch] at hs
    repeat' split at hs
    all_goals first
      | (simp only [Option.some.injEq] at hs; exact absurd hs.symm hne)
      | (simp_all)
  refine ⟨happended, ?_, ?_, hchange, ?_⟩
  · rw [happended, List.length_append]
  · intro m e ht
    rcases ht with ⟨t1, t2, t3, t4, t5⟩ | ht | ⟨ht, hv⟩
    · simp [libbde_metadata_read_entry_switch, t1, t2, t3, t4, t5]
    · simp [libbde_metadata_read_entry_switch, ht, LIBBDE_ENTRY_TYPE_VOLUME_MASTER_KEY,
        LIBBDE_ENTRY_TYPE_FULL_VOLUME_ENCRYPTION_KEY, LIBBDE_ENTRY_TYPE_DESCRIPTION]
    · simp [libbde_metadata_read_entry_switch, ht, hv, LIBBDE_ENTRY_TYPE_VOLUME_MASTER_KEY,
        LIBBDE_ENTRY_TYPE_FULL_VOLUME_ENCRYPTION_KEY, LIBBDE_ENTRY_TYPE_DESCRIPTION,
        LIBBDE_ENTRY_TYPE_VOLUME_HEADER_BLOCK]
  · intro m e m1 hvmk henvelope hvalue hs
    by_contra hne
    rcases hchange m e m1 hs hne with ⟨-, v, hv⟩ | ⟨-, envelope, he⟩ | ⟨-, ho⟩
    · rw [hvmk] at hv; cases hv
    · rw [henvelope] at he; cases he
    · exact hvalue ho

/-- C19 on a sample: after the read of the block of `sample_fields_stream` into a
fresh metadata set the entries array is the decoded stream of seven entries,
the third of which has the unknown entry type 0x0099 and value type 0x0077;
the switch leaves a metadata set as it was on that entry. -/
theorem read_appends_every_entry_witness :
    libbde_metadata_read sample_collaborators 7 libbde_metadata_cleared
        (sample_io_handle 0 1) (sample_file (sample_block sample_fields_stream)) 0x2100000
      = some ⟨1, sample_metadata_read_stream, sample_io_handle 0 1⟩
    ∧ sample_metadata_read_stream.entries_array
      = libbde_metadata_cleared.entries_array
        ++ libbde_metadata_read_decoded sample_collaborators 7
          (sample_file (sample_block sample_fields_stream)) 0x2100000
    ∧ sample_metadata_read_stream.entries_array.length = 0 + 7
    ∧ libbde_metadata_read_entry_switch sample_collaborators sample_metadata_read_stream
        { type := 0x0099, value_type := 0x0077, value_data := List.replicate 8 0x55,
          value_data_size := 8 }
      = some sample_metadata_read_stream :=
  ⟨sample_stream_read,
    (read_appends_every_entry sample_collaborators 7 libbde_metadata_cleared
      (sample_io_handle 0 1) (sample_file (sample_block sample_fields_stream)) 0x2100000
      ⟨1, sample_metadata_read_stream, sample_io_handle 0 1⟩ sample_stream_read rfl).1,
    by decide,
    (read_appends_every_entry sample_collaborators 7 libbde_metadata_cleared
      (sample_io_handle 0 1) (sample_file (sample_block sample_fields_stream)) 0x2100000
      ⟨1, sample_metadata_read_stream, sample_io_handle 0 1⟩ sample_stream_read rfl).2.2.1
      _ _ (Or.inl (by decide))⟩

/-- Reading a byte of a buffer from a later start. -/
theorem byte_at_drop (data : List Byte) (k i : Nat) :
    byte_at (data.drop k) i = byte_at data (k + i) := by
  simp [byte_at, List.getD_eq_getElem?_getD, List.getElem?_drop]

/-- C21. After `libbde_metadata_read` has returned 1 on a metadata set whose
`volume_identifier` is the 16-byte array of the structure: the
`volume_identifier` is the 16 bytes at [80..96) of the block, the
`encryption_method` the little-endian 32-bit value at [100..104) and the
`creation_time` the little-endian 64-bit value at [104..112); these are the
fields `volume_identifier`, `encryption_method` and `creation_time` of the
48-byte metadata header that starts at byte 64 and is laid out as
`metadata_size` (0), `version` (4), `metadata_header_size` (8),
`metadata_size_copy` (12), `volume_identifier` (16), `next_nonce_counter` (32),
`encryption_method` (36), `creation_time` (40). -/
theorem read_stores_metadata_header (C : Collaborators) (fuel : Nat)
    (metadata : libbde_metadata) (io_handle : libbde_io_handle)
    (file_io_handle : libbfio_handle) (file_offset : Int)
    (r : libbde_metadata_read_result)
    (hidentifier : metadata.volume_identifier.length = 16)
    (h : libbde_metadata_read C fuel metadata io_handle file_io_handle file_offset = some r)
    (h1 : r.result = 1) :
    r.metadata.volume_identifier = bytes_at (file_io_handle.read file_offset 4096).2 80 16
    ∧ r.metadata.encryption_method
      = byte_stream_copy_to_uint32_little_endian (file_io_handle.read file_offset 4096).2 100
    ∧ r.metadata.creation_time
      = byte_stream_copy_to_uint64_little_endian (file_io_handle.read file_offset 4096).2 104
    ∧ sizeof_bde_metadata_block_header_v1_t = 64
    ∧ sizeof_bde_metadata_header_v1_t = 48
    ∧ metadata_header
      = { metadata_size := 0, version := 4, metadata_header_size := 8,
          metadata_size_copy := 12, volume_identifier := 16, next_nonce_counter := 32,
          encryption_method := 36, creation_time := 40 }
    ∧ sizeof_bde_metadata_block_header_v1_t + metadata_header.volume_identifier = 80
    ∧ sizeof_bde_metadata_block_header_v1_t + metadata_header.encryption_method = 100
    ∧ sizeof_bde_metadata_block_header_v1_t + metadata_header.creation_time = 104 := by
  obtain ⟨-, -, -, -, -, hloop⟩ := libbde_metadata_read_returns_one h h1
  obtain ⟨-, -, -, -, f5, f6, f7⟩ := libbde_metadata_read_entries_frame C fuel _ _ _ _ _ hloop
  refine ⟨?_, ?_, ?_, rfl, rfl, rfl, rfl, rfl, rfl⟩
  · rw [f5]
    have hlength : (libbde_metadata_read_block_header
        { metadata with
          version := byte_stream_copy_to_uint16_little_endian
            (file_io_handle.read file_offset 4096).2 block_header.version }
        (file_io_handle.read file_offset 4096).2).volume_identifier
        = metadata.volume_identifier := by
      simp only [libbde_metadata_read_block_header]
      split_ifs <;> rfl
    simp only [libbde_metadata_read_headers, libbde_metadata_read_metadata_header, hlength,
      memory_copy, bytes_at, metadata_header, sizeof_bde_metadata_block_header_v1_t,
      List.drop_drop, List.take_take, List.drop_of_length_le (Nat.le_of_eq hidentifier),
      List.append_nil]
    simp
  · rw [f6]
    simp only [libbde_metadata_read_headers, libbde_metadata_read_metadata_header,
      metadata_header, sizeof_bde_metadata_block_header_v1_t,
      byte_stream_copy_to_uint32_little_endian, byte_at_drop]
  · rw [f7]
    simp only [libbde_metadata_read_headers, libbde_metadata_read_metadata_header,
      metadata_header, sizeof_bde_metadata_block_header_v1_t,
      byte_stream_copy_to_uint64_little_endian, byte_stream_copy_to_uint32_little_endian,
      byte_at_drop]

/-- C21 on a sample: after the read of the block of `sample_fields_stream` the
volume identifier is the 16 bytes 0x11 at [80..96) of the block, the
encryption method the value 0x8001 at [100..104) and the creation time the
value 0x01cc0000deadbeef at [104..112). -/
theorem read_stores_metadata_header_witness :
    libbde_metadata_read sample_collaborators 7 libbde_metadata_cleared
        (sample_io_handle 0 1) (sample_file (sample_block sample_fields_stream)) 0x2100000
      = some ⟨1, sample_metadata_read_stream, sample_io_handle 0 1⟩
    ∧ sample_metadata_read_stream.volume_identifier
      = bytes_at (sample_block sample_fields_stream) 80 16
    ∧ sample_metadata_read_stream.volume_identifier = List.replicate 16 0x11
    ∧ sample_metadata_read_stream.encryption_method
      = byte_stream_copy_to_uint32_little_endian (sample_block sample_fields_stream) 100
    ∧ sample_metadata_read_stream.encryption_method = 0x8001
    ∧ sample_metadata_read_stream.creation_time
      = byte_stream_copy_to_uint64_little_endian (sample_block sample_fields_stream) 104
    ∧ sample_metadata_read_stream.creation_time = 0x01cc0000deadbeef :=
  ⟨sample_stream_read,
    (read_stores_metadata_header sample_collaborators 7 libbde_metadata_cleared
      (sample_io_handle 0 1) (sample_file (sample_block sample_fields_stream)) 0x2100000
      ⟨1, sample_metadata_read_stream, sample_io_handle 0 1⟩ rfl sample_stream_read rfl).1,
    rfl,
    (read_stores_metadata_header sample_collaborators 7 libbde_metadata_cleared
      (sample_io_handle 0 1) (sample_file (sample_block sample_fields_stream)) 0x2100000
      ⟨1, sample_metadata_read_stream, sample_io_handle 0 1⟩ rfl sample_stream_read rfl).2.1,
    rfl,
    (read_stores_metadata_header sample_collaborators 7 libbde_metadata_cleared
      (sample_io_handle 0 1) (sample_file (sample_block sample_fields_stream)) 0x2100000
      ⟨1, sample_metadata_read_stream, sample_io_handle 0 1⟩ rfl sample_stream_read rfl).2.2.1,
    rfl⟩

/-- C30. With the password set and the external key protector absent or without
its stretch key or its AES-CCM encrypted key,
`libbde_metadata_get_volume_master_key` returns -1 from the password block,
whether or not the recovery password is set as well: the output buffer, the
local `aes_ccm_key` and the scratch buffer are untouched, so the recovery block
was not entered; the call does what the call with the recovery password not
set does, whatever the disk password protector is. -/
theorem get_volume_master_key_no_fallback (C : Collaborators)
    (metadata : libbde_metadata) (io_handle : libbde_io_handle)
    (volume_master_key stack : List Byte)
    (hpassword : io_handle.password_is_set ≠ 0)
    (hmissing : metadata.external_key_volume_master_key = none
      ∨ ∃ p, metadata.external_key_volume_master_key = some p
        ∧ (p.stretch_key = none ∨ p.aes_ccm_encrypted_key = none)) :
    libbde_metadata_get_volume_master_key C metadata io_handle volume_master_key stack
        = some ⟨-1, volume_master_key, stack, []⟩
    ∧ libbde_metadata_get_volume_master_key C metadata io_handle volume_master_key stack
        = libbde_metadata_get_volume_master_key C metadata
            { io_handle with recovery_password_is_set := 0 } volume_master_key stack
    ∧ ∀ protector : Option libbde_volume_master_key,
      libbde_metadata_get_volume_master_key C
          { metadata with disk_password_volume_master_key := protector } io_handle
          volume_master_key stack
        = some ⟨-1, volume_master_key, stack, []⟩ := by
  have hwith := libbde_metadata_get_volume_master_key_with_missing C
    metadata.external_key_volume_master_key C.libbde_password_calculate_key
    io_handle.password_hash
    (libbde_metadata_get_volume_master_key_entry volume_master_key stack) hmissing
  simp only [libbde_metadata_get_volume_master_key_entry] at hwith
  refine ⟨?_, ?_, ?_⟩
  · simp [libbde_metadata_get_volume_master_key, hpassword, hwith,
      libbde_metadata_get_volume_master_key_return]
  · simp [libbde_metadata_get_volume_master_key, hpassword, hwith,
      libbde_metadata_get_volume_master_key_return]
  · intro protector
    simp [libbde_metadata_get_volume_master_key, hpassword, hwith,
      libbde_metadata_get_volume_master_key_return]

/-- C30 on a sample: the metadata set holds only a complete recovery protector,
which the recovery password alone unwraps (result 1, the key `sample_key_32`);
with the password set as well the function returns -1 and the buffer stays as
it was. -/
theorem get_volume_master_key_no_fallback_witness :
    libbde_metadata_get_volume_master_key sample_collaborators sample_metadata_recovery
        (sample_io_handle 1 1) (List.replicate 32 0) (List.replicate 32 0xcc)
      = some ⟨-1, List.replicate 32 0, List.replicate 32 0xcc, []⟩
    ∧ (libbde_metadata_get_volume_master_key sample_collaborators sample_metadata_recovery
        (sample_io_handle 0 1) (List.replicate 32 0) (List.replicate 32 0xcc)).map
        (fun r => (r.result, r.volume_master_key))
      = some (1, sample_key_32) :=
  ⟨(get_volume_master_key_no_fallback sample_collaborators sample_metadata_recovery
      (sample_io_handle 1 1) (List.replicate 32 0) (List.replicate 32 0xcc)
      (by decide) (Or.inl rfl)).1,
    by decide⟩

/-- C26, the code on failing inputs. An envelope of 28 bytes passes the test
`data_size < 28` of both functions, and when the block unwrapped from it
announces the inner version 1 and the inner data size 0x2c,
`libbde_metadata_get_volume_master_key` and
`libbde_metadata_get_full_volume_encryption_key` copy the bytes [28..60) of the
28-byte scratch buffer: they read past its end (the result `none` of the
embedding).  In the same way an envelope of 60 bytes whose block announces the
inner data size 0x4c makes `libbde_metadata_get_full_volume_encryption_key`
copy the bytes [60..92) of the 60-byte buffer. -/
theorem key_extraction_reads_past_buffer :
    ¬ (28 : Nat) < 28
    ∧ (sample_key_block 0x2c 1 []).length = 28
    ∧ libbde_metadata_get_volume_master_key sample_collaborators sample_metadata_truncated
        (sample_io_handle 1 0) (List.replicate 32 0) (List.replicate 32 0xcc) = none
    ∧ libbde_metadata_get_volume_master_key sample_collaborators
        { sample_metadata_truncated with
          disk_password_volume_master_key :=
            sample_metadata_truncated.external_key_volume_master_key }
        (sample_io_handle 0 1) (List.replicate 32 0) (List.replicate 32 0xcc) = none
    ∧ libbde_metadata_get_full_volume_encryption_key sample_collaborators
        sample_metadata_truncated sample_key_32 (List.replicate 32 0) (List.replicate 32 0)
      = none
    ∧ (sample_key_block 0x4c 1 sample_key_32).length = 60
    ∧ libbde_metadata_get_full_volume_encryption_key sample_collaborators
        sample_metadata_truncated_xts sample_key_32 (List.replicate 32 0)
        (List.replicate 32 0)
      = none := by
  decide

/-- The local `aes_ccm_key` with which a credential block is left: a block left
by a `return( -1 )` has not touched the state, and a block left in any other
way has derived the key from the hash and the salt of the protector's stretch
key and leaves what the key derivation wrote in `aes_ccm_key`. -/
theorem libbde_metadata_get_volume_master_key_with_key (C : Collaborators)
    (protector : Option libbde_volume_master_key)
    (calculate_key : List Byte → List Byte → Int × List Byte)
    (hash : List Byte) (state : volume_master_key_state) :
    (∀ st, libbde_metadata_get_volume_master_key_with C protector calculate_key hash state
        = credential_exit.return_error st → st = state)
    ∧ (∀ st, (libbde_metadata_get_volume_master_key_with C protector calculate_key hash state
          = credential_exit.completed st
        ∨ libbde_metadata_get_volume_master_key_with C protector calculate_key hash state
          = credential_exit.on_error st) →
      ∃ p s, protector = some p ∧ p.stretch_key = some s
        ∧ st.aes_ccm_key = (calculate_key hash s.salt).2) := by
  constructor
  · intro st h
    simp only [libbde_metadata_get_volume_master_key_with,
      libbde_metadata_get_volume_master_key_goto_on_error] at h
    repeat' split at h
    all_goals first
      | (simp only [credential_exit.return_error.injEq] at h; exact h.symm)
      | (cases h)
  · intro st h
    cases protector with
    | none => rcases h with h | h <;> cases h
    | some p =>
      cases hs : p.stretch_key with
      | none =>
        rcases h with h | h <;>
          simp [libbde_metadata_get_volume_master_key_with, hs] at h
      | some s =>
        refine ⟨p, s, rfl, hs, ?_⟩
        simp only [libbde_metadata_get_volume_master_key_with,
          libbde_metadata_get_volume_master_key_goto_on_error, hs] at h
        repeat' split at h
        all_goals first
          | (rcases h with h | h <;>
              first
                | (simp only [credential_exit.completed.injEq] at h; subst h; rfl)
                | (simp only [credential_exit.on_error.injEq] at h; subst h; rfl)
                | (cases h))

/-- The function `libbde_metadata_get_volume_master_key` in terms of its two
guarded credential blocks. -/
theorem libbde_metadata_get_volume_master_key_blocks (C : Collaborators)
    (metadata : libbde_metadata) (io_handle : libbde_io_handle)
    (volume_master_key stack : List Byte) :
    libbde_metadata_get_volume_master_key C metadata io_handle volume_master_key stack
      = match libbde_metadata_get_volume_master_key_first C metadata io_handle
          volume_master_key stack with
        | .completed state =>
          credential_exit_result
            (libbde_metadata_get_volume_master_key_second C metadata io_handle state)
        | .return_error state => credential_exit_result (.return_error state)
        | .on_error state => credential_exit_result (.on_error state)
        | .undefined => none := by
  simp only [libbde_metadata_get_volume_master_key,
    libbde_metadata_get_volume_master_key_first,
    libbde_metadata_get_volume_master_key_password,
    libbde_metadata_get_volume_master_key_entry]
  generalize (if io_handle.password_is_set ≠ 0 then
      libbde_metadata_get_volume_master_key_with C metadata.external_key_volume_master_key
        C.libbde_password_calculate_key io_handle.password_hash
        { volume_master_key := volume_master_key, aes_ccm_key := stack,
          unencrypted_data := false, unencrypted_data_size := 0, result := 0, scratch := [] }
    else
      credential_exit.completed
        { volume_master_key := volume_master_key, aes_ccm_key := stack,
          unencrypted_data := false, unencrypted_data_size := 0, result := 0,
          scratch := [] }) = first
  cases first with
  | undefined => rfl
  | return_error state => rfl
  | on_error state => rfl
  | completed state =>
    simp only [libbde_metadata_get_volume_master_key_second]
    generalize (if state.result = 0 ∧ io_handle.recovery_password_is_set ≠ 0 then
        libbde_metadata_get_volume_master_key_with C metadata.disk_password_volume_master_key
          C.libbde_recovery_calculate_key io_handle.recovery_password_hash state
      else
        credential_exit.completed state) = second
    cases second <;> rfl

/-- C23, the code on a failing input. With only the password set and a well-formed
password protector, `libbde_metadata_get_volume_master_key` returns 1 and its
local `aes_ccm_key` then holds the derived key (for the sample key derivation:
16 bytes of the password hash followed by the salt), not 32 zero bytes. -/
theorem get_volume_master_key_leaves_derived_key :
    (libbde_metadata_get_volume_master_key sample_collaborators sample_metadata_password
        (sample_io_handle 1 0) (List.replicate 32 0) (List.replicate 32 0xcc)).map
        (fun r => (r.result, r.aes_ccm_key))
      = some (1, List.replicate 16 3 ++ List.replicate 16 7)
    ∧ (sample_collaborators.libbde_password_calculate_key (List.replicate 32 3)
        (List.replicate 16 7)).2 = List.replicate 16 3 ++ List.replicate 16 7
    ∧ List.replicate 16 (3 : Byte) ++ List.replicate 16 7 ≠ List.replicate 32 0 := by
  decide

/-- What `libbde_metadata_get_volume_master_key` leaves in its local buffer
`aes_ccm_key`.  When the function returns, the buffer holds what the last key
derivation that ran wrote into it, on every exit path: it is the stack
contents the function found when no key derivation ran, the output of the
password key derivation on the password hash and the salt of the external key
protector, or the output of the recovery key derivation on the recovery
password hash and the salt of the disk password protector; the buffer is set
to zero only before a key derivation and is not cleared before the function
returns.  With a single credential set and its protector complete it is the
key derived for that credential. -/
theorem get_volume_master_key_key_buffer (C : Collaborators)
    (metadata : libbde_metadata) (io_handle : libbde_io_handle)
    (volume_master_key stack : List Byte)
    (r : libbde_metadata_get_volume_master_key_result)
    (h : libbde_metadata_get_volume_master_key C metadata io_handle volume_master_key stack
      = some r) :
    (r.aes_ccm_key = stack
      ∨ (io_handle.password_is_set ≠ 0
        ∧ ∃ p s, metadata.external_key_volume_master_key = some p ∧ p.stretch_key = some s
          ∧ r.aes_ccm_key
            = (C.libbde_password_calculate_key io_handle.password_hash s.salt).2)
      ∨ (io_handle.recovery_password_is_set ≠ 0
        ∧ ∃ p s, metadata.disk_password_volume_master_key = some p ∧ p.stretch_key = some s
          ∧ r.aes_ccm_key
            = (C.libbde_recovery_calculate_key io_handle.recovery_password_hash s.salt).2))
    ∧ (∀ p s e, io_handle.password_is_set ≠ 0 → io_handle.recovery_password_is_set = 0 →
      metadata.external_key_volume_master_key = some p → p.stretch_key = some s →
      p.aes_ccm_encrypted_key = some e →
      r.aes_ccm_key = (C.libbde_password_calculate_key io_handle.password_hash s.salt).2)
    ∧ (∀ p s e, io_handle.password_is_set = 0 → io_handle.recovery_password_is_set ≠ 0 →
      metadata.disk_password_volume_master_key = some p → p.stretch_key = some s →
      p.aes_ccm_encrypted_key = some e →
      r.aes_ccm_key
        = (C.libbde_recovery_calculate_key io_handle.recovery_password_hash s.salt).2) := by
  have hcomplete : ∀ (protector : Option libbde_volume_master_key)
      (calculate_key : List Byte → List Byte → Int × List Byte) (hash : List Byte)
      (state st : volume_master_key_state) p s e,
      protector = some p → p.stretch_key = some s → p.aes_ccm_encrypted_key = some e →
      libbde_metadata_get_volume_master_key_with C protector calculate_key hash state
        ≠ credential_exit.return_error st := by
    intro protector calculate_key hash state st p s e hp hs he hw
    subst hp
    simp only [libbde_metadata_get_volume_master_key_with,
      libbde_metadata_get_volume_master_key_goto_on_error, hs, he] at hw
    repeat' split at hw
    all_goals cases hw
  rw [libbde_metadata_get_volume_master_key_blocks] at h
  by_cases hpw : io_handle.password_is_set = 0
  · -- the password block is not entered
    have hfirst : libbde_metadata_get_volume_master_key_first C metadata io_handle
        volume_master_key stack
        = credential_exit.completed
          (libbde_metadata_get_volume_master_key_entry volume_master_key stack) := by
      simp [libbde_metadata_get_volume_master_key_first, hpw]
    rw [hfirst] at h
    simp only at h
    by_cases hrec : io_handle.recovery_password_is_set = 0
    · have hsecond : libbde_metadata_get_volume_master_key_second C metadata io_handle
          (libbde_metadata_get_volume_master_key_entry volume_master_key stack)
          = credential_exit.completed
            (libbde_metadata_get_volume_master_key_entry volume_master_key stack) := by
        simp [libbde_metadata_get_volume_master_key_second, hrec]
      rw [hsecond] at h
      simp only [credential_exit_result, Option.some.injEq] at h
      subst h
      exact ⟨Or.inl rfl, fun _ _ _ hp _ => absurd hpw hp, fun _ _ _ _ hr => absurd hrec hr⟩
    · have hsecond : libbde_metadata_get_volume_master_key_second C metadata io_handle
          (libbde_metadata_get_volume_master_key_entry volume_master_key stack)
          = libbde_metadata_get_volume_master_key_with C
              metadata.disk_password_volume_master_key C.libbde_recovery_calculate_key
              io_handle.recovery_password_hash
              (libbde_metadata_get_volume_master_key_entry volume_master_key stack) := by
        simp [libbde_metadata_get_volume_master_key_second, hrec,
          libbde_metadata_get_volume_master_key_entry]
      rw [hsecond] at h
      obtain ⟨hreturn, hderived⟩ := libbde_metadata_get_volume_master_key_with_key C
        metadata.disk_password_volume_master_key C.libbde_recovery_calculate_key
        io_handle.recovery_password_hash
        (libbde_metadata_get_volume_master_key_entry volume_master_key stack)
      cases hw : libbde_metadata_get_volume_master_key_with C
          metadata.disk_password_volume_master_key C.libbde_recovery_calculate_key
          io_handle.recovery_password_hash
          (libbde_metadata_get_volume_master_key_entry volume_master_key stack) with
      | undefined => rw [hw] at h; cases h
      | return_error st =>
        rw [hw] at h
        simp only [credential_exit_result, Option.some.injEq] at h
        subst h
        have hst := hreturn st hw
        subst hst
        exact ⟨Or.inl rfl, fun _ _ _ hp _ => absurd hpw hp,
          fun p s e _ _ hp hs he => absurd hw (hcomplete _ _ _ _ _ p s e hp hs he)⟩
      | on_error st =>
        rw [hw] at h
        simp only [credential_exit_result, Option.some.injEq] at h
        subst h
        obtain ⟨p, s, hp, hs, hkey⟩ := hderived st (Or.inr hw)
        refine ⟨Or.inr (Or.inr ⟨hrec, p, s, hp, hs, hkey⟩), fun _ _ _ hp' _ => absurd hpw hp',
          ?_⟩
        intro p' s' e' _ _ hp' hs' _
        rw [hp] at hp'
        simp only [Option.some.injEq] at hp'
        subst hp'
        rw [hs] at hs'
        simp only [Option.some.injEq] at hs'
        subst hs'
        exact hkey
      | completed st =>
        rw [hw] at h
        simp only [credential_exit_result, Option.some.injEq] at h
        subst h
        obtain ⟨p, s, hp, hs, hkey⟩ := hderived st (Or.inl hw)
        refine ⟨Or.inr (Or.inr ⟨hrec, p, s, hp, hs, hkey⟩), fun _ _ _ hp' _ => absurd hpw hp',
          ?_⟩
        intro p' s' e' _ _ hp' hs' _
        rw [hp] at hp'
        simp only [Option.some.injEq] at hp'
        subst hp'
        rw [hs] at hs'
        simp only [Option.some.injEq] at hs'
        subst hs'
        exact hkey
  · -- the password block is entered
    have hfirst : libbde_metadata_get_volume_master_key_first C metadata io_handle
        volume_master_key stack
        = libbde_metadata_get_volume_master_key_with C
            metadata.external_key_volume_master_key C.libbde_password_calculate_key
            io_handle.password_hash
            (libbde_metadata_get_volume_master_key_entry volume_master_key stack) := by
      simp [libbde_metadata_get_volume_master_key_first, hpw,
        libbde_metadata_get_volume_master_key_password]
    rw [hfirst] at h
    obtain ⟨hreturn, hderived⟩ := libbde_metadata_get_volume_master_key_with_key C
      metadata.external_key_volume_master_key C.libbde_password_calculate_key
      io_handle.password_hash
      (libbde_metadata_get_volume_master_key_entry volume_master_key stack)
    have hunique : ∀ (st : volume_master_key_state),
        (∃ p s, metadata.external_key_volume_master_key = some p ∧ p.stretch_key = some s
          ∧ st.aes_ccm_key
            = (C.libbde_password_calculate_key io_handle.password_hash s.salt).2) →
        ∀ p s (e : libbde_aes_ccm_encrypted_key),
          metadata.external_key_volume_master_key = some p → p.stretch_key = some s →
          p.aes_ccm_encrypted_key = some e →
          st.aes_ccm_key
            = (C.libbde_password_calculate_key io_handle.password_hash s.salt).2 := by
      rintro st ⟨p, s, hp, hs, hkey⟩ p' s' e' hp' hs' _
      rw [hp] at hp'
      simp only [Option.some.injEq] at hp'
      subst hp'
      rw [hs] at hs'
      simp only [Option.some.injEq] at hs'
      subst hs'
      exact hkey
    cases hw : libbde_metadata_get_volume_master_key_with C
        metadata.external_key_volume_master_key C.libbde_password_calculate_key
        io_handle.password_hash
        (libbde_metadata_get_volume_master_key_entry volume_master_key stack) with
    | undefined => rw [hw] at h; cases h
    | return_error st =>
      rw [hw] at h
      simp only [credential_exit_result, Option.some.injEq] at h
      subst h
      have hst := hreturn st hw
      subst hst
      exact ⟨Or.inl rfl,
        fun p s e _ _ hp hs he => absurd hw (hcomplete _ _ _ _ _ p s e hp hs he),
        fun _ _ _ hp _ => absurd hp hpw⟩
    | on_error st =>
      rw [hw] at h
      simp only [credential_exit_result, Option.some.injEq] at h
      subst h
      have hkey := hderived st (Or.inr hw)
      exact ⟨Or.inr (Or.inl ⟨hpw, hkey⟩),
        fun p s e _ _ hp hs he => hunique st hkey p s e hp hs he,
        fun _ _ _ hp _ => absurd hp hpw⟩
    | completed st =>
      rw [hw] at h
      simp only at h
      have hkey := hderived st (Or.inl hw)
      by_cases hcond : st.result = 0 ∧ io_handle.recovery_password_is_set ≠ 0
      · have hsecond : libbde_metadata_get_volume_master_key_second C metadata io_handle st
            = libbde_metadata_get_volume_master_key_with C
                metadata.disk_password_volume_master_key C.libbde_recovery_calculate_key
                io_handle.recovery_password_hash st := by
          simp only [libbde_metadata_get_volume_master_key_second, if_pos hcond]
        rw [hsecond] at h
        obtain ⟨hreturn2, hderived2⟩ := libbde_metadata_get_volume_master_key_with_key C
          metadata.disk_password_volume_master_key C.libbde_recovery_calculate_key
          io_handle.recovery_password_hash st
        cases hw2 : libbde_metadata_get_volume_master_key_with C
            metadata.disk_password_volume_master_key C.libbde_recovery_calculate_key
            io_handle.recovery_password_hash st with
        | undefined => rw [hw2] at h; cases h
        | return_error st2 =>
          rw [hw2] at h
          simp only [credential_exit_result, Option.some.injEq] at h
          subst h
          have hst := hreturn2 st2 hw2
          subst hst
          exact ⟨Or.inr (Or.inl ⟨hpw, hkey⟩),
            fun _ _ _ _ hr => absurd hr hcond.2, fun _ _ _ hp _ => absurd hp hpw⟩
        | on_error st2 =>
          rw [hw2] at h
          simp only [credential_exit_result, Option.some.injEq] at h
          subst h
          exact ⟨Or.inr (Or.inr ⟨hcond.2, hderived2 st2 (Or.inr hw2)⟩),
            fun _ _ _ _ hr => absurd hr hcond.2, fun _ _ _ hp _ => absurd hp hpw⟩
        | completed st2 =>
          rw [hw2] at h
          simp only [credential_exit_result, Option.some.injEq] at h
          subst h
          exact ⟨Or.inr (Or.inr ⟨hcond.2, hderived2 st2 (Or.inl hw2)⟩),
            fun _ _ _ _ hr => absurd hr hcond.2, fun _ _ _ hp _ => absurd hp hpw⟩
      · have hsecond : libbde_metadata_get_volume_master_key_second C metadata io_handle st
            = credential_exit.completed st := by
          simp only [libbde_metadata_get_volume_master_key_second, if_neg hcond]
        rw [hsecond] at h
        simp only [credential_exit_result, Option.some.injEq] at h
        subst h
        exact ⟨Or.inr (Or.inl ⟨hpw, hkey⟩),
          fun p s e _ _ hp hs he => hunique st hkey p s e hp hs he,
          fun _ _ _ hp _ => absurd hp hpw⟩

/-- The local `aes_ccm_key` on a sample: with only the password set and the sample
password protector the function returns 1 and `aes_ccm_key` holds the output of
the password key derivation on the password hash and the protector's salt. -/
theorem get_volume_master_key_key_buffer_witness :
    libbde_metadata_get_volume_master_key sample_collaborators sample_metadata_password
        (sample_io_handle 1 0) (List.replicate 32 0) (List.replicate 32 0xcc)
      = some ⟨1, sample_key_32, List.replicate 16 3 ++ List.replicate 16 7,
          [scratch_event.allocate 60, scratch_event.clear 60,
           scratch_event.decrypt (sample_key_block 0x2c 1 sample_key_32),
           scratch_event.clear 60, scratch_event.free]⟩
    ∧ List.replicate 16 (3 : Byte) ++ List.replicate 16 7
      = (sample_collaborators.libbde_password_calculate_key
          (sample_io_handle 1 0).password_hash (List.replicate 16 7)).2 :=
  ⟨by decide,
    (get_volume_master_key_key_buffer sample_collaborators sample_metadata_password
      (sample_io_handle 1 0) (List.replicate 32 0) (List.replicate 32 0xcc)
      ⟨1, sample_key_32, List.replicate 16 3 ++ List.replicate 16 7,
        [scratch_event.allocate 60, scratch_event.clear 60,
         scratch_event.decrypt (sample_key_block 0x2c 1 sample_key_32),
         scratch_event.clear 60, scratch_event.free]⟩
      (by decide)).2.1
      (sample_protector 0x2000 (sample_envelope (sample_key_block 0x2c 1 sample_key_32) 60))
      { salt := List.replicate 16 7 }
      (sample_envelope (sample_key_block 0x2c 1 sample_key_32) 60)
      (by decide) rfl rfl rfl rfl⟩

/-- The events a credential block adds to the trace of the scratch buffer: none
on a `return( -1 )` and on a `goto on_error` before the allocation; the
allocation and its initial clearing on a `goto on_error` after it; and the
allocation, the clearing, the decryption, the clearing and the release when the
block runs to its end. -/
theorem libbde_metadata_get_volume_master_key_with_scratch (C : Collaborators)
    (protector : Option libbde_volume_master_key)
    (calculate_key : List Byte → List Byte → Int × List Byte)
    (hash : List Byte) (state : volume_master_key_state) :
    (∀ st, libbde_metadata_get_volume_master_key_with C protector calculate_key hash state
        = credential_exit.on_error st →
      (st.scratch = state.scratch ∧ st.unencrypted_data = state.unencrypted_data
        ∧ st.unencrypted_data_size = state.unencrypted_data_size)
      ∨ ∃ n, st.scratch
          = state.scratch ++ [scratch_event.allocate n, scratch_event.clear n]
        ∧ st.unencrypted_data = true ∧ st.unencrypted_data_size = n)
    ∧ (∀ st, libbde_metadata_get_volume_master_key_with C protector calculate_key hash state
        = credential_exit.completed st →
      ∃ n d, st.scratch
          = state.scratch ++ [scratch_event.allocate n, scratch_event.clear n,
              scratch_event.decrypt d, scratch_event.clear n, scratch_event.free]
        ∧ st.unencrypted_data = true ∧ st.unencrypted_data_size = n) := by
  constructor
  · intro st h
    simp only [libbde_metadata_get_volume_master_key_with,
      libbde_metadata_get_volume_master_key_goto_on_error] at h
    repeat' split at h
    all_goals first
      | (simp only [credential_exit.on_error.injEq] at h; subst h
         first
           | (exact Or.inl ⟨rfl, rfl, rfl⟩)
           | (exact Or.inr ⟨_, rfl, rfl, rfl⟩))
      | (cases h)
  · intro st h
    simp only [libbde_metadata_get_volume_master_key_with,
      libbde_metadata_get_volume_master_key_goto_on_error] at h
    repeat' split at h
    all_goals try contradiction
    all_goals
      simp only [credential_exit.completed.injEq] at h
      subst h
      exact ⟨_, _, by simp only [List.append_assoc, List.cons_append, List.nil_append]; rfl,
        rfl, rfl⟩

/-- A credential block entered between the blocks leaves, on each of its exits,
a trace in which every buffer is cleared over its full length before it is
released. -/
theorem libbde_metadata_get_volume_master_key_with_zeroized (C : Collaborators)
    (protector : Option libbde_volume_master_key)
    (calculate_key : List Byte → List Byte → Int × List Byte)
    (hash : List Byte) (state : volume_master_key_state)
    (hbetween : volume_master_key_state_between state)
    (r : libbde_metadata_get_volume_master_key_result)
    (h : credential_exit_result
        (libbde_metadata_get_volume_master_key_with C protector calculate_key hash state)
      = some r) :
    scratch_zeroized none false false r.scratch = true := by
  obtain ⟨hreturn, -⟩ := libbde_metadata_get_volume_master_key_with_key C protector
    calculate_key hash state
  obtain ⟨herror, hcompleted⟩ := libbde_metadata_get_volume_master_key_with_scratch C
    protector calculate_key hash state
  cases hw : libbde_metadata_get_volume_master_key_with C protector calculate_key hash
      state with
  | undefined => rw [hw] at h; cases h
  | return_error st =>
    rw [hw] at h
    simp only [credential_exit_result, Option.some.injEq] at h
    subst h
    have hst := hreturn st hw
    subst hst
    rcases hbetween with ⟨hs, -⟩ | ⟨n, d, hs, -, -⟩ <;>
      simp [libbde_metadata_get_volume_master_key_return, hs, scratch_zeroized]
  | on_error st =>
    rw [hw] at h
    simp only [credential_exit_result, Option.some.injEq] at h
    subst h
    rcases herror st hw with ⟨h1, h2, h3⟩ | ⟨m, h1, h2, h3⟩ <;>
      rcases hbetween with ⟨hs, hu⟩ | ⟨n, d, hs, hu, hn⟩
    · simp [libbde_metadata_get_volume_master_key_on_error, h1, h2, h3, hs, hu,
        scratch_zeroized]
    · simp [libbde_metadata_get_volume_master_key_on_error, h1, h2, h3, hs, hu, hn,
        scratch_zeroized]
    · simp [libbde_metadata_get_volume_master_key_on_error, h1, h2, h3, hs, hu,
        scratch_zeroized]
    · simp [libbde_metadata_get_volume_master_key_on_error, h1, h2, h3, hs, hu, hn,
        scratch_zeroized]
  | completed st =>
    rw [hw] at h
    simp only [credential_exit_result, Option.some.injEq] at h
    subst h
    obtain ⟨m, e, h1, -, -⟩ := hcompleted st hw
    rcases hbetween with ⟨hs, -⟩ | ⟨n, d, hs, -, -⟩ <;>
      simp [libbde_metadata_get_volume_master_key_return, h1, hs, scratch_zeroized]

/-- C22. The scratch buffer `unencrypted_data` is set to zero over its full
length before it is released, on every exit of
`libbde_metadata_get_volume_master_key` and of
`libbde_metadata_get_full_volume_encryption_key` that is reached after its
allocation, whatever the return code (1, 0 or -1): in the trace of the buffer
every `memory_free` directly follows a `memory_set` to zero of the size
allocated, and no buffer is left unreleased (`scratch_zeroized`). -/
theorem scratch_buffer_zeroized (C : Collaborators) (metadata : libbde_metadata)
    (io_handle : libbde_io_handle) (volume_master_key stack : List Byte)
    (full_volume_encryption_key tweak_key : List Byte) :
    (∀ r, libbde_metadata_get_volume_master_key C metadata io_handle volume_master_key stack
        = some r →
      scratch_zeroized none false false r.scratch = true)
    ∧ (∀ r, libbde_metadata_get_full_volume_encryption_key C metadata volume_master_key
        full_volume_encryption_key tweak_key = some r →
      scratch_zeroized none false false r.scratch = true) := by
  constructor
  · intro r h
    rw [libbde_metadata_get_volume_master_key_blocks] at h
    have hentry : volume_master_key_state_between
        (libbde_metadata_get_volume_master_key_entry volume_master_key stack) :=
      Or.inl ⟨rfl, rfl⟩
    have hsecond : ∀ state, volume_master_key_state_between state →
        credential_exit_result
          (libbde_metadata_get_volume_master_key_second C metadata io_handle state) = some r →
        scratch_zeroized none false false r.scratch = true := by
      intro state hstate hr
      simp only [libbde_metadata_get_volume_master_key_second] at hr
      split_ifs at hr
      · exact libbde_metadata_get_volume_master_key_with_zeroized C _ _ _ state hstate r hr
      · simp only [credential_exit_result, Option.some.injEq] at hr
        subst hr
        rcases hstate with ⟨hs, -⟩ | ⟨n, d, hs, -, -⟩ <;>
          simp [libbde_metadata_get_volume_master_key_return, hs, scratch_zeroized]
    by_cases hpw : io_handle.password_is_set = 0
    · have hfirst : libbde_metadata_get_volume_master_key_first C metadata io_handle
          volume_master_key stack
          = credential_exit.completed
            (libbde_metadata_get_volume_master_key_entry volume_master_key stack) := by
        simp [libbde_metadata_get_volume_master_key_first, hpw]
      rw [hfirst] at h
      exact hsecond _ hentry h
    · have hfirst : libbde_metadata_get_volume_master_key_first C metadata io_handle
          volume_master_key stack
          = libbde_metadata_get_volume_master_key_with C
              metadata.external_key_volume_master_key C.libbde_password_calculate_key
              io_handle.password_hash
              (libbde_metadata_get_volume_master_key_entry volume_master_key stack) := by
        simp [libbde_metadata_get_volume_master_key_first, hpw,
          libbde_metadata_get_volume_master_key_password]
      rw [hfirst] at h
      have hzero := libbde_metadata_get_volume_master_key_with_zeroized C
        metadata.external_key_volume_master_key C.libbde_password_calculate_key
        io_handle.password_hash
        (libbde_metadata_get_volume_master_key_entry volume_master_key stack) hentry r
      cases hw : libbde_metadata_get_volume_master_key_with C
          metadata.external_key_volume_master_key C.libbde_password_calculate_key
          io_handle.password_hash
          (libbde_metadata_get_volume_master_key_entry volume_master_key stack) with
      | undefined => rw [hw] at h; cases h
      | return_error st => rw [hw] at h hzero; exact hzero h
      | on_error st => rw [hw] at h hzero; exact hzero h
      | completed st =>
        rw [hw] at h
        obtain ⟨n, d, h1, h2, h3⟩ :=
          (libbde_metadata_get_volume_master_key_with_scratch C
            metadata.external_key_volume_master_key C.libbde_password_calculate_key
            io_handle.password_hash
            (libbde_metadata_get_volume_master_key_entry volume_master_key stack)).2 st hw
        exact hsecond st (Or.inr ⟨n, d, by
          rw [h1]; simp [libbde_metadata_get_volume_master_key_entry], h2, h3⟩) h
  · intro r h
    simp only [libbde_metadata_get_full_volume_encryption_key] at h
    repeat' split at h
    all_goals try contradiction
    all_goals
      simp only [Option.some.injEq] at h
      subst h
      simp [scratch_zeroized]

/-- The sample password unlock: result 1, the key `sample_key_32`, the derived
key left in `aes_ccm_key` and the trace of the 60-byte scratch buffer. -/
theorem sample_password_unlock :
    libbde_metadata_get_volume_master_key sample_collaborators sample_metadata_password
        (sample_io_handle 1 0) (List.replicate 32 0) (List.replicate 32 0xcc)
      = some ⟨1, sample_key_32, List.replicate 16 3 ++ List.replicate 16 7,
          [scratch_event.allocate 60, scratch_event.clear 60,
           scratch_event.decrypt (sample_key_block 0x2c 1 sample_key_32),
           scratch_event.clear 60, scratch_event.free]⟩ := by
  decide

/-- The sample password unlock with a cipher that fails: result -1 after the
allocation of the scratch buffer. -/
theorem sample_password_unlock_failing :
    libbde_metadata_get_volume_master_key sample_collaborators_failing
        sample_metadata_password (sample_io_handle 1 0) (List.replicate 32 0)
        (List.replicate 32 0xcc)
      = some ⟨-1, List.replicate 32 0, List.replicate 16 3 ++ List.replicate 16 7,
          [scratch_event.allocate 60, scratch_event.clear 60, scratch_event.clear 60,
           scratch_event.free]⟩ := by
  decide

/-- The FVEK retrieval on a key block of the unlisted inner data size 0x3c:
result 0 and the trace of the 92-byte scratch buffer. -/
theorem sample_unlisted_key_block :
    libbde_metadata_get_full_volume_encryption_key sample_collaborators
        { libbde_metadata_cleared with
          full_volume_encryption_key :=
            some (sample_envelope
              (sample_key_block 0x3c 1 (sample_key_32 ++ sample_tweak_32)) 92) }
        sample_key_32 (List.replicate 32 0xaa) (List.replicate 32 0xbb)
      = some ⟨0, List.replicate 32 0xaa, List.replicate 32 0xbb,
          [scratch_event.allocate 92, scratch_event.clear 92,
           scratch_event.decrypt (sample_key_block 0x3c 1 (sample_key_32 ++ sample_tweak_32)),
           scratch_event.clear 92, scratch_event.free]⟩ := by
  decide

/-- C22 on samples: the traces of a call of
`libbde_metadata_get_volume_master_key` that returns 1, of one that returns -1
because the cipher fails after the allocation, and of a call of
`libbde_metadata_get_full_volume_encryption_key` that returns 0 all show the
buffer cleared over its 60 or 92 bytes before it is released. -/
theorem scratch_buffer_zeroized_witness :
    (libbde_metadata_get_volume_master_key sample_collaborators sample_metadata_password
        (sample_io_handle 1 0) (List.replicate 32 0) (List.replicate 32 0xcc)
      = some ⟨1, sample_key_32, List.replicate 16 3 ++ List.replicate 16 7,
          [scratch_event.allocate 60, scratch_event.clear 60,
           scratch_event.decrypt (sample_key_block 0x2c 1 sample_key_32),
           scratch_event.clear 60, scratch_event.free]⟩
      ∧ scratch_zeroized none false false
          [scratch_event.allocate 60, scratch_event.clear 60,
           scratch_event.decrypt (sample_key_block 0x2c 1 sample_key_32),
           scratch_event.clear 60, scratch_event.free] = true)
    ∧ (libbde_metadata_get_volume_master_key sample_collaborators_failing
        sample_metadata_password (sample_io_handle 1 0) (List.replicate 32 0)
        (List.replicate 32 0xcc)
      = some ⟨-1, List.replicate 32 0, List.replicate 16 3 ++ List.replicate 16 7,
          [scratch_event.allocate 60, scratch_event.clear 60, scratch_event.clear 60,
           scratch_event.free]⟩
      ∧ scratch_zeroized none false false
          [scratch_event.allocate 60, scratch_event.clear 60, scratch_event.clear 60,
           scratch_event.free] = true)
    ∧ (libbde_metadata_get_full_volume_encryption_key sample_collaborators
        { libbde_metadata_cleared with
          full_volume_encryption_key :=
            some (sample_envelope
              (sample_key_block 0x3c 1 (sample_key_32 ++ sample_tweak_32)) 92) }
        sample_key_32 (List.replicate 32 0xaa) (List.replicate 32 0xbb)
      = some ⟨0, List.replicate 32 0xaa, List.replicate 32 0xbb,
          [scratch_event.allocate 92, scratch_event.clear 92,
           scratch_event.decrypt (sample_key_block 0x3c 1 (sample_key_32 ++ sample_tweak_32)),
           scratch_event.clear 92, scratch_event.free]⟩
      ∧ scratch_zeroized none false false
          [scratch_event.allocate 92, scratch_event.clear 92,
           scratch_event.decrypt (sample_key_block 0x3c 1 (sample_key_32 ++ sample_tweak_32)),
           scratch_event.clear 92, scratch_event.free] = true) :=
  ⟨⟨sample_password_unlock,
      (scratch_buffer_zeroized sample_collaborators sample_metadata_password
        (sample_io_handle 1 0) (List.replicate 32 0) (List.replicate 32 0xcc)
        (List.replicate 32 0) (List.replicate 32 0)).1 _ sample_password_unlock⟩,
    ⟨sample_password_unlock_failing,
      (scratch_buffer_zeroized sample_collaborators_failing sample_metadata_password
        (sample_io_handle 1 0) (List.replicate 32 0) (List.replicate 32 0xcc)
        (List.replicate 32 0) (List.replicate 32 0)).1 _ sample_password_unlock_failing⟩,
    ⟨sample_unlisted_key_block,
      (scratch_buffer_zeroized sample_collaborators
        { libbde_metadata_cleared with
          full_volume_encryption_key :=
            some (sample_envelope
              (sample_key_block 0x3c 1 (sample_key_32 ++ sample_tweak_32)) 92) }
        (sample_io_handle 1 0) sample_key_32 (List.replicate 32 0xcc)
        (List.replicate 32 0xaa) (List.replicate 32 0xbb)).2 _ sample_unlisted_key_block⟩⟩

/-- A credential block calls the key derivation on the hash and the salt of the
protector's stretch key, the key set-up on the derived key with 256 bits, and
the cipher on the derived key, the 12-byte nonce and the data of the
protector's envelope, and nothing else: two sets of collaborators that agree
on these three calls give the same block. -/
theorem libbde_metadata_get_volume_master_key_with_calls (C C' : Collaborators)
    (protector : Option libbde_volume_master_key)
    (calculate_key calculate_key' : List Byte → List Byte → Int × List Byte)
    (hash : List Byte) (state : volume_master_key_state)
    (hcalls : ∀ p s e, protector = some p → p.stretch_key = some s →
      p.aes_ccm_encrypted_key = some e →
      calculate_key hash s.salt = calculate_key' hash s.salt
      ∧ C.libbde_aes_set_encryption_key (calculate_key hash s.salt).2 256
        = C'.libbde_aes_set_encryption_key (calculate_key hash s.salt).2 256
      ∧ C.libbde_aes_ccm_crypt (calculate_key hash s.salt).2 256 e.nonce 12 e.data e.data_size
          e.data_size
        = C'.libbde_aes_ccm_crypt (calculate_key hash s.salt).2 256 e.nonce 12 e.data
          e.data_size e.data_size) :
    libbde_metadata_get_volume_master_key_with C protector calculate_key hash state
      = libbde_metadata_get_volume_master_key_with C' protector calculate_key' hash state := by
  cases protector with
  | none => rfl
  | some p =>
    cases hs : p.stretch_key with
    | none => simp only [libbde_metadata_get_volume_master_key_with, hs]
    | some s =>
      cases he : p.aes_ccm_encrypted_key with
      | none => simp only [libbde_metadata_get_volume_master_key_with, hs, he]
      | some e =>
        obtain ⟨h1, h2, h3⟩ := hcalls p s e rfl hs he
        rw [h1] at h2 h3
        simp only [libbde_metadata_get_volume_master_key_with,
          libbde_metadata_get_volume_master_key_goto_on_error, hs, he, h1, h2, h3]

/-- C25. Key-derivation wiring in `libbde_metadata_get_volume_master_key`.
(1) With a single credential set, its protector complete, key derivation,
key set-up and decryption succeeding, and the envelope holding the 60 bytes
that an accepted key block needs, the function returns: what it leaves in
`aes_ccm_key` is the output of the password key derivation on the password
hash and the salt of the external key protector's stretch key (password set),
or of the recovery key derivation on the recovery password hash and the salt
of the disk password protector's stretch key (recovery password set); what it
decrypts into the scratch buffer is the output of the cipher on that key with
256 bits, the 12-byte nonce and the data of the same protector's envelope; and
it returns 1 with bytes [28..60) of that output in the VMK buffer when the
output is an accepted key block, and 0 with the buffer untouched otherwise.
(2) The function consults its collaborators through these calls
only: collaborators that agree on the password key derivation, key set-up
and cipher at the arguments taken from the password hash and the external key
protector, and on the recovery key derivation, key set-up and cipher at the
arguments taken from the recovery password hash and the disk password
protector, give the same call, so the salt and the envelope of one protector
are never combined with the credential of the other. -/
theorem key_derivation_wiring (C : Collaborators)
    (metadata : libbde_metadata) (io_handle : libbde_io_handle)
    (volume_master_key stack : List Byte) :
    (∀ (protector : libbde_volume_master_key) (stretch_key : libbde_stretch_key)
        (envelope : libbde_aes_ccm_encrypted_key)
        (calculate_key : List Byte → List Byte → Int × List Byte) (hash : List Byte)
        (unwrapped : List Byte),
      ((io_handle.password_is_set ≠ 0 ∧ io_handle.recovery_password_is_set = 0 ∧
          metadata.external_key_volume_master_key = some protector ∧
          calculate_key = C.libbde_password_calculate_key ∧
          hash = io_handle.password_hash) ∨
        (io_handle.password_is_set = 0 ∧ io_handle.recovery_password_is_set ≠ 0 ∧
          metadata.disk_password_volume_master_key = some protector ∧
          calculate_key = C.libbde_recovery_calculate_key ∧
          hash = io_handle.recovery_password_hash)) →
      protector.stretch_key = some stretch_key →
      protector.aes_ccm_encrypted_key = some envelope →
      28 ≤ envelope.data_size →
      (calculate_key hash stretch_key.salt).1 = 1 →
      C.libbde_aes_set_encryption_key (calculate_key hash stretch_key.salt).2 256 = 1 →
      C.libbde_aes_ccm_crypt (calculate_key hash stretch_key.salt).2 256
        envelope.nonce 12 envelope.data envelope.data_size envelope.data_size
        = (1, unwrapped) →
      (¬ (byte_stream_copy_to_uint16_little_endian unwrapped 20 = 1
          ∧ byte_stream_copy_to_uint16_little_endian unwrapped 16 = 0x2c)
        ∨ 60 ≤ envelope.data_size) →
      libbde_metadata_get_volume_master_key C metadata io_handle volume_master_key stack
        = some
          { result :=
              if byte_stream_copy_to_uint16_little_endian unwrapped 20 = 1
                  ∧ byte_stream_copy_to_uint16_little_endian unwrapped 16 = 0x2c then 1
              else 0
            volume_master_key :=
              if byte_stream_copy_to_uint16_little_endian unwrapped 20 = 1
                  ∧ byte_stream_copy_to_uint16_little_endian unwrapped 16 = 0x2c then
                memory_copy volume_master_key (bytes_at unwrapped 28 32) 32
              else volume_master_key
            aes_ccm_key := (calculate_key hash stretch_key.salt).2
            scratch :=
              [scratch_event.allocate envelope.data_size,
                scratch_event.clear envelope.data_size, scratch_event.decrypt unwrapped,
                scratch_event.clear envelope.data_size, scratch_event.free] })
    ∧ (∀ C' : Collaborators,
      (∀ p s e, io_handle.password_is_set ≠ 0 →
        metadata.external_key_volume_master_key = some p → p.stretch_key = some s →
        p.aes_ccm_encrypted_key = some e →
        C.libbde_password_calculate_key io_handle.password_hash s.salt
          = C'.libbde_password_calculate_key io_handle.password_hash s.salt
        ∧ C.libbde_aes_set_encryption_key
            (C.libbde_password_calculate_key io_handle.password_hash s.salt).2 256
          = C'.libbde_aes_set_encryption_key
            (C.libbde_password_calculate_key io_handle.password_hash s.salt).2 256
        ∧ C.libbde_aes_ccm_crypt
            (C.libbde_password_calculate_key io_handle.password_hash s.salt).2 256
            e.nonce 12 e.data e.data_size e.data_size
          = C'.libbde_aes_ccm_crypt
            (C.libbde_password_calculate_key io_handle.password_hash s.salt).2 256
            e.nonce 12 e.data e.data_size e.data_size) →
      (∀ p s e, io_handle.recovery_password_is_set ≠ 0 →
        metadata.disk_password_volume_master_key = some p → p.stretch_key = some s →
        p.aes_ccm_encrypted_key = some e →
        C.libbde_recovery_calculate_key io_handle.recovery_password_hash s.salt
          = C'.libbde_recovery_calculate_key io_handle.recovery_password_hash s.salt
        ∧ C.libbde_aes_set_encryption_key
            (C.libbde_recovery_calculate_key io_handle.recovery_password_hash s.salt).2 256
          = C'.libbde_aes_set_encryption_key
            (C.libbde_recovery_calculate_key io_handle.recovery_password_hash s.salt).2 256
        ∧ C.libbde_aes_ccm_crypt
            (C.libbde_recovery_calculate_key io_handle.recovery_password_hash s.salt).2 256
            e.nonce 12 e.data e.data_size e.data_size
          = C'.libbde_aes_ccm_crypt
            (C.libbde_recovery_calculate_key io_handle.recovery_password_hash s.salt).2 256
            e.nonce 12 e.data e.data_size e.data_size) →
      libbde_metadata_get_volume_master_key C metadata io_handle volume_master_key stack
        = libbde_metadata_get_volume_master_key C' metadata io_handle volume_master_key
            stack) := by
  constructor
  · intro protector stretch_key envelope calculate_key hash unwrapped hcredential hstretch
      henvelope hsize hkdf hset hdecrypt hbounds
    by_cases hheader : byte_stream_copy_to_uint16_little_endian unwrapped 20 = 1
        ∧ byte_stream_copy_to_uint16_little_endian unwrapped 16 = 0x2c
    · have hlen : ¬ envelope.data_size < 60 := by
        rcases hbounds with hb | hb
        · exact absurd hheader hb
        · omega
      rcases hcredential with ⟨hp, hr, hprot, rfl, rfl⟩ | ⟨hp, hr, hprot, rfl, rfl⟩
      · simp [libbde_metadata_get_volume_master_key, hp, hr, hprot,
          libbde_metadata_get_volume_master_key_with_decrypted C protector stretch_key envelope
            _ _ _ unwrapped hstretch henvelope hsize hkdf hset hdecrypt,
          hheader, hlen, libbde_metadata_get_volume_master_key_return]
      · simp [libbde_metadata_get_volume_master_key, hp, hr, hprot,
          libbde_metadata_get_volume_master_key_with_decrypted C protector stretch_key envelope
            _ _ _ unwrapped hstretch henvelope hsize hkdf hset hdecrypt,
          hheader, hlen, libbde_metadata_get_volume_master_key_return]
    · rcases hcredential with ⟨hp, hr, hprot, rfl, rfl⟩ | ⟨hp, hr, hprot, rfl, rfl⟩
      · simp [libbde_metadata_get_volume_master_key, hp, hr, hprot,
          libbde_metadata_get_volume_master_key_with_decrypted C protector stretch_key envelope
            _ _ _ unwrapped hstretch henvelope hsize hkdf hset hdecrypt,
          hheader, libbde_metadata_get_volume_master_key_return]
      · simp [libbde_metadata_get_volume_master_key, hp, hr, hprot,
          libbde_metadata_get_volume_master_key_with_decrypted C protector stretch_key envelope
            _ _ _ unwrapped hstretch henvelope hsize hkdf hset hdecrypt,
          hheader, libbde_metadata_get_volume_master_key_return]
  · intro C' hpassword hrecovery
    rw [libbde_metadata_get_volume_master_key_blocks,
      libbde_metadata_get_volume_master_key_blocks]
    have hfirst : libbde_metadata_get_volume_master_key_first C metadata io_handle
        volume_master_key stack
        = libbde_metadata_get_volume_master_key_first C' metadata io_handle
          volume_master_key stack := by
      simp only [libbde_metadata_get_volume_master_key_first,
        libbde_metadata_get_volume_master_key_password]
      split_ifs with hp
      · exact libbde_metadata_get_volume_master_key_with_calls C C' _ _ _ _ _
          (fun p s e h1 h2 h3 => hpassword p s e hp h1 h2 h3)
      · rfl
    have hsecond : ∀ state,
        libbde_metadata_get_volume_master_key_second C metadata io_handle state
        = libbde_metadata_get_volume_master_key_second C' metadata io_handle state := by
      intro state
      simp only [libbde_metadata_get_volume_master_key_second]
      split_ifs with hc
      · exact libbde_metadata_get_volume_master_key_with_calls C C' _ _ _ _ _
          (fun p s e h1 h2 h3 => hrecovery p s e hc.2 h1 h2 h3)
      · rfl
    rw [hfirst]
    cases libbde_metadata_get_volume_master_key_first C' metadata io_handle
        volume_master_key stack with
    | undefined => rfl
    | return_error state => rfl
    | on_error state => rfl
    | completed state => simp only [hsecond]

/-- C25 on samples: the sample password unlock returns 1, leaves in `aes_ccm_key`
the password key derived from the password hash and the salt of the external
key protector and decrypts that protector's envelope with it; the sample
recovery unlock does the same with the recovery password hash and the disk
password protector; and the password unlock is the same call with collaborators
whose recovery key derivation fails. -/
theorem key_derivation_wiring_witness :
    libbde_metadata_get_volume_master_key sample_collaborators sample_metadata_password
        (sample_io_handle 1 0) (List.replicate 32 0) (List.replicate 32 0xcc)
      = some ⟨1, sample_key_32,
          (sample_collaborators.libbde_password_calculate_key
            (sample_io_handle 1 0).password_hash (List.replicate 16 7)).2,
          [scratch_event.allocate 60, scratch_event.clear 60,
           scratch_event.decrypt
            (sample_collaborators.libbde_aes_ccm_crypt
              (sample_collaborators.libbde_password_calculate_key
                (sample_io_handle 1 0).password_hash (List.replicate 16 7)).2
              256 (List.replicate 12 1) 12 (sample_key_block 0x2c 1 sample_key_32) 60 60).2,
           scratch_event.clear 60, scratch_event.free]⟩
    ∧ libbde_metadata_get_volume_master_key sample_collaborators sample_metadata_recovery
        (sample_io_handle 0 1) (List.replicate 32 0) (List.replicate 32 0xcc)
      = some ⟨1, sample_key_32,
          (sample_collaborators.libbde_recovery_calculate_key
            (sample_io_handle 0 1).recovery_password_hash (List.replicate 16 7)).2,
          [scratch_event.allocate 60, scratch_event.clear 60,
           scratch_event.decrypt
            (sample_collaborators.libbde_aes_ccm_crypt
              (sample_collaborators.libbde_recovery_calculate_key
                (sample_io_handle 0 1).recovery_password_hash (List.replicate 16 7)).2
              256 (List.replicate 12 1) 12 (sample_key_block 0x2c 1 sample_key_32) 60 60).2,
           scratch_event.clear 60, scratch_event.free]⟩
    ∧ (sample_collaborators.libbde_password_calculate_key
        (sample_io_handle 1 0).password_hash (List.replicate 16 7)).2
      ≠ (sample_collaborators.libbde_recovery_calculate_key
        (sample_io_handle 0 1).recovery_password_hash (List.replicate 16 7)).2
    ∧ libbde_metadata_get_volume_master_key sample_collaborators sample_metadata_password
        (sample_io_handle 1 0) (List.replicate 32 0) (List.replicate 32 0xcc)
      = libbde_metadata_get_volume_master_key sample_collaborators_no_recovery
        sample_metadata_password (sample_io_handle 1 0) (List.replicate 32 0)
        (List.replicate 32 0xcc) :=
  ⟨((key_derivation_wiring sample_collaborators sample_metadata_password
      (sample_io_handle 1 0) (List.replicate 32 0) (List.replicate 32 0xcc)).1
      (sample_protector 0x2000 (sample_envelope (sample_key_block 0x2c 1 sample_key_32) 60))
      { salt := List.replicate 16 7 }
      (sample_envelope (sample_key_block 0x2c 1 sample_key_32) 60)
      sample_collaborators.libbde_password_calculate_key (List.replicate 32 3)
      (sample_key_block 0x2c 1 sample_key_32)
      (Or.inl ⟨by decide, by decide, rfl, rfl, rfl⟩) rfl rfl (by decide) rfl rfl rfl
      (Or.inr (by decide))).trans (by decide),
    ((key_derivation_wiring sample_collaborators sample_metadata_recovery
      (sample_io_handle 0 1) (List.replicate 32 0) (List.replicate 32 0xcc)).1
      (sample_protector 0x0800 (sample_envelope (sample_key_block 0x2c 1 sample_key_32) 60))
      { salt := List.replicate 16 7 }
      (sample_envelope (sample_key_block 0x2c 1 sample_key_32) 60)
      sample_collaborators.libbde_recovery_calculate_key (List.replicate 32 4)
      (sample_key_block 0x2c 1 sample_key_32)
      (Or.inr ⟨by decide, by decide, rfl, rfl, rfl⟩) rfl rfl (by decide) rfl rfl rfl
      (Or.inr (by decide))).trans (by decide),
    by decide,
    (key_derivation_wiring sample_collaborators sample_metadata_password
      (sample_io_handle 1 0) (List.replicate 32 0) (List.replicate 32 0xcc)).2
      sample_collaborators_no_recovery
      (fun _ _ _ _ _ _ _ => ⟨rfl, rfl, rfl⟩)
      (fun _ _ _ hr _ _ _ => absurd rfl hr)⟩

/-- A `memory_copy` that fills a buffer leaves nothing of its prior contents. -/
theorem memory_copy_full (d1 d2 source : List Byte) (n : Nat)
    (h1 : d1.length = n) (h2 : d2.length = n) :
    memory_copy d1 source n = memory_copy d2 source n := by
  simp only [memory_copy, List.drop_of_length_le (Nat.le_of_eq h1),
    List.drop_of_length_le (Nat.le_of_eq h2)]

/-- A credential block run in two states that agree is left in the same way, in
states that agree: the way through the block does not depend on the output
buffer, on `aes_ccm_key` or on the scratch buffer at its entry. -/
theorem libbde_metadata_get_volume_master_key_with_agree (C : Collaborators)
    (protector : Option libbde_volume_master_key)
    (calculate_key : List Byte → List Byte → Int × List Byte)
    (hash : List Byte) (s1 s2 : volume_master_key_state)
    (hagree : volume_master_key_state_agree s1 s2) :
    credential_exit_agree
      (libbde_metadata_get_volume_master_key_with C protector calculate_key hash s1)
      (libbde_metadata_get_volume_master_key_with C protector calculate_key hash s2) := by
  obtain ⟨hresult, hone, hlength, hpointer⟩ := hagree
  have hcopy : ∀ source : List Byte,
      memory_copy s1.volume_master_key source 32 = memory_copy s2.volume_master_key source 32 := by
    intro source
    by_cases h1 : s1.result = 1
    · rw [hone h1]
    · exact memory_copy_full _ _ _ _ (hlength h1).1 (hlength h1).2
  simp only [libbde_metadata_get_volume_master_key_with,
    libbde_metadata_get_volume_master_key_goto_on_error, hpointer]
  repeat' split
  all_goals first
    | exact ⟨hresult, hone, hlength, hpointer⟩
    | exact ⟨hresult, hone, hlength, rfl⟩
    | exact ⟨rfl, fun _ => hcopy _, fun h => absurd rfl h, rfl⟩
    | exact True.intro

/-- A `memory_copy` of 16 bytes puts them at the start of the buffer. -/
theorem memory_copy_take (destination source : List Byte) (n : Nat)
    (h : source.length = n) :
    (memory_copy destination source n).take n = source := by
  simp only [memory_copy, List.take_of_length_le (Nat.le_of_eq h)]
  rw [List.take_append_of_le_length (Nat.le_of_eq h.symm), List.take_of_length_le (Nat.le_of_eq h)]

/-- Two calls of `libbde_metadata_get_full_volume_encryption_key` with the same
metadata set and the same VMK, whatever the two pairs of 32-byte output
buffers hold: the return codes are equal, and when they are 1 the key bytes
extracted are equal, the first 16 bytes of the FVEK output for the inner data
size 0x1c (the cipher having filled the scratch buffer), the FVEK output for
0x2c, and the FVEK and the tweak key output for 0x4c. -/
theorem libbde_metadata_get_full_volume_encryption_key_agree (C : Collaborators)
    (metadata : libbde_metadata) (volume_master_key : List Byte)
    (f1 f2 t1 t2 : List Byte)
    (hf1 : f1.length = 32) (hf2 : f2.length = 32)
    (ht1 : t1.length = 32) (ht2 : t2.length = 32) :
    (libbde_metadata_get_full_volume_encryption_key C metadata volume_master_key f1 t1).map
        (fun q => q.result)
      = (libbde_metadata_get_full_volume_encryption_key C metadata volume_master_key f2
          t2).map (fun q => q.result)
    ∧ ∀ q1 q2,
      libbde_metadata_get_full_volume_encryption_key C metadata volume_master_key f1 t1
        = some q1 →
      libbde_metadata_get_full_volume_encryption_key C metadata volume_master_key f2 t2
        = some q2 →
      q1.result = 1 →
      ∀ e, metadata.full_volume_encryption_key = some e →
        (byte_stream_copy_to_uint16_little_endian
            (C.libbde_aes_ccm_crypt volume_master_key 256 e.nonce 12 e.data e.data_size
              e.data_size).2 16 = 0x1c →
          (C.libbde_aes_ccm_crypt volume_master_key 256 e.nonce 12 e.data e.data_size
            e.data_size).2.length = e.data_size →
          q1.full_volume_encryption_key.take 16 = q2.full_volume_encryption_key.take 16)
        ∧ (byte_stream_copy_to_uint16_little_endian
            (C.libbde_aes_ccm_crypt volume_master_key 256 e.nonce 12 e.data e.data_size
              e.data_size).2 16 = 0x2c →
          q1.full_volume_encryption_key = q2.full_volume_encryption_key)
        ∧ (byte_stream_copy_to_uint16_little_endian
            (C.libbde_aes_ccm_crypt volume_master_key 256 e.nonce 12 e.data e.data_size
              e.data_size).2 16 = 0x4c →
          q1.full_volume_encryption_key = q2.full_volume_encryption_key
          ∧ q1.tweak_key = q2.tweak_key) := by
  cases hm : metadata.full_volume_encryption_key with
  | none =>
    constructor
    · simp [libbde_metadata_get_full_volume_encryption_key, hm]
    · intro q1 q2 _ _ _ e he
      cases he
  | some envelope =>
    have h28' : (28 : Nat) + 16 = 44 := rfl
    by_cases c28 : envelope.data_size < 28
    · refine ⟨by simp [libbde_metadata_get_full_volume_encryption_key, hm, c28], ?_⟩
      intro q1 q2 h1 _ hone
      simp [libbde_metadata_get_full_volume_encryption_key, hm, c28] at h1
      rw [← h1] at hone
      simp at hone
    by_cases cset : C.libbde_aes_set_encryption_key volume_master_key 256 = 1
    swap
    · refine ⟨by simp [libbde_metadata_get_full_volume_encryption_key, hm, c28, cset], ?_⟩
      intro q1 q2 h1 _ hone
      simp [libbde_metadata_get_full_volume_encryption_key, hm, c28, cset] at h1
      rw [← h1] at hone
      simp at hone
    by_cases cdec : (C.libbde_aes_ccm_crypt volume_master_key 256 envelope.nonce 12
        envelope.data envelope.data_size envelope.data_size).1 = 1
    swap
    · refine ⟨by simp [libbde_metadata_get_full_volume_encryption_key, hm, c28, cset,
        cdec], ?_⟩
      intro q1 q2 h1 _ hone
      simp [libbde_metadata_get_full_volume_encryption_key, hm, c28, cset, cdec] at h1
      rw [← h1] at hone
      simp at hone
    by_cases c22 : envelope.data_size < 22
    · refine ⟨by simp [libbde_metadata_get_full_volume_encryption_key, hm,
        c28, cset, cdec, c22], ?_⟩
      intro q1 q2 h1 _ _
      simp [libbde_metadata_get_full_volume_encryption_key, hm, c28, cset, cdec, c22] at h1
    by_cases cver : byte_stream_copy_to_uint16_little_endian
        (C.libbde_aes_ccm_crypt volume_master_key 256 envelope.nonce 12
          envelope.data envelope.data_size envelope.data_size).2 20 = 1
    swap
    · refine ⟨by simp [libbde_metadata_get_full_volume_encryption_key, hm,
        c28, cset, cdec, c22, cver], ?_⟩
      intro q1 q2 h1 _ hone
      simp [libbde_metadata_get_full_volume_encryption_key, hm, c28, cset, cdec, c22, cver] at h1
      rw [← h1] at hone
      simp at hone
    by_cases c1c : byte_stream_copy_to_uint16_little_endian
        (C.libbde_aes_ccm_crypt volume_master_key 256 envelope.nonce 12
          envelope.data envelope.data_size envelope.data_size).2 16 = 0x1c
    · by_cases c44 : envelope.data_size < 28 + 16
      · refine ⟨by simp [libbde_metadata_get_full_volume_encryption_key, hm,
          c28, cset, cdec, c22, cver, c1c, c44], ?_⟩
        intro q1 q2 h1 _ _
        simp [libbde_metadata_get_full_volume_encryption_key, hm,
            c28, cset, cdec, c22, cver, c1c, c44] at h1
      · refine ⟨by simp [libbde_metadata_get_full_volume_encryption_key, hm,
          c28, cset, cdec, c22, cver, c1c, c44], ?_⟩
        intro q1 q2 h1 h2 _ e he
        simp only [Option.some.injEq] at he
        subst he
        simp [libbde_metadata_get_full_volume_encryption_key, hm,
            c28, cset, cdec, c22, cver, c1c, c44] at h1 h2
        rw [← h1, ← h2]
        refine ⟨?_, ?_, ?_⟩
        · intro _ hlength
          have hb : (bytes_at (C.libbde_aes_ccm_crypt volume_master_key 256 envelope.nonce 12
              envelope.data envelope.data_size envelope.data_size).2 28 16).length = 16 := by
            simp only [bytes_at, List.length_take, List.length_drop, hlength]
            omega
          simp only [memory_copy_take _ _ _ hb]
        · intro h; rw [c1c] at h; exact absurd h (by decide)
        · intro h; rw [c1c] at h; exact absurd h (by decide)
    by_cases c2c : byte_stream_copy_to_uint16_little_endian
        (C.libbde_aes_ccm_crypt volume_master_key 256 envelope.nonce 12
          envelope.data envelope.data_size envelope.data_size).2 16 = 0x2c
    · by_cases c60 : envelope.data_size < 28 + 32
      · refine ⟨by simp [libbde_metadata_get_full_volume_encryption_key, hm,
          c28, cset, cdec, c22, cver, c1c, c2c, c60], ?_⟩
        intro q1 q2 h1 _ _
        simp [libbde_metadata_get_full_volume_encryption_key, hm,
            c28, cset, cdec, c22, cver, c1c, c2c, c60] at h1
      · refine ⟨by simp [libbde_metadata_get_full_volume_encryption_key, hm,
          c28, cset, cdec, c22, cver, c1c, c2c, c60], ?_⟩
        intro q1 q2 h1 h2 _ e he
        simp only [Option.some.injEq] at he
        subst he
        simp [libbde_metadata_get_full_volume_encryption_key, hm,
            c28, cset, cdec, c22, cver, c1c, c2c, c60] at h1 h2
        rw [← h1, ← h2]
        refine ⟨?_, ?_, ?_⟩
        · intro h; exact absurd h c1c
        · intro _
          exact memory_copy_full _ _ _ _ hf1 hf2
        · intro h; rw [c2c] at h; exact absurd h (by decide)
    by_cases c4c : byte_stream_copy_to_uint16_little_endian
        (C.libbde_aes_ccm_crypt volume_master_key 256 envelope.nonce 12
          envelope.data envelope.data_size envelope.data_size).2 16 = 0x4c
    · by_cases c92 : envelope.data_size < 60 + 32
      · refine ⟨by simp [libbde_metadata_get_full_volume_encryption_key, hm,
          c28, cset, cdec, c22, cver, c1c, c2c, c4c, c92], ?_⟩
        intro q1 q2 h1 _ _
        simp [libbde_metadata_get_full_volume_encryption_key, hm,
            c28, cset, cdec, c22, cver, c1c, c2c, c4c, c92] at h1
      · refine ⟨by simp [libbde_metadata_get_full_volume_encryption_key, hm,
          c28, cset, cdec, c22, cver, c1c, c2c, c4c, c92], ?_⟩
        intro q1 q2 h1 h2 _ e he
        simp only [Option.some.injEq] at he
        subst he
        simp [libbde_metadata_get_full_volume_encryption_key, hm,
            c28, cset, cdec, c22, cver, c1c, c2c, c4c, c92] at h1 h2
        rw [← h1, ← h2]
        refine ⟨?_, ?_, ?_⟩
        · intro h; exact absurd h c1c
        · intro h; exact absurd h c2c
        · intro _
          exact ⟨memory_copy_full _ _ _ _ hf1 hf2, memory_copy_full _ _ _ _ ht1 ht2⟩
    · refine ⟨by simp [libbde_metadata_get_full_volume_encryption_key, hm,
        c28, cset, cdec, c22, cver, c1c, c2c, c4c], ?_⟩
      intro q1 q2 h1 _ hone
      simp [libbde_metadata_get_full_volume_encryption_key, hm,
          c28, cset, cdec, c22, cver, c1c, c2c, c4c] at h1
      rw [← h1] at hone
      simp at hone

/-- Two runs that leave their last credential block in the same way, in states
that agree, return the same code and, when it is 1, the same VMK bytes. -/
theorem credential_exit_result_agree (e1 e2 : credential_exit)
    (hagree : credential_exit_agree e1 e2) :
    (credential_exit_result e1).map (fun r => r.result)
      = (credential_exit_result e2).map (fun r => r.result)
    ∧ ∀ r1 r2, credential_exit_result e1 = some r1 → credential_exit_result e2 = some r2 →
      r1.result = 1 → r1.volume_master_key = r2.volume_master_key := by
  cases e1 <;> cases e2 <;>
    simp only [credential_exit_agree, volume_master_key_state_agree] at hagree
  all_goals
    simp only [credential_exit_result, Option.map_some', Option.map_none', Option.some.injEq,
      libbde_metadata_get_volume_master_key_return,
      libbde_metadata_get_volume_master_key_on_error, true_and]
  · refine ⟨hagree.1, ?_⟩
    intro r1 r2 h1 h2 hone
    subst h1
    subst h2
    exact hagree.2.1 hone
  · intro r1 r2 h1 _ hone
    subst h1
    have h2 : (-1 : Int) = 1 := hone
    exact absurd h2 (by decide)
  · intro r1 r2 h1 _ hone
    subst h1
    have h2 : (-1 : Int) = 1 := hone
    exact absurd h2 (by decide)
  · intro r1 r2 h1
    cases h1

/-- Two runs of an unlock agree wherever both have a defined result.  Take two
runs of `libbde_metadata_get_volume_master_key` followed by
`libbde_metadata_get_full_volume_encryption_key` on the same metadata set, with
handles that agree on the password and recovery password flags and hashes,
whatever the other fields of the handles, the contents of the 32-byte output
buffers before the calls and the contents of the uninitialised local
`aes_ccm_key` are.  The two calls of `libbde_metadata_get_volume_master_key`
have a defined result in both runs or in neither, return the same code and,
when it is 1, the same VMK bytes; the two calls of
`libbde_metadata_get_full_volume_encryption_key` on that VMK then return the
same code and, when it is 1, the same key bytes: bytes [0..16) of the FVEK
output for the inner data size 0x1c (the cipher having filled the scratch
buffer), the FVEK output for 0x2c, the FVEK and the tweak key output for
0x4c.  Nothing is said of a run that reads past the end of the scratch buffer
or reaches `on_error` with the pointer to a released buffer. -/
theorem unlock_runs_agree (C : Collaborators) (metadata : libbde_metadata)
    (io1 io2 : libbde_io_handle) (v1 v2 stack1 stack2 f1 f2 t1 t2 : List Byte)
    (hpassword : io1.password_is_set = io2.password_is_set)
    (hpassword_hash : io1.password_hash = io2.password_hash)
    (hrecovery : io1.recovery_password_is_set = io2.recovery_password_is_set)
    (hrecovery_hash : io1.recovery_password_hash = io2.recovery_password_hash)
    (hv1 : v1.length = 32) (hv2 : v2.length = 32)
    (hf1 : f1.length = 32) (hf2 : f2.length = 32)
    (ht1 : t1.length = 32) (ht2 : t2.length = 32) :
    (libbde_metadata_get_volume_master_key C metadata io1 v1 stack1).map (fun r => r.result)
      = (libbde_metadata_get_volume_master_key C metadata io2 v2 stack2).map
          (fun r => r.result)
    ∧ ∀ r1 r2, libbde_metadata_get_volume_master_key C metadata io1 v1 stack1 = some r1 →
      libbde_metadata_get_volume_master_key C metadata io2 v2 stack2 = some r2 →
      r1.result = 1 →
      r1.volume_master_key = r2.volume_master_key
      ∧ (libbde_metadata_get_full_volume_encryption_key C metadata r1.volume_master_key f1
            t1).map (fun q => q.result)
        = (libbde_metadata_get_full_volume_encryption_key C metadata r2.volume_master_key f2
            t2).map (fun q => q.result)
      ∧ ∀ q1 q2,
        libbde_metadata_get_full_volume_encryption_key C metadata r1.volume_master_key f1 t1
          = some q1 →
        libbde_metadata_get_full_volume_encryption_key C metadata r2.volume_master_key f2 t2
          = some q2 →
        q1.result = 1 →
        ∀ e, metadata.full_volume_encryption_key = some e →
          (byte_stream_copy_to_uint16_little_endian
              (C.libbde_aes_ccm_crypt r1.volume_master_key 256 e.nonce 12 e.data e.data_size
                e.data_size).2 16 = 0x1c →
            (C.libbde_aes_ccm_crypt r1.volume_master_key 256 e.nonce 12 e.data e.data_size
              e.data_size).2.length = e.data_size →
            q1.full_volume_encryption_key.take 16 = q2.full_volume_encryption_key.take 16)
          ∧ (byte_stream_copy_to_uint16_little_endian
              (C.libbde_aes_ccm_crypt r1.volume_master_key 256 e.nonce 12 e.data e.data_size
                e.data_size).2 16 = 0x2c →
            q1.full_volume_encryption_key = q2.full_volume_encryption_key)
          ∧ (byte_stream_copy_to_uint16_little_endian
              (C.libbde_aes_ccm_crypt r1.volume_master_key 256 e.nonce 12 e.data e.data_size
                e.data_size).2 16 = 0x4c →
            q1.full_volume_encryption_key = q2.full_volume_encryption_key
            ∧ q1.tweak_key = q2.tweak_key) := by
  have hentry : volume_master_key_state_agree
      (libbde_metadata_get_volume_master_key_entry v1 stack1)
      (libbde_metadata_get_volume_master_key_entry v2 stack2) :=
    ⟨rfl, fun h => absurd (show (0 : Int) = 1 from h) (by decide), fun _ => ⟨hv1, hv2⟩, rfl⟩
  have hfirst : credential_exit_agree
      (libbde_metadata_get_volume_master_key_first C metadata io1 v1 stack1)
      (libbde_metadata_get_volume_master_key_first C metadata io2 v2 stack2) := by
    simp only [libbde_metadata_get_volume_master_key_first,
      libbde_metadata_get_volume_master_key_password, hpassword, hpassword_hash]
    split_ifs
    · exact libbde_metadata_get_volume_master_key_with_agree C _ _ _ _ _ hentry
    · exact hentry
  have hsecond : ∀ s1 s2, volume_master_key_state_agree s1 s2 →
      credential_exit_agree
        (libbde_metadata_get_volume_master_key_second C metadata io1 s1)
        (libbde_metadata_get_volume_master_key_second C metadata io2 s2) := by
    intro s1 s2 hs
    simp only [libbde_metadata_get_volume_master_key_second, hrecovery, hrecovery_hash, hs.1]
    split_ifs
    · exact libbde_metadata_get_volume_master_key_with_agree C _ _ _ _ _ hs
    · exact hs
  have hvmk : (libbde_metadata_get_volume_master_key C metadata io1 v1 stack1).map
        (fun r => r.result)
        = (libbde_metadata_get_volume_master_key C metadata io2 v2 stack2).map
          (fun r => r.result)
      ∧ ∀ r1 r2, libbde_metadata_get_volume_master_key C metadata io1 v1 stack1 = some r1 →
        libbde_metadata_get_volume_master_key C metadata io2 v2 stack2 = some r2 →
        r1.result = 1 → r1.volume_master_key = r2.volume_master_key := by
    rw [libbde_metadata_get_volume_master_key_blocks,
      libbde_metadata_get_volume_master_key_blocks]
    cases h1 : libbde_metadata_get_volume_master_key_first C metadata io1 v1 stack1 <;>
      cases h2 : libbde_metadata_get_volume_master_key_first C metadata io2 v2 stack2 <;>
        rw [h1, h2] at hfirst <;>
          simp only [credential_exit_agree] at hfirst
    · exact credential_exit_result_agree _ _ (hsecond _ _ hfirst)
    · exact credential_exit_result_agree _ _ hfirst
    · exact credential_exit_result_agree _ _ hfirst
    · exact ⟨rfl, fun r1 r2 h => by cases h⟩
  refine ⟨hvmk.1, ?_⟩
  intro r1 r2 hr1 hr2 hone
  have hkey := hvmk.2 r1 r2 hr1 hr2 hone
  rw [← hkey]
  exact ⟨rfl, libbde_metadata_get_full_volume_encryption_key_agree C metadata
    r1.volume_master_key f1 f2 t1 t2 hf1 hf2 ht1 ht2⟩

/-- C24, the code on a failing input.  The metadata set has the sample password
protector, which the password unlocks to the VMK `sample_key_32` in every run,
and an FVEK envelope of 28 bytes whose block announces the inner version 1 and
the inner data size 0x2c.  `libbde_metadata_get_full_volume_encryption_key`
passes the test `data_size < 28`, decrypts into the 28-byte scratch buffer and
copies its bytes [28..60): it reads past the end of the buffer, so what it
leaves in the FVEK output is not determined by the metadata set and the
credentials (the result `none` of the embedding), whatever the output buffers
held.  The same unlock of `sample_metadata_unlock`, whose envelope holds the
bytes its block announces, returns 1 with the same keys in both runs. -/
theorem unlock_undefined_on_truncated_envelope :
    (libbde_metadata_get_volume_master_key sample_collaborators
        sample_metadata_unlock_truncated (sample_io_handle 1 0) (List.replicate 32 0)
        (List.replicate 32 0xcc)).map (fun r => (r.result, r.volume_master_key))
      = some (1, sample_key_32)
    ∧ (libbde_metadata_get_volume_master_key sample_collaborators
        sample_metadata_unlock_truncated (sample_io_handle 1 0) (List.replicate 32 0xff)
        (List.replicate 32 0x11)).map (fun r => (r.result, r.volume_master_key))
      = some (1, sample_key_32)
    ∧ ¬ (28 : Nat) < 28
    ∧ (sample_key_block 0x2c 1 []).length = 28
    ∧ libbde_metadata_get_full_volume_encryption_key sample_collaborators
        sample_metadata_unlock_truncated sample_key_32 (List.replicate 32 0)
        (List.replicate 32 0) = none
    ∧ libbde_metadata_get_full_volume_encryption_key sample_collaborators
        sample_metadata_unlock_truncated sample_key_32 (List.replicate 32 0xaa)
        (List.replicate 32 0xbb) = none
    ∧ (libbde_metadata_get_full_volume_encryption_key sample_collaborators
        sample_metadata_unlock sample_key_32 (List.replicate 32 0)
        (List.replicate 32 0)).map
          (fun q => (q.result, q.full_volume_encryption_key, q.tweak_key))
      = some (1, sample_key_32, sample_tweak_32)
    ∧ (libbde_metadata_get_full_volume_encryption_key sample_collaborators
        sample_metadata_unlock sample_key_32 (List.replicate 32 0xaa)
        (List.replicate 32 0xbb)).map
          (fun q => (q.result, q.full_volume_encryption_key, q.tweak_key))
      = some (1, sample_key_32, sample_tweak_32) := by
  decide

/-- The 32-bit subtraction `metadata_size -= read_count` does not wrap around for
a count between 1 and the counter, and makes the counter smaller. -/
theorem metadata_size_subtract (metadata_size read_count : Nat)
    (h1 : 1 ≤ read_count) (h2 : read_count ≤ metadata_size) :
    (metadata_size < 2 ^ 32 →
      (metadata_size + 2 ^ 32 - read_count % 2 ^ 32) % 2 ^ 32 = metadata_size - read_count)
    ∧ (metadata_size + 2 ^ 32 - read_count % 2 ^ 32) % 2 ^ 32 < metadata_size := by
  simp only [Nat.reducePow]
  omega

/-- The decode windows of the entry loop entered at offset `position` of `block`
with a reader that stays within the bytes that remain: every window ends
where the first one ends, starts at or after it, and holds the block from its
position on. -/
theorem libbde_metadata_read_entries_windows_invariant (C : Collaborators)
    (hreader : entry_read_within C) (block : List Byte) :
    ∀ (fuel : Nat) (fve_metadata : List Byte) (position metadata_size : Nat),
      fve_metadata = block.drop position → metadata_size < 2 ^ 32 →
      ∀ w ∈ libbde_metadata_read_entries_windows C fuel fve_metadata position metadata_size,
        w.position + w.remaining = position + metadata_size
        ∧ position ≤ w.position
        ∧ w.remaining < 2 ^ 32
        ∧ w.fve_metadata = block.drop w.position := by
  intro fuel
  induction fuel with
  | zero =>
    intro fve_metadata position metadata_size _ _ w hw
    simp [libbde_metadata_read_entries_windows] at hw
  | succ fuel ih =>
    intro fve_metadata position metadata_size hdata hsize w hw
    simp only [libbde_metadata_read_entries_windows] at hw
    split_ifs at hw with hguard
    · simp only [List.mem_cons] at hw
      rcases hw with hw | hw
      · subst hw
        exact ⟨rfl, Nat.le_refl _, hsize, hdata⟩
      · cases hread : C.libbde_metadata_entry_read fve_metadata metadata_size with
        | none => rw [hread] at hw; simp at hw
        | some decoded =>
          obtain ⟨metadata_entry, read_count⟩ := decoded
          rw [hread] at hw
          obtain ⟨h1, h2⟩ := hreader _ _ _ _ hread
          obtain ⟨hsub, -⟩ := metadata_size_subtract metadata_size read_count h1 h2
          have hnext := ih (fve_metadata.drop read_count) (position + read_count)
            ((metadata_size + 2 ^ 32 - read_count % 2 ^ 32) % 2 ^ 32)
            (by rw [hdata, List.drop_drop, Nat.add_comm])
            (by rw [hsub hsize]; omega) w hw
          rw [hsub hsize] at hnext
          exact ⟨by omega, by omega, hnext.2.2.1, hnext.2.2.2⟩
    · simp at hw

/-- The decoded entries are what the entry reader returns on the decode
windows. -/
theorem libbde_metadata_read_entries_windows_decoded (C : Collaborators) :
    ∀ (fuel : Nat) (fve_metadata : List Byte) (position metadata_size : Nat),
      libbde_metadata_read_entries_decoded C fuel fve_metadata metadata_size
        = (libbde_metadata_read_entries_windows C fuel fve_metadata position
            metadata_size).filterMap
          (fun w => (C.libbde_metadata_entry_read w.fve_metadata w.remaining).map Prod.fst) := by
  intro fuel
  induction fuel with
  | zero =>
    intro fve_metadata position metadata_size
    simp [libbde_metadata_read_entries_decoded, libbde_metadata_read_entries_windows]
  | succ fuel ih =>
    intro fve_metadata position metadata_size
    simp only [libbde_metadata_read_entries_decoded, libbde_metadata_read_entries_windows]
    split_ifs with hguard
    · cases hread : C.libbde_metadata_entry_read fve_metadata metadata_size with
      | none => simp [List.filterMap_cons, hread]
      | some decoded =>
        obtain ⟨metadata_entry, read_count⟩ := decoded
        simp only [List.filterMap_cons, hread, Option.map_some']
        rw [ih _ (position + read_count)]
    · simp

/-- C27. The window invariant of the entry loop of `libbde_metadata_read`, for a
block whose `metadata_size` passed the range check (48 to 4096 - 64) and an
entry reader whose every count lies between 1 and the bytes that remain
(`entry_read_within`).  At the start of every iteration the decode window
starts at `position`, at or after byte 112 of the block, and holds the bytes
of the block from there on; `position + remaining` is `64 + metadata_size`,
which is at most 4096; and the count that the decode of this iteration
returns is at most `remaining`, so the unsigned 32-bit subtraction
`metadata_size -= read_count` gives `remaining - read_count` without wrapping.
The decodes of the loop are exactly the reader's results on these windows. -/
theorem read_entry_loop_window (C : Collaborators) (fuel : Nat)
    (file_io_handle : libbfio_handle) (file_offset : Int)
    (hreader : entry_read_within C)
    (hlower : 48 ≤ byte_stream_copy_to_uint32_little_endian
      ((file_io_handle.read file_offset 4096).2.drop sizeof_bde_metadata_block_header_v1_t)
      metadata_header.metadata_size)
    (hupper : byte_stream_copy_to_uint32_little_endian
      ((file_io_handle.read file_offset 4096).2.drop sizeof_bde_metadata_block_header_v1_t)
      metadata_header.metadata_size ≤ 4096 - sizeof_bde_metadata_block_header_v1_t) :
    (∀ w ∈ libbde_metadata_read_windows C fuel file_io_handle file_offset,
      w.position + w.remaining
        = 64 + byte_stream_copy_to_uint32_little_endian
          ((file_io_handle.read file_offset 4096).2.drop
            sizeof_bde_metadata_block_header_v1_t)
          metadata_header.metadata_size
      ∧ w.position + w.remaining ≤ 4096
      ∧ 112 ≤ w.position
      ∧ w.fve_metadata = (file_io_handle.read file_offset 4096).2.drop w.position
      ∧ ∀ metadata_entry read_count,
        C.libbde_metadata_entry_read w.fve_metadata w.remaining
          = some (metadata_entry, read_count) →
        1 ≤ read_count ∧ read_count ≤ w.remaining
        ∧ (w.remaining + 2 ^ 32 - read_count % 2 ^ 32) % 2 ^ 32 = w.remaining - read_count)
    ∧ libbde_metadata_read_decoded C fuel file_io_handle file_offset
      = (libbde_metadata_read_windows C fuel file_io_handle file_offset).filterMap
        (fun w => (C.libbde_metadata_entry_read w.fve_metadata w.remaining).map Prod.fst) := by
  constructor
  · intro w hw
    simp only [libbde_metadata_read_windows, sizeof_bde_metadata_block_header_v1_t,
      sizeof_bde_metadata_header_v1_t] at hlower hupper hw ⊢
    obtain ⟨h1, h2, h3, h4⟩ := libbde_metadata_read_entries_windows_invariant C hreader
      (file_io_handle.read file_offset 4096).2 fuel _ _ _
      (by simp only [List.drop_drop])
      (by simp only [Nat.reducePow]; omega) w hw
    refine ⟨by omega, by omega, by omega, h4, ?_⟩
    intro metadata_entry read_count hread
    obtain ⟨g1, g2⟩ := hreader _ _ _ _ hread
    exact ⟨g1, g2, (metadata_size_subtract _ _ g1 g2).1 h3⟩
  · exact libbde_metadata_read_entries_windows_decoded C fuel _ _ _

/-- The entry reader modelled from the spec returns the entry size, which it
requires to lie between 8 and the bytes that remain. -/
theorem sample_collaborators_within : entry_read_within sample_collaborators := by
  intro fve_metadata metadata_size metadata_entry read_count h
  simp only [sample_collaborators, spec_metadata_entry_read] at h
  split_ifs at h with hc
  simp only [Option.some.injEq, Prod.mk.injEq] at h
  rw [← h.2]
  omega

/-- The decode windows of the block of `sample_fields_stream`: seven iterations,
from byte 112 with 492 bytes remaining to byte 480 with 124 bytes remaining. -/
theorem sample_stream_windows :
    (libbde_metadata_read_windows sample_collaborators 7
        (sample_file (sample_block sample_fields_stream)) 0x2100000).map
        (fun w => (w.position, w.remaining))
      = [(112, 492), (156, 448), (280, 324), (296, 308), (376, 228), (400, 204),
          (480, 124)] := by
  decide

/-- C27 on a sample: with the entry reader modelled from the spec, every decode
window of the block of `sample_fields_stream` (metadata size 540) ends at byte
604 of the block. -/
theorem read_entry_loop_window_witness :
    entry_read_within sample_collaborators
    ∧ (libbde_metadata_read_windows sample_collaborators 7
        (sample_file (sample_block sample_fields_stream)) 0x2100000).map
        (fun w => (w.position, w.remaining))
      = [(112, 492), (156, 448), (280, 324), (296, 308), (376, 228), (400, 204),
          (480, 124)]
    ∧ (libbde_metadata_read_windows sample_collaborators 7
        (sample_file (sample_block sample_fields_stream)) 0x2100000).all
        (fun w => decide (w.position + w.remaining = 64 + 540
          ∧ w.position + w.remaining ≤ 4096)) = true :=
  ⟨sample_collaborators_within, sample_stream_windows,
    List.all_eq_true.mpr (fun w hw => decide_eq_true
      ⟨((read_entry_loop_window sample_collaborators 7
          (sample_file (sample_block sample_fields_stream)) 0x2100000
          sample_collaborators_within (by decide) (by decide)).1 w hw).1,
        ((read_entry_loop_window sample_collaborators 7
          (sample_file (sample_block sample_fields_stream)) 0x2100000
          sample_collaborators_within (by decide) (by decide)).1 w hw).2.1⟩)⟩

/-- With a reader that stays within the bytes that remain, the counter of every
decode window is at most the counter the loop was entered with, the counters
strictly decrease from one iteration to the next, and there are at most
`metadata_size - 48` iterations. -/
theorem libbde_metadata_read_entries_windows_decrease (C : Collaborators)
    (hreader : entry_read_within C) :
    ∀ (fuel : Nat) (fve_metadata : List Byte) (position metadata_size : Nat),
      (∀ w ∈ libbde_metadata_read_entries_windows C fuel fve_metadata position metadata_size,
        w.remaining ≤ metadata_size)
      ∧ (libbde_metadata_read_entries_windows C fuel fve_metadata position
          metadata_size).Pairwise (fun a b => b.remaining < a.remaining)
      ∧ (libbde_metadata_read_entries_windows C fuel fve_metadata position
          metadata_size).length ≤ metadata_size - sizeof_bde_metadata_header_v1_t := by
  intro fuel
  induction fuel with
  | zero =>
    intro fve_metadata position metadata_size
    simp [libbde_metadata_read_entries_windows]
  | succ fuel ih =>
    intro fve_metadata position metadata_size
    simp only [libbde_metadata_read_entries_windows]
    split_ifs with hguard
    · cases hread : C.libbde_metadata_entry_read fve_metadata metadata_size with
      | none =>
        simp only [sizeof_bde_metadata_header_v1_t] at hguard ⊢
        refine ⟨?_, ?_, ?_⟩
        · intro w hw
          simp only [List.mem_singleton] at hw
          subst hw
          exact Nat.le_refl _
        · exact List.pairwise_singleton _ _
        · simp only [List.length_singleton]
          omega
      | some decoded =>
        obtain ⟨metadata_entry, read_count⟩ := decoded
        obtain ⟨h1, h2⟩ := hreader _ _ _ _ hread
        obtain ⟨-, hless⟩ := metadata_size_subtract metadata_size read_count h1 h2
        obtain ⟨i1, i2, i3⟩ := ih (fve_metadata.drop read_count) (position + read_count)
          ((metadata_size + 2 ^ 32 - read_count % 2 ^ 32) % 2 ^ 32)
        simp only [sizeof_bde_metadata_header_v1_t] at hguard i3 ⊢
        refine ⟨?_, ?_, ?_⟩
        · intro w hw
          simp only [List.mem_cons] at hw
          rcases hw with hw | hw
          · subst hw
            exact Nat.le_refl _
          · exact Nat.le_of_lt (Nat.lt_of_le_of_lt (i1 w hw) hless)
        · rw [List.pairwise_cons]
          exact ⟨fun w hw => Nat.lt_of_le_of_lt (i1 w hw) hless, i2⟩
        · simp only [List.length_cons]
          omega
    · simp

/-- With a reader that stays within the bytes that remain, the entry loop ends
within `metadata_size - 48` iterations. -/
theorem libbde_metadata_read_entries_returns (C : Collaborators)
    (hreader : entry_read_within C) :
    ∀ (fuel : Nat) (fve_metadata : List Byte) (metadata_size : Nat) (m : libbde_metadata),
      metadata_size - sizeof_bde_metadata_header_v1_t ≤ fuel →
      ∃ result, libbde_metadata_read_entries C fuel fve_metadata metadata_size m
        = some result := by
  intro fuel
  induction fuel with
  | zero =>
    intro fve_metadata metadata_size m hfuel
    simp only [sizeof_bde_metadata_header_v1_t] at hfuel
    have hguard : ¬ metadata_size > sizeof_bde_metadata_header_v1_t := by
      simp only [sizeof_bde_metadata_header_v1_t]; omega
    exact ⟨(1, m), by simp only [libbde_metadata_read_entries, if_neg hguard]⟩
  | succ fuel ih =>
    intro fve_metadata metadata_size m hfuel
    by_cases hguard : metadata_size > sizeof_bde_metadata_header_v1_t
    · cases hread : C.libbde_metadata_entry_read fve_metadata metadata_size with
      | none =>
        exact ⟨(-1, m), by simp only [libbde_metadata_read_entries, if_pos hguard, hread]⟩
      | some decoded =>
        obtain ⟨metadata_entry, read_count⟩ := decoded
        cases hswitch : libbde_metadata_read_entry_switch C m metadata_entry with
        | none =>
          exact ⟨(-1, m), by
            simp only [libbde_metadata_read_entries, if_pos hguard, hread, hswitch]⟩
        | some m1 =>
          obtain ⟨h1, h2⟩ := hreader _ _ _ _ hread
          obtain ⟨-, hless⟩ := metadata_size_subtract metadata_size read_count h1 h2
          obtain ⟨result, hresult⟩ := ih (fve_metadata.drop read_count)
            ((metadata_size + 2 ^ 32 - read_count % 2 ^ 32) % 2 ^ 32)
            { m1 with entries_array := m1.entries_array ++ [metadata_entry] }
            (by simp only [sizeof_bde_metadata_header_v1_t] at hfuel ⊢; omega)
          exact ⟨result, by
            simp only [libbde_metadata_read_entries, if_pos hguard, hread, hswitch]
            exact hresult⟩
    · exact ⟨(1, m), by simp only [libbde_metadata_read_entries, if_neg hguard]⟩

/-- More fuel does not change what the entry loop returns. -/
theorem libbde_metadata_read_entries_fuel (C : Collaborators) :
    ∀ (fuel : Nat) (fve_metadata : List Byte) (metadata_size : Nat) (m : libbde_metadata)
      (result : Int × libbde_metadata),
      libbde_metadata_read_entries C fuel fve_metadata metadata_size m = some result →
      libbde_metadata_read_entries C (fuel + 1) fve_metadata metadata_size m = some result := by
  intro fuel
  induction fuel with
  | zero =>
    intro fve_metadata metadata_size m result h
    simp only [libbde_metadata_read_entries] at h
    split_ifs at h with hguard
    simp only [libbde_metadata_read_entries, if_neg hguard]
    exact h
  | succ fuel ih =>
    intro fve_metadata metadata_size m result h
    rw [libbde_metadata_read_entries] at h
    rw [libbde_metadata_read_entries]
    split_ifs at h ⊢ with hguard
    · cases hread : C.libbde_metadata_entry_read fve_metadata metadata_size with
      | none => rw [hread] at h; exact h
      | some decoded =>
        obtain ⟨metadata_entry, read_count⟩ := decoded
        rw [hread] at h
        simp only at h ⊢
        cases hswitch : libbde_metadata_read_entry_switch C m metadata_entry with
        | none => rw [hswitch] at h; exact h
        | some m1 =>
          rw [hswitch] at h
          exact ih _ _ _ _ h
    · exact h

/-- More fuel does not change what `libbde_metadata_read` returns. -/
theorem libbde_metadata_read_fuel (C : Collaborators) (fuel : Nat)
    (metadata : libbde_metadata) (io_handle : libbde_io_handle)
    (file_io_handle : libbfio_handle) (file_offset : Int)
    (r : libbde_metadata_read_result)
    (h : libbde_metadata_read C fuel metadata io_handle file_io_handle file_offset = some r) :
    ∀ k, libbde_metadata_read C (fuel + k) metadata io_handle file_io_handle file_offset
      = some r := by
  intro k
  induction k with
  | zero => exact h
  | succ k ih =>
    rw [libbde_metadata_read_stages] at ih ⊢
    split_ifs at ih ⊢
    all_goals first
      | exact ih
      | (cases hloop : libbde_metadata_read_entries C (fuel + k)
            (((file_io_handle.read file_offset 4096).2.drop 64).drop 48)
            (byte_stream_copy_to_uint32_little_endian
              ((file_io_handle.read file_offset 4096).2.drop 64) 0 - 48)
            (libbde_metadata_read_headers metadata
              (file_io_handle.read file_offset 4096).2) with
         | none => rw [hloop] at ih; cases ih
         | some result =>
           rw [hloop] at ih
           have hnext := libbde_metadata_read_entries_fuel C _ _ _ _ _ hloop
           rw [show fuel + (k + 1) = fuel + k + 1 from rfl, hnext]
           exact ih)

/-- C28. The entry loop of `libbde_metadata_read` terminates, for every block, with
an entry reader whose every decode fails or returns a count between 1 and the
bytes that remain (`entry_read_within`): the counter `metadata_size` strictly
decreases from each iteration to the next, the loop runs at most
`metadata_size - 48` iterations, and so, run for at least that many (the
`fuel` of the embedding), `libbde_metadata_read` returns; more iterations
allowed do not change what it returns.  The same holds for the loop entered
with any counter. -/
theorem read_entry_loop_terminates (C : Collaborators) (fuel : Nat)
    (metadata : libbde_metadata) (io_handle : libbde_io_handle)
    (file_io_handle : libbfio_handle) (file_offset : Int)
    (hreader : entry_read_within C) :
    (byte_stream_copy_to_uint32_little_endian
        ((file_io_handle.read file_offset 4096).2.drop sizeof_bde_metadata_block_header_v1_t)
        metadata_header.metadata_size - sizeof_bde_metadata_header_v1_t ≤ fuel →
      ∃ r, libbde_metadata_read C fuel metadata io_handle file_io_handle file_offset = some r)
    ∧ (∀ r k,
      libbde_metadata_read C fuel metadata io_handle file_io_handle file_offset = some r →
      libbde_metadata_read C (fuel + k) metadata io_handle file_io_handle file_offset
        = some r)
    ∧ (libbde_metadata_read_windows C fuel file_io_handle file_offset).Pairwise
        (fun a b => b.remaining < a.remaining)
    ∧ (libbde_metadata_read_windows C fuel file_io_handle file_offset).length
      ≤ byte_stream_copy_to_uint32_little_endian
          ((file_io_handle.read file_offset 4096).2.drop sizeof_bde_metadata_block_header_v1_t)
          metadata_header.metadata_size - sizeof_bde_metadata_header_v1_t
    ∧ (∀ (fve_metadata : List Byte) (metadata_size : Nat) (m : libbde_metadata),
      metadata_size - sizeof_bde_metadata_header_v1_t ≤ fuel →
      ∃ result, libbde_metadata_read_entries C fuel fve_metadata metadata_size m
        = some result) := by
  refine ⟨?_, ?_, ?_, ?_, ?_⟩
  · intro hfuel
    simp only [sizeof_bde_metadata_block_header_v1_t, sizeof_bde_metadata_header_v1_t,
      metadata_header] at hfuel
    obtain ⟨result, hloop⟩ := libbde_metadata_read_entries_returns C hreader fuel
      (((file_io_handle.read file_offset 4096).2.drop 64).drop 48)
      (byte_stream_copy_to_uint32_little_endian
        ((file_io_handle.read file_offset 4096).2.drop 64) 0 - 48)
      (libbde_metadata_read_headers metadata (file_io_handle.read file_offset 4096).2)
      (by simp only [sizeof_bde_metadata_header_v1_t]; omega)
    rw [libbde_metadata_read_stages, hloop]
    split_ifs <;> exact ⟨_, rfl⟩
  · intro r k h
    exact libbde_metadata_read_fuel C fuel metadata io_handle file_io_handle file_offset r h k
  · exact (libbde_metadata_read_entries_windows_decrease C hreader fuel _ _ _).2.1
  · have hlength := (libbde_metadata_read_entries_windows_decrease C hreader fuel
      (((file_io_handle.read file_offset 4096).2.drop
        sizeof_bde_metadata_block_header_v1_t).drop sizeof_bde_metadata_header_v1_t)
      (sizeof_bde_metadata_block_header_v1_t + sizeof_bde_metadata_header_v1_t)
      (byte_stream_copy_to_uint32_little_endian
        ((file_io_handle.read file_offset 4096).2.drop sizeof_bde_metadata_block_header_v1_t)
        metadata_header.metadata_size - sizeof_bde_metadata_header_v1_t)).2.2
    exact Nat.le_trans hlength (Nat.sub_le _ _)
  · intro fve_metadata metadata_size m hfuel
    exact libbde_metadata_read_entries_returns C hreader fuel fve_metadata metadata_size m hfuel

/-- C28 on a sample: with the entry reader modelled from the spec the read of the
block of `sample_fields_stream` (metadata size 540) returns when run for 492
iterations, and it returns what it returns when run for the 7 iterations the
block needs. -/
theorem read_entry_loop_terminates_witness :
    entry_read_within sample_collaborators
    ∧ (∃ r, libbde_metadata_read sample_collaborators 492 libbde_metadata_cleared
        (sample_io_handle 0 1) (sample_file (sample_block sample_fields_stream)) 0x2100000
      = some r)
    ∧ libbde_metadata_read sample_collaborators (7 + 485) libbde_metadata_cleared
        (sample_io_handle 0 1) (sample_file (sample_block sample_fields_stream)) 0x2100000
      = some ⟨1, sample_metadata_read_stream, sample_io_handle 0 1⟩ :=
  ⟨sample_collaborators_within,
    (read_entry_loop_terminates sample_collaborators 492 libbde_metadata_cleared
      (sample_io_handle 0 1) (sample_file (sample_block sample_fields_stream)) 0x2100000
      sample_collaborators_within).1 (by decide),
    (read_entry_loop_terminates sample_collaborators 7 libbde_metadata_cleared
      (sample_io_handle 0 1) (sample_file (sample_block sample_fields_stream)) 0x2100000
      sample_collaborators_within).2.1 _ 485 sample_stream_read⟩

/-- When the entry loop ends with 1 the counter is at most 48: the loop is left
through its guard. -/
theorem libbde_metadata_read_entries_left_le (C : Collaborators) :
    ∀ (fuel : Nat) (fve_metadata : List Byte) (metadata_size : Nat)
      (m m' : libbde_metadata),
      libbde_metadata_read_entries C fuel fve_metadata metadata_size m = some (1, m') →
      libbde_metadata_read_entries_left C fuel fve_metadata metadata_size
        ≤ sizeof_bde_metadata_header_v1_t := by
  intro fuel
  induction fuel with
  | zero =>
    intro fve_metadata metadata_size m m' h
    simp only [libbde_metadata_read_entries] at h
    split_ifs at h with hguard
    simp only [libbde_metadata_read_entries_left]
    exact Nat.le_of_not_gt hguard
  | succ fuel ih =>
    intro fve_metadata metadata_size m m' h
    simp only [libbde_metadata_read_entries] at h
    simp only [libbde_metadata_read_entries_left]
    split_ifs at h ⊢ with hguard
    · split at h
      · exact absurd h (by simp)
      · rename_i metadata_entry read_count hread
        split at h
        · exact absurd h (by simp)
        · exact ih _ _ _ _ h
    · exact Nat.le_of_not_gt hguard

/-- With a reader that stays within the bytes that remain, the counts of the
decodes and the counter left add up to the counter the loop was entered
with. -/
theorem libbde_metadata_read_entries_counts_sum (C : Collaborators)
    (hreader : entry_read_within C) :
    ∀ (fuel : Nat) (fve_metadata : List Byte) (metadata_size : Nat),
      metadata_size < 2 ^ 32 →
      (libbde_metadata_read_entries_counts C fuel fve_metadata metadata_size).sum
        + libbde_metadata_read_entries_left C fuel fve_metadata metadata_size
        = metadata_size := by
  intro fuel
  induction fuel with
  | zero =>
    intro fve_metadata metadata_size _
    simp [libbde_metadata_read_entries_counts, libbde_metadata_read_entries_left]
  | succ fuel ih =>
    intro fve_metadata metadata_size hsize
    simp only [libbde_metadata_read_entries_counts, libbde_metadata_read_entries_left]
    split_ifs with hguard
    · cases hread : C.libbde_metadata_entry_read fve_metadata metadata_size with
      | none => simp
      | some decoded =>
        obtain ⟨metadata_entry, read_count⟩ := decoded
        obtain ⟨h1, h2⟩ := hreader _ _ _ _ hread
        obtain ⟨hsub, -⟩ := metadata_size_subtract metadata_size read_count h1 h2
        have hnext := ih (fve_metadata.drop read_count)
          ((metadata_size + 2 ^ 32 - read_count % 2 ^ 32) % 2 ^ 32)
          (by rw [hsub hsize]; omega)
        simp only [List.sum_cons]
        rw [hsub hsize] at hnext ⊢
        omega
    · simp

/-- A 32-bit little-endian value is below 2^32. -/
theorem byte_stream_copy_to_uint32_little_endian_lt (data : List Byte) (i : Nat) :
    byte_stream_copy_to_uint32_little_endian data i < 2 ^ 32 := by
  have h0 := (data.getD i 0).isLt
  have h1 := (data.getD (i + 1) 0).isLt
  have h2 := (data.getD (i + 2) 0).isLt
  have h3 := (data.getD (i + 3) 0).isLt
  simp only [byte_stream_copy_to_uint32_little_endian, byte_at, Nat.reducePow]
  omega

/-- The entry loop entered with a counter of at most 48 does not run: it returns
1 and leaves the metadata set as it is. -/
theorem libbde_metadata_read_entries_none (C : Collaborators) (fuel : Nat)
    (fve_metadata : List Byte) (metadata_size : Nat) (m : libbde_metadata)
    (hsize : metadata_size ≤ sizeof_bde_metadata_header_v1_t) :
    libbde_metadata_read_entries C fuel fve_metadata metadata_size m = some (1, m)
    ∧ libbde_metadata_read_entries_decoded C fuel fve_metadata metadata_size = [] := by
  have hguard : ¬ metadata_size > sizeof_bde_metadata_header_v1_t := Nat.not_lt.mpr hsize
  cases fuel <;>
    simp [libbde_metadata_read_entries, libbde_metadata_read_entries_decoded, hguard]

/-- C29. The entry loop of `libbde_metadata_read` decodes an entry only while more
than 48 bytes of payload remain.  (1) For a block that passes the header
validation (seek, read, signature, versions and the checks of lines 787-853 on
the back-filled handle) with a `metadata_size` of at most 96, whatever the
payload bytes are, the read returns 1 without decoding an entry: the metadata
set left is the one the headers give, with the entries array and the three
projections of the set given, which are empty and absent for a freshly
initialized set.  (2) Whenever the read returns 1, the counter `metadata_size`
left, which is the number of trailing payload bytes not decoded, is at most
48; (3) with a reader that stays within the bytes that remain it is
`metadata_size - 48` less the sum of the counts of the decodes. -/
theorem read_stops_at_48_bytes (C : Collaborators) (fuel : Nat)
    (metadata : libbde_metadata) (io_handle : libbde_io_handle)
    (file_io_handle : libbfio_handle) (file_offset : Int) :
    (libbde_metadata_read_reaches_back_fill file_io_handle file_offset →
      libbde_metadata_read_checks
        (libbde_metadata_read_back_fill C io_handle
          (byte_stream_copy_to_uint64_little_endian (file_io_handle.read file_offset 4096).2 40)
          (byte_stream_copy_to_uint64_little_endian (file_io_handle.read file_offset 4096).2 48))
        (file_io_handle.read file_offset 4096).2 →
      byte_stream_copy_to_uint32_little_endian
        ((file_io_handle.read file_offset 4096).2.drop sizeof_bde_metadata_block_header_v1_t)
        metadata_header.metadata_size ≤ 96 →
      libbde_metadata_read C fuel metadata io_handle file_io_handle file_offset
          = some ⟨1,
              libbde_metadata_read_headers metadata (file_io_handle.read file_offset 4096).2,
              libbde_metadata_read_back_fill C io_handle
                (byte_stream_copy_to_uint64_little_endian
                  (file_io_handle.read file_offset 4096).2 40)
                (byte_stream_copy_to_uint64_little_endian
                  (file_io_handle.read file_offset 4096).2 48)⟩
      ∧ libbde_metadata_read_decoded C fuel file_io_handle file_offset = []
      ∧ (libbde_metadata_read_headers metadata
          (file_io_handle.read file_offset 4096).2).entries_array = metadata.entries_array
      ∧ (libbde_metadata_read_headers metadata
          (file_io_handle.read file_offset 4096).2).disk_password_volume_master_key
        = metadata.disk_password_volume_master_key
      ∧ (libbde_metadata_read_headers metadata
          (file_io_handle.read file_offset 4096).2).external_key_volume_master_key
        = metadata.external_key_volume_master_key
      ∧ (libbde_metadata_read_headers metadata
          (file_io_handle.read file_offset 4096).2).full_volume_encryption_key
        = metadata.full_volume_encryption_key)
    ∧ (∀ r,
      libbde_metadata_read C fuel metadata io_handle file_io_handle file_offset = some r →
      r.result = 1 →
      libbde_metadata_read_entries_left C fuel
          (((file_io_handle.read file_offset 4096).2.drop
            sizeof_bde_metadata_block_header_v1_t).drop sizeof_bde_metadata_header_v1_t)
          (byte_stream_copy_to_uint32_little_endian
            ((file_io_handle.read file_offset 4096).2.drop
              sizeof_bde_metadata_block_header_v1_t)
            metadata_header.metadata_size - sizeof_bde_metadata_header_v1_t)
        ≤ 48)
    ∧ (entry_read_within C →
      (libbde_metadata_read_entries_counts C fuel
          (((file_io_handle.read file_offset 4096).2.drop
            sizeof_bde_metadata_block_header_v1_t).drop sizeof_bde_metadata_header_v1_t)
          (byte_stream_copy_to_uint32_little_endian
            ((file_io_handle.read file_offset 4096).2.drop
              sizeof_bde_metadata_block_header_v1_t)
            metadata_header.metadata_size - sizeof_bde_metadata_header_v1_t)).sum
        + libbde_metadata_read_entries_left C fuel
          (((file_io_handle.read file_offset 4096).2.drop
            sizeof_bde_metadata_block_header_v1_t).drop sizeof_bde_metadata_header_v1_t)
          (byte_stream_copy_to_uint32_little_endian
            ((file_io_handle.read file_offset 4096).2.drop
              sizeof_bde_metadata_block_header_v1_t)
            metadata_header.metadata_size - sizeof_bde_metadata_header_v1_t)
        = byte_stream_copy_to_uint32_little_endian
            ((file_io_handle.read file_offset 4096).2.drop
              sizeof_bde_metadata_block_header_v1_t)
            metadata_header.metadata_size - sizeof_bde_metadata_header_v1_t) := by
  refine ⟨?_, ?_, ?_⟩
  · intro hreach hchecks hsize
    simp only [libbde_metadata_read_reaches_back_fill, block_header, metadata_header,
      sizeof_bde_metadata_block_header_v1_t] at hreach hsize
    obtain ⟨hseek, hcount, hsignature, hversion, hheader⟩ := hreach
    obtain ⟨k1, k2, k3, k4, -⟩ := libbde_metadata_read_headers_frame metadata
      (file_io_handle.read file_offset 4096).2
    obtain ⟨hloop, hdecoded⟩ := libbde_metadata_read_entries_none C fuel
      (((file_io_handle.read file_offset 4096).2.drop 64).drop 48)
      (byte_stream_copy_to_uint32_little_endian
        ((file_io_handle.read file_offset 4096).2.drop 64) 0 - 48)
      (libbde_metadata_read_headers metadata (file_io_handle.read file_offset 4096).2)
      (by simp only [sizeof_bde_metadata_header_v1_t]; omega)
    refine ⟨?_, hdecoded, k4, k1, k2, k3⟩
    rw [libbde_metadata_read_stages,
      if_neg (by simp only [not_or, not_not]; exact ⟨hseek, hcount, hsignature⟩),
      if_neg (not_not.mpr hversion), if_neg (not_not.mpr hheader),
      if_neg (not_not.mpr hchecks), hloop]
  · intro r h h1
    obtain ⟨-, -, -, -, -, hloop⟩ := libbde_metadata_read_returns_one h h1
    exact libbde_metadata_read_entries_left_le C fuel _ _ _ _ hloop
  · intro hreader
    exact libbde_metadata_read_entries_counts_sum C hreader fuel _ _
      (Nat.lt_of_le_of_lt (Nat.sub_le _ _) (byte_stream_copy_to_uint32_little_endian_lt _ _))

/-- C29 on samples: the block of `sample_fields_short_payload` (metadata size 92,
one well-formed entry of 44 bytes as payload) is read with 1, no entry
decoded and no projection set; and after the read of the block of
`sample_fields_stream` no more than 48 bytes of payload are left. -/
theorem read_stops_at_48_bytes_witness :
    (libbde_metadata_read sample_collaborators 1 libbde_metadata_cleared
        (sample_io_handle 1 0) (sample_file (sample_block sample_fields_short_payload))
        0x2100000
      = some ⟨1,
          libbde_metadata_read_headers libbde_metadata_cleared
            (sample_block sample_fields_short_payload),
          libbde_metadata_read_back_fill sample_collaborators (sample_io_handle 1 0)
            (byte_stream_copy_to_uint64_little_endian
              (sample_block sample_fields_short_payload) 40)
            (byte_stream_copy_to_uint64_little_endian
              (sample_block sample_fields_short_payload) 48)⟩
      ∧ libbde_metadata_read_decoded sample_collaborators 1
          (sample_file (sample_block sample_fields_short_payload)) 0x2100000 = [])
    ∧ (libbde_metadata_read_headers libbde_metadata_cleared
        (sample_block sample_fields_short_payload)).entries_array = []
    ∧ (libbde_metadata_read_headers libbde_metadata_cleared
        (sample_block sample_fields_short_payload)).full_volume_encryption_key = none
    ∧ libbde_metadata_read_entries_left sample_collaborators 7
        (((sample_block sample_fields_stream).drop 64).drop 48)
        (byte_stream_copy_to_uint32_little_endian
          ((sample_block sample_fields_stream).drop 64) 0 - 48)
      ≤ 48 :=
  ⟨⟨((read_stops_at_48_bytes sample_collaborators 1 libbde_metadata_cleared
        (sample_io_handle 1 0) (sample_file (sample_block sample_fields_short_payload))
        0x2100000).1 (by decide) (by decide) (by decide)).1,
      ((read_stops_at_48_bytes sample_collaborators 1 libbde_metadata_cleared
        (sample_io_handle 1 0) (sample_file (sample_block sample_fields_short_payload))
        0x2100000).1 (by decide) (by decide) (by decide)).2.1⟩,
    by decide, by decide,
    (read_stops_at_48_bytes sample_collaborators 7 libbde_metadata_cleared
      (sample_io_handle 0 1) (sample_file (sample_block sample_fields_stream))
      0x2100000).2.1 _ sample_stream_read rfl⟩

/-- C35. The function `libbde_metadata_initialize`.  (1) On a slot that holds no
metadata set, with the allocation, the clearing and the initialisation of the
entries array succeeding, it returns 1 and the slot holds a metadata set whose
scalar fields are all 0 (the volume identifier 16 zero bytes), whose three
projections are absent and whose entries array is empty.  (2) On a slot that
already holds a metadata set it returns 1 and leaves the set as it is, whatever
the allocator would do.  (3) With a `NULL` slot it returns -1.  (4) It returns 1
or -1, and whenever it returns -1 the slot holds no metadata set afterwards; on
a slot that held none this is the case exactly when one of the three steps
fails. -/
theorem initialize_metadata (allocated cleared array_initialized : Bool) :
    (∃ m : libbde_metadata,
      libbde_metadata_initialize true true true (some none) = (1, some (some m))
      ∧ m.version = 0 ∧ m.mft_mirror_cluster_block_number = 0 ∧ m.volume_size = 0
      ∧ m.volume_header_offset = 0 ∧ m.volume_header_size = 0
      ∧ m.volume_identifier = List.replicate 16 0
      ∧ m.encryption_method = 0 ∧ m.creation_time = 0
      ∧ m.disk_password_volume_master_key = none
      ∧ m.external_key_volume_master_key = none
      ∧ m.full_volume_encryption_key = none
      ∧ m.entries_array = [])
    ∧ (∀ m : libbde_metadata,
      libbde_metadata_initialize allocated cleared array_initialized (some (some m))
        = (1, some (some m)))
    ∧ ( libbde_metadata_initialize allocated cleared array_initialized none).1 = -1
    ∧ (∀ slot : Option (Option libbde_metadata),
      (( libbde_metadata_initialize allocated cleared array_initialized slot).1 = 1
        ∨ ( libbde_metadata_initialize allocated cleared array_initialized slot).1 = -1)
      ∧ (( libbde_metadata_initialize allocated cleared array_initialized slot).1 = -1 →
        ∀ m : libbde_metadata,
          ( libbde_metadata_initialize allocated cleared array_initialized slot).2
            ≠ some (some m)))
    ∧ (( libbde_metadata_initialize allocated cleared array_initialized (some none)).1 = -1
      ↔ (allocated = false ∨ cleared = false ∨ array_initialized = false))
    ∧ (( libbde_metadata_initialize allocated cleared array_initialized (some none)).1 = -1 →
      libbde_metadata_initialize allocated cleared array_initialized (some none)
        = (-1, some none)) := by
  refine ⟨⟨libbde_metadata_cleared, rfl, rfl, rfl, rfl, rfl, rfl, rfl, rfl, rfl, rfl, rfl, rfl,
    rfl⟩, fun m => rfl, rfl, ?_, ?_, ?_⟩
  · intro slot
    rcases slot with _ | _ | m
    · exact ⟨Or.inr rfl, fun _ m h => by simp [ libbde_metadata_initialize] at h⟩
    · cases allocated <;> cases cleared <;> cases array_initialized <;>
        simp [ libbde_metadata_initialize]
    · exact ⟨Or.inl rfl, fun h => absurd h (by simp [ libbde_metadata_initialize])⟩
  · cases allocated <;> cases cleared <;> cases array_initialized <;> decide
  · cases allocated <;> cases cleared <;> cases array_initialized <;> decide

/-- C35 on samples: a fresh slot with every step succeeding holds the cleared
metadata set; a slot that holds the metadata set of a read keeps it although
the allocator would fail; a failing `memory_set` and a failing
`libbde_array_initialize` give -1 with the slot empty. -/
theorem initialize_metadata_witness :
    libbde_metadata_initialize true true true (some none)
      = (1, some (some libbde_metadata_cleared))
    ∧ libbde_metadata_initialize false false false (some (some sample_metadata_read_stream))
      = (1, some (some sample_metadata_read_stream))
    ∧ libbde_metadata_initialize true false true (some none) = (-1, some none)
    ∧ libbde_metadata_initialize true true false (some none) = (-1, some none)
    ∧ (∀ m : libbde_metadata,
      ( libbde_metadata_initialize true true false (some none)).2 ≠ some (some m)) :=
  ⟨rfl,
    (initialize_metadata false false false).2.1 sample_metadata_read_stream,
    (initialize_metadata true false true).2.2.2.2.2 (by decide),
    (initialize_metadata true true false).2.2.2.2.2 (by decide),
    ((initialize_metadata true true false).2.2.2.1 (some none)).2 (by decide)⟩

/-- C34. When the seek to `file_offset` fails (returns -1), or the read of the
4096 bytes of the block returns another count than 4096 (a short read, or -1
for a read error), `libbde_metadata_read` returns -1 and leaves the metadata set
and the handle as they were, whatever the buffer holds, for every number of
loop iterations and every choice of the collaborators: no byte of the block is
examined. -/
theorem read_rejects_failed_reader (C : Collaborators) (fuel : Nat)
    (metadata : libbde_metadata) (io_handle : libbde_io_handle)
    (file_io_handle : libbfio_handle) (file_offset : Int)
    (hreader : file_io_handle.seek_offset file_offset = -1
      ∨ (file_io_handle.read file_offset 4096).1 ≠ 4096) :
    libbde_metadata_read C fuel metadata io_handle file_io_handle file_offset
      = some ⟨-1, metadata, io_handle⟩ := by
  rw [libbde_metadata_read_stages, if_pos]
  rcases hreader with h | h
  · exact Or.inl h
  · exact Or.inr (Or.inl h)

/-- C34 on samples: the well-formed block of `sample_fields`, which a reader
that delivers it is read with 1, gives -1 with the metadata set untouched behind
a failing seek, behind a read of 512 bytes, behind a read of 4097 bytes and
behind a read error. -/
theorem read_rejects_failed_reader_witness :
    libbde_metadata_read sample_collaborators 0 libbde_metadata_cleared (sample_io_handle 0 0)
        (sample_file_seek_failing (sample_block sample_fields)) 0x2100000
      = some ⟨-1, libbde_metadata_cleared, sample_io_handle 0 0⟩
    ∧ libbde_metadata_read sample_collaborators 0 libbde_metadata_cleared (sample_io_handle 0 0)
        (sample_file_count 512 (sample_block sample_fields)) 0x2100000
      = some ⟨-1, libbde_metadata_cleared, sample_io_handle 0 0⟩
    ∧ libbde_metadata_read sample_collaborators 0 libbde_metadata_cleared (sample_io_handle 0 0)
        (sample_file_count 4097 (sample_block sample_fields)) 0x2100000
      = some ⟨-1, libbde_metadata_cleared, sample_io_handle 0 0⟩
    ∧ libbde_metadata_read sample_collaborators 0 libbde_metadata_cleared (sample_io_handle 0 0)
        (sample_file_count (-1) (sample_block sample_fields)) 0x2100000
      = some ⟨-1, libbde_metadata_cleared, sample_io_handle 0 0⟩
    ∧ (libbde_metadata_read sample_collaborators 0 libbde_metadata_cleared
        (sample_io_handle 0 0) (sample_file_count 4096 (sample_block sample_fields))
        0x2100000).map (fun r => r.result) = some 1 :=
  ⟨read_rejects_failed_reader sample_collaborators 0 libbde_metadata_cleared
      (sample_io_handle 0 0) (sample_file_seek_failing (sample_block sample_fields)) 0x2100000
      (Or.inl rfl),
    read_rejects_failed_reader sample_collaborators 0 libbde_metadata_cleared
      (sample_io_handle 0 0) (sample_file_count 512 (sample_block sample_fields)) 0x2100000
      (Or.inr (by decide)),
    read_rejects_failed_reader sample_collaborators 0 libbde_metadata_cleared
      (sample_io_handle 0 0) (sample_file_count 4097 (sample_block sample_fields)) 0x2100000
      (Or.inr (by decide)),
    read_rejects_failed_reader sample_collaborators 0 libbde_metadata_cleared
      (sample_io_handle 0 0) (sample_file_count (-1) (sample_block sample_fields)) 0x2100000
      (Or.inr (by decide)),
    by decide⟩

/-- C31. `libbde_metadata_read` returns -1 for every block whose metadata header
version, the little-endian 32-bit value at bytes [4..8) of the 48-byte metadata
header (bytes [68..72) of the block), is not 1: whatever the block header
version, the offsets, the header size and the metadata size of the block are,
and whatever the metadata set, the handle and the reader are.  The handle is
left as it was, the Vista back-fill is not reached. -/
theorem read_rejects_metadata_header_version (C : Collaborators) (fuel : Nat)
    (metadata : libbde_metadata) (io_handle : libbde_io_handle)
    (file_io_handle : libbfio_handle) (file_offset : Int)
    (hversion : byte_stream_copy_to_uint32_little_endian
        ((file_io_handle.read file_offset 4096).2.drop sizeof_bde_metadata_block_header_v1_t)
        metadata_header.version ≠ 1) :
    (∃ r, libbde_metadata_read C fuel metadata io_handle file_io_handle file_offset = some r
      ∧ r.result = -1 ∧ r.io_handle = io_handle)
    ∧ metadata_header.version = 4
    ∧ sizeof_bde_metadata_header_v1_t = 48
    ∧ byte_stream_copy_to_uint32_little_endian
        ((file_io_handle.read file_offset 4096).2.drop sizeof_bde_metadata_block_header_v1_t)
        metadata_header.version
      = byte_stream_copy_to_uint32_little_endian (file_io_handle.read file_offset 4096).2 68 := by
  refine ⟨?_, rfl, rfl, ?_⟩
  · have hv : byte_stream_copy_to_uint32_little_endian
        ((file_io_handle.read file_offset 4096).2.drop 64) 4 ≠ 1 := hversion
    rw [libbde_metadata_read_stages]
    by_cases c1 : file_io_handle.seek_offset file_offset = -1
        ∨ (file_io_handle.read file_offset 4096).1 ≠ 4096
        ∨ bytes_at (file_io_handle.read file_offset 4096).2 0 8 ≠ bde_signature
    · rw [if_pos c1]; exact ⟨_, rfl, rfl, rfl⟩
    rw [if_neg c1]
    by_cases c2 : ¬ (byte_stream_copy_to_uint16_little_endian
          (file_io_handle.read file_offset 4096).2 10 = 1
        ∨ byte_stream_copy_to_uint16_little_endian
          (file_io_handle.read file_offset 4096).2 10 = 2)
    · rw [if_pos c2]; exact ⟨_, rfl, rfl, rfl⟩
    rw [if_neg c2, if_pos hv]
    exact ⟨_, rfl, rfl, rfl⟩
  · simp only [sizeof_bde_metadata_block_header_v1_t, metadata_header,
      byte_stream_copy_to_uint32_little_endian, byte_at_drop]

/-- C31 on samples: the block of `sample_fields` with the metadata header version
2 is read with -1, as a version 2 block and as a version 1 block, although the
offsets, the header size and the metadata size of the block pass their checks;
with the metadata header version 1 both blocks are read with 1. -/
theorem read_rejects_metadata_header_version_witness :
    (∃ r, libbde_metadata_read sample_collaborators 0 libbde_metadata_cleared
          (sample_io_handle 0 0)
          (sample_file (sample_block (sample_fields_metadata_version 2 2))) 0x2100000 = some r
        ∧ r.result = -1 ∧ r.io_handle = sample_io_handle 0 0)
    ∧ (∃ r, libbde_metadata_read sample_collaborators 0 libbde_metadata_cleared
          (sample_io_handle 0 0)
          (sample_file (sample_block (sample_fields_metadata_version 1 0))) 0x2100000 = some r
        ∧ r.result = -1 ∧ r.io_handle = sample_io_handle 0 0)
    ∧ libbde_metadata_read_checks (sample_io_handle 0 0)
        (sample_block (sample_fields_metadata_version 2 2))
    ∧ libbde_metadata_read_checks (sample_io_handle 0 0)
        (sample_block (sample_fields_metadata_version 1 0))
    ∧ (libbde_metadata_read sample_collaborators 0 libbde_metadata_cleared
        (sample_io_handle 0 0)
        (sample_file (sample_block (sample_fields_metadata_version 2 1))) 0x2100000).map
          (fun r => r.result) = some 1
    ∧ (libbde_metadata_read sample_collaborators 0 libbde_metadata_cleared
        (sample_io_handle 0 0)
        (sample_file (sample_block (sample_fields_metadata_version 1 1))) 0x2100000).map
          (fun r => r.result) = some 1 :=
  ⟨(read_rejects_metadata_header_version sample_collaborators 0 libbde_metadata_cleared
      (sample_io_handle 0 0) (sample_file (sample_block (sample_fields_metadata_version 2 2)))
      0x2100000 (by decide)).1,
    (read_rejects_metadata_header_version sample_collaborators 0 libbde_metadata_cleared
      (sample_io_handle 0 0) (sample_file (sample_block (sample_fields_metadata_version 1 0)))
      0x2100000 (by decide)).1,
    by decide, by decide, by decide, by decide⟩

/-- The case VOLUME_HEADER_BLOCK of the switch for an entry of value type
OFFSET_AND_SIZE (lines 1035-1088): it leaves through `on_error` when the value
data is shorter than 16 bytes or the offset differs from the
`volume_header_offset` of the metadata set, and stores the size otherwise. -/
theorem libbde_metadata_read_entry_switch_volume_header_block (C : Collaborators)
    (m : libbde_metadata) (e : libbde_metadata_entry)
    (ht : e.type = LIBBDE_ENTRY_TYPE_VOLUME_HEADER_BLOCK)
    (hv : e.value_type = C.LIBBDE_VALUE_TYPE_OFFSET_AND_SIZE) :
    libbde_metadata_read_entry_switch C m e
      = if e.value_data_size < 16
          ∨ byte_stream_copy_to_uint64_little_endian e.value_data 0
            ≠ m.volume_header_offset then
        none
      else
        some { m with
          volume_header_size := byte_stream_copy_to_uint64_little_endian e.value_data 8 } := by
  simp only [libbde_metadata_read_entry_switch, ht, hv, LIBBDE_ENTRY_TYPE_VOLUME_MASTER_KEY,
    LIBBDE_ENTRY_TYPE_FULL_VOLUME_ENCRYPTION_KEY, LIBBDE_ENTRY_TYPE_DESCRIPTION,
    LIBBDE_ENTRY_TYPE_VOLUME_HEADER_BLOCK]
  simp only [Nat.reduceEqDiff, or_self, if_false, if_true]
  by_cases h16 : e.value_data_size < 16
  · simp [h16]
  · by_cases ho : byte_stream_copy_to_uint64_little_endian e.value_data 0
        = m.volume_header_offset
    · simp [h16, ho]
    · simp [h16, ho]

/-- Decoding the two headers of a block whose block header version is not 2
leaves `volume_header_offset` as it was: it is assigned only in the version 2
branch of lines 393-402. -/
theorem libbde_metadata_read_headers_volume_header_offset (m : libbde_metadata)
    (fve_metadata_block : List Byte)
    (hversion : byte_stream_copy_to_uint16_little_endian fve_metadata_block
      block_header.version ≠ 2) :
    (libbde_metadata_read_headers m fve_metadata_block).volume_header_offset
      = m.volume_header_offset := by
  simp only [libbde_metadata_read_headers, libbde_metadata_read_metadata_header,
    libbde_metadata_read_block_header]
  split_ifs <;> rfl

/-- C33. For a block whose block header version is 1: (1) whatever
`libbde_metadata_read` returns, the `volume_header_offset` of the metadata set is
the one it held before the call, which is 0 for a freshly initialized set; (2)
a decoded VOLUME_HEADER_BLOCK entry of value type OFFSET_AND_SIZE whose offset,
the 64-bit value at bytes [0..8) of its value data, differs from that value
makes the read return -1; (3) after a read that returned 1 every such entry of
the decoded stream has at least 16 bytes of value data and names exactly that
offset. -/
theorem read_volume_header_offset_version_1 (C : Collaborators) (fuel : Nat)
    (metadata : libbde_metadata) (io_handle : libbde_io_handle)
    (file_io_handle : libbfio_handle) (file_offset : Int)
    (hversion : byte_stream_copy_to_uint16_little_endian
      (file_io_handle.read file_offset 4096).2 block_header.version = 1) :
    (∀ r : libbde_metadata_read_result,
      libbde_metadata_read C fuel metadata io_handle file_io_handle file_offset = some r →
      r.metadata.volume_header_offset = metadata.volume_header_offset)
    ∧ (∀ m : libbde_metadata,
      libbde_metadata_initialize true true true (some none) = (1, some (some m)) →
      m.volume_header_offset = 0)
    ∧ (∀ e ∈ libbde_metadata_read_decoded C fuel file_io_handle file_offset,
      e.type = LIBBDE_ENTRY_TYPE_VOLUME_HEADER_BLOCK →
      e.value_type = C.LIBBDE_VALUE_TYPE_OFFSET_AND_SIZE →
      byte_stream_copy_to_uint64_little_endian e.value_data 0
        ≠ metadata.volume_header_offset →
      ∃ r, libbde_metadata_read C fuel metadata io_handle file_io_handle file_offset = some r
        ∧ r.result = -1)
    ∧ (∀ r : libbde_metadata_read_result,
      libbde_metadata_read C fuel metadata io_handle file_io_handle file_offset = some r →
      r.result = 1 →
      ∀ e ∈ libbde_metadata_read_decoded C fuel file_io_handle file_offset,
        e.type = LIBBDE_ENTRY_TYPE_VOLUME_HEADER_BLOCK →
        e.value_type = C.LIBBDE_VALUE_TYPE_OFFSET_AND_SIZE →
        16 ≤ e.value_data_size
        ∧ byte_stream_copy_to_uint64_little_endian e.value_data 0
          = metadata.volume_header_offset) := by
  have hne : byte_stream_copy_to_uint16_little_endian
      (file_io_handle.read file_offset 4096).2 block_header.version ≠ 2 := by
    rw [hversion]; decide
  have hoffset := libbde_metadata_read_headers_volume_header_offset metadata
    (file_io_handle.read file_offset 4096).2 hne
  have hrefused : ∀ e ∈ libbde_metadata_read_decoded C fuel file_io_handle file_offset,
      e.type = LIBBDE_ENTRY_TYPE_VOLUME_HEADER_BLOCK →
      e.value_type = C.LIBBDE_VALUE_TYPE_OFFSET_AND_SIZE →
      (e.value_data_size < 16
        ∨ byte_stream_copy_to_uint64_little_endian e.value_data 0
          ≠ metadata.volume_header_offset) →
      ∃ r, libbde_metadata_read C fuel metadata io_handle file_io_handle file_offset = some r
        ∧ r.result = -1 := by
    intro e he ht hv hbad
    refine libbde_metadata_read_refused C fuel metadata io_handle file_io_handle file_offset e he
      ?_
    intro m hm
    rw [libbde_metadata_read_entry_switch_volume_header_block C m e ht hv, hm, hoffset,
      if_pos hbad]
  refine ⟨?_, ?_, ?_, ?_⟩
  · intro r h
    rw [libbde_metadata_read_stages] at h
    by_cases c1 : file_io_handle.seek_offset file_offset = -1
        ∨ (file_io_handle.read file_offset 4096).1 ≠ 4096
        ∨ bytes_at (file_io_handle.read file_offset 4096).2 0 8 ≠ bde_signature
    · rw [if_pos c1] at h
      simp only [Option.some.injEq] at h
      rw [← h]
    rw [if_neg c1] at h
    by_cases c2 : byte_stream_copy_to_uint16_little_endian
          (file_io_handle.read file_offset 4096).2 10 = 1
        ∨ byte_stream_copy_to_uint16_little_endian (file_io_handle.read file_offset 4096).2 10 = 2
    swap
    · rw [if_pos c2] at h
      simp only [Option.some.injEq] at h
      rw [← h]
    rw [if_neg (not_not.mpr c2)] at h
    by_cases c3 : byte_stream_copy_to_uint32_little_endian
        ((file_io_handle.read file_offset 4096).2.drop 64) 4 = 1
    swap
    · rw [if_pos c3] at h
      simp only [Option.some.injEq] at h
      rw [← h]
      exact hoffset
    rw [if_neg (not_not.mpr c3)] at h
    by_cases c4 : libbde_metadata_read_checks
        (libbde_metadata_read_back_fill C io_handle
          (byte_stream_copy_to_uint64_little_endian (file_io_handle.read file_offset 4096).2 40)
          (byte_stream_copy_to_uint64_little_endian (file_io_handle.read file_offset 4096).2 48))
        (file_io_handle.read file_offset 4096).2
    swap
    · rw [if_pos c4] at h
      simp only [Option.some.injEq] at h
      rw [← h]
      exact hoffset
    rw [if_neg (not_not.mpr c4)] at h
    split at h
    · exact absurd h (by simp)
    · rename_i result m' hloop
      simp only [Option.some.injEq] at h
      rw [← h]
      obtain ⟨-, -, -, f4, -⟩ := libbde_metadata_read_entries_frame C fuel _ _ _ _ _ hloop
      exact f4.trans hoffset
  · intro m hfresh
    have hm : m = libbde_metadata_cleared := by
      simp [ libbde_metadata_initialize] at hfresh
      exact hfresh.symm
    rw [hm]
    rfl
  · intro e he ht hv hbad
    exact hrefused e he ht hv (Or.inr hbad)
  · intro r h h1 e he ht hv
    by_contra hbad
    have hbad' : e.value_data_size < 16
        ∨ byte_stream_copy_to_uint64_little_endian e.value_data 0
          ≠ metadata.volume_header_offset := by
      by_cases h16 : e.value_data_size < 16
      · exact Or.inl h16
      · exact Or.inr (fun ho => hbad ⟨by omega, ho⟩)
    obtain ⟨r', hr', hresult⟩ := hrefused e he ht hv hbad'
    rw [h] at hr'
    simp only [Option.some.injEq] at hr'
    rw [← hr', h1] at hresult
    exact absurd hresult (by decide)

/-- C33 on samples: a version 1 block whose VOLUME_HEADER_BLOCK entry names the
offset 0x20000 is read with -1 into a fresh metadata set, whose
`volume_header_offset` is 0; the block whose entry names the offset 0 is read
with 1, the offset staying 0 and the size 0x2000 being stored; and the block
with the offset 0x20000 is read with 1 into a metadata set that held the
`volume_header_offset` 0x20000 before the call. -/
theorem read_volume_header_offset_version_1_witness :
    (∃ r, libbde_metadata_read sample_collaborators 2 libbde_metadata_cleared
          (sample_io_handle 0 0) (sample_file (sample_block (sample_fields_vista_header 0x20000)))
          0x2100000 = some r
        ∧ r.result = -1)
    ∧ (libbde_metadata_read sample_collaborators 2 libbde_metadata_cleared
        (sample_io_handle 0 0) (sample_file (sample_block (sample_fields_vista_header 0)))
        0x2100000).map
          (fun r => (r.result, r.metadata.volume_header_offset, r.metadata.volume_header_size))
      = some (1, 0, 0x2000)
    ∧ (libbde_metadata_read sample_collaborators 2
        { libbde_metadata_cleared with volume_header_offset := 0x20000 }
        (sample_io_handle 0 0) (sample_file (sample_block (sample_fields_vista_header 0x20000)))
        0x2100000).map
          (fun r => (r.result, r.metadata.volume_header_offset, r.metadata.volume_header_size))
      = some (1, 0x20000, 0x2000) :=
  ⟨(read_volume_header_offset_version_1 sample_collaborators 2 libbde_metadata_cleared
      (sample_io_handle 0 0) (sample_file (sample_block (sample_fields_vista_header 0x20000)))
      0x2100000 (by decide)).2.2.1
      { type := 0x000f, value_type := 0x000f,
        value_data := sample_little_endian 8 0x20000 ++ sample_little_endian 8 0x2000,
        value_data_size := 16 }
      (by decide) rfl rfl (by decide),
    by decide, by decide⟩

/-- What `libbde_metadata_get_full_volume_encryption_key` leaves in its two output
buffers: either the function does not return 1 and both are as they were, or it
returns 1 and has copied, according to the inner data size of the unwrapped
block, 16 bytes into the FVEK output (0x1c), 32 bytes into the FVEK output
(0x2c), or 32 bytes into each output (0x4c). -/
theorem libbde_metadata_get_full_volume_encryption_key_outputs (C : Collaborators)
    (metadata : libbde_metadata) (volume_master_key : List Byte)
    (full_volume_encryption_key tweak_key : List Byte)
    (r : libbde_metadata_get_full_volume_encryption_key_result)
    (h : libbde_metadata_get_full_volume_encryption_key C metadata volume_master_key
      full_volume_encryption_key tweak_key = some r) :
    (r.result ≠ 1 ∧ r.full_volume_encryption_key = full_volume_encryption_key
      ∧ r.tweak_key = tweak_key)
    ∨ ∃ envelope, metadata.full_volume_encryption_key = some envelope ∧ r.result = 1
      ∧ ((byte_stream_copy_to_uint16_little_endian
            (C.libbde_aes_ccm_crypt volume_master_key 256 envelope.nonce 12 envelope.data
              envelope.data_size envelope.data_size).2 16 = 0x1c
          ∧ 44 ≤ envelope.data_size
          ∧ r.full_volume_encryption_key
            = memory_copy full_volume_encryption_key
                (bytes_at (C.libbde_aes_ccm_crypt volume_master_key 256 envelope.nonce 12
                  envelope.data envelope.data_size envelope.data_size).2 28 16) 16
          ∧ r.tweak_key = tweak_key)
        ∨ (byte_stream_copy_to_uint16_little_endian
            (C.libbde_aes_ccm_crypt volume_master_key 256 envelope.nonce 12 envelope.data
              envelope.data_size envelope.data_size).2 16 = 0x2c
          ∧ 60 ≤ envelope.data_size
          ∧ r.full_volume_encryption_key
            = memory_copy full_volume_encryption_key
                (bytes_at (C.libbde_aes_ccm_crypt volume_master_key 256 envelope.nonce 12
                  envelope.data envelope.data_size envelope.data_size).2 28 32) 32
          ∧ r.tweak_key = tweak_key)
        ∨ (byte_stream_copy_to_uint16_little_endian
            (C.libbde_aes_ccm_crypt volume_master_key 256 envelope.nonce 12 envelope.data
              envelope.data_size envelope.data_size).2 16 = 0x4c
          ∧ 92 ≤ envelope.data_size
          ∧ r.full_volume_encryption_key
            = memory_copy full_volume_encryption_key
                (bytes_at (C.libbde_aes_ccm_crypt volume_master_key 256 envelope.nonce 12
                  envelope.data envelope.data_size envelope.data_size).2 28 32) 32
          ∧ r.tweak_key
            = memory_copy tweak_key
                (bytes_at (C.libbde_aes_ccm_crypt volume_master_key 256 envelope.nonce 12
                  envelope.data envelope.data_size envelope.data_size).2 60 32) 32)) := by
  cases hm : metadata.full_volume_encryption_key with
  | none =>
    simp [libbde_metadata_get_full_volume_encryption_key, hm] at h
    subst h
    exact Or.inl ⟨by simp, rfl, rfl⟩
  | some envelope =>
    by_cases c28 : envelope.data_size < 28
    · simp [libbde_metadata_get_full_volume_encryption_key, hm, c28] at h
      subst h
      exact Or.inl ⟨by simp, rfl, rfl⟩
    by_cases cset : C.libbde_aes_set_encryption_key volume_master_key 256 = 1
    swap
    · simp [libbde_metadata_get_full_volume_encryption_key, hm, c28, cset] at h
      subst h
      exact Or.inl ⟨by simp, rfl, rfl⟩
    by_cases ccrypt : (C.libbde_aes_ccm_crypt volume_master_key 256 envelope.nonce 12
        envelope.data envelope.data_size envelope.data_size).1 = 1
    swap
    · simp [libbde_metadata_get_full_volume_encryption_key, hm, c28, cset, ccrypt] at h
      subst h
      exact Or.inl ⟨by simp, rfl, rfl⟩
    have c22 : ¬ envelope.data_size < 22 := by omega
    by_cases cversion : byte_stream_copy_to_uint16_little_endian
        (C.libbde_aes_ccm_crypt volume_master_key 256 envelope.nonce 12 envelope.data
          envelope.data_size envelope.data_size).2 20 = 1
    swap
    · simp [libbde_metadata_get_full_volume_encryption_key, hm, c28, cset, ccrypt, c22,
        cversion] at h
      subst h
      exact Or.inl ⟨by simp, rfl, rfl⟩
    by_cases c1c : byte_stream_copy_to_uint16_little_endian
        (C.libbde_aes_ccm_crypt volume_master_key 256 envelope.nonce 12 envelope.data
          envelope.data_size envelope.data_size).2 16 = 0x1c
    · by_cases c44 : envelope.data_size < 28 + 16
      · simp [libbde_metadata_get_full_volume_encryption_key, hm, c28, cset, ccrypt, c22,
          cversion, c1c, c44] at h
      · simp [libbde_metadata_get_full_volume_encryption_key, hm, c28, cset, ccrypt, c22,
          cversion, c1c, c44] at h
        subst h
        exact Or.inr ⟨envelope, rfl, rfl, Or.inl ⟨c1c, by omega, rfl, rfl⟩⟩
    by_cases c2c : byte_stream_copy_to_uint16_little_endian
        (C.libbde_aes_ccm_crypt volume_master_key 256 envelope.nonce 12 envelope.data
          envelope.data_size envelope.data_size).2 16 = 0x2c
    · by_cases c60 : envelope.data_size < 28 + 32
      · simp [libbde_metadata_get_full_volume_encryption_key, hm, c28, cset, ccrypt, c22,
          cversion, c2c, c60] at h
      · simp [libbde_metadata_get_full_volume_encryption_key, hm, c28, cset, ccrypt, c22,
          cversion, c2c, c60] at h
        subst h
        exact Or.inr ⟨envelope, rfl, rfl, Or.inr (Or.inl ⟨c2c, by omega, rfl, rfl⟩)⟩
    by_cases c4c : byte_stream_copy_to_uint16_little_endian
        (C.libbde_aes_ccm_crypt volume_master_key 256 envelope.nonce 12 envelope.data
          envelope.data_size envelope.data_size).2 16 = 0x4c
    · by_cases c92 : envelope.data_size < 60 + 32
      · simp [libbde_metadata_get_full_volume_encryption_key, hm, c28, cset, ccrypt, c22,
          cversion, c4c, c92] at h
      · simp [libbde_metadata_get_full_volume_encryption_key, hm, c28, cset, ccrypt, c22,
          cversion, c4c, c92] at h
        subst h
        exact Or.inr ⟨envelope, rfl, rfl, Or.inr (Or.inr ⟨c4c, by omega, rfl, rfl⟩)⟩
    · simp [libbde_metadata_get_full_volume_encryption_key, hm, c28, cset, ccrypt, c22,
        cversion, c1c, c2c, c4c] at h
      subst h
      exact Or.inl ⟨by simp, rfl, rfl⟩

/-- C32. The frame of `libbde_metadata_get_full_volume_encryption_key`, for a call
that returns with `r` on 32-byte output buffers.  (1) When it returns 1 for the
inner data size 0x1c (the cipher having filled the scratch buffer), bytes
[0..16) of the FVEK output are bytes [28..44) of the unwrapped block and bytes
[16..32) are what the buffer held before the call.  (2) For the inner data
sizes 0x1c and 0x2c, and for every inner data size other than 0x4c, the tweak
key output is what it was before the call.  (3) When the function does not
return 1, both outputs are what they were.  (4) The metadata set is the same
after the call, and so it is after a call of
`libbde_metadata_get_volume_master_key` that returns. -/
theorem get_full_volume_encryption_key_frame (C : Collaborators)
    (metadata : libbde_metadata) (io_handle : libbde_io_handle)
    (volume_master_key full_volume_encryption_key tweak_key buffer stack : List Byte)
    (r : libbde_metadata_get_full_volume_encryption_key_result)
    (hbuffer : full_volume_encryption_key.length = 32)
    (h : libbde_metadata_get_full_volume_encryption_key C metadata volume_master_key
      full_volume_encryption_key tweak_key = some r) :
    (∀ envelope, metadata.full_volume_encryption_key = some envelope →
      (C.libbde_aes_ccm_crypt volume_master_key 256 envelope.nonce 12 envelope.data
        envelope.data_size envelope.data_size).2.length = envelope.data_size →
      r.result = 1 →
      byte_stream_copy_to_uint16_little_endian
        (C.libbde_aes_ccm_crypt volume_master_key 256 envelope.nonce 12 envelope.data
          envelope.data_size envelope.data_size).2 16 = 0x1c →
      r.full_volume_encryption_key.take 16
          = bytes_at (C.libbde_aes_ccm_crypt volume_master_key 256 envelope.nonce 12
              envelope.data envelope.data_size envelope.data_size).2 28 16
        ∧ r.full_volume_encryption_key.drop 16 = full_volume_encryption_key.drop 16
        ∧ r.full_volume_encryption_key.length = 32)
    ∧ (∀ envelope, metadata.full_volume_encryption_key = some envelope →
      (byte_stream_copy_to_uint16_little_endian
          (C.libbde_aes_ccm_crypt volume_master_key 256 envelope.nonce 12 envelope.data
            envelope.data_size envelope.data_size).2 16 = 0x1c
        ∨ byte_stream_copy_to_uint16_little_endian
          (C.libbde_aes_ccm_crypt volume_master_key 256 envelope.nonce 12 envelope.data
            envelope.data_size envelope.data_size).2 16 = 0x2c) →
      r.tweak_key = tweak_key)
    ∧ (∀ envelope, metadata.full_volume_encryption_key = some envelope →
      byte_stream_copy_to_uint16_little_endian
        (C.libbde_aes_ccm_crypt volume_master_key 256 envelope.nonce 12 envelope.data
          envelope.data_size envelope.data_size).2 16 ≠ 0x4c →
      r.tweak_key = tweak_key)
    ∧ (r.result ≠ 1 →
      r.full_volume_encryption_key = full_volume_encryption_key ∧ r.tweak_key = tweak_key)
    ∧ libbde_metadata_get_full_volume_encryption_key_metadata C metadata volume_master_key
        full_volume_encryption_key tweak_key = some metadata
    ∧ (∀ m : libbde_metadata,
      libbde_metadata_get_volume_master_key_metadata C metadata io_handle buffer stack
        = some m → m = metadata) := by
  have houtputs := libbde_metadata_get_full_volume_encryption_key_outputs C metadata
    volume_master_key full_volume_encryption_key tweak_key r h
  have htweak : ∀ envelope, metadata.full_volume_encryption_key = some envelope →
      byte_stream_copy_to_uint16_little_endian
        (C.libbde_aes_ccm_crypt volume_master_key 256 envelope.nonce 12 envelope.data
          envelope.data_size envelope.data_size).2 16 ≠ 0x4c →
      r.tweak_key = tweak_key := by
    intro envelope henvelope hsize
    rcases houtputs with ⟨-, -, ht⟩ | ⟨e, he, -, hcase⟩
    · exact ht
    · rw [henvelope] at he
      simp only [Option.some.injEq] at he
      subst he
      rcases hcase with ⟨-, -, -, ht⟩ | ⟨-, -, -, ht⟩ | ⟨h4c, -⟩
      · exact ht
      · exact ht
      · exact absurd h4c hsize
  refine ⟨?_, ?_, htweak, ?_, ?_, ?_⟩
  · intro envelope henvelope hlength h1 h1c
    rcases houtputs with ⟨hne, -⟩ | ⟨e, he, -, hcase⟩
    · exact absurd h1 hne
    · rw [henvelope] at he
      simp only [Option.some.injEq] at he
      subst he
      rcases hcase with ⟨-, h44, hcopy, -⟩ | ⟨h2c, -⟩ | ⟨h4c, -⟩
      · have hs : (bytes_at (C.libbde_aes_ccm_crypt volume_master_key 256 envelope.nonce 12
            envelope.data envelope.data_size envelope.data_size).2 28 16).length = 16 := by
          simp only [bytes_at, List.length_take, List.length_drop]
          omega
        rw [hcopy]
        simp only [memory_copy, List.take_of_length_le (Nat.le_of_eq hs)]
        refine ⟨List.take_left' hs, List.drop_left' hs, ?_⟩
        simp only [List.length_append, hs, List.length_drop, hbuffer]
      · rw [h1c] at h2c
        exact absurd h2c (by decide)
      · rw [h1c] at h4c
        exact absurd h4c (by decide)
  · intro envelope henvelope hsize
    refine htweak envelope henvelope ?_
    rcases hsize with hs | hs <;> rw [hs] <;> decide
  · intro hne
    rcases houtputs with ⟨-, hf, ht⟩ | ⟨e, -, h1, -⟩
    · exact ⟨hf, ht⟩
    · exact absurd h1 hne
  · simp only [libbde_metadata_get_full_volume_encryption_key_metadata, h, Option.map_some']
  · intro m hm
    simp only [libbde_metadata_get_volume_master_key_metadata, Option.map_eq_some'] at hm
    obtain ⟨-, -, hm⟩ := hm
    exact hm.symm

/-- C32 on samples: for a key block with the inner data size 0x1c the first 16
bytes of the FVEK output are the key bytes and the last 16 keep the value 0xcc
they had, the tweak key output keeps its 32 bytes 0xdd; for 0x2c the tweak key
output is kept as well, while for 0x4c it is overwritten. -/
theorem get_full_volume_encryption_key_frame_witness :
    (libbde_metadata_get_full_volume_encryption_key sample_collaborators
        sample_metadata_aes_128 sample_key_32 (List.replicate 32 0xcc)
        (List.replicate 32 0xdd)).map
          (fun r => (r.result, r.full_volume_encryption_key, r.tweak_key))
      = some (1, sample_key_16 ++ List.replicate 16 0xcc, List.replicate 32 0xdd)
    ∧ ((sample_key_16 ++ List.replicate 16 0xcc).take 16
        = bytes_at (sample_key_block 0x1c 1 sample_key_16) 28 16
      ∧ (sample_key_16 ++ List.replicate 16 0xcc).drop 16
        = (List.replicate 32 (0xcc : Byte)).drop 16
      ∧ (sample_key_16 ++ List.replicate 16 (0xcc : Byte)).length = 32)
    ∧ (libbde_metadata_get_full_volume_encryption_key sample_collaborators
        sample_metadata_read_stream sample_key_32 (List.replicate 32 0xcc)
        (List.replicate 32 0xdd)).map
          (fun r => (r.result, r.full_volume_encryption_key, r.tweak_key))
      = some (1, sample_key_32, List.replicate 32 0xdd)
    ∧ (libbde_metadata_get_full_volume_encryption_key sample_collaborators
        sample_metadata_xts sample_key_32 (List.replicate 32 0xcc)
        (List.replicate 32 0xdd)).map
          (fun r => (r.result, r.full_volume_encryption_key, r.tweak_key))
      = some (1, sample_key_32, sample_tweak_32)
    ∧ libbde_metadata_get_full_volume_encryption_key_metadata sample_collaborators
        sample_metadata_aes_128 sample_key_32 (List.replicate 32 0xcc)
        (List.replicate 32 0xdd) = some sample_metadata_aes_128 :=
  ⟨by decide,
    (get_full_volume_encryption_key_frame sample_collaborators sample_metadata_aes_128
      (sample_io_handle 1 0) sample_key_32 (List.replicate 32 0xcc) (List.replicate 32 0xdd)
      (List.replicate 32 0) (List.replicate 32 0)
      ⟨1, sample_key_16 ++ List.replicate 16 0xcc, List.replicate 32 0xdd,
        [scratch_event.allocate 44, scratch_event.clear 44,
          scratch_event.decrypt (sample_key_block 0x1c 1 sample_key_16),
          scratch_event.clear 44, scratch_event.free]⟩
      (by decide) (by decide)).1
      (sample_envelope (sample_key_block 0x1c 1 sample_key_16) 44) rfl (by decide) rfl
      (by decide),
    by decide, by decide,
    (get_full_volume_encryption_key_frame sample_collaborators sample_metadata_aes_128
      (sample_io_handle 1 0) sample_key_32 (List.replicate 32 0xcc) (List.replicate 32 0xdd)
      (List.replicate 32 0) (List.replicate 32 0)
      ⟨1, sample_key_16 ++ List.replicate 16 0xcc, List.replicate 32 0xdd,
        [scratch_event.allocate 44, scratch_event.clear 44,
          scratch_event.decrypt (sample_key_block 0x1c 1 sample_key_16),
          scratch_event.clear 44, scratch_event.free]⟩
      (by decide) (by decide)).2.2.2.2.1⟩

/-- One iteration of the entry loop that decodes an entry which the switch
accepts: the entry is appended to the entries array of the metadata set the
switch leaves, and the loop goes on behind the entry. -/
theorem libbde_metadata_read_entries_step (C : Collaborators) (fuel : Nat)
    (fve_metadata : List Byte) (metadata_size : Nat) (m m1 : libbde_metadata)
    (e : libbde_metadata_entry) (n : Nat)
    (hsize : metadata_size > sizeof_bde_metadata_header_v1_t)
    (hread : C.libbde_metadata_entry_read fve_metadata metadata_size = some (e, n))
    (hswitch : libbde_metadata_read_entry_switch C m e = some m1) :
    libbde_metadata_read_entries C (fuel + 1) fve_metadata metadata_size m
      = libbde_metadata_read_entries C fuel (fve_metadata.drop n)
          ((metadata_size + 2 ^ 32 - n % 2 ^ 32) % 2 ^ 32)
          { m1 with entries_array := m1.entries_array ++ [e] } := by
  simp only [libbde_metadata_read_entries, if_pos hsize, hread, hswitch]

/-- A read whose entry loop runs once.  The block passes the checks of lines
297-853, more than 48 bytes of payload follow the metadata header, the entry
reader decodes an entry from them behind which at most 48 bytes are left, and
the switch accepts the entry: `libbde_metadata_read` returns 1 with the metadata
set that the switch leaves, the entry appended, and the back-filled handle. -/
theorem libbde_metadata_read_single (C : Collaborators) (fuel : Nat)
    (metadata : libbde_metadata) (io_handle : libbde_io_handle)
    (file_io_handle : libbfio_handle) (file_offset : Int)
    (e : libbde_metadata_entry) (n : Nat) (m1 : libbde_metadata)
    (hreach : libbde_metadata_read_reaches_back_fill file_io_handle file_offset)
    (hchecks : libbde_metadata_read_checks
      (libbde_metadata_read_back_fill C io_handle
        (byte_stream_copy_to_uint64_little_endian (file_io_handle.read file_offset 4096).2 40)
        (byte_stream_copy_to_uint64_little_endian (file_io_handle.read file_offset 4096).2 48))
      (file_io_handle.read file_offset 4096).2)
    (hread : C.libbde_metadata_entry_read
      (((file_io_handle.read file_offset 4096).2.drop 64).drop 48)
      (byte_stream_copy_to_uint32_little_endian
        ((file_io_handle.read file_offset 4096).2.drop 64) 0 - 48) = some (e, n))
    (hsize : 48 < byte_stream_copy_to_uint32_little_endian
      ((file_io_handle.read file_offset 4096).2.drop 64) 0 - 48)
    (hcount : n ≤ byte_stream_copy_to_uint32_little_endian
      ((file_io_handle.read file_offset 4096).2.drop 64) 0 - 48)
    (hlast : byte_stream_copy_to_uint32_little_endian
      ((file_io_handle.read file_offset 4096).2.drop 64) 0 - 48 ≤ n + 48)
    (hswitch : libbde_metadata_read_entry_switch C
      (libbde_metadata_read_headers metadata (file_io_handle.read file_offset 4096).2) e
      = some m1) :
    libbde_metadata_read C (fuel + 1) metadata io_handle file_io_handle file_offset
      = some ⟨1, { m1 with entries_array := m1.entries_array ++ [e] },
          libbde_metadata_read_back_fill C io_handle
            (byte_stream_copy_to_uint64_little_endian
              (file_io_handle.read file_offset 4096).2 40)
            (byte_stream_copy_to_uint64_little_endian
              (file_io_handle.read file_offset 4096).2 48)⟩ := by
  simp only [libbde_metadata_read_reaches_back_fill, block_header, metadata_header,
    sizeof_bde_metadata_block_header_v1_t] at hreach
  obtain ⟨hseek, hcount4096, hsignature, hversion, hheader⟩ := hreach
  have hlt := byte_stream_copy_to_uint32_little_endian_lt
    ((file_io_handle.read file_offset 4096).2.drop 64) 0
  have hleft : (byte_stream_copy_to_uint32_little_endian
      ((file_io_handle.read file_offset 4096).2.drop 64) 0 - 48 + 2 ^ 32 - n % 2 ^ 32) % 2 ^ 32
      ≤ sizeof_bde_metadata_header_v1_t := by
    simp only [sizeof_bde_metadata_header_v1_t, Nat.reducePow] at hlt ⊢
    omega
  have hstep := libbde_metadata_read_entries_step C fuel
    (((file_io_handle.read file_offset 4096).2.drop 64).drop 48)
    (byte_stream_copy_to_uint32_little_endian
      ((file_io_handle.read file_offset 4096).2.drop 64) 0 - 48)
    (libbde_metadata_read_headers metadata (file_io_handle.read file_offset 4096).2) m1 e n
    (by simp only [sizeof_bde_metadata_header_v1_t]; exact hsize) hread hswitch
  rw [libbde_metadata_read_stages,
    if_neg (by simp only [not_or, not_not]; exact ⟨hseek, hcount4096, hsignature⟩),
    if_neg (not_not.mpr hversion), if_neg (not_not.mpr hheader),
    if_neg (not_not.mpr hchecks), hstep,
    (libbde_metadata_read_entries_none C fuel _ _ _ hleft).1]

/-- C18. Entry type 0x000b is recognized but reserved in `libbde_metadata_read`.
(1) The case of a 0x000b entry parses its value as an AES-CCM encrypted key:
when that fails the iteration leaves through `on_error`, when it succeeds the
metadata set is left as it was.  (2) A 0x000b entry of the decoded stream whose
envelope fails to parse makes the read return -1.  (3) After a read that
returned 1 on a freshly initialized metadata set `full_volume_encryption_key`
is what the first FULL_VOLUME_ENCRYPTION_KEY entry (type 0x0003) of the decoded
stream yields: it is absent when the stream has no such entry, and otherwise
it is the envelope parsed from the first such entry, whatever 0x000b entries
come before or after it.  (4) An iteration of the entry loop that decodes an
entry whose envelope parses appends the entry and goes on behind it, with
`full_volume_encryption_key` untouched for a 0x000b entry and set to the
envelope for a 0x0003 entry when it was `NULL`.  (5) A block that passes the
checks and whose payload is one such entry, with at most 48 bytes behind it,
is read with 1 into a metadata set without FVEK envelope: after a 0x0003 entry
`full_volume_encryption_key` is the envelope of the entry, after a 0x000b entry
it is still `NULL`, and the entry is appended in both cases. -/
theorem read_reserves_entry_type_000b (C : Collaborators) (fuel : Nat)
    (metadata : libbde_metadata) (io_handle : libbde_io_handle)
    (file_io_handle : libbfio_handle) (file_offset : Int) :
    (∀ (m : libbde_metadata) (e : libbde_metadata_entry), e.type = 0x000b →
      (C.libbde_aes_ccm_encrypted_key_read e = none →
        libbde_metadata_read_entry_switch C m e = none)
      ∧ (∀ envelope, C.libbde_aes_ccm_encrypted_key_read e = some envelope →
        libbde_metadata_read_entry_switch C m e = some m))
    ∧ (∀ e ∈ libbde_metadata_read_decoded C fuel file_io_handle file_offset,
      e.type = 0x000b → C.libbde_aes_ccm_encrypted_key_read e = none →
      ∃ r, libbde_metadata_read C fuel metadata io_handle file_io_handle file_offset = some r
        ∧ r.result = -1)
    ∧ (∀ r : libbde_metadata_read_result,
      libbde_metadata_initialize true true true (some none) = (1, some (some metadata)) →
      libbde_metadata_read C fuel metadata io_handle file_io_handle file_offset = some r →
      r.result = 1 →
      r.metadata.full_volume_encryption_key
          = (libbde_metadata_read_decoded C fuel file_io_handle file_offset).findSome?
            (fun e =>
              if e.type = LIBBDE_ENTRY_TYPE_FULL_VOLUME_ENCRYPTION_KEY then
                C.libbde_aes_ccm_encrypted_key_read e
              else none)
      ∧ ((∀ e ∈ libbde_metadata_read_decoded C fuel file_io_handle file_offset,
          e.type ≠ LIBBDE_ENTRY_TYPE_FULL_VOLUME_ENCRYPTION_KEY) →
        r.metadata.full_volume_encryption_key = none)
      ∧ (∀ before e after,
        libbde_metadata_read_decoded C fuel file_io_handle file_offset
          = before ++ e :: after →
        (∀ e' ∈ before, e'.type ≠ LIBBDE_ENTRY_TYPE_FULL_VOLUME_ENCRYPTION_KEY) →
        e.type = LIBBDE_ENTRY_TYPE_FULL_VOLUME_ENCRYPTION_KEY →
        ∃ envelope, C.libbde_aes_ccm_encrypted_key_read e = some envelope
          ∧ r.metadata.full_volume_encryption_key = some envelope))
    ∧ (∀ (steps : Nat) (fve_metadata : List Byte) (metadata_size n : Nat)
        (m : libbde_metadata) (e : libbde_metadata_entry)
        (envelope : libbde_aes_ccm_encrypted_key),
      metadata_size > sizeof_bde_metadata_header_v1_t →
      C.libbde_metadata_entry_read fve_metadata metadata_size = some (e, n) →
      C.libbde_aes_ccm_encrypted_key_read e = some envelope →
      (e.type = 0x000b →
        libbde_metadata_read_entries C (steps + 1) fve_metadata metadata_size m
          = libbde_metadata_read_entries C steps (fve_metadata.drop n)
              ((metadata_size + 2 ^ 32 - n % 2 ^ 32) % 2 ^ 32)
              { m with entries_array := m.entries_array ++ [e] })
      ∧ (e.type = LIBBDE_ENTRY_TYPE_FULL_VOLUME_ENCRYPTION_KEY →
        m.full_volume_encryption_key = none →
        libbde_metadata_read_entries C (steps + 1) fve_metadata metadata_size m
          = libbde_metadata_read_entries C steps (fve_metadata.drop n)
              ((metadata_size + 2 ^ 32 - n % 2 ^ 32) % 2 ^ 32)
              { m with
                full_volume_encryption_key := some envelope
                entries_array := m.entries_array ++ [e] }))
    ∧ (∀ (e : libbde_metadata_entry) (n : Nat) (envelope : libbde_aes_ccm_encrypted_key),
      libbde_metadata_read_reaches_back_fill file_io_handle file_offset →
      libbde_metadata_read_checks
        (libbde_metadata_read_back_fill C io_handle
          (byte_stream_copy_to_uint64_little_endian (file_io_handle.read file_offset 4096).2 40)
          (byte_stream_copy_to_uint64_little_endian (file_io_handle.read file_offset 4096).2 48))
        (file_io_handle.read file_offset 4096).2 →
      C.libbde_metadata_entry_read
        (((file_io_handle.read file_offset 4096).2.drop 64).drop 48)
        (byte_stream_copy_to_uint32_little_endian
          ((file_io_handle.read file_offset 4096).2.drop 64) 0 - 48) = some (e, n) →
      48 < byte_stream_copy_to_uint32_little_endian
        ((file_io_handle.read file_offset 4096).2.drop 64) 0 - 48 →
      n ≤ byte_stream_copy_to_uint32_little_endian
        ((file_io_handle.read file_offset 4096).2.drop 64) 0 - 48 →
      byte_stream_copy_to_uint32_little_endian
        ((file_io_handle.read file_offset 4096).2.drop 64) 0 - 48 ≤ n + 48 →
      C.libbde_aes_ccm_encrypted_key_read e = some envelope →
      metadata.full_volume_encryption_key = none →
      (e.type = LIBBDE_ENTRY_TYPE_FULL_VOLUME_ENCRYPTION_KEY →
        ∃ r, libbde_metadata_read C (fuel + 1) metadata io_handle file_io_handle file_offset
            = some r
          ∧ r.result = 1 ∧ r.metadata.full_volume_encryption_key = some envelope
          ∧ r.metadata.entries_array = metadata.entries_array ++ [e])
      ∧ (e.type = 0x000b →
        ∃ r, libbde_metadata_read C (fuel + 1) metadata io_handle file_io_handle file_offset
            = some r
          ∧ r.result = 1 ∧ r.metadata.full_volume_encryption_key = none
          ∧ r.metadata.entries_array = metadata.entries_array ++ [e])) := by
  have hswitch : ∀ (m : libbde_metadata) (e : libbde_metadata_entry),
      (e.type = 0x000b ∨ e.type = LIBBDE_ENTRY_TYPE_FULL_VOLUME_ENCRYPTION_KEY) →
      C.libbde_aes_ccm_encrypted_key_read e = none →
      libbde_metadata_read_entry_switch C m e = none := by
    intro m e ht hnone
    rcases ht with ht | ht <;>
      simp [libbde_metadata_read_entry_switch, ht, hnone, LIBBDE_ENTRY_TYPE_VOLUME_MASTER_KEY,
        LIBBDE_ENTRY_TYPE_FULL_VOLUME_ENCRYPTION_KEY]
  have hreserved : ∀ (m : libbde_metadata) (e : libbde_metadata_entry)
      (envelope : libbde_aes_ccm_encrypted_key), e.type = 0x000b →
      C.libbde_aes_ccm_encrypted_key_read e = some envelope →
      libbde_metadata_read_entry_switch C m e = some m := by
    intro m e envelope ht henvelope
    simp [libbde_metadata_read_entry_switch, ht, henvelope, LIBBDE_ENTRY_TYPE_VOLUME_MASTER_KEY,
      LIBBDE_ENTRY_TYPE_FULL_VOLUME_ENCRYPTION_KEY]
  have hstored : ∀ (m : libbde_metadata) (e : libbde_metadata_entry)
      (envelope : libbde_aes_ccm_encrypted_key),
      e.type = LIBBDE_ENTRY_TYPE_FULL_VOLUME_ENCRYPTION_KEY →
      C.libbde_aes_ccm_encrypted_key_read e = some envelope →
      m.full_volume_encryption_key = none →
      libbde_metadata_read_entry_switch C m e
        = some { m with full_volume_encryption_key := some envelope } := by
    intro m e envelope ht henvelope hnone
    simp [libbde_metadata_read_entry_switch, ht, henvelope, hnone,
      LIBBDE_ENTRY_TYPE_VOLUME_MASTER_KEY, LIBBDE_ENTRY_TYPE_FULL_VOLUME_ENCRYPTION_KEY]
  refine ⟨?_, ?_, ?_, ?_, ?_⟩
  · intro m e ht
    refine ⟨hswitch m e (Or.inl ht), ?_⟩
    intro envelope henvelope
    simp [libbde_metadata_read_entry_switch, ht, henvelope, LIBBDE_ENTRY_TYPE_VOLUME_MASTER_KEY,
      LIBBDE_ENTRY_TYPE_FULL_VOLUME_ENCRYPTION_KEY]
  · intro e he ht hnone
    exact libbde_metadata_read_refused C fuel metadata io_handle file_io_handle file_offset e he
      (fun m _ => hswitch m e (Or.inl ht) hnone)
  · intro r hfresh h h1
    have hm : metadata = libbde_metadata_cleared := by
      simp [ libbde_metadata_initialize] at hfresh
      exact hfresh.symm
    subst hm
    obtain ⟨-, -, -, -, -, hloop⟩ := libbde_metadata_read_returns_one h h1
    obtain ⟨k1, -, k3, k4, -⟩ := libbde_metadata_read_headers_frame libbde_metadata_cleared
      (file_io_handle.read file_offset 4096).2
    obtain ⟨-, hfirst⟩ := libbde_metadata_read_entries_first C _ _ _ _ _ _ hloop
      (by rw [k1]; rfl) (by rw [k3]; rfl) (by rw [k4]; rfl)
    have harray := libbde_metadata_read_appended h h1
    simp only [libbde_metadata_cleared, List.nil_append] at harray
    rw [harray] at hfirst
    have hnone : ∀ l : List libbde_metadata_entry,
        (∀ e ∈ l, e.type ≠ LIBBDE_ENTRY_TYPE_FULL_VOLUME_ENCRYPTION_KEY) →
        l.findSome? (fun e =>
          if e.type = LIBBDE_ENTRY_TYPE_FULL_VOLUME_ENCRYPTION_KEY then
            C.libbde_aes_ccm_encrypted_key_read e
          else none) = none := by
      intro l hl
      rw [List.findSome?_eq_none_iff]
      intro e he
      rw [if_neg (hl e he)]
    refine ⟨hfirst, fun hall => by rw [hfirst]; exact hnone _ hall, ?_⟩
    intro before e after hsplit hbefore ht
    cases henvelope : C.libbde_aes_ccm_encrypted_key_read e with
    | none =>
      obtain ⟨r', hr', hresult⟩ := libbde_metadata_read_refused C fuel libbde_metadata_cleared
        io_handle file_io_handle file_offset e (by rw [hsplit]; simp)
        (fun m _ => hswitch m e (Or.inr ht) henvelope)
      rw [h] at hr'
      simp only [Option.some.injEq] at hr'
      rw [← hr', h1] at hresult
      exact absurd hresult (by decide)
    | some envelope =>
      refine ⟨envelope, rfl, ?_⟩
      rw [hfirst, hsplit, List.findSome?_append, List.findSome?_cons, hnone before hbefore,
        if_pos ht, henvelope]
      rfl
  · intro steps fve_metadata metadata_size n m e envelope hsize hread henvelope
    constructor
    · intro ht
      exact libbde_metadata_read_entries_step C steps fve_metadata metadata_size m m e n hsize
        hread (hreserved m e envelope ht henvelope)
    · intro ht hnone
      exact libbde_metadata_read_entries_step C steps fve_metadata metadata_size m _ e n hsize
        hread (hstored m e envelope ht henvelope hnone)
  · intro e n envelope hreach hchecks hread hsize hcount hlast henvelope hnone
    obtain ⟨-, -, k3, k4, -⟩ := libbde_metadata_read_headers_frame metadata
      (file_io_handle.read file_offset 4096).2
    constructor
    · intro ht
      refine ⟨_, libbde_metadata_read_single C fuel metadata io_handle file_io_handle
        file_offset e n _ hreach hchecks hread hsize hcount hlast
        (hstored _ e envelope ht henvelope (k3.trans hnone)), rfl, rfl, ?_⟩
      simp only [k4]
    · intro ht
      refine ⟨_, libbde_metadata_read_single C fuel metadata io_handle file_io_handle
        file_offset e n _ hreach hchecks hread hsize hcount hlast
        (hreserved _ e envelope ht henvelope), rfl, ?_, ?_⟩
      · exact k3.trans hnone
      · simp only [k4]

/-- C18 on samples: a block whose first entry is a 0x000b entry with 4 bytes of
value data is read with -1; the block of `sample_fields_stream`, whose stream
starts with a well-formed 0x000b entry, is read with 1 and the FVEK envelope
after the read is the one of the fourth entry, the first of type 0x0003; a
block whose payload is one 0x0003 entry is read with 1 and the FVEK envelope is
that of the entry; and the same block with the entry type 0x000b is read with 1
and no FVEK envelope. -/
theorem read_reserves_entry_type_000b_witness :
    (∃ r, libbde_metadata_read sample_collaborators 2 libbde_metadata_cleared
          (sample_io_handle 0 1) (sample_file (sample_block sample_fields_reserved)) 0x2100000
        = some r ∧ r.result = -1)
    ∧ libbde_metadata_read sample_collaborators 7 libbde_metadata_cleared
        (sample_io_handle 0 1) (sample_file (sample_block sample_fields_stream)) 0x2100000
      = some ⟨1, sample_metadata_read_stream, sample_io_handle 0 1⟩
    ∧ (∃ envelope,
        sample_collaborators.libbde_aes_ccm_encrypted_key_read
            { type := 0x0003, value_type := 0x0005,
              value_data := List.replicate 12 1 ++ sample_key_block 0x2c 1 sample_key_32,
              value_data_size := 72 } = some envelope
        ∧ sample_metadata_read_stream.full_volume_encryption_key = some envelope)
    ∧ (∃ r, libbde_metadata_read sample_collaborators (0 + 1) libbde_metadata_cleared
          (sample_io_handle 0 1)
          (sample_file (sample_block (sample_fields_single
            (sample_entry 0x0003 0x0005
              (List.replicate 12 1 ++ sample_key_block 0x2c 1 sample_key_32)))))
          0x2100000 = some r
        ∧ r.result = 1
        ∧ r.metadata.full_volume_encryption_key
          = some (sample_envelope (sample_key_block 0x2c 1 sample_key_32) 60)
        ∧ r.metadata.entries_array
          = libbde_metadata_cleared.entries_array
            ++ [{ type := 0x0003, value_type := 0x0005,
                  value_data := List.replicate 12 1 ++ sample_key_block 0x2c 1 sample_key_32,
                  value_data_size := 72 }])
    ∧ (∃ r, libbde_metadata_read sample_collaborators (0 + 1) libbde_metadata_cleared
          (sample_io_handle 0 1)
          (sample_file (sample_block (sample_fields_single
            (sample_entry 0x000b 0x0005
              (List.replicate 12 1 ++ sample_key_block 0x2c 1 sample_key_32)))))
          0x2100000 = some r
        ∧ r.result = 1
        ∧ r.metadata.full_volume_encryption_key = none
        ∧ r.metadata.entries_array
          = libbde_metadata_cleared.entries_array
            ++ [{ type := 0x000b, value_type := 0x0005,
                  value_data := List.replicate 12 1 ++ sample_key_block 0x2c 1 sample_key_32,
                  value_data_size := 72 }]) :=
  ⟨(read_reserves_entry_type_000b sample_collaborators 2 libbde_metadata_cleared
      (sample_io_handle 0 1) (sample_file (sample_block sample_fields_reserved)) 0x2100000).2.1
      { type := 0x000b, value_type := 0x0005, value_data := List.replicate 4 0xdd,
        value_data_size := 4 }
      (by decide) rfl rfl,
    sample_stream_read,
    ((read_reserves_entry_type_000b sample_collaborators 7 libbde_metadata_cleared
      (sample_io_handle 0 1) (sample_file (sample_block sample_fields_stream)) 0x2100000).2.2.1
      ⟨1, sample_metadata_read_stream, sample_io_handle 0 1⟩ (by decide) sample_stream_read
      rfl).2.2
      (sample_stream_entries.take 3)
      { type := 0x0003, value_type := 0x0005,
        value_data := List.replicate 12 1 ++ sample_key_block 0x2c 1 sample_key_32,
        value_data_size := 72 }
      (sample_stream_entries.drop 4)
      (sample_stream_decoded.trans (by decide)) (by decide) rfl,
    ((read_reserves_entry_type_000b sample_collaborators 0 libbde_metadata_cleared
      (sample_io_handle 0 1)
      (sample_file (sample_block (sample_fields_single
        (sample_entry 0x0003 0x0005
          (List.replicate 12 1 ++ sample_key_block 0x2c 1 sample_key_32)))))
      0x2100000).2.2.2.2
      { type := 0x0003, value_type := 0x0005,
        value_data := List.replicate 12 1 ++ sample_key_block 0x2c 1 sample_key_32,
        value_data_size := 72 }
      80 (sample_envelope (sample_key_block 0x2c 1 sample_key_32) 60)
      (by decide) (by decide) (by decide) (by decide) (by decide) (by decide) (by decide)
      rfl).1 rfl,
    ((read_reserves_entry_type_000b sample_collaborators 0 libbde_metadata_cleared
      (sample_io_handle 0 1)
      (sample_file (sample_block (sample_fields_single
        (sample_entry 0x000b 0x0005
          (List.replicate 12 1 ++ sample_key_block 0x2c 1 sample_key_32)))))
      0x2100000).2.2.2.2
      { type := 0x000b, value_type := 0x0005,
        value_data := List.replicate 12 1 ++ sample_key_block 0x2c 1 sample_key_32,
        value_data_size := 72 }
      80 (sample_envelope (sample_key_block 0x2c 1 sample_key_32) 60)
      (by decide) (by decide) (by decide) (by decide) (by decide) (by decide) (by decide)
      rfl).2 rfl⟩

/-- C20. The VOLUME_HEADER_BLOCK entry (type 0x000f) in a version 2 block.  (1)
The case of such an entry with value type OFFSET_AND_SIZE leaves through
`on_error` when the value data is shorter than 16 bytes or its 64-bit value at
byte 0 differs from the `volume_header_offset` of the metadata set, and
otherwise sets `volume_header_size` to the 64-bit value at byte 8 and nothing
else; (2) with any other value type it changes nothing.  (3) A decoded entry
of that type and value type whose value data is shorter than 16 bytes or whose
offset differs from the `volume_header_offset` field of the block header makes
`libbde_metadata_read` return -1.  (4) After a read that returned 1,
`volume_header_size` is the 64-bit value at bytes [8..16) of the value data of
the last such entry of the decoded stream, and the offset at bytes [0..8) of
every such entry is the block header's `volume_header_offset`.  (5) An iteration
of the entry loop that decodes such an entry with at least 16 bytes of value
data and the offset of the metadata set stores the size, appends the entry and
goes on behind it.  (6) A block that passes the checks and whose payload is one
such entry with the offset of the block header, with at most 48 bytes behind
it, is read with 1: `volume_header_size` is then the 64-bit value at bytes
[8..16) of the value data, `volume_header_offset` the field of the block header,
and the entry is appended. -/
theorem read_volume_header_block (C : Collaborators) (fuel : Nat)
    (metadata : libbde_metadata) (io_handle : libbde_io_handle)
    (file_io_handle : libbfio_handle) (file_offset : Int)
    (hversion : byte_stream_copy_to_uint16_little_endian
      (file_io_handle.read file_offset 4096).2 block_header.version = 2) :
    (∀ (m : libbde_metadata) (e : libbde_metadata_entry),
      e.type = LIBBDE_ENTRY_TYPE_VOLUME_HEADER_BLOCK →
      e.value_type = C.LIBBDE_VALUE_TYPE_OFFSET_AND_SIZE →
      libbde_metadata_read_entry_switch C m e
        = if e.value_data_size < 16
            ∨ byte_stream_copy_to_uint64_little_endian e.value_data 0
              ≠ m.volume_header_offset then
          none
        else
          some { m with
            volume_header_size := byte_stream_copy_to_uint64_little_endian e.value_data 8 })
    ∧ (∀ (m : libbde_metadata) (e : libbde_metadata_entry),
      e.type = LIBBDE_ENTRY_TYPE_VOLUME_HEADER_BLOCK →
      e.value_type ≠ C.LIBBDE_VALUE_TYPE_OFFSET_AND_SIZE →
      libbde_metadata_read_entry_switch C m e = some m)
    ∧ (∀ e ∈ libbde_metadata_read_decoded C fuel file_io_handle file_offset,
      e.type = LIBBDE_ENTRY_TYPE_VOLUME_HEADER_BLOCK →
      e.value_type = C.LIBBDE_VALUE_TYPE_OFFSET_AND_SIZE →
      (e.value_data_size < 16
        ∨ byte_stream_copy_to_uint64_little_endian e.value_data 0
          ≠ byte_stream_copy_to_uint64_little_endian (file_io_handle.read file_offset 4096).2
              block_header.volume_header_offset) →
      ∃ r, libbde_metadata_read C fuel metadata io_handle file_io_handle file_offset = some r
        ∧ r.result = -1)
    ∧ (∀ r : libbde_metadata_read_result,
      libbde_metadata_read C fuel metadata io_handle file_io_handle file_offset = some r →
      r.result = 1 →
      ∀ before e after,
        libbde_metadata_read_decoded C fuel file_io_handle file_offset
          = before ++ e :: after →
        e.type = LIBBDE_ENTRY_TYPE_VOLUME_HEADER_BLOCK →
        e.value_type = C.LIBBDE_VALUE_TYPE_OFFSET_AND_SIZE →
        (16 ≤ e.value_data_size
          ∧ byte_stream_copy_to_uint64_little_endian e.value_data 0
            = byte_stream_copy_to_uint64_little_endian (file_io_handle.read file_offset 4096).2
                block_header.volume_header_offset)
        ∧ ((∀ e' ∈ after, ¬ (e'.type = LIBBDE_ENTRY_TYPE_VOLUME_HEADER_BLOCK
            ∧ e'.value_type = C.LIBBDE_VALUE_TYPE_OFFSET_AND_SIZE)) →
          r.metadata.volume_header_size
            = byte_stream_copy_to_uint64_little_endian e.value_data 8))
    ∧ (∀ (steps : Nat) (fve_metadata : List Byte) (metadata_size n : Nat)
        (m : libbde_metadata) (e : libbde_metadata_entry),
      metadata_size > sizeof_bde_metadata_header_v1_t →
      C.libbde_metadata_entry_read fve_metadata metadata_size = some (e, n) →
      e.type = LIBBDE_ENTRY_TYPE_VOLUME_HEADER_BLOCK →
      e.value_type = C.LIBBDE_VALUE_TYPE_OFFSET_AND_SIZE →
      16 ≤ e.value_data_size →
      byte_stream_copy_to_uint64_little_endian e.value_data 0 = m.volume_header_offset →
      libbde_metadata_read_entries C (steps + 1) fve_metadata metadata_size m
        = libbde_metadata_read_entries C steps (fve_metadata.drop n)
            ((metadata_size + 2 ^ 32 - n % 2 ^ 32) % 2 ^ 32)
            { m with
              volume_header_size := byte_stream_copy_to_uint64_little_endian e.value_data 8
              entries_array := m.entries_array ++ [e] })
    ∧ (∀ (e : libbde_metadata_entry) (n : Nat),
      libbde_metadata_read_reaches_back_fill file_io_handle file_offset →
      libbde_metadata_read_checks
        (libbde_metadata_read_back_fill C io_handle
          (byte_stream_copy_to_uint64_little_endian (file_io_handle.read file_offset 4096).2 40)
          (byte_stream_copy_to_uint64_little_endian (file_io_handle.read file_offset 4096).2 48))
        (file_io_handle.read file_offset 4096).2 →
      C.libbde_metadata_entry_read
        (((file_io_handle.read file_offset 4096).2.drop 64).drop 48)
        (byte_stream_copy_to_uint32_little_endian
          ((file_io_handle.read file_offset 4096).2.drop 64) 0 - 48) = some (e, n) →
      48 < byte_stream_copy_to_uint32_little_endian
        ((file_io_handle.read file_offset 4096).2.drop 64) 0 - 48 →
      n ≤ byte_stream_copy_to_uint32_little_endian
        ((file_io_handle.read file_offset 4096).2.drop 64) 0 - 48 →
      byte_stream_copy_to_uint32_little_endian
        ((file_io_handle.read file_offset 4096).2.drop 64) 0 - 48 ≤ n + 48 →
      e.type = LIBBDE_ENTRY_TYPE_VOLUME_HEADER_BLOCK →
      e.value_type = C.LIBBDE_VALUE_TYPE_OFFSET_AND_SIZE →
      16 ≤ e.value_data_size →
      byte_stream_copy_to_uint64_little_endian e.value_data 0
        = byte_stream_copy_to_uint64_little_endian (file_io_handle.read file_offset 4096).2
            block_header.volume_header_offset →
      ∃ r, libbde_metadata_read C (fuel + 1) metadata io_handle file_io_handle file_offset
          = some r
        ∧ r.result = 1
        ∧ r.metadata.volume_header_size
          = byte_stream_copy_to_uint64_little_endian e.value_data 8
        ∧ r.metadata.volume_header_offset
          = byte_stream_copy_to_uint64_little_endian (file_io_handle.read file_offset 4096).2
              block_header.volume_header_offset
        ∧ r.metadata.entries_array = metadata.entries_array ++ [e]) := by
  have hswitch : ∀ (m : libbde_metadata) (e : libbde_metadata_entry),
      e.type = LIBBDE_ENTRY_TYPE_VOLUME_HEADER_BLOCK →
      e.value_type = C.LIBBDE_VALUE_TYPE_OFFSET_AND_SIZE →
      libbde_metadata_read_entry_switch C m e
        = if e.value_data_size < 16
            ∨ byte_stream_copy_to_uint64_little_endian e.value_data 0
              ≠ m.volume_header_offset then
          none
        else
          some { m with
            volume_header_size :=
              byte_stream_copy_to_uint64_little_endian e.value_data 8 } := by
    intro m e ht hv
    simp only [libbde_metadata_read_entry_switch, ht, hv, LIBBDE_ENTRY_TYPE_VOLUME_MASTER_KEY,
      LIBBDE_ENTRY_TYPE_FULL_VOLUME_ENCRYPTION_KEY, LIBBDE_ENTRY_TYPE_DESCRIPTION,
      LIBBDE_ENTRY_TYPE_VOLUME_HEADER_BLOCK]
    simp only [Nat.reduceEqDiff, or_self, if_false, if_true]
    by_cases h16 : e.value_data_size < 16
    · simp [h16]
    · by_cases ho : byte_stream_copy_to_uint64_little_endian e.value_data 0
          = m.volume_header_offset
      · simp [h16, ho]
      · simp [h16, ho]
  have hoffset : (libbde_metadata_read_headers metadata
      (file_io_handle.read file_offset 4096).2).volume_header_offset
      = byte_stream_copy_to_uint64_little_endian (file_io_handle.read file_offset 4096).2
          block_header.volume_header_offset := by
    simp [libbde_metadata_read_headers, libbde_metadata_read_metadata_header,
      libbde_metadata_read_block_header, hversion]
  have hrefused : ∀ e ∈ libbde_metadata_read_decoded C fuel file_io_handle file_offset,
      e.type = LIBBDE_ENTRY_TYPE_VOLUME_HEADER_BLOCK →
      e.value_type = C.LIBBDE_VALUE_TYPE_OFFSET_AND_SIZE →
      (e.value_data_size < 16
        ∨ byte_stream_copy_to_uint64_little_endian e.value_data 0
          ≠ byte_stream_copy_to_uint64_little_endian (file_io_handle.read file_offset 4096).2
              block_header.volume_header_offset) →
      ∃ r, libbde_metadata_read C fuel metadata io_handle file_io_handle file_offset = some r
        ∧ r.result = -1 := by
    intro e he ht hv hbad
    refine libbde_metadata_read_refused C fuel metadata io_handle file_io_handle file_offset e he
      ?_
    intro m hm
    rw [hswitch m e ht hv, hm, hoffset, if_pos hbad]
  refine ⟨hswitch, ?_, hrefused, ?_, ?_, ?_⟩
  · intro m e ht hv
    simp only [libbde_metadata_read_entry_switch, ht, hv, LIBBDE_ENTRY_TYPE_VOLUME_MASTER_KEY,
      LIBBDE_ENTRY_TYPE_FULL_VOLUME_ENCRYPTION_KEY, LIBBDE_ENTRY_TYPE_DESCRIPTION,
      LIBBDE_ENTRY_TYPE_VOLUME_HEADER_BLOCK]
    simp only [Nat.reduceEqDiff, or_self, if_false, if_true]
  · intro r h h1 before e after hsplit ht hv
    constructor
    · by_contra hbad
      have hbad' : e.value_data_size < 16
          ∨ byte_stream_copy_to_uint64_little_endian e.value_data 0
            ≠ byte_stream_copy_to_uint64_little_endian (file_io_handle.read file_offset 4096).2
                block_header.volume_header_offset := by
        by_cases h16 : e.value_data_size < 16
        · exact Or.inl h16
        · exact Or.inr (fun ho => hbad ⟨by omega, ho⟩)
      obtain ⟨r', hr', hresult⟩ := hrefused e (by rw [hsplit]; simp) ht hv hbad'
      rw [h] at hr'
      simp only [Option.some.injEq] at hr'
      rw [← hr', h1] at hresult
      exact absurd hresult (by decide)
    · intro hafter
      obtain ⟨-, -, -, -, -, hloop⟩ := libbde_metadata_read_returns_one h h1
      have hsize := libbde_metadata_read_entries_volume_header_size C _ _ _ _ _ hloop
      have hdecoded : libbde_metadata_read_entries_decoded C fuel
          (((file_io_handle.read file_offset 4096).2.drop 64).drop 48)
          (byte_stream_copy_to_uint32_little_endian
            ((file_io_handle.read file_offset 4096).2.drop 64) 0 - 48)
          = before ++ e :: after := hsplit
      rw [hsize, hdecoded, List.reverse_append, List.reverse_cons, List.append_assoc,
        List.findSome?_append, List.findSome?_append]
      have hnone : after.reverse.findSome? (fun e =>
          if e.type = LIBBDE_ENTRY_TYPE_VOLUME_HEADER_BLOCK
              ∧ e.value_type = C.LIBBDE_VALUE_TYPE_OFFSET_AND_SIZE then
            some (byte_stream_copy_to_uint64_little_endian e.value_data 8)
          else none) = none := by
        rw [List.findSome?_eq_none_iff]
        intro e' he'
        rw [if_neg (hafter e' (List.mem_reverse.mp he'))]
      rw [hnone]
      simp [ht, hv]
  · intro steps fve_metadata metadata_size n m e hsize hread ht hv h16 ho
    have hs : libbde_metadata_read_entry_switch C m e
        = some { m with
            volume_header_size := byte_stream_copy_to_uint64_little_endian e.value_data 8 } := by
      rw [hswitch m e ht hv, if_neg (by rw [not_or, not_not]; exact ⟨by omega, ho⟩)]
    exact libbde_metadata_read_entries_step C steps fve_metadata metadata_size m _ e n hsize
      hread hs
  · intro e n hreach hchecks hread hsize hcount hlast ht hv h16 ho
    obtain ⟨-, -, -, k4, -⟩ := libbde_metadata_read_headers_frame metadata
      (file_io_handle.read file_offset 4096).2
    have hs : libbde_metadata_read_entry_switch C
        (libbde_metadata_read_headers metadata (file_io_handle.read file_offset 4096).2) e
        = some { libbde_metadata_read_headers metadata
              (file_io_handle.read file_offset 4096).2 with
            volume_header_size := byte_stream_copy_to_uint64_little_endian e.value_data 8 } := by
      rw [hswitch _ e ht hv,
        if_neg (by rw [not_or, not_not]; exact ⟨by omega, ho.trans hoffset.symm⟩)]
    refine ⟨_, libbde_metadata_read_single C fuel metadata io_handle file_io_handle
      file_offset e n _ hreach hchecks hread hsize hcount hlast hs, rfl, rfl, hoffset, ?_⟩
    simp only [k4]

/-- C20 on samples: a version 2 block with the volume header offset 0x10000 whose
VOLUME_HEADER_BLOCK entry names the offset 0x20000 is read with -1; the block of
`sample_fields_stream`, whose fifth entry is a VOLUME_HEADER_BLOCK entry with
offset 0x10000 and size 0x2000, is read with 1 and the `volume_header_size` of
the metadata set is then 0x2000; and a block whose payload is that entry alone
is read with 1 into a fresh metadata set, whose `volume_header_size` is then
0x2000. -/
theorem read_volume_header_block_witness :
    (∃ r, libbde_metadata_read sample_collaborators 2 libbde_metadata_cleared
          (sample_io_handle 0 1) (sample_file (sample_block sample_fields_header_mismatch))
          0x2100000 = some r
        ∧ r.result = -1)
    ∧ libbde_metadata_read sample_collaborators 7 libbde_metadata_cleared
        (sample_io_handle 0 1) (sample_file (sample_block sample_fields_stream)) 0x2100000
      = some ⟨1, sample_metadata_read_stream, sample_io_handle 0 1⟩
    ∧ sample_metadata_read_stream.volume_header_size
      = byte_stream_copy_to_uint64_little_endian
          (sample_little_endian 8 0x10000 ++ sample_little_endian 8 0x2000) 8
    ∧ sample_metadata_read_stream.volume_header_size = 0x2000
    ∧ (∃ r, libbde_metadata_read sample_collaborators (0 + 1) libbde_metadata_cleared
          (sample_io_handle 0 1)
          (sample_file (sample_block (sample_fields_single
            (sample_entry 0x000f 0x000f
              (sample_little_endian 8 0x10000 ++ sample_little_endian 8 0x2000)))))
          0x2100000 = some r
        ∧ r.result = 1
        ∧ r.metadata.volume_header_size
          = byte_stream_copy_to_uint64_little_endian
              (sample_little_endian 8 0x10000 ++ sample_little_endian 8 0x2000) 8
        ∧ r.metadata.volume_header_offset
          = byte_stream_copy_to_uint64_little_endian
              ((sample_file (sample_block (sample_fields_single
                (sample_entry 0x000f 0x000f
                  (sample_little_endian 8 0x10000
                    ++ sample_little_endian 8 0x2000))))).read 0x2100000 4096).2
              block_header.volume_header_offset
        ∧ r.metadata.entries_array
          = libbde_metadata_cleared.entries_array
            ++ [{ type := 0x000f, value_type := 0x000f,
                  value_data := sample_little_endian 8 0x10000 ++ sample_little_endian 8 0x2000,
                  value_data_size := 16 }])
    ∧ byte_stream_copy_to_uint64_little_endian
        (sample_little_endian 8 0x10000 ++ sample_little_endian 8 0x2000) 8 = 0x2000 :=
  ⟨(read_volume_header_block sample_collaborators 2 libbde_metadata_cleared
      (sample_io_handle 0 1) (sample_file (sample_block sample_fields_header_mismatch))
      0x2100000 (by decide)).2.2.1
      { type := 0x000f, value_type := 0x000f,
        value_data := sample_little_endian 8 0x20000 ++ sample_little_endian 8 0x2000,
        value_data_size := 16 }
      (by decide) rfl rfl (Or.inr (by decide)),
    sample_stream_read,
    ((read_volume_header_block sample_collaborators 7 libbde_metadata_cleared
      (sample_io_handle 0 1) (sample_file (sample_block sample_fields_stream)) 0x2100000
      (by decide)).2.2.2.1
      ⟨1, sample_metadata_read_stream, sample_io_handle 0 1⟩ sample_stream_read rfl
      (sample_stream_entries.take 4)
      { type := 0x000f, value_type := 0x000f,
        value_data := sample_little_endian 8 0x10000 ++ sample_little_endian 8 0x2000,
        value_data_size := 16 }
      (sample_stream_entries.drop 5)
      (sample_stream_decoded.trans (by decide)) rfl rfl).2 (by decide),
    rfl,
    (read_volume_header_block sample_collaborators 0 libbde_metadata_cleared
      (sample_io_handle 0 1)
      (sample_file (sample_block (sample_fields_single
        (sample_entry 0x000f 0x000f
          (sample_little_endian 8 0x10000 ++ sample_little_endian 8 0x2000)))))
      0x2100000 (by decide)).2.2.2.2.2
      { type := 0x000f, value_type := 0x000f,
        value_data := sample_little_endian 8 0x10000 ++ sample_little_endian 8 0x2000,
        value_data_size := 16 }
      24 (by decide) (by decide) (by decide) (by decide) (by decide) (by decide) rfl rfl
      (by decide) (by decide),
    by decide⟩

/-- C3, counterexample.  The block holds exactly one VOLUME_MASTER_KEY entry,
whose VMK has the protection type PASSWORD (0x2000), and is read with 1 into a
fresh metadata set.  (1) With 0x2000 the value of
`LIBBDE_VMK_TYPE_EXTERNAL_KEY_PROTECTED` and a VMK that was parsed without a
stretch key, `external_key_volume_master_key` is present with type 0x2000, and
yet `libbde_metadata_get_volume_master_key` with the password set returns -1
through the `return( -1 )` of lines 1217-1226, before any key derivation.  (2)
With 0x0200 the value of the constant and the complete VMK,
`external_key_volume_master_key` stays `NULL` and the function returns -1
through the `return( -1 )` of lines 1206-1215. -/
theorem read_password_protector_unlock_fails :
    (libbde_metadata_read sample_collaborators_no_stretch_key 1 libbde_metadata_cleared
        (sample_io_handle 1 0) (sample_file (sample_block sample_fields_password))
        0x2100000).map
          (fun r => (r.result, r.metadata.entries_array.length,
            r.metadata.external_key_volume_master_key.map (fun p => (p.type, p.stretch_key))))
      = some (1, 1, some (0x2000, none))
    ∧ (libbde_metadata_read sample_collaborators_no_stretch_key 1 libbde_metadata_cleared
        (sample_io_handle 1 0) (sample_file (sample_block sample_fields_password))
        0x2100000).bind
          (fun r => libbde_metadata_get_volume_master_key sample_collaborators_no_stretch_key
            r.metadata (sample_io_handle 1 0) (List.replicate 32 0) (List.replicate 32 0xcc))
      = some ⟨-1, List.replicate 32 0, List.replicate 32 0xcc, []⟩
    ∧ (libbde_metadata_read sample_collaborators_startup_key 1 libbde_metadata_cleared
        (sample_io_handle 1 0) (sample_file (sample_block sample_fields_password))
        0x2100000).map
          (fun r => (r.result, r.metadata.entries_array.length,
            r.metadata.external_key_volume_master_key))
      = some (1, 1, none)
    ∧ (sample_collaborators_startup_key.libbde_volume_master_key_read
        (sample_volume_master_key_entry 0x2000)).map (fun v => v.type) = some 0x2000
    ∧ (libbde_metadata_read sample_collaborators_startup_key 1 libbde_metadata_cleared
        (sample_io_handle 1 0) (sample_file (sample_block sample_fields_password))
        0x2100000).bind
          (fun r => libbde_metadata_get_volume_master_key sample_collaborators_startup_key
            r.metadata (sample_io_handle 1 0) (List.replicate 32 0) (List.replicate 32 0xcc))
      = some ⟨-1, List.replicate 32 0, List.replicate 32 0xcc, []⟩ := by
  decide

/-- C3, amended.  After `libbde_metadata_read` has returned 1 on a freshly
initialized metadata set, if the entries it decoded contain a VOLUME_MASTER_KEY
entry whose VMK has the protection type `LIBBDE_VMK_TYPE_EXTERNAL_KEY_PROTECTED`,
the constant that the code compares with and that differs from
`LIBBDE_VMK_TYPE_RECOVERY_KEY_PROTECTED`, then `external_key_volume_master_key` is
present and is a VMK of that type.  With a password set,
`libbde_metadata_get_volume_master_key` then returns -1 through a `return( -1 )`
of lines 1217-1237, the buffers untouched, when that VMK lacks its stretch key
or its AES-CCM encrypted key; and when it has both, the password block is not
left through any `return( -1 )` of lines 1206-1237, and a call with the password
alone that returns has derived the key from the password hash and the salt of
that VMK. -/
theorem read_projects_password_protector (C : Collaborators) (fuel : Nat)
    (metadata : libbde_metadata) (io_handle : libbde_io_handle)
    (file_io_handle : libbfio_handle) (file_offset : Int)
    (r : libbde_metadata_read_result)
    (htypes : C.LIBBDE_VMK_TYPE_EXTERNAL_KEY_PROTECTED
      ≠ C.LIBBDE_VMK_TYPE_RECOVERY_KEY_PROTECTED)
    (hfresh : libbde_metadata_initialize true true true (some none) = (1, some (some metadata)))
    (h : libbde_metadata_read C fuel metadata io_handle file_io_handle file_offset = some r)
    (h1 : r.result = 1)
    (e : libbde_metadata_entry) (he : e ∈ r.metadata.entries_array)
    (hentry : e.type = LIBBDE_ENTRY_TYPE_VOLUME_MASTER_KEY)
    (v : libbde_volume_master_key) (hv : C.libbde_volume_master_key_read e = some v)
    (htype : v.type = C.LIBBDE_VMK_TYPE_EXTERNAL_KEY_PROTECTED) :
    ∃ p, r.metadata.external_key_volume_master_key = some p
      ∧ p.type = C.LIBBDE_VMK_TYPE_EXTERNAL_KEY_PROTECTED
      ∧ ∀ (handle : libbde_io_handle) (volume_master_key stack : List Byte),
        handle.password_is_set ≠ 0 →
        ((p.stretch_key = none ∨ p.aes_ccm_encrypted_key = none) →
          libbde_metadata_get_volume_master_key C r.metadata handle volume_master_key stack
            = some ⟨-1, volume_master_key, stack, []⟩)
        ∧ (∀ s envelope, p.stretch_key = some s → p.aes_ccm_encrypted_key = some envelope →
          (∀ state, libbde_metadata_get_volume_master_key_password C r.metadata handle
              volume_master_key stack ≠ credential_exit.return_error state)
          ∧ (handle.recovery_password_is_set = 0 → ∀ result,
            libbde_metadata_get_volume_master_key C r.metadata handle volume_master_key stack
              = some result →
            result.aes_ccm_key
              = (C.libbde_password_calculate_key handle.password_hash s.salt).2)) := by
  have hm : metadata = libbde_metadata_cleared := by
    simp [ libbde_metadata_initialize] at hfresh
    exact hfresh.symm
  subst hm
  obtain ⟨-, -, -, -, -, hloop⟩ := libbde_metadata_read_returns_one h h1
  have hinv := libbde_metadata_read_entries_invariant C
    (fun x =>
      (∀ p, x.external_key_volume_master_key = some p →
        p.type = C.LIBBDE_VMK_TYPE_EXTERNAL_KEY_PROTECTED)
      ∧ (∀ e ∈ x.entries_array, e.type = LIBBDE_ENTRY_TYPE_VOLUME_MASTER_KEY →
        ∀ v, C.libbde_volume_master_key_read e = some v →
          v.type = C.LIBBDE_VMK_TYPE_EXTERNAL_KEY_PROTECTED →
          x.external_key_volume_master_key ≠ none))
    (by
      intro x e x1 hx hs
      obtain ⟨hx1, hx2⟩ := hx
      obtain ⟨hkeep, hset⟩ := libbde_metadata_read_entry_switch_external_key C x e x1 hs
      obtain ⟨-, -, -, -, -, -, -, harr⟩ := libbde_metadata_read_entry_switch_frame C x e x1 hs
      constructor
      · intro p hp
        simp only at hp
        rcases hkeep with hk | ⟨-, w, -, hw, hk⟩
        · exact hx1 p (hk ▸ hp)
        · rw [hk] at hp
          simp only [Option.some.injEq] at hp
          rw [← hp]; exact hw
      · intro e' he' hty w hw hwt
        simp only [List.mem_append, List.mem_singleton, harr] at he'
        simp only
        rcases he' with he' | he'
        · have := hx2 e' he' hty w hw hwt
          rcases hkeep with hk | ⟨hnone, -⟩
          · rw [hk]; exact this
          · exact absurd hnone this
        · subst he'
          exact hset hty w hw hwt (by rw [hwt]; exact htypes))
    fuel _ _ _ _ _
    (by
      obtain ⟨-, k2, -, k4, -⟩ := libbde_metadata_read_headers_frame libbde_metadata_cleared
        (file_io_handle.read file_offset 4096).2
      constructor
      · intro p hp
        rw [k2] at hp
        exact absurd hp (by simp [libbde_metadata_cleared])
      · intro e' he'
        rw [k4] at he'
        exact absurd he' (by simp [libbde_metadata_cleared]))
    hloop
  obtain ⟨hi1, hi2⟩ := hinv
  have hne := hi2 e he hentry v hv htype
  cases hk : r.metadata.external_key_volume_master_key with
  | none => exact absurd hk hne
  | some p =>
    refine ⟨p, rfl, hi1 p hk, ?_⟩
    intro handle volume_master_key stack hpassword
    constructor
    · intro hmissing
      have hwith := libbde_metadata_get_volume_master_key_with_missing C
        r.metadata.external_key_volume_master_key C.libbde_password_calculate_key
        handle.password_hash
        (libbde_metadata_get_volume_master_key_entry volume_master_key stack)
        (Or.inr ⟨p, hk, hmissing⟩)
      simp only [libbde_metadata_get_volume_master_key_entry] at hwith
      simp [libbde_metadata_get_volume_master_key, hpassword, hwith,
        libbde_metadata_get_volume_master_key_return]
    · intro s envelope hs henvelope
      have hexit : ∀ state, libbde_metadata_get_volume_master_key_password C r.metadata handle
          volume_master_key stack ≠ credential_exit.return_error state := by
        intro state hw
        simp only [libbde_metadata_get_volume_master_key_password,
          libbde_metadata_get_volume_master_key_with,
          libbde_metadata_get_volume_master_key_goto_on_error, hk, hs, henvelope] at hw
        repeat' split at hw
        all_goals cases hw
      refine ⟨hexit, ?_⟩
      intro hrecovery result hresult
      exact (get_volume_master_key_key_buffer C r.metadata handle volume_master_key stack
        result hresult).2.1 p s envelope hpassword hrecovery hk hs henvelope

/-- C3, amended, on a sample: the block holds one VOLUME_MASTER_KEY entry of
protection type 0x2000, the value of `LIBBDE_VMK_TYPE_EXTERNAL_KEY_PROTECTED` in
the sample collaborators, with stretch key and envelope; the read returns 1,
the external key protector is present with that type, and the password unlock
of the metadata set read returns 1 with the key of the protector. -/
theorem read_projects_password_protector_witness :
    libbde_metadata_read sample_collaborators 1 libbde_metadata_cleared
        (sample_io_handle 1 0) (sample_file (sample_block sample_fields_password)) 0x2100000
      = some ⟨1, sample_metadata_read_password, sample_io_handle 1 0⟩
    ∧ (∃ p, sample_metadata_read_password.external_key_volume_master_key = some p
      ∧ p.type = sample_collaborators.LIBBDE_VMK_TYPE_EXTERNAL_KEY_PROTECTED)
    ∧ (libbde_metadata_get_volume_master_key sample_collaborators
        sample_metadata_read_password (sample_io_handle 1 0) (List.replicate 32 0)
        (List.replicate 32 0xcc)).map (fun q => (q.result, q.volume_master_key))
      = some (1, sample_key_32) :=
  ⟨by decide,
    (read_projects_password_protector sample_collaborators 1 libbde_metadata_cleared
      (sample_io_handle 1 0) (sample_file (sample_block sample_fields_password)) 0x2100000
      ⟨1, sample_metadata_read_password, sample_io_handle 1 0⟩
      (by decide) (by decide) (by decide) (by decide)
      (sample_volume_master_key_entry 0x2000) (by decide) (by decide)
      (sample_protector 0x2000 (sample_envelope (sample_key_block 0x2c 1 sample_key_32) 60))
      (by decide) (by decide)).imp (fun _ hp => ⟨hp.1, hp.2.1⟩),
    by decide⟩

/-- Replacing the encryption method field leaves every other byte of the block
as it is. -/
theorem metadata_block_with_encryption_method_getElem (block : List Byte) (value : Nat)
    (hlength : 104 ≤ block.length) (i : Nat) (hi : i < 100 ∨ 104 ≤ i) :
    (metadata_block_with_encryption_method block value)[i]? = block[i]? := by
  have h100 : (block.take 100).length = 100 := by
    rw [List.length_take]; omega
  have h4 : (sample_little_endian 4 value).length = 4 := rfl
  simp only [metadata_block_with_encryption_method]
  rcases hi with hi | hi
  · rw [List.getElem?_append_left (by rw [List.length_append, h100, h4]; omega),
      List.getElem?_append_left (by rw [h100]; exact hi), List.getElem?_take_of_lt hi]
  · rw [List.getElem?_append_right (by rw [List.length_append, h100, h4]; exact hi),
      List.length_append, h100, h4, List.getElem?_drop]
    congr 1
    omega

/-- Replacing the encryption method field leaves every other byte of the block
as it is, read with `byte_at`. -/
theorem metadata_block_with_encryption_method_byte_at (block : List Byte) (value : Nat)
    (hlength : 104 ≤ block.length) (i : Nat) (hi : i < 100 ∨ 104 ≤ i) :
    byte_at (metadata_block_with_encryption_method block value) i = byte_at block i := by
  simp only [byte_at, List.getD_eq_getElem?_getD,
    metadata_block_with_encryption_method_getElem block value hlength i hi]

/-- The encryption method field of the block with the field replaced holds the
value written, for a value of 32 bits. -/
theorem metadata_block_with_encryption_method_field (block : List Byte) (value : Nat)
    (hlength : 104 ≤ block.length) (hvalue : value < 2 ^ 32) :
    byte_stream_copy_to_uint32_little_endian
      (metadata_block_with_encryption_method block value) 100 = value := by
  have h100 : (block.take 100).length = 100 := by
    rw [List.length_take]; omega
  have h4 : (sample_little_endian 4 value).length = 4 := rfl
  have hget : ∀ k, k < 4 →
      (metadata_block_with_encryption_method block value)[100 + k]?
        = (sample_little_endian 4 value)[k]? := by
    intro k hk
    simp only [metadata_block_with_encryption_method]
    rw [List.getElem?_append_left (by rw [List.length_append, h100, h4]; omega),
      List.getElem?_append_right (by rw [h100]; omega), h100]
    congr 1
    omega
  have h0 := hget 0 (by omega)
  have h1 := hget 1 (by omega)
  have h2 := hget 2 (by omega)
  have h3 := hget 3 (by omega)
  simp only [Nat.add_zero] at h0
  simp only [byte_stream_copy_to_uint32_little_endian, byte_at, List.getD_eq_getElem?_getD,
    h0, h1, h2, h3, sample_little_endian, List.getElem?_cons_zero, List.getElem?_cons_succ,
    Option.getD_some]
  simp only [Nat.reducePow] at hvalue
  omega

/-- The integers decoded from the block at positions outside the encryption
method field do not change when the field is replaced. -/
theorem metadata_block_with_encryption_method_uint (block : List Byte) (value : Nat)
    (hlength : 104 ≤ block.length) (i : Nat) :
    (i + 2 ≤ 100 ∨ 104 ≤ i →
      byte_stream_copy_to_uint16_little_endian
          (metadata_block_with_encryption_method block value) i
        = byte_stream_copy_to_uint16_little_endian block i)
    ∧ (i + 4 ≤ 100 ∨ 104 ≤ i →
      byte_stream_copy_to_uint32_little_endian
          (metadata_block_with_encryption_method block value) i
        = byte_stream_copy_to_uint32_little_endian block i)
    ∧ (i + 8 ≤ 100 ∨ 104 ≤ i →
      byte_stream_copy_to_uint64_little_endian
          (metadata_block_with_encryption_method block value) i
        = byte_stream_copy_to_uint64_little_endian block i) := by
  refine ⟨?_, ?_, ?_⟩
  · intro hi
    simp only [byte_stream_copy_to_uint16_little_endian]
    rw [metadata_block_with_encryption_method_byte_at block value hlength i (by omega),
      metadata_block_with_encryption_method_byte_at block value hlength (i + 1) (by omega)]
  · intro hi
    simp only [byte_stream_copy_to_uint32_little_endian]
    rw [metadata_block_with_encryption_method_byte_at block value hlength i (by omega),
      metadata_block_with_encryption_method_byte_at block value hlength (i + 1) (by omega),
      metadata_block_with_encryption_method_byte_at block value hlength (i + 2) (by omega),
      metadata_block_with_encryption_method_byte_at block value hlength (i + 3) (by omega)]
  · intro hi
    simp only [byte_stream_copy_to_uint64_little_endian,
      byte_stream_copy_to_uint32_little_endian]
    rw [metadata_block_with_encryption_method_byte_at block value hlength i (by omega),
      metadata_block_with_encryption_method_byte_at block value hlength (i + 1) (by omega),
      metadata_block_with_encryption_method_byte_at block value hlength (i + 2) (by omega),
      metadata_block_with_encryption_method_byte_at block value hlength (i + 3) (by omega),
      metadata_block_with_encryption_method_byte_at block value hlength (i + 4) (by omega),
      metadata_block_with_encryption_method_byte_at block value hlength (i + 4 + 1) (by omega),
      metadata_block_with_encryption_method_byte_at block value hlength (i + 4 + 2) (by omega),
      metadata_block_with_encryption_method_byte_at block value hlength (i + 4 + 3) (by omega)]

/-- The bytes of the block in a range outside the encryption method field do
not change when the field is replaced. -/
theorem metadata_block_with_encryption_method_bytes_at (block : List Byte) (value : Nat)
    (hlength : 104 ≤ block.length) (i n : Nat) (hi : i + n ≤ 100 ∨ 104 ≤ i) :
    bytes_at (metadata_block_with_encryption_method block value) i n = bytes_at block i n := by
  apply List.ext_getElem?
  intro k
  simp only [bytes_at, List.getElem?_take, List.getElem?_drop]
  by_cases hk : k < n
  · simp only [hk, if_true]
    exact metadata_block_with_encryption_method_getElem block value hlength (i + k) (by omega)
  · simp only [hk, if_false]

/-- The bytes of the block from byte 104 on do not change when the encryption
method field is replaced. -/
theorem metadata_block_with_encryption_method_drop (block : List Byte) (value : Nat)
    (hlength : 104 ≤ block.length) (i : Nat) (hi : 104 ≤ i) :
    (metadata_block_with_encryption_method block value).drop i = block.drop i := by
  apply List.ext_getElem?
  intro k
  simp only [List.getElem?_drop]
  exact metadata_block_with_encryption_method_getElem block value hlength (i + k) (by omega)

/-- The switch of the entry loop neither reads nor writes the `encryption_method`
of the metadata set. -/
theorem libbde_metadata_read_entry_switch_encryption_method (C : Collaborators)
    (m : libbde_metadata) (e : libbde_metadata_entry) (value : Nat) :
    libbde_metadata_read_entry_switch C { m with encryption_method := value } e
      = (libbde_metadata_read_entry_switch C m e).map
          (fun m1 => { m1 with encryption_method := value }) := by
  simp only [libbde_metadata_read_entry_switch]
  repeat' split
  all_goals rfl

/-- The entry loop neither reads nor writes the `encryption_method` of the
metadata set. -/
theorem libbde_metadata_read_entries_encryption_method (C : Collaborators) (value : Nat) :
    ∀ (fuel : Nat) (fve_metadata : List Byte) (metadata_size : Nat) (m : libbde_metadata),
      libbde_metadata_read_entries C fuel fve_metadata metadata_size
          { m with encryption_method := value }
        = (libbde_metadata_read_entries C fuel fve_metadata metadata_size m).map
            (fun p => (p.1, { p.2 with encryption_method := value })) := by
  intro fuel
  induction fuel with
  | zero =>
    intro fve_metadata metadata_size m
    simp only [libbde_metadata_read_entries]
    split_ifs <;> rfl
  | succ fuel ih =>
    intro fve_metadata metadata_size m
    simp only [libbde_metadata_read_entries]
    split_ifs with hsize
    · cases hread : C.libbde_metadata_entry_read fve_metadata metadata_size with
      | none => rfl
      | some decoded =>
        obtain ⟨metadata_entry, read_count⟩ := decoded
        simp only [libbde_metadata_read_entry_switch_encryption_method]
        cases hswitch : libbde_metadata_read_entry_switch C m metadata_entry with
        | none => rfl
        | some m1 =>
          simp only [Option.map_some']
          exact ih _ _ { m1 with entries_array := m1.entries_array ++ [metadata_entry] }
    · rfl

/-- The integers decoded from the block after its first `k` bytes, at positions
outside the encryption method field, do not change when the field is replaced. -/
theorem metadata_block_with_encryption_method_uint_drop (block : List Byte) (value : Nat)
    (hlength : 104 ≤ block.length) (k i : Nat) :
    (k + i + 4 ≤ 100 ∨ 104 ≤ k + i →
      byte_stream_copy_to_uint32_little_endian
          ((metadata_block_with_encryption_method block value).drop k) i
        = byte_stream_copy_to_uint32_little_endian (block.drop k) i)
    ∧ (k + i + 8 ≤ 100 ∨ 104 ≤ k + i →
      byte_stream_copy_to_uint64_little_endian
          ((metadata_block_with_encryption_method block value).drop k) i
        = byte_stream_copy_to_uint64_little_endian (block.drop k) i) := by
  refine ⟨?_, ?_⟩
  · intro hi
    simp only [byte_stream_copy_to_uint32_little_endian, byte_at_drop]
    rw [metadata_block_with_encryption_method_byte_at block value hlength (k + i) (by omega),
      metadata_block_with_encryption_method_byte_at block value hlength (k + (i + 1))
        (by omega),
      metadata_block_with_encryption_method_byte_at block value hlength (k + (i + 2))
        (by omega),
      metadata_block_with_encryption_method_byte_at block value hlength (k + (i + 3))
        (by omega)]
  · intro hi
    simp only [byte_stream_copy_to_uint64_little_endian,
      byte_stream_copy_to_uint32_little_endian, byte_at_drop]
    rw [metadata_block_with_encryption_method_byte_at block value hlength (k + i) (by omega),
      metadata_block_with_encryption_method_byte_at block value hlength (k + (i + 1))
        (by omega),
      metadata_block_with_encryption_method_byte_at block value hlength (k + (i + 2))
        (by omega),
      metadata_block_with_encryption_method_byte_at block value hlength (k + (i + 3))
        (by omega),
      metadata_block_with_encryption_method_byte_at block value hlength (k + (i + 4))
        (by omega),
      metadata_block_with_encryption_method_byte_at block value hlength (k + (i + 4 + 1))
        (by omega),
      metadata_block_with_encryption_method_byte_at block value hlength (k + (i + 4 + 2))
        (by omega),
      metadata_block_with_encryption_method_byte_at block value hlength (k + (i + 4 + 3))
        (by omega)]

/-- The encryption method decoded from the metadata header of the block with the
field replaced is the replacing value. -/
theorem metadata_block_with_encryption_method_header_field (block : List Byte) (value : Nat)
    (hvalue : value < 2 ^ 32) (hlength : 104 ≤ block.length) :
    byte_stream_copy_to_uint32_little_endian
        ((metadata_block_with_encryption_method block value).drop 64) 36 = value := by
  have h := metadata_block_with_encryption_method_field block value hlength hvalue
  simp only [byte_stream_copy_to_uint32_little_endian, byte_at_drop] at h ⊢
  exact h

/-- The header fields stored from the block with the encryption method field
replaced are those of the block, except for the encryption method, which is the
replacing value. -/
theorem libbde_metadata_read_headers_encryption_method (metadata : libbde_metadata)
    (block : List Byte) (value : Nat) (hvalue : value < 2 ^ 32)
    (hlength : 104 ≤ block.length) :
    libbde_metadata_read_headers metadata (metadata_block_with_encryption_method block value)
      = { libbde_metadata_read_headers metadata block with encryption_method := value } := by
  have h10 := (metadata_block_with_encryption_method_uint block value hlength 10).1
    (Or.inl (by omega))
  have h16 := (metadata_block_with_encryption_method_uint block value hlength 16).2.2
    (Or.inl (by omega))
  have h56 := (metadata_block_with_encryption_method_uint block value hlength 56).2.2
    (Or.inl (by omega))
  have h40 := (metadata_block_with_encryption_method_uint_drop block value hlength 64 40).2
    (Or.inr (by omega))
  have hfield := metadata_block_with_encryption_method_header_field block value hvalue hlength
  have hid : bytes_at ((metadata_block_with_encryption_method block value).drop 64) 16 16
      = bytes_at (block.drop 64) 16 16 := by
    have h := metadata_block_with_encryption_method_bytes_at block value hlength 80 16
      (Or.inl (by omega))
    simp only [bytes_at, List.drop_drop] at h ⊢
    exact h
  simp only [libbde_metadata_read_headers, libbde_metadata_read_metadata_header,
    libbde_metadata_read_block_header, block_header, metadata_header,
    sizeof_bde_metadata_block_header_v1_t, h10, h16, h56, h40, hfield, hid]

/-- The checks of lines 787-853 do not read the encryption method field. -/
theorem libbde_metadata_read_checks_encryption_method (io_handle : libbde_io_handle)
    (block : List Byte) (value : Nat) (hlength : 104 ≤ block.length) :
    libbde_metadata_read_checks io_handle (metadata_block_with_encryption_method block value)
      = libbde_metadata_read_checks io_handle block := by
  have h32 := (metadata_block_with_encryption_method_uint block value hlength 32).2.2
    (Or.inl (by omega))
  have h40 := (metadata_block_with_encryption_method_uint block value hlength 40).2.2
    (Or.inl (by omega))
  have h48 := (metadata_block_with_encryption_method_uint block value hlength 48).2.2
    (Or.inl (by omega))
  have d0 := (metadata_block_with_encryption_method_uint_drop block value hlength 64 0).1
    (Or.inl (by omega))
  have d8 := (metadata_block_with_encryption_method_uint_drop block value hlength 64 8).1
    (Or.inl (by omega))
  have d12 := (metadata_block_with_encryption_method_uint_drop block value hlength 64 12).1
    (Or.inl (by omega))
  simp only [libbde_metadata_read_checks, h32, h40, h48, d0, d8, d12]

/-- The function `libbde_metadata_read` on a block whose encryption method field
is replaced by `value`: where the seek, the read or the signature test fails
the call is the one on the block itself; in every other case the return code
and the IO handle are those of the call on the block itself and the metadata
set is the one of that call with `value` as its encryption method. -/
theorem libbde_metadata_read_with_encryption_method (C : Collaborators) (fuel : Nat)
    (metadata : libbde_metadata) (io_handle : libbde_io_handle)
    (file_io_handle : libbfio_handle) (file_offset : Int) (value : Nat)
    (hvalue : value < 2 ^ 32)
    (hlength : 104 ≤ (file_io_handle.read file_offset 4096).2.length) :
    libbde_metadata_read C fuel metadata io_handle
        (file_with_encryption_method file_io_handle value) file_offset
      = if file_io_handle.seek_offset file_offset = -1
            ∨ (file_io_handle.read file_offset 4096).1 ≠ 4096
            ∨ bytes_at (file_io_handle.read file_offset 4096).2 0 8 ≠ bde_signature
            ∨ ¬ (byte_stream_copy_to_uint16_little_endian
                  (file_io_handle.read file_offset 4096).2 10 = 1
                ∨ byte_stream_copy_to_uint16_little_endian
                  (file_io_handle.read file_offset 4096).2 10 = 2) then
          libbde_metadata_read C fuel metadata io_handle file_io_handle file_offset
        else
          (libbde_metadata_read C fuel metadata io_handle file_io_handle file_offset).map
            (fun r =>
              ⟨r.result, { r.metadata with encryption_method := value }, r.io_handle⟩) := by
  have h0 := metadata_block_with_encryption_method_bytes_at
    (file_io_handle.read file_offset 4096).2 value hlength 0 8 (Or.inl (by omega))
  have h10 := (metadata_block_with_encryption_method_uint
    (file_io_handle.read file_offset 4096).2 value hlength 10).1 (Or.inl (by omega))
  have h40 := (metadata_block_with_encryption_method_uint
    (file_io_handle.read file_offset 4096).2 value hlength 40).2.2 (Or.inl (by omega))
  have h48 := (metadata_block_with_encryption_method_uint
    (file_io_handle.read file_offset 4096).2 value hlength 48).2.2 (Or.inl (by omega))
  have d0 := (metadata_block_with_encryption_method_uint_drop
    (file_io_handle.read file_offset 4096).2 value hlength 64 0).1 (Or.inl (by omega))
  have d4 := (metadata_block_with_encryption_method_uint_drop
    (file_io_handle.read file_offset 4096).2 value hlength 64 4).1 (Or.inl (by omega))
  have hdrop : ((metadata_block_with_encryption_method
      (file_io_handle.read file_offset 4096).2 value).drop 64).drop 48
      = ((file_io_handle.read file_offset 4096).2.drop 64).drop 48 := by
    have h := metadata_block_with_encryption_method_drop
      (file_io_handle.read file_offset 4096).2 value hlength 112 (by omega)
    simp only [List.drop_drop] at h ⊢
    exact h
  rw [libbde_metadata_read_stages C fuel metadata io_handle
      (file_with_encryption_method file_io_handle value),
    libbde_metadata_read_stages C fuel metadata io_handle file_io_handle]
  simp only [file_with_encryption_method, h0, h10, h40, h48, d0, d4, hdrop,
    libbde_metadata_read_checks_encryption_method _ _ value hlength,
    libbde_metadata_read_headers_encryption_method metadata _ value hvalue hlength,
    libbde_metadata_read_entries_encryption_method]
  by_cases c1 : file_io_handle.seek_offset file_offset = -1
      ∨ (file_io_handle.read file_offset 4096).1 ≠ 4096
      ∨ bytes_at (file_io_handle.read file_offset 4096).2 0 8 ≠ bde_signature
  · have c1' : file_io_handle.seek_offset file_offset = -1
        ∨ (file_io_handle.read file_offset 4096).1 ≠ 4096
        ∨ bytes_at (file_io_handle.read file_offset 4096).2 0 8 ≠ bde_signature
        ∨ ¬ (byte_stream_copy_to_uint16_little_endian
              (file_io_handle.read file_offset 4096).2 10 = 1
            ∨ byte_stream_copy_to_uint16_little_endian
              (file_io_handle.read file_offset 4096).2 10 = 2) := by
      rcases c1 with c | c | c
      · exact Or.inl c
      · exact Or.inr (Or.inl c)
      · exact Or.inr (Or.inr (Or.inl c))
    simp only [if_pos c1, if_pos c1']
  by_cases c2 : byte_stream_copy_to_uint16_little_endian
        (file_io_handle.read file_offset 4096).2 10 = 1
      ∨ byte_stream_copy_to_uint16_little_endian (file_io_handle.read file_offset 4096).2 10 = 2
  swap
  · simp only [if_neg c1, if_pos c2, if_pos (Or.inr (Or.inr (Or.inr c2)))]
  have c12 : ¬ (file_io_handle.seek_offset file_offset = -1
      ∨ (file_io_handle.read file_offset 4096).1 ≠ 4096
      ∨ bytes_at (file_io_handle.read file_offset 4096).2 0 8 ≠ bde_signature
      ∨ ¬ (byte_stream_copy_to_uint16_little_endian
            (file_io_handle.read file_offset 4096).2 10 = 1
          ∨ byte_stream_copy_to_uint16_little_endian
            (file_io_handle.read file_offset 4096).2 10 = 2)) := by
    intro c
    rcases c with c | c | c | c
    · exact c1 (Or.inl c)
    · exact c1 (Or.inr (Or.inl c))
    · exact c1 (Or.inr (Or.inr c))
    · exact c c2
  simp only [if_neg c1, if_neg (not_not.mpr c2), if_neg c12]
  split_ifs
  all_goals first
    | rfl
    | (generalize libbde_metadata_read_entries C fuel _ _ _ = loop
       cases loop <;> rfl)

/-- A block that passes every check and whose metadata size is 48, so that no
entry follows the metadata header: `libbde_metadata_read` returns 1 with the
header fields of the block stored and the handle back-filled. -/
theorem libbde_metadata_read_no_entries (C : Collaborators) (fuel : Nat)
    (metadata : libbde_metadata) (io_handle : libbde_io_handle)
    (file_io_handle : libbfio_handle) (file_offset : Int)
    (hreach : libbde_metadata_read_reaches_back_fill file_io_handle file_offset)
    (hchecks : libbde_metadata_read_checks
      (libbde_metadata_read_back_fill C io_handle
        (byte_stream_copy_to_uint64_little_endian (file_io_handle.read file_offset 4096).2 40)
        (byte_stream_copy_to_uint64_little_endian (file_io_handle.read file_offset 4096).2 48))
      (file_io_handle.read file_offset 4096).2)
    (hsize : byte_stream_copy_to_uint32_little_endian
      ((file_io_handle.read file_offset 4096).2.drop 64) 0 = 48) :
    libbde_metadata_read C fuel metadata io_handle file_io_handle file_offset
      = some ⟨1, libbde_metadata_read_headers metadata (file_io_handle.read file_offset 4096).2,
          libbde_metadata_read_back_fill C io_handle
            (byte_stream_copy_to_uint64_little_endian
              (file_io_handle.read file_offset 4096).2 40)
            (byte_stream_copy_to_uint64_little_endian
              (file_io_handle.read file_offset 4096).2 48)⟩ := by
  simp only [libbde_metadata_read_reaches_back_fill, block_header, metadata_header,
    sizeof_bde_metadata_block_header_v1_t] at hreach
  obtain ⟨hseek, hcount, hsignature, hversion, hheader⟩ := hreach
  have c1 : ¬ (file_io_handle.seek_offset file_offset = -1
      ∨ (file_io_handle.read file_offset 4096).1 ≠ 4096
      ∨ bytes_at (file_io_handle.read file_offset 4096).2 0 8 ≠ bde_signature) := by
    intro c
    rcases c with c | c | c
    · exact hseek c
    · exact c hcount
    · exact c hsignature
  have hloop : ∀ m : libbde_metadata,
      libbde_metadata_read_entries C fuel
        (((file_io_handle.read file_offset 4096).2.drop 64).drop 48) (48 - 48) m
        = some (1, m) := by
    intro m
    cases fuel <;> rfl
  rw [libbde_metadata_read_stages, if_neg c1, if_neg (not_not.mpr hversion),
    if_neg (not_not.mpr hheader), if_neg (not_not.mpr hchecks), hsize, hloop]

/-- C5, amended. The encryption method of the metadata header is stored and never
tested. For a block of at least 104 bytes and any 32-bit `value`:
(1) replacing the `encryption_method` field of the block by `value` changes
neither the return code of `libbde_metadata_read` nor the IO handle nor any
other field of the metadata set it leaves;
(2) a call that returns 1 on the block returns 1 on the block with the field
replaced, and leaves the same metadata set with `value` as its encryption method;
(3) a block with the field replaced by `value` that passes the checks of lines
297-853 and has the metadata size 48 is read with result 1 and `value` stored;
(4) after a result of 1 the encryption method stored is the little-endian 32-bit
value at [100..104) of the block. -/
theorem read_stores_encryption_method (C : Collaborators) (fuel : Nat)
    (metadata : libbde_metadata) (io_handle : libbde_io_handle)
    (file_io_handle : libbfio_handle) (file_offset : Int) (value : Nat)
    (hvalue : value < 2 ^ 32)
    (hlength : 104 ≤ (file_io_handle.read file_offset 4096).2.length) :
    (libbde_metadata_read C fuel metadata io_handle
          (file_with_encryption_method file_io_handle value) file_offset).map
        (fun r => (r.result, r.io_handle, { r.metadata with encryption_method := 0 }))
      = (libbde_metadata_read C fuel metadata io_handle file_io_handle file_offset).map
        (fun r => (r.result, r.io_handle, { r.metadata with encryption_method := 0 }))
    ∧ (∀ r : libbde_metadata_read_result,
        libbde_metadata_read C fuel metadata io_handle file_io_handle file_offset = some r →
        r.result = 1 →
        libbde_metadata_read C fuel metadata io_handle
            (file_with_encryption_method file_io_handle value) file_offset
          = some ⟨1, { r.metadata with encryption_method := value }, r.io_handle⟩)
    ∧ (libbde_metadata_read_reaches_back_fill file_io_handle file_offset →
        libbde_metadata_read_checks
          (libbde_metadata_read_back_fill C io_handle
            (byte_stream_copy_to_uint64_little_endian
              (file_io_handle.read file_offset 4096).2 40)
            (byte_stream_copy_to_uint64_little_endian
              (file_io_handle.read file_offset 4096).2 48))
          (file_io_handle.read file_offset 4096).2 →
        byte_stream_copy_to_uint32_little_endian
          ((file_io_handle.read file_offset 4096).2.drop 64) 0 = 48 →
        libbde_metadata_read C fuel metadata io_handle
            (file_with_encryption_method file_io_handle value) file_offset
          = some ⟨1,
              { libbde_metadata_read_headers metadata (file_io_handle.read file_offset 4096).2
                with encryption_method := value },
              libbde_metadata_read_back_fill C io_handle
                (byte_stream_copy_to_uint64_little_endian
                  (file_io_handle.read file_offset 4096).2 40)
                (byte_stream_copy_to_uint64_little_endian
                  (file_io_handle.read file_offset 4096).2 48)⟩)
    ∧ (∀ r : libbde_metadata_read_result,
        libbde_metadata_read C fuel metadata io_handle file_io_handle file_offset = some r →
        r.result = 1 →
        r.metadata.encryption_method
          = byte_stream_copy_to_uint32_little_endian
              ((file_io_handle.read file_offset 4096).2.drop
                sizeof_bde_metadata_block_header_v1_t)
              metadata_header.encryption_method) := by
  have hcore := libbde_metadata_read_with_encryption_method C fuel metadata io_handle
    file_io_handle file_offset value hvalue hlength
  have hone : ∀ r : libbde_metadata_read_result,
      libbde_metadata_read C fuel metadata io_handle file_io_handle file_offset = some r →
      r.result = 1 →
      libbde_metadata_read C fuel metadata io_handle
          (file_with_encryption_method file_io_handle value) file_offset
        = some ⟨1, { r.metadata with encryption_method := value }, r.io_handle⟩ := by
    intro r h h1
    obtain ⟨⟨hseek, hcount, hsignature⟩, hversion, -⟩ :=
      libbde_metadata_read_returns_one h h1
    have c : ¬ (file_io_handle.seek_offset file_offset = -1
        ∨ (file_io_handle.read file_offset 4096).1 ≠ 4096
        ∨ bytes_at (file_io_handle.read file_offset 4096).2 0 8 ≠ bde_signature
        ∨ ¬ (byte_stream_copy_to_uint16_little_endian
              (file_io_handle.read file_offset 4096).2 10 = 1
            ∨ byte_stream_copy_to_uint16_little_endian
              (file_io_handle.read file_offset 4096).2 10 = 2)) := by
      intro c
      rcases c with c | c | c | c
      · exact hseek c
      · exact c hcount
      · exact c hsignature
      · exact c hversion
    rw [hcore, if_neg c, h, Option.map_some', h1]
  refine ⟨?_, hone, ?_, ?_⟩
  · rw [hcore]
    split_ifs
    · rfl
    · cases libbde_metadata_read C fuel metadata io_handle file_io_handle file_offset <;> rfl
  · intro hreach hchecks hsize
    exact hone _ (libbde_metadata_read_no_entries C fuel metadata io_handle file_io_handle
      file_offset hreach hchecks hsize) rfl
  · intro r h h1
    obtain ⟨-, -, -, -, -, hloop⟩ := libbde_metadata_read_returns_one h h1
    obtain ⟨-, -, -, -, -, f6, -⟩ := libbde_metadata_read_entries_frame C fuel _ _ _ _ _ hloop
    rw [f6]
    rfl

/-- The sample block has 4096 bytes when its signature has 8 and its entries at
most 3984. -/
theorem sample_block_length (s : sample_block_fields) (hsignature : s.signature.length = 8)
    (hentries : s.entries.length ≤ 3984) : (sample_block s).length = 4096 := by
  simp only [sample_block, List.length_append, List.length_replicate, sample_little_endian,
    List.length_cons, List.length_nil, hsignature]
  omega

/-- C5, amended, on a sample. The block of `sample_fields` carries the encryption
method 0x8001; with the field replaced by 0x1234, and with the field replaced by
0xffffffff, `libbde_metadata_read` returns 1 and the replacing value is the
encryption method of the metadata set. -/
theorem read_stores_encryption_method_witness :
    libbde_metadata_read sample_collaborators 0 libbde_metadata_cleared (sample_io_handle 0 0)
        (file_with_encryption_method (sample_file (sample_block sample_fields)) 0x1234)
        0x2100000
      = some ⟨1, sample_metadata_unknown_method, sample_io_handle 0 0⟩
    ∧ libbde_metadata_read sample_collaborators 0 libbde_metadata_cleared (sample_io_handle 0 0)
        (file_with_encryption_method (sample_file (sample_block sample_fields)) 0xffffffff)
        0x2100000
      = some ⟨1, { sample_metadata_unknown_method with encryption_method := 0xffffffff },
          sample_io_handle 0 0⟩ :=
  ⟨((read_stores_encryption_method sample_collaborators 0 libbde_metadata_cleared
      (sample_io_handle 0 0) (sample_file (sample_block sample_fields)) 0x2100000 0x1234
      (by decide)
      (le_of_le_of_eq (by decide)
        (sample_block_length sample_fields rfl (by decide)).symm)).2.2.1
      (by decide) (by decide) (by decide)).trans (by decide),
    ((read_stores_encryption_method sample_collaborators 0 libbde_metadata_cleared
      (sample_io_handle 0 0) (sample_file (sample_block sample_fields)) 0x2100000 0xffffffff
      (by decide)
      (le_of_le_of_eq (by decide)
        (sample_block_length sample_fields rfl (by decide)).symm)).2.2.1
      (by decide) (by decide) (by decide)).trans (by decide)⟩

end Libbde
